import Mathlib

/-!
# GoBattleServer: the battle rules engine

A shallow embedding of `internal/domain` of GoBattleServer (stat and stage
model, type chart, natures, damage calculator, turn resolver), of the battle
service and the gacha service of `internal/service` and of the Discord ID
validator of `internal/validators`, together with the properties of its
specification.

Conventions of the embedding.

* Go `int` is `Int`; Go's `/` on integers truncates towards zero and is
  `Int.tdiv`; a division whose divisor is a variable panics on zero and is
  `goDiv`, which returns `none` there.  A function that can panic returns an
  `Option`.
* Go `float64` is `ℚ` with exact arithmetic: `float64(n)` is the cast,
  `math.Floor` is `goFloor`, the conversion `int(x)` is `goInt` (truncation
  towards zero).  Rounding of binary floating point is outside the model; the
  concrete inputs evaluated below stay away from integer boundaries.
* The Go string types (`PokemonType`, `MoveCategory`, `StatusCondition`, ...)
  are `String`, with the constants of the source; a Go map literal is an
  association list.
* A pointer that may be nil is an `Option`; a pointer that the code
  dereferences without a check and that is set on every construction path
  (`ctx.Move`, `BattlePokemon.Species`, `BattleState.Player1`, ...) is a value.
  A method that mutates its receiver returns the new value next to its result.
* The two `*BattlePlayer` pointers of a state are told apart by a `Side`.
* `math/rand` is `Rand`: an arbitrary stream of draws with a read position,
  shared by the turn resolver and the damage calculator as in the source.
* A Go map with `UUID` keys is a partial function `UUID → Option α`.  The
  state behind a pointer stored in a map is the value stored there: a method
  that mutates it writes the new value back.
* A Go `error` is its message; a function that returns `(value, error)`
  returns the pair, inside an `Option` when the function can panic.
* The repositories of the battle service are the record `Persistence`, those
  of the gacha service the record `Repositories`; each call to them may fail,
  as an arbitrary oracle on the number of the call decides.
* A Go `string` is a `String`: its `len` is the length in bytes of its UTF-8
  encoding and a `range` over it visits its characters.
* Identifiers, seeds and clock readings that the code takes from outside
  (`uuid.New()`, `time.Now()`) are arguments or arbitrary streams.
* A loop of the source is a structurally recursive function named after the
  function and the value it folds (`attackAbilityLoop`, `itemLoop`, ...); a
  long function body is cut into its commented blocks (`weatherStep`,
  `recoilStep`, ...).
-/

namespace GoBattleServer

/-! ## Numeric conversions -/

/-- Go integer division by a variable divisor: a run-time panic on zero. -/
def goDiv (a b : Int) : Option Int :=
  if b = 0 then none else some (a.tdiv b)

/-- Go `math.Floor`, the result still being a `float64`. -/
def goFloor (x : ℚ) : ℚ := ((⌊x⌋ : Int) : ℚ)

/-- Go conversion `int(x)` of a `float64`: the fraction is discarded. -/
def goInt (x : ℚ) : Int := if 0 ≤ x then ⌊x⌋ else ⌈x⌉

/-! ## move.go: string types and constants -/

abbrev MoveCategory := String
def Physical : MoveCategory := "physical"
def Special : MoveCategory := "special"
def Status : MoveCategory := "status"

abbrev StatType := String
def HP : StatType := "hp"
def Attack : StatType := "attack"
def Defense : StatType := "defense"
def SpecialAttack : StatType := "special_attack"
def SpecialDefense : StatType := "special_defense"
def Speed : StatType := "speed"
def Accuracy : StatType := "accuracy"
def Evasion : StatType := "evasion"

abbrev StatusCondition := String
def StatusNone : StatusCondition := "none"
def StatusBurn : StatusCondition := "burn"
def StatusFreeze : StatusCondition := "freeze"
def StatusParalysis : StatusCondition := "paralysis"
def StatusPoison : StatusCondition := "poison"
def StatusBadlyPoison : StatusCondition := "badly_poison"
def StatusSleep : StatusCondition := "sleep"

abbrev Weather := String
def WeatherNone : Weather := "none"
def WeatherSun : Weather := "sun"
def WeatherRain : Weather := "rain"
def WeatherSandstorm : Weather := "sandstorm"
def WeatherHail : Weather := "hail"
def WeatherSnow : Weather := "snow"

abbrev Terrain := String
def TerrainNone : Terrain := "none"
def TerrainElectric : Terrain := "electric"
def TerrainGrassy : Terrain := "grassy"
def TerrainMisty : Terrain := "misty"
def TerrainPsychic : Terrain := "psychic"

abbrev HazardType := String
def HazardStealthRock : HazardType := "stealth_rock"
def HazardSpikes : HazardType := "spikes"
def HazardToxicSpikes : HazardType := "toxic_spikes"
def HazardStickyWeb : HazardType := "sticky_web"

/-- Go `GetStatMultiplier` (move.go): the stat multiplier of a stage. -/
def GetStatMultiplier (stage : Int) : ℚ :=
  let stage := if stage < -6 then -6 else stage
  let stage := if stage > 6 then 6 else stage
  if stage ≥ 0 then ((2 + stage : Int) : ℚ) / 2
  else 2 / ((2 - stage : Int) : ℚ)

/-! ## battle.go: stat stages -/

/-- Go `StatStages`: the stage of each of the seven stage stats. -/
structure StatStages where
  Attack : Int := 0
  Defense : Int := 0
  SpecialAttack : Int := 0
  SpecialDefense : Int := 0
  Speed : Int := 0
  Accuracy : Int := 0
  Evasion : Int := 0
deriving DecidableEq, Repr

/-- The body of `ApplyChange` after the field has been selected:
`*current += stages` followed by the two clamps. -/
def clampStage (current stages : Int) : Int :=
  let current := current + stages
  let current := if current < -6 then -6 else current
  if current > 6 then 6 else current

/-- Go `StatStages.ApplyChange`: the stages after the call and the returned
actual change. -/
def StatStages.ApplyChange (s : StatStages) (stat : StatType) (stages : Int) :
    StatStages × Int :=
  if stat = GoBattleServer.Attack then
    let oldValue := s.Attack
    let s := { s with Attack := clampStage s.Attack stages }
    (s, s.Attack - oldValue)
  else if stat = GoBattleServer.Defense then
    let oldValue := s.Defense
    let s := { s with Defense := clampStage s.Defense stages }
    (s, s.Defense - oldValue)
  else if stat = GoBattleServer.SpecialAttack then
    let oldValue := s.SpecialAttack
    let s := { s with SpecialAttack := clampStage s.SpecialAttack stages }
    (s, s.SpecialAttack - oldValue)
  else if stat = GoBattleServer.SpecialDefense then
    let oldValue := s.SpecialDefense
    let s := { s with SpecialDefense := clampStage s.SpecialDefense stages }
    (s, s.SpecialDefense - oldValue)
  else if stat = GoBattleServer.Speed then
    let oldValue := s.Speed
    let s := { s with Speed := clampStage s.Speed stages }
    (s, s.Speed - oldValue)
  else if stat = GoBattleServer.Accuracy then
    let oldValue := s.Accuracy
    let s := { s with Accuracy := clampStage s.Accuracy stages }
    (s, s.Accuracy - oldValue)
  else if stat = GoBattleServer.Evasion then
    let oldValue := s.Evasion
    let s := { s with Evasion := clampStage s.Evasion stages }
    (s, s.Evasion - oldValue)
  else (s, 0)

/-- The stage that `ApplyChange` selects for a stat name (the `switch` of
`StatStages.GetMultiplier`); `none` for a name that is not a stage stat. -/
def StatStages.stageOf (s : StatStages) (stat : StatType) : Option Int :=
  if stat = GoBattleServer.Attack then some s.Attack
  else if stat = GoBattleServer.Defense then some s.Defense
  else if stat = GoBattleServer.SpecialAttack then some s.SpecialAttack
  else if stat = GoBattleServer.SpecialDefense then some s.SpecialDefense
  else if stat = GoBattleServer.Speed then some s.Speed
  else if stat = GoBattleServer.Accuracy then some s.Accuracy
  else if stat = GoBattleServer.Evasion then some s.Evasion
  else none

/-- Go `StatStages.GetMultiplier`. -/
def StatStages.GetMultiplier (s : StatStages) (stat : StatType) : ℚ :=
  match s.stageOf stat with
  | some stage => GetStatMultiplier stage
  | none => 1

/-- The seven stat names that carry a stage. -/
def stageStats : List StatType :=
  [Attack, Defense, SpecialAttack, SpecialDefense, Speed, Accuracy, Evasion]

/-! ## type.go: the type chart -/

abbrev PokemonType := String
def Normal : PokemonType := "normal"
def Fire : PokemonType := "fire"
def Water : PokemonType := "water"
def Electric : PokemonType := "electric"
def Grass : PokemonType := "grass"
def Ice : PokemonType := "ice"
def Fighting : PokemonType := "fighting"
def Poison : PokemonType := "poison"
def Ground : PokemonType := "ground"
def Flying : PokemonType := "flying"
def Psychic : PokemonType := "psychic"
def Bug : PokemonType := "bug"
def Rock : PokemonType := "rock"
def Ghost : PokemonType := "ghost"
def Dragon : PokemonType := "dragon"
def Dark : PokemonType := "dark"
def Steel : PokemonType := "steel"
def Fairy : PokemonType := "fairy"

/-- The map literal `effectiveness` of Go `TypeEffectiveness`, entry by entry. -/
def effectiveness : List (PokemonType × List (PokemonType × ℚ)) :=
  [ (Normal, [(Rock, 1/2), (Ghost, 0), (Steel, 1/2)]),
    (Fire, [(Fire, 1/2), (Water, 1/2), (Grass, 2), (Ice, 2), (Bug, 2), (Rock, 1/2),
      (Dragon, 1/2), (Steel, 2)]),
    (Water, [(Fire, 2), (Water, 1/2), (Grass, 1/2), (Ground, 2), (Rock, 2), (Dragon, 1/2)]),
    (Electric, [(Water, 2), (Electric, 1/2), (Grass, 1/2), (Ground, 0), (Flying, 2),
      (Dragon, 1/2)]),
    (Grass, [(Fire, 1/2), (Water, 2), (Grass, 1/2), (Poison, 1/2), (Ground, 2), (Flying, 1/2),
      (Bug, 1/2), (Rock, 2), (Dragon, 1/2), (Steel, 1/2)]),
    (Ice, [(Fire, 1/2), (Water, 1/2), (Grass, 2), (Ice, 1/2), (Ground, 2), (Flying, 2),
      (Dragon, 2), (Steel, 1/2)]),
    (Fighting, [(Normal, 2), (Ice, 2), (Poison, 1/2), (Flying, 1/2), (Psychic, 1/2),
      (Bug, 1/2), (Rock, 2), (Ghost, 0), (Dark, 2), (Steel, 2), (Fairy, 1/2)]),
    (Poison, [(Grass, 2), (Poison, 1/2), (Ground, 1/2), (Rock, 1/2), (Ghost, 1/2), (Steel, 0),
      (Fairy, 2)]),
    (Ground, [(Fire, 2), (Electric, 2), (Grass, 1/2), (Poison, 2), (Flying, 0), (Bug, 1/2),
      (Rock, 2), (Steel, 2)]),
    (Flying, [(Electric, 1/2), (Grass, 2), (Fighting, 2), (Bug, 2), (Rock, 1/2), (Steel, 1/2)]),
    (Psychic, [(Fighting, 2), (Poison, 2), (Psychic, 1/2), (Dark, 0), (Steel, 1/2)]),
    (Bug, [(Fire, 1/2), (Grass, 2), (Fighting, 1/2), (Poison, 1/2), (Flying, 1/2),
      (Psychic, 2), (Ghost, 1/2), (Dark, 2), (Steel, 1/2), (Fairy, 1/2)]),
    (Rock, [(Fire, 2), (Ice, 2), (Fighting, 1/2), (Ground, 1/2), (Flying, 2), (Bug, 2),
      (Steel, 1/2)]),
    (Ghost, [(Normal, 0), (Psychic, 2), (Ghost, 2), (Dark, 1/2)]),
    (Dragon, [(Dragon, 2), (Steel, 1/2), (Fairy, 0)]),
    (Dark, [(Fighting, 1/2), (Psychic, 2), (Ghost, 2), (Dark, 1/2), (Fairy, 1/2)]),
    (Steel, [(Fire, 1/2), (Water, 1/2), (Ice, 2), (Rock, 2), (Steel, 1/2), (Fairy, 2)]),
    (Fairy, [(Fire, 1/2), (Fighting, 2), (Poison, 1/2), (Dragon, 2), (Dark, 2), (Steel, 1/2)]) ]

/-- Go `TypeEffectiveness`: the two map lookups, neutral when either misses. -/
def TypeEffectiveness (attackType defenderType : PokemonType) : ℚ :=
  match effectiveness.lookup attackType with
  | some typeMap =>
    match typeMap.lookup defenderType with
    | some multiplier => multiplier
    | none => 1
  | none => 1

/-- Go `CalculateTypeEffectiveness`; the first defender type is never nil at
the call sites, the second is an optional pointer. -/
def CalculateTypeEffectiveness (attackType : PokemonType) (defenderType1 : PokemonType)
    (defenderType2 : Option PokemonType) : ℚ :=
  let effectiveness := TypeEffectiveness attackType defenderType1
  match defenderType2 with
  | some t2 => effectiveness * TypeEffectiveness attackType t2
  | none => effectiveness

/-- Go `AllTypes`. -/
def AllTypes : List PokemonType :=
  [Normal, Fire, Water, Electric, Grass, Ice, Fighting, Poison, Ground,
   Flying, Psychic, Bug, Rock, Ghost, Dragon, Dark, Steel, Fairy]

/-! ## nature.go -/

abbrev Nature := String
def Hardy : Nature := "hardy"
def Docile : Nature := "docile"
def Serious : Nature := "serious"
def Bashful : Nature := "bashful"
def Quirky : Nature := "quirky"
def Lonely : Nature := "lonely"
def Brave : Nature := "brave"
def Adamant : Nature := "adamant"
def Naughty : Nature := "naughty"
def Bold : Nature := "bold"
def Relaxed : Nature := "relaxed"
def Impish : Nature := "impish"
def Lax : Nature := "lax"
def Timid : Nature := "timid"
def Hasty : Nature := "hasty"
def Jolly : Nature := "jolly"
def Naive : Nature := "naive"
def Modest : Nature := "modest"
def Mild : Nature := "mild"
def Quiet : Nature := "quiet"
def Rash : Nature := "rash"
def Calm : Nature := "calm"
def Gentle : Nature := "gentle"
def Sassy : Nature := "sassy"
def Careful : Nature := "careful"

/-- Go `Nature.GetModifiers`: the increased and the decreased stat name. -/
def Nature.GetModifiers (n : Nature) : String × String :=
  if n = Hardy ∨ n = Docile ∨ n = Serious ∨ n = Bashful ∨ n = Quirky then ("", "")
  else if n = Lonely then ("attack", "defense")
  else if n = Brave then ("attack", "speed")
  else if n = Adamant then ("attack", "sp_attack")
  else if n = Naughty then ("attack", "sp_defense")
  else if n = Bold then ("defense", "attack")
  else if n = Relaxed then ("defense", "speed")
  else if n = Impish then ("defense", "sp_attack")
  else if n = Lax then ("defense", "sp_defense")
  else if n = Timid then ("speed", "attack")
  else if n = Hasty then ("speed", "defense")
  else if n = Jolly then ("speed", "sp_attack")
  else if n = Naive then ("speed", "sp_defense")
  else if n = Modest then ("sp_attack", "attack")
  else if n = Mild then ("sp_attack", "defense")
  else if n = Quiet then ("sp_attack", "speed")
  else if n = Rash then ("sp_attack", "sp_defense")
  else if n = Calm then ("sp_defense", "attack")
  else if n = Gentle then ("sp_defense", "defense")
  else if n = Sassy then ("sp_defense", "speed")
  else if n = Careful then ("sp_defense", "sp_attack")
  else ("", "")

/-- Go `Nature.GetMultiplier`: 1.1 if boosted, 0.9 if lowered, 1.0 otherwise. -/
def Nature.GetMultiplier (n : Nature) (stat : String) : ℚ :=
  let (increased, decreased) := Nature.GetModifiers n
  if stat = increased then 11 / 10
  else if stat = decreased then 9 / 10
  else 1

/-- Go `AllNatures`. -/
def AllNatures : List Nature :=
  [Hardy, Docile, Serious, Bashful, Quirky,
   Lonely, Brave, Adamant, Naughty,
   Bold, Relaxed, Impish, Lax,
   Timid, Hasty, Jolly, Naive,
   Modest, Mild, Quiet, Rash,
   Calm, Gentle, Sassy, Careful]

/-! ## rarity.go -/

abbrev Rarity := String
def Common : Rarity := "common"
def Uncommon : Rarity := "uncommon"
def Rare : Rarity := "rare"
def Epic : Rarity := "epic"
def Legendary : Rarity := "legendary"
def Mythic : Rarity := "mythic"

/-- Go `Rarity.Value`: 1 for common up to 6 for mythic, 0 for any other
string. -/
def Rarity.Value (r : Rarity) : Int :=
  if r = Common then 1
  else if r = Uncommon then 2
  else if r = Rare then 3
  else if r = Epic then 4
  else if r = Legendary then 5
  else if r = Mythic then 6
  else 0

/-! ## pokemon.go -/

/-- Go `uuid.UUID`, as a number. -/
abbrev UUID := Nat

/-- Go `PokemonSpecies` (sprite and drop weight are read nowhere and are left
out). -/
structure PokemonSpecies where
  ID : Int := 0
  Name : String := ""
  Type1 : PokemonType := ""
  Type2 : Option PokemonType := none
  Rarity : GoBattleServer.Rarity := ""
  BaseHP : Int := 0
  BaseAttack : Int := 0
  BaseDefense : Int := 0
  BaseSpAttack : Int := 0
  BaseSpDefense : Int := 0
  BaseSpeed : Int := 0
deriving DecidableEq, Repr

/-- Go `PokemonIVs`. -/
structure PokemonIVs where
  HP : Int := 0
  Attack : Int := 0
  Defense : Int := 0
  SpAttack : Int := 0
  SpDefense : Int := 0
  Speed : Int := 0
deriving DecidableEq, Repr

/-- Go `PokemonStats`. -/
structure PokemonStats where
  HP : Int := 0
  Attack : Int := 0
  Defense : Int := 0
  SpAttack : Int := 0
  SpDefense : Int := 0
  Speed : Int := 0
deriving DecidableEq, Repr

/-- Go `UserPokemon` (the metadata `AcquiredAt`, `IsFavorite` and `Nickname`
left out); `Species` is a pointer that is populated on demand. -/
structure UserPokemon where
  ID : UUID := 0
  UserID : UUID := 0
  SpeciesID : Int := 0
  Species : Option PokemonSpecies := none
  IVs : PokemonIVs := {}
  Nature : Nature := ""
  Level : Int := 0
deriving DecidableEq, Repr

/-- Go `UserPokemon.CalculateStat`. -/
def UserPokemon.CalculateStat (p : UserPokemon) (baseStat iv : Int) (statName : String) : Int :=
  match p.Species with
  | none => 0
  | some _ =>
    let natureMultiplier := Nature.GetMultiplier p.Nature statName
    let stat : ℚ := (((2 * baseStat + iv) * p.Level : Int) : ℚ) / 100 + 5
    let stat := goFloor stat * natureMultiplier
    goInt (goFloor stat)

/-- Go `UserPokemon.CalculateHP`. -/
def UserPokemon.CalculateHP (p : UserPokemon) : Int :=
  match p.Species with
  | none => 0
  | some species =>
    let hp : ℚ := (((2 * species.BaseHP + p.IVs.HP) * p.Level : Int) : ℚ) / 100
      + ((p.Level : Int) : ℚ) + 10
    goInt (goFloor hp)

/-- Go `UserPokemon.GetStats`. -/
def UserPokemon.GetStats (p : UserPokemon) : PokemonStats :=
  match p.Species with
  | none => {}
  | some species =>
    { HP := p.CalculateHP
      Attack := p.CalculateStat species.BaseAttack p.IVs.Attack "attack"
      Defense := p.CalculateStat species.BaseDefense p.IVs.Defense "defense"
      SpAttack := p.CalculateStat species.BaseSpAttack p.IVs.SpAttack "sp_attack"
      SpDefense := p.CalculateStat species.BaseSpDefense p.IVs.SpDefense "sp_defense"
      Speed := p.CalculateStat species.BaseSpeed p.IVs.Speed "speed" }

/-! ## move.go: moves -/

/-- Go `StatChange`. -/
structure StatChange where
  Stat : StatType := ""
  Stages : Int := 0
  Target : String := ""
deriving DecidableEq, Repr

/-- Go `StatusInflict`. -/
structure StatusInflict where
  Status : StatusCondition := ""
  Chance : Int := 0
deriving DecidableEq, Repr

/-- Go `SecondaryEffect`. -/
structure SecondaryEffect where
  Chance : Int := 0
  StatChanges : List StatChange := []
  StatusInflict : Option StatusInflict := none
  FlinchChance : Int := 0
deriving DecidableEq, Repr

/-- Go `WeatherEffect`. -/
structure WeatherEffect where
  Weather : Weather := ""
  Duration : Int := 0
deriving DecidableEq, Repr

/-- Go `TerrainEffect`. -/
structure TerrainEffect where
  Terrain : Terrain := ""
  Duration : Int := 0
deriving DecidableEq, Repr

/-- Go `EntryHazard`. -/
structure EntryHazard where
  HazardType : HazardType := ""
  Layers : Int := 0
deriving DecidableEq, Repr

/-- Go `Move`; the field `Type` is `Type_` here.  The descriptive fields
(`Description`, `Target`, `Flags`, `MultiHit`, `FlinchChance`) are read by no
function of the rules engine and are left out. -/
structure Move where
  ID : Int := 0
  Name : String := ""
  Type_ : PokemonType := ""
  Category : MoveCategory := ""
  Power : Int := 0
  Accuracy : Int := 0
  PP : Int := 0
  Priority : Int := 0
  CritRatio : Int := 0
  SecondaryEffect : Option SecondaryEffect := none
  RecoilPercent : Int := 0
  DrainPercent : Int := 0
  HealPercent : Int := 0
  StatChanges : List StatChange := []
  StatusInflict : Option StatusInflict := none
  WeatherEffect : Option WeatherEffect := none
  TerrainEffect : Option TerrainEffect := none
  EntryHazard : Option EntryHazard := none
deriving DecidableEq, Repr

/-- Go `Move.DoesMoveHit`: the stand-alone accuracy check on a caller-supplied
random value. -/
def Move.DoesMoveHit (m : Move) (accuracyStage evasionStage randomValue : Int) : Bool :=
  if m.Accuracy = 0 then true
  else
    let accuracyMultiplier := GetStatMultiplier accuracyStage
    let evasionMultiplier := GetStatMultiplier evasionStage
    let finalAccuracy : ℚ := ((m.Accuracy : Int) : ℚ) * (accuracyMultiplier / evasionMultiplier)
    decide (randomValue ≤ goInt finalAccuracy)

/-! ## ability.go -/

abbrev AbilityEffectType := String
def EffectDamageModifier : AbilityEffectType := "damage_modifier"

def AbilityLevitate : String := "levitate"
def AbilityAdaptability : String := "adaptability"
def AbilityMagicGuard : String := "magic_guard"
def AbilityGuts : String := "guts"

/-- Go `BattleContext`: the snapshot a condition is evaluated on. -/
structure BattleContext where
  CurrentHP : Int := 0
  MaxHP : Int := 0
  Weather : Weather := ""
  Terrain : Terrain := ""
  Status : StatusCondition := ""
  MoveCategory : MoveCategory := ""
  MoveType : PokemonType := ""
  TurnNumber : Int := 0
  IsContact : Bool := false
deriving DecidableEq, Repr

/-- Go `EffectCondition`. -/
structure EffectCondition where
  HPThreshold : Int := 0
  HPComparison : String := ""
  RequiredWeather : Weather := ""
  RequiredTerrain : Terrain := ""
  RequiredStatus : StatusCondition := ""
  RequiredMoveCategory : MoveCategory := ""
  RequiredMoveType : PokemonType := ""
  RequiredMoveContact : Bool := false
  OpponentType : PokemonType := ""
  FirstTurn : Bool := false
deriving DecidableEq, Repr

/-- Go `AbilityEffect`, with the fields the damage calculator reads. -/
structure AbilityEffect where
  Type_ : AbilityEffectType := ""
  Condition : Option EffectCondition := none
  DamageMultiplier : ℚ := 0
  AffectedTypes : List PokemonType := []
  MoveCategories : List MoveCategory := []
  MoveTypes : List PokemonType := []
  AccuracyModifier : ℚ := 0
  EvasionModifier : ℚ := 0
  CritRateStages : Int := 0
deriving DecidableEq, Repr

/-- Go `Ability`. -/
structure Ability where
  ID : Int := 0
  Name : String := ""
  Effects : List AbilityEffect := []
deriving DecidableEq, Repr

/-- The HP-threshold test shared by both `MeetsCondition` methods: `true`
when the `switch` makes the method return false.  The percentage is an
integer division by `MaxHP`. -/
def hpThresholdFails (threshold : Int) (comparison : String) (currentHP maxHP : Int) :
    Option Bool :=
  if threshold > 0 then
    match goDiv (currentHP * 100) maxHP with
    | none => none
    | some hpPercent =>
      if comparison = "below" then some (decide (hpPercent ≥ threshold))
      else if comparison = "above" then some (decide (hpPercent ≤ threshold))
      else if comparison = "equal" then some (decide (hpPercent ≠ threshold))
      else some false
  else some false

/-- Go `EffectCondition.MeetsCondition` on a non-nil context; `none` is the
panic of the division by a zero `MaxHP`. -/
def EffectCondition.MeetsCondition (c : EffectCondition) (context : BattleContext) :
    Option Bool :=
  match hpThresholdFails c.HPThreshold c.HPComparison context.CurrentHP context.MaxHP with
  | none => none
  | some true => some false
  | some false =>
    if c.RequiredWeather ≠ "" ∧ context.Weather ≠ c.RequiredWeather then some false
    else if c.RequiredTerrain ≠ "" ∧ context.Terrain ≠ c.RequiredTerrain then some false
    else if c.RequiredStatus ≠ "" ∧ context.Status ≠ c.RequiredStatus then some false
    else if c.RequiredMoveCategory ≠ "" ∧ context.MoveCategory ≠ c.RequiredMoveCategory then
      some false
    else if c.RequiredMoveType ≠ "" ∧ context.MoveType ≠ c.RequiredMoveType then some false
    else if c.FirstTurn = true ∧ context.TurnNumber ≠ 1 then some false
    else some true

/-! ## item.go -/

/-- Go `ItemContext`. -/
structure ItemContext where
  CurrentHP : Int := 0
  MaxHP : Int := 0
  Status : StatusCondition := ""
  MoveCategory : MoveCategory := ""
  MoveType : PokemonType := ""
  DamageType : PokemonType := ""
  IsFullHP : Bool := false
deriving DecidableEq, Repr

/-- Go `ItemCondition`. -/
structure ItemCondition where
  HPThreshold : Int := 0
  HPComparison : String := ""
  MoveCategory : MoveCategory := ""
  MoveType : PokemonType := ""
  HasStatus : StatusCondition := ""
  DamageType : PokemonType := ""
  IsPinchBerry : Bool := false
  PinchThreshold : Int := 0
deriving DecidableEq, Repr

/-- Go `ItemEffect`, with the fields the damage calculator reads. -/
structure ItemEffect where
  Condition : Option ItemCondition := none
  DamageMultiplier : ℚ := 0
  TypeBoost : PokemonType := ""
  TypeBoostAmount : ℚ := 0
  CritRateBoost : Int := 0
deriving DecidableEq, Repr

/-- Go `HeldItem`. -/
structure HeldItem where
  ID : Int := 0
  Name : String := ""
  Effects : List ItemEffect := []
deriving DecidableEq, Repr

/-- Go `ItemCondition.MeetsCondition` on a non-nil context. -/
def ItemCondition.MeetsCondition (c : ItemCondition) (context : ItemContext) : Option Bool :=
  match hpThresholdFails c.HPThreshold c.HPComparison context.CurrentHP context.MaxHP with
  | none => none
  | some true => some false
  | some false =>
    match (if c.IsPinchBerry = true then
        (goDiv (context.CurrentHP * 100) context.MaxHP).map
          (fun hpPercent => decide (hpPercent > c.PinchThreshold))
      else some false) with
    | none => none
    | some true => some false
    | some false =>
      if c.MoveCategory ≠ "" ∧ context.MoveCategory ≠ c.MoveCategory then some false
      else if c.MoveType ≠ "" ∧ context.MoveType ≠ c.MoveType then some false
      else if c.HasStatus ≠ "" ∧ context.Status ≠ c.HasStatus then some false
      else if c.DamageType ≠ "" ∧ context.DamageType ≠ c.DamageType then some false
      else some true

/-- Go `ItemEffect.AppliesInContext`. -/
def ItemEffect.AppliesInContext (i : ItemEffect) (context : ItemContext) : Option Bool :=
  match i.Condition with
  | none => some true
  | some c => c.MeetsCondition context

/-! ## battle.go: combatants -/

/-- Go `BattlePokemon`.  `Species` is set for every combatant that enters a
battle and is not a nil pointer here; identifiers, IVs, nature and the
ability, item and volatile-status names are read by no function of the rules
engine and are left out. -/
structure BattlePokemon where
  Species : PokemonSpecies := {}
  Level : Int := 0
  CurrentHP : Int := 0
  MaxHP : Int := 0
  Stats : PokemonStats := {}
  Moves : List Move := []
  Status : StatusCondition := ""
  StatusTurns : Int := 0
  StatStages : StatStages := {}
  MovePP : List Int := []
  Fainted : Bool := false
deriving DecidableEq, Repr

/-- Go `BattlePokemon.TakeDamage`: the Pokemon after the call and the
returned "fainted" flag. -/
def BattlePokemon.TakeDamage (p : BattlePokemon) (damage : Int) : BattlePokemon × Bool :=
  let p := { p with CurrentHP := p.CurrentHP - damage }
  let p := if p.CurrentHP < 0 then { p with CurrentHP := 0 } else p
  if p.CurrentHP = 0 then ({ p with Fainted := true }, true)
  else (p, false)

/-- Go `BattlePokemon.Heal`: the Pokemon after the call and the amount
actually healed. -/
def BattlePokemon.Heal (p : BattlePokemon) (amount : Int) : BattlePokemon × Int :=
  if p.Fainted then (p, 0)
  else
    let oldHP := p.CurrentHP
    let p := { p with CurrentHP := p.CurrentHP + amount }
    let p := if p.CurrentHP > p.MaxHP then { p with CurrentHP := p.MaxHP } else p
    (p, p.CurrentHP - oldHP)

/-- Go `BattlePokemon.DecrementPP`. -/
def BattlePokemon.DecrementPP (p : BattlePokemon) (moveIndex : Int) : BattlePokemon :=
  if moveIndex ≥ 0 ∧ moveIndex < (p.MovePP.length : Int) ∧
      p.MovePP.getD moveIndex.toNat 0 > 0 then
    { p with MovePP := p.MovePP.set moveIndex.toNat (p.MovePP.getD moveIndex.toNat 0 - 1) }
  else p

/-- Go `BattlePokemon.CanUseMove`: the verdict and its reason; `none` is a
run-time panic, the index being in range of `Moves` and out of range of
`MovePP`. -/
def BattlePokemon.CanUseMove (p : BattlePokemon) (moveIndex : Int) : Option (Bool × String) :=
  if moveIndex < 0 ∨ moveIndex ≥ (p.Moves.length : Int) then some (false, "Invalid move index")
  else
    match p.MovePP[moveIndex.toNat]? with
    | none => none
    | some pp =>
      if pp ≤ 0 then some (false, "Move has no PP remaining")
      else if p.Status = StatusSleep then some (false, "Pokemon is asleep")
      else if p.Status = StatusFreeze then some (false, "Pokemon is frozen")
      else some (true, "")

/-- Go `DamageResult` (the fields `StatusInflicted` and `StatChanges`, which
the calculator never sets, are left out). -/
structure DamageResult where
  Damage : Int := 0
  IsCritical : Bool := false
  Effectiveness : ℚ := 0
  RandomRoll : Int := 0
  RemainingHP : Int := 0
  Fainted : Bool := false
  RecoilDamage : Int := 0
  DrainAmount : Int := 0
deriving DecidableEq, Repr

/-! ## math/rand -/

/-- The random source shared by the turn resolver and the damage calculator:
an arbitrary stream of draws and the position of the next one. -/
structure Rand where
  draws : Nat → Nat
  pos : Nat := 0

/-- Go `rand.Intn(n)`: the next draw, as a value in `[0, n)`. -/
def Rand.Intn (r : Rand) (n : Nat) : Int × Rand :=
  (((r.draws r.pos % n : Nat) : Int), { r with pos := r.pos + 1 })

/-- Go `rand.Float64()`: the next draw, as a value in `[0, 1)`. -/
def Rand.Float64 (r : Rand) : ℚ × Rand :=
  (((r.draws r.pos % 2 ^ 53 : Nat) : ℚ) / 2 ^ 53, { r with pos := r.pos + 1 })

/-! ## damage_calculator.go -/

/-- Go `DamageContext` (the player and hazard pointers, which the calculator
never reads, are left out). -/
structure DamageContext where
  Attacker : BattlePokemon := {}
  AttackerAbility : Option Ability := none
  AttackerItem : Option HeldItem := none
  Defender : BattlePokemon := {}
  DefenderAbility : Option Ability := none
  DefenderItem : Option HeldItem := none
  Move : Move := {}
  Weather : Weather := ""
  Terrain : Terrain := ""
  Turn : Int := 0
  IsCriticalHit : Bool := false
  RandomRoll : Int := 0
deriving DecidableEq, Repr

namespace DamageCalculator

/-- The accuracy loop of `CheckAccuracy` over the attacker's ability effects. -/
def accuracyLoop : List AbilityEffect → ℚ → ℚ
  | [], accuracyMultiplier => accuracyMultiplier
  | effect :: rest, accuracyMultiplier =>
    if effect.AccuracyModifier > 0 then accuracyLoop rest (accuracyMultiplier * effect.AccuracyModifier)
    else accuracyLoop rest accuracyMultiplier

/-- The evasion loop of `CheckAccuracy` over the defender's ability effects. -/
def evasionLoop : List AbilityEffect → ℚ → ℚ
  | [], evasionMultiplier => evasionMultiplier
  | effect :: rest, evasionMultiplier =>
    if effect.EvasionModifier > 0 then evasionLoop rest (evasionMultiplier * effect.EvasionModifier)
    else evasionLoop rest evasionMultiplier

/-- The value `finalAccuracy` of `CheckAccuracy`. -/
def finalAccuracy (ctx : DamageContext) : ℚ :=
  let accuracyStage := ctx.Attacker.StatStages.Accuracy
  let evasionStage := ctx.Defender.StatStages.Evasion
  let evasionStage := if ctx.IsCriticalHit = true ∧ evasionStage > 0 then 0 else evasionStage
  let accuracyMultiplier := GetStatMultiplier accuracyStage
  let evasionMultiplier := GetStatMultiplier evasionStage
  let accuracyMultiplier :=
    match ctx.AttackerAbility with
    | some ability => accuracyLoop ability.Effects accuracyMultiplier
    | none => accuracyMultiplier
  let evasionMultiplier :=
    match ctx.DefenderAbility with
    | some ability => evasionLoop ability.Effects evasionMultiplier
    | none => evasionMultiplier
  ((ctx.Move.Accuracy : Int) : ℚ) * (accuracyMultiplier / evasionMultiplier)

/-- Go `DamageCalculator.CheckAccuracy`: whether the move hits, and the
random source after the call. -/
def CheckAccuracy (rng : Rand) (ctx : DamageContext) : Bool × Rand :=
  if ctx.Move.Accuracy = 0 then (true, rng)
  else
    let (r, rng) := rng.Intn 100
    let roll := r + 1
    (decide (((roll : Int) : ℚ) ≤ finalAccuracy ctx), rng)

/-- The critical-hit stage of `CheckCriticalHit`: the move's ratio plus the
stages of the attacker's ability and item. -/
def critStage (ctx : DamageContext) : Int :=
  let stage := ctx.Move.CritRatio
  let stage :=
    match ctx.AttackerAbility with
    | some ability => ability.Effects.foldl (fun acc effect => acc + effect.CritRateStages) stage
    | none => stage
  match ctx.AttackerItem with
  | some item => item.Effects.foldl (fun acc effect => acc + effect.CritRateBoost) stage
  | none => stage

/-- The critical-hit chance (in percent) that `CheckCriticalHit` compares its
roll against. -/
def critChance (ctx : DamageContext) : ℚ :=
  let stage := critStage ctx
  if stage = 0 then 25 / 4
  else if stage = 1 then 25 / 2
  else if stage = 2 then 50
  else 100

/-- Go `DamageCalculator.CheckCriticalHit`. -/
def CheckCriticalHit (rng : Rand) (ctx : DamageContext) : Bool × Rand :=
  let (f, rng) := rng.Float64
  let roll := f * 100
  (decide (roll < critChance ctx), rng)

/-- Go `DamageCalculator.CalculateTypeEffectiveness`. -/
def CalculateTypeEffectiveness (ctx : DamageContext) : ℚ :=
  GoBattleServer.CalculateTypeEffectiveness ctx.Move.Type_ ctx.Defender.Species.Type1
    ctx.Defender.Species.Type2

/-- The ability loop of `GetEffectiveAttackStat`; `category` is the move's
category and `battleCtx` the `BattleContext` the body builds for the
condition. -/
def attackAbilityLoop (category : MoveCategory) (battleCtx : BattleContext) :
    List AbilityEffect → ℚ → Option ℚ
  | [], stat => some stat
  | effect :: rest, stat =>
    if effect.Type_ = EffectDamageModifier ∧ category = Physical then
      match effect.Condition with
      | none => attackAbilityLoop category battleCtx rest (stat * effect.DamageMultiplier)
      | some c =>
        match c.MeetsCondition battleCtx with
        | none => none
        | some true => attackAbilityLoop category battleCtx rest (stat * effect.DamageMultiplier)
        | some false => attackAbilityLoop category battleCtx rest stat
    else attackAbilityLoop category battleCtx rest stat

/-- The `baseStat` and the `stage` that `GetEffectiveAttackStat` selects by
the move's category (both stay 0 for any other category). -/
def attackBase (ctx : DamageContext) : Int × Int :=
  if ctx.Move.Category = Physical then
    (ctx.Attacker.Stats.Attack,
      if ctx.IsCriticalHit = true ∧ ctx.Attacker.StatStages.Attack < 0 then 0
      else ctx.Attacker.StatStages.Attack)
  else if ctx.Move.Category = Special then
    (ctx.Attacker.Stats.SpAttack,
      if ctx.IsCriticalHit = true ∧ ctx.Attacker.StatStages.SpecialAttack < 0 then 0
      else ctx.Attacker.StatStages.SpecialAttack)
  else (0, 0)

/-- Go `DamageCalculator.GetEffectiveAttackStat`. -/
def GetEffectiveAttackStat (ctx : DamageContext) : Option Int :=
  let stat : ℚ := (((attackBase ctx).1 : Int) : ℚ) * GetStatMultiplier (attackBase ctx).2
  let stat :=
    match ctx.AttackerAbility with
    | some ability =>
      attackAbilityLoop ctx.Move.Category
        { CurrentHP := ctx.Attacker.CurrentHP, MaxHP := ctx.Attacker.MaxHP,
          Status := ctx.Attacker.Status, Weather := ctx.Weather,
          MoveCategory := ctx.Move.Category, MoveType := ctx.Move.Type_ }
        ability.Effects stat
    | none => some stat
  stat.map goInt

/-- The ability loop of `GetEffectiveDefenseStat`. -/
def defenseAbilityLoop (battleCtx : BattleContext) : List AbilityEffect → ℚ → Option ℚ
  | [], stat => some stat
  | effect :: rest, stat =>
    if effect.Type_ = EffectDamageModifier then
      match effect.Condition with
      | none => defenseAbilityLoop battleCtx rest (stat * effect.DamageMultiplier)
      | some c =>
        match c.MeetsCondition battleCtx with
        | none => none
        | some true => defenseAbilityLoop battleCtx rest (stat * effect.DamageMultiplier)
        | some false => defenseAbilityLoop battleCtx rest stat
    else defenseAbilityLoop battleCtx rest stat

/-- The `baseStat` and the `stage` that `GetEffectiveDefenseStat` selects by
the move's category (both stay 0 for any other category). -/
def defenseBase (ctx : DamageContext) : Int × Int :=
  if ctx.Move.Category = Physical then
    (ctx.Defender.Stats.Defense,
      if ctx.IsCriticalHit = true ∧ ctx.Defender.StatStages.Defense > 0 then 0
      else ctx.Defender.StatStages.Defense)
  else if ctx.Move.Category = Special then
    (ctx.Defender.Stats.SpDefense,
      if ctx.IsCriticalHit = true ∧ ctx.Defender.StatStages.SpecialDefense > 0 then 0
      else ctx.Defender.StatStages.SpecialDefense)
  else (0, 0)

/-- Go `DamageCalculator.GetEffectiveDefenseStat`. -/
def GetEffectiveDefenseStat (ctx : DamageContext) : Option Int :=
  let stat : ℚ := (((defenseBase ctx).1 : Int) : ℚ) * GetStatMultiplier (defenseBase ctx).2
  let stat :=
    match ctx.DefenderAbility with
    | some ability =>
      defenseAbilityLoop
        { CurrentHP := ctx.Defender.CurrentHP, MaxHP := ctx.Defender.MaxHP,
          Status := ctx.Defender.Status, Weather := ctx.Weather }
        ability.Effects stat
    | none => some stat
  stat.map goInt

/-- Go `DamageCalculator.GetSTABModifier`. -/
def GetSTABModifier (ctx : DamageContext) : ℚ :=
  let moveType := ctx.Move.Type_
  let hasSTAB := decide (moveType = ctx.Attacker.Species.Type1)
  let hasSTAB :=
    match ctx.Attacker.Species.Type2 with
    | some attackerType2 => if moveType = attackerType2 then true else hasSTAB
    | none => hasSTAB
  if !hasSTAB then 1
  else
    match ctx.AttackerAbility with
    | some ability => if ability.Name = AbilityAdaptability then 2 else 3 / 2
    | none => 3 / 2

/-- Go `DamageCalculator.GetWeatherModifier`. -/
def GetWeatherModifier (ctx : DamageContext) : ℚ :=
  if ctx.Weather = WeatherSun then
    if ctx.Move.Type_ = Fire then 3 / 2
    else if ctx.Move.Type_ = Water then 1 / 2
    else 1
  else if ctx.Weather = WeatherRain then
    if ctx.Move.Type_ = Water then 3 / 2
    else if ctx.Move.Type_ = Fire then 1 / 2
    else 1
  else 1

/-- The loop of `GetItemModifier` over the item's effects; `itemCtx` is the
`ItemContext` the body builds. -/
def itemLoop (moveType : PokemonType) (itemCtx : ItemContext) :
    List ItemEffect → ℚ → Option ℚ
  | [], modifier => some modifier
  | effect :: rest, modifier =>
    match effect.AppliesInContext itemCtx with
    | none => none
    | some false => itemLoop moveType itemCtx rest modifier
    | some true =>
      let modifier :=
        if effect.DamageMultiplier > 0 then modifier * effect.DamageMultiplier else modifier
      let modifier :=
        if effect.TypeBoost = moveType ∧ effect.TypeBoostAmount > 0 then
          modifier * effect.TypeBoostAmount
        else modifier
      itemLoop moveType itemCtx rest modifier

/-- Go `DamageCalculator.GetItemModifier`. -/
def GetItemModifier (ctx : DamageContext) : Option ℚ :=
  match ctx.AttackerItem with
  | none => some 1
  | some item =>
    itemLoop ctx.Move.Type_
      { CurrentHP := ctx.Attacker.CurrentHP, MaxHP := ctx.Attacker.MaxHP,
        Status := ctx.Attacker.Status, MoveCategory := ctx.Move.Category,
        MoveType := ctx.Move.Type_,
        IsFullHP := decide (ctx.Attacker.CurrentHP = ctx.Attacker.MaxHP) }
      item.Effects 1

/-- The first loop of `GetAbilityModifier`, over the attacker's effects. -/
def abilityAttackerLoop (moveType : PokemonType) (category : MoveCategory)
    (battleCtx : BattleContext) : List AbilityEffect → ℚ → Option ℚ
  | [], modifier => some modifier
  | effect :: rest, modifier =>
    if effect.Type_ ≠ EffectDamageModifier then
      abilityAttackerLoop moveType category battleCtx rest modifier
    else
      match (match effect.Condition with
          | none => some true
          | some c => c.MeetsCondition battleCtx) with
      | none => none
      | some false => abilityAttackerLoop moveType category battleCtx rest modifier
      | some true =>
        if effect.MoveTypes.length > 0 ∧ ¬ (moveType ∈ effect.MoveTypes) then
          abilityAttackerLoop moveType category battleCtx rest modifier
        else if effect.MoveCategories.length > 0 ∧ ¬ (category ∈ effect.MoveCategories) then
          abilityAttackerLoop moveType category battleCtx rest modifier
        else
          abilityAttackerLoop moveType category battleCtx rest
            (modifier * effect.DamageMultiplier)

/-- The second loop of `GetAbilityModifier`, over the defender's effects. -/
def abilityDefenderLoop (moveType : PokemonType) : List AbilityEffect → ℚ → ℚ
  | [], modifier => modifier
  | effect :: rest, modifier =>
    if effect.Type_ = EffectDamageModifier ∧ moveType ∈ effect.AffectedTypes then
      abilityDefenderLoop moveType rest (modifier * effect.DamageMultiplier)
    else abilityDefenderLoop moveType rest modifier

/-- Go `DamageCalculator.GetAbilityModifier`; it returns before the
defender's loop when the attacker has no ability. -/
def GetAbilityModifier (ctx : DamageContext) : Option ℚ :=
  match ctx.AttackerAbility with
  | none => some 1
  | some ability =>
    match abilityAttackerLoop ctx.Move.Type_ ctx.Move.Category
        { CurrentHP := ctx.Attacker.CurrentHP, MaxHP := ctx.Attacker.MaxHP,
          Status := ctx.Attacker.Status, Weather := ctx.Weather, Terrain := ctx.Terrain,
          MoveCategory := ctx.Move.Category, MoveType := ctx.Move.Type_,
          TurnNumber := ctx.Turn }
        ability.Effects 1 with
    | none => none
    | some modifier =>
      match ctx.DefenderAbility with
      | some defenderAbility =>
        some (abilityDefenderLoop ctx.Move.Type_ defenderAbility.Effects modifier)
      | none => some modifier

/-- Go `DamageCalculator.GetTerrainModifier`. -/
def GetTerrainModifier (ctx : DamageContext) : ℚ :=
  let isGrounded :=
    if ctx.Attacker.Species.Type1 = Flying ∨ ctx.Attacker.Species.Type2 = some Flying then false
    else true
  let isGrounded :=
    match ctx.AttackerAbility with
    | some ability => if ability.Name = AbilityLevitate then false else isGrounded
    | none => isGrounded
  if !isGrounded then 1
  else if ctx.Terrain = TerrainElectric then (if ctx.Move.Type_ = Electric then 13 / 10 else 1)
  else if ctx.Terrain = TerrainGrassy then (if ctx.Move.Type_ = Grass then 13 / 10 else 1)
  else if ctx.Terrain = TerrainPsychic then (if ctx.Move.Type_ = Psychic then 13 / 10 else 1)
  else 1

/-- Go `DamageCalculator.HasBurnIgnoreAbility`. -/
def HasBurnIgnoreAbility (ability : Option Ability) : Bool :=
  match ability with
  | none => false
  | some a => decide (a.Name = AbilityGuts ∨ a.Name = AbilityMagicGuard)

/-- The value of the variable `damage` of `CalculateDamage` when it reaches
`math.Floor`: the base formula followed by the modifiers, for a context whose
`IsCriticalHit` and `RandomRoll` have been set. -/
def damageBeforeFloor (ctx : DamageContext) (effectiveness : ℚ) : Option ℚ :=
  match GetEffectiveAttackStat ctx, GetEffectiveDefenseStat ctx with
  | some attackStat, some defenseStat =>
    match goDiv (((2 * ctx.Attacker.Level).tdiv 5 + 2) * ctx.Move.Power * attackStat)
        defenseStat with
    | none => none
    | some quotient =>
      let baseDamage : ℚ := ((quotient : Int) : ℚ) / 50
      let baseDamage := baseDamage + 2
      let damage := baseDamage
      let damage := damage * GetWeatherModifier ctx
      let damage := if ctx.IsCriticalHit then damage * (3 / 2) else damage
      let damage := damage * ((ctx.RandomRoll : Int) : ℚ) / 100
      let damage := damage * GetSTABModifier ctx
      let damage := damage * effectiveness
      let damage :=
        if ctx.Attacker.Status = StatusBurn ∧ ctx.Move.Category = Physical then
          if !HasBurnIgnoreAbility ctx.AttackerAbility then damage * (1 / 2) else damage
        else damage
      match GetItemModifier ctx, GetAbilityModifier ctx with
      | some itemModifier, some abilityModifier =>
        let damage := damage * itemModifier
        let damage := damage * abilityModifier
        let damage := damage * GetTerrainModifier ctx
        some damage
      | _, _ => none
  | _, _ => none

/-- The end of `CalculateDamage`, from `math.Floor` on: the floor, the
minimum of 1, the remaining HP and the recoil and drain amounts. -/
def finishResult (ctx : DamageContext) (result : DamageResult) (damage : ℚ) : DamageResult :=
  let finalDamage : Int := goInt (goFloor damage)
  let finalDamage : Int := if finalDamage < 1 then 1 else finalDamage
  let result : DamageResult := { result with Damage := finalDamage }
  let result : DamageResult :=
    { result with RemainingHP := ctx.Defender.CurrentHP - finalDamage }
  let result : DamageResult :=
    if result.RemainingHP < 0 then { result with RemainingHP := 0 } else result
  let result : DamageResult :=
    { result with Fainted := decide (result.RemainingHP = 0) }
  let result : DamageResult :=
    if ctx.Move.RecoilPercent > 0 then
      let recoil : Int := (finalDamage * ctx.Move.RecoilPercent).tdiv 100
      { result with RecoilDamage := if recoil < 1 then 1 else recoil }
    else result
  if ctx.Move.DrainPercent > 0 then
    let drain : Int := (finalDamage * ctx.Move.DrainPercent).tdiv 100
    { result with DrainAmount := if drain < 1 then 1 else drain }
  else result

/-- Go `DamageCalculator.CalculateDamage`: the result and the random source
after the call; `none` is a run-time panic (a division by zero). -/
def CalculateDamage (rng : Rand) (ctx : DamageContext) : Option (DamageResult × Rand) :=
  let result : DamageResult := { IsCritical := false, Effectiveness := 1, RandomRoll := 85 }
  if ctx.Move.Category = Status then some (result, rng)
  else
    let hit := CheckAccuracy rng ctx
    if !hit.1 then some ({ result with Fainted := false }, hit.2)
    else
      let critical := CheckCriticalHit hit.2 ctx
      let ctx : DamageContext := { ctx with IsCriticalHit := critical.1 }
      let result : DamageResult := { result with IsCritical := ctx.IsCriticalHit }
      let effectiveness := CalculateTypeEffectiveness ctx
      let result : DamageResult := { result with Effectiveness := effectiveness }
      if effectiveness = 0 then some (result, critical.2)
      else
        let roll := critical.2.Intn 16
        let ctx : DamageContext := { ctx with RandomRoll := 85 + roll.1 }
        let result : DamageResult := { result with RandomRoll := ctx.RandomRoll }
        match damageBeforeFloor ctx effectiveness with
        | none => none
        | some damage => some (finishResult ctx result damage, roll.2)

/-- The context as `CalculateDamage` has updated it when it reaches the base
formula: `IsCriticalHit` holds the outcome of the critical-hit check and
`RandomRoll` the roll in `85..100`, both drawn after the accuracy check. -/
def rolledContext (rng : Rand) (ctx : DamageContext) : DamageContext :=
  let rng1 := (CheckAccuracy rng ctx).2
  let critical := CheckCriticalHit rng1 ctx
  { ctx with IsCriticalHit := critical.1, RandomRoll := 85 + (critical.2.Intn 16).1 }

/-- The integer quotient of the base formula, on the stats the move's
category selects. -/
def baseQuotient (ctx : DamageContext) : Int :=
  (((2 * ctx.Attacker.Level).tdiv 5 + 2) * ctx.Move.Power * (attackBase ctx).1).tdiv
    (defenseBase ctx).1

/-- The same context against "an otherwise identical defender" of other
types. -/
def withDefenderTypes (ctx : DamageContext) (type1 : PokemonType)
    (type2 : Option PokemonType) : DamageContext :=
  { ctx with
    Defender := { ctx.Defender with
      Species := { ctx.Defender.Species with Type1 := type1, Type2 := type2 } } }

/-- The same context with "an otherwise identical attacker" of another
status. -/
def withAttackerStatus (ctx : DamageContext) (status : StatusCondition) : DamageContext :=
  { ctx with Attacker := { ctx.Attacker with Status := status } }

/-- No effect of the attacker's ability is conditioned on a status. -/
def abilityIgnoresStatus (ability : Option Ability) : Bool :=
  match ability with
  | none => true
  | some a =>
    a.Effects.all fun e =>
      match e.Condition with
      | none => true
      | some c => decide (c.RequiredStatus = "")

/-- No effect of the attacker's item is conditioned on a status. -/
def itemIgnoresStatus (item : Option HeldItem) : Bool :=
  match item with
  | none => true
  | some i =>
    i.Effects.all fun e =>
      match e.Condition with
      | none => true
      | some c => decide (c.HasStatus = "")

end DamageCalculator

/-! ## battle.go: battle state -/

abbrev BattleStatus := String
def BattleStatusInProgress : BattleStatus := "in_progress"

abbrev BattleActionType := String
def ActionMove : BattleActionType := "move"
def ActionSwitch : BattleActionType := "switch"
def ActionForfeit : BattleActionType := "forfeit"

/-- Go `BattlePlayer`; `Pokemon` is the active combatant, set when the battle
state is initialised. -/
structure BattlePlayer where
  UserID : UUID := 0
  Pokemon : BattlePokemon := {}
  LockedMove : Option Move := none
  LockedTurns : Int := 0
  HasMoved : Bool := false
deriving DecidableEq, Repr

/-- Go `EntryHazards`. -/
structure EntryHazards where
  StealthRock : Bool := false
  Spikes : Int := 0
  ToxicSpikes : Int := 0
  StickyWeb : Bool := false
deriving DecidableEq, Repr

/-- Go `BattleAction`; `Move` is the resolved move, a pointer. -/
structure BattleAction where
  PlayerID : UUID := 0
  Type_ : BattleActionType := ""
  MoveIndex : Int := 0
  Move : Option Move := none
  Priority : Int := 0
  Speed : Int := 0
deriving DecidableEq, Repr

/-- Go `BattleLogEntry` without the wall-clock timestamp and the free-form
data map. -/
structure BattleLogEntry where
  Turn : Int := 0
  Type_ : String := ""
  Message : String := ""
deriving DecidableEq, Repr

/-- Go `BattleState`. -/
structure BattleState where
  BattleID : UUID := 0
  Turn : Int := 0
  Phase : BattleStatus := ""
  Player1 : BattlePlayer := {}
  Player2 : BattlePlayer := {}
  Weather : Weather := ""
  WeatherTurns : Int := 0
  Terrain : Terrain := ""
  TerrainTurns : Int := 0
  Player1Hazards : EntryHazards := {}
  Player2Hazards : EntryHazards := {}
  Player1Action : Option BattleAction := none
  Player2Action : Option BattleAction := none
  Log : List BattleLogEntry := []
deriving DecidableEq, Repr

/-- Go `ResolvedAction`. -/
structure ResolvedAction where
  PlayerID : UUID := 0
  ActionType : BattleActionType := ""
  Move : Option Move := none
  Target : UUID := 0
  Result : Option DamageResult := none
  Failed : Bool := false
  FailReason : String := ""
  Messages : List String := []
deriving DecidableEq, Repr

/-- Go `WeatherDamage`. -/
structure WeatherDamage where
  PlayerID : UUID := 0
  Weather : Weather := ""
  Damage : Int := 0
deriving DecidableEq, Repr

/-- Go `StatusDamage`. -/
structure StatusDamage where
  PlayerID : UUID := 0
  Status : StatusCondition := ""
  Damage : Int := 0
deriving DecidableEq, Repr

/-- Go `EndOfTurnHeal`. -/
structure EndOfTurnHeal where
  PlayerID : UUID := 0
  Source : String := ""
  Amount : Int := 0
deriving DecidableEq, Repr

/-- Go `TurnResolution`; `Winner` is a pointer, nil until a winner is set. -/
structure TurnResolution where
  Turn : Int := 0
  Actions : List ResolvedAction := []
  WeatherDamage : List WeatherDamage := []
  StatusDamage : List StatusDamage := []
  EndOfTurnHeals : List EndOfTurnHeal := []
  BattleEnded : Bool := false
  Winner : Option UUID := none
deriving DecidableEq, Repr

/-- Which of the two `*BattlePlayer` pointers of a state a pointer is. -/
inductive Side where
  | player1
  | player2
deriving DecidableEq, Repr

/-- The other side. -/
def Side.other : Side → Side
  | .player1 => .player2
  | .player2 => .player1

/-- Dereference of a player pointer. -/
def BattleState.player (b : BattleState) : Side → BattlePlayer
  | .player1 => b.Player1
  | .player2 => b.Player2

/-- A write to the `Pokemon` behind a player pointer. -/
def BattleState.setPokemon (b : BattleState) (side : Side) (p : BattlePokemon) : BattleState :=
  match side with
  | .player1 => { b with Player1 := { b.Player1 with Pokemon := p } }
  | .player2 => { b with Player2 := { b.Player2 with Pokemon := p } }

/-- Go `BattleState.GetPlayer`: the pointer returned, `none` for nil. -/
def BattleState.GetPlayer (b : BattleState) (playerID : UUID) : Option Side :=
  if b.Player1.UserID = playerID then some .player1
  else if b.Player2.UserID = playerID then some .player2
  else none

/-- Go `BattleState.GetOpponent`: the pointer returned (never nil). -/
def BattleState.GetOpponent (b : BattleState) (playerID : UUID) : Side :=
  if b.Player1.UserID = playerID then .player2 else .player1

/-- Go `BattleState.AddLogEntry`. -/
def BattleState.AddLogEntry (b : BattleState) (entryType message : String) : BattleState :=
  { b with Log := b.Log ++ [{ Turn := b.Turn, Type_ := entryType, Message := message }] }

/-- Go `BattleState.BothPlayersReady`. -/
def BattleState.BothPlayersReady (b : BattleState) : Bool :=
  b.Player1Action.isSome && b.Player2Action.isSome

/-- Go `BattleState.ClearActions`. -/
def BattleState.ClearActions (b : BattleState) : BattleState :=
  { b with Player1Action := none, Player2Action := none }

/-- Go `BattleState.SetPlayerAction`: the state after the call and the
returned flag. -/
def BattleState.SetPlayerAction (b : BattleState) (playerID : UUID) (action : BattleAction) :
    BattleState × Bool :=
  if b.Player1.UserID = playerID then
    ({ b with Player1Action := some action, Player1 := { b.Player1 with HasMoved := false } }, true)
  else if b.Player2.UserID = playerID then
    ({ b with Player2Action := some action, Player2 := { b.Player2 with HasMoved := false } }, true)
  else (b, false)

/-! ## turn_resolver.go: executing an action -/

namespace TurnResolver

/-- Go `TurnResolver.CanPokemonMove`: whether the Pokemon moves, the Pokemon
and the resolved action after the call, and the random source. -/
def CanPokemonMove (rng : Rand) (pokemon : BattlePokemon) (resolved : ResolvedAction) :
    Bool × BattlePokemon × ResolvedAction × Rand :=
  if pokemon.Status = StatusSleep ∧ pokemon.StatusTurns > 0 then
    let pokemon : BattlePokemon := { pokemon with StatusTurns := pokemon.StatusTurns - 1 }
    let resolved : ResolvedAction :=
      { resolved with Messages := resolved.Messages ++ [pokemon.Species.Name ++ " is fast asleep!"] }
    if pokemon.StatusTurns = 0 then
      (false, { pokemon with Status := StatusNone },
        { resolved with Messages := resolved.Messages ++ [pokemon.Species.Name ++ " woke up!"] },
        rng)
    else (false, pokemon, resolved, rng)
  else if pokemon.Status = StatusFreeze then
    let roll := rng.Intn 100
    if roll.1 < 20 then
      (true, { pokemon with Status := StatusNone },
        { resolved with Messages := resolved.Messages ++ [pokemon.Species.Name ++ " thawed out!"] },
        roll.2)
    else
      (false, pokemon,
        { resolved with
          Messages := resolved.Messages ++ [pokemon.Species.Name ++ " is frozen solid!"] },
        roll.2)
  else if pokemon.Status = StatusParalysis then
    let roll := rng.Intn 100
    if roll.1 < 25 then
      (false, pokemon,
        { resolved with
          Messages := resolved.Messages ++ [pokemon.Species.Name ++ " is fully paralyzed!"] },
        roll.2)
    else (true, pokemon, resolved, roll.2)
  else (true, pokemon, resolved, rng)

/-- Go `TurnResolver.TryInflictStatus`: whether the status was inflicted, the
Pokemon after the call, and the random source. -/
def TryInflictStatus (rng : Rand) (pokemon : BattlePokemon) (status : StatusCondition)
    (chance : Int) : Bool × BattlePokemon × Rand :=
  if pokemon.Status ≠ StatusNone then (false, pokemon, rng)
  else
    let roll := if chance < 100 then some (rng.Intn 100) else none
    let rng := match roll with
      | some r => r.2
      | none => rng
    if (match roll with
        | some r => decide (r.1 ≥ chance)
        | none => false) then (false, pokemon, rng)
    else
      let pokemon : BattlePokemon := { pokemon with Status := status }
      if status = StatusSleep then
        let turns := rng.Intn 3
        (true, { pokemon with StatusTurns := 1 + turns.1 }, turns.2)
      else (true, pokemon, rng)

/-- The message of a stat change: none when the actual change is 0. -/
def statChangeMessages (name : String) (stat : StatType) (actualChange : Int) : List String :=
  if actualChange ≠ 0 then
    [name ++ "\x27s " ++ stat ++ " " ++ (if actualChange < 0 then "fell" else "rose") ++ "!"]
  else []

/-- The stat-change loop of `ExecuteStatusMove`: targets "self" and
"opponent", any other target is skipped. -/
def statusMoveStatLoop : List StatChange → BattlePokemon → BattlePokemon → List String →
    BattlePokemon × BattlePokemon × List String
  | [], attacker, defender, messages => (attacker, defender, messages)
  | statChange :: rest, attacker, defender, messages =>
    if statChange.Target = "self" then
      let r := attacker.StatStages.ApplyChange statChange.Stat statChange.Stages
      statusMoveStatLoop rest { attacker with StatStages := r.1 } defender
        (messages ++ statChangeMessages attacker.Species.Name statChange.Stat r.2)
    else if statChange.Target = "opponent" then
      let r := defender.StatStages.ApplyChange statChange.Stat statChange.Stages
      statusMoveStatLoop rest attacker { defender with StatStages := r.1 }
        (messages ++ statChangeMessages defender.Species.Name statChange.Stat r.2)
    else statusMoveStatLoop rest attacker defender messages

/-- The stat-change loop of `ApplySecondaryEffects`: target "self" is the
attacker, every other target the defender. -/
def secondaryStatLoop : List StatChange → BattlePokemon → BattlePokemon → List String →
    BattlePokemon × BattlePokemon × List String
  | [], attacker, defender, messages => (attacker, defender, messages)
  | statChange :: rest, attacker, defender, messages =>
    if statChange.Target = "self" then
      let r := attacker.StatStages.ApplyChange statChange.Stat statChange.Stages
      secondaryStatLoop rest { attacker with StatStages := r.1 } defender
        (messages ++ statChangeMessages attacker.Species.Name statChange.Stat r.2)
    else
      let r := defender.StatStages.ApplyChange statChange.Stat statChange.Stages
      secondaryStatLoop rest attacker { defender with StatStages := r.1 }
        (messages ++ statChangeMessages defender.Species.Name statChange.Stat r.2)

/-- Go `TurnResolver.ApplySecondaryEffects`: the attacker's and the
defender's Pokemon, the messages and the random source after the call. -/
def ApplySecondaryEffects (rng : Rand) (attacker defender : BattlePokemon) (move : Move)
    (messages : List String) : BattlePokemon × BattlePokemon × List String × Rand :=
  match move.SecondaryEffect with
  | none => (attacker, defender, messages, rng)
  | some effect =>
    let roll := if effect.Chance > 0 then some (rng.Intn 100) else none
    let rng := match roll with
      | some r => r.2
      | none => rng
    if (match roll with
        | some r => decide (r.1 ≥ effect.Chance)
        | none => false) then (attacker, defender, messages, rng)
    else
      let stats := secondaryStatLoop effect.StatChanges attacker defender messages
      let attacker := stats.1
      let defender := stats.2.1
      let messages := stats.2.2
      let inflicted :=
        match effect.StatusInflict with
        | some inflict => TryInflictStatus rng defender inflict.Status inflict.Chance
        | none => (false, defender, rng)
      let defender := inflicted.2.1
      let rng := inflicted.2.2
      if effect.FlinchChance > 0 then
        let flinch := rng.Intn 100
        if flinch.1 < effect.FlinchChance then
          (attacker, defender, messages ++ [defender.Species.Name ++ " flinched!"], flinch.2)
        else (attacker, defender, messages, flinch.2)
      else (attacker, defender, messages, rng)

/-- Go `TurnResolver.GetWeatherSetMessage`. -/
def GetWeatherSetMessage (weather : Weather) : String :=
  if weather = WeatherSun then "The sunlight turned harsh!"
  else if weather = WeatherRain then "It started to rain!"
  else if weather = WeatherSandstorm then "A sandstorm kicked up!"
  else if weather = WeatherHail then "It started to hail!"
  else if weather = WeatherSnow then "It started to snow!"
  else ""

/-- Go `TurnResolver.GetTerrainSetMessage`. -/
def GetTerrainSetMessage (terrain : Terrain) : String :=
  if terrain = TerrainElectric then "An electric current ran across the battlefield!"
  else if terrain = TerrainGrassy then "Grass grew to cover the battlefield!"
  else if terrain = TerrainMisty then "Mist swirled about the battlefield!"
  else if terrain = TerrainPsychic then "The battlefield got weird!"
  else ""

/-- The `switch` of `ApplyEntryHazard` on the hazards of one side. -/
def applyHazard (hazards : EntryHazards) (hazard : EntryHazard) : EntryHazards × List String :=
  if hazard.HazardType = HazardStealthRock then
    if !hazards.StealthRock then
      ({ hazards with StealthRock := true }, ["Pointed stones float in the air around the foe!"])
    else (hazards, [])
  else if hazard.HazardType = HazardSpikes then
    if hazards.Spikes < 3 then
      ({ hazards with Spikes := hazards.Spikes + 1 }, ["Spikes were scattered around the foe!"])
    else (hazards, [])
  else if hazard.HazardType = HazardToxicSpikes then
    if hazards.ToxicSpikes < 2 then
      ({ hazards with ToxicSpikes := hazards.ToxicSpikes + 1 },
        ["Poison spikes were scattered around the foe!"])
    else (hazards, [])
  else if hazard.HazardType = HazardStickyWeb then
    if !hazards.StickyWeb then
      ({ hazards with StickyWeb := true }, ["A sticky web has been laid out beneath the foe!"])
    else (hazards, [])
  else (hazards, [])

/-- Go `TurnResolver.ApplyEntryHazard`. -/
def ApplyEntryHazard (state : BattleState) (attackerID : UUID) (hazard : EntryHazard)
    (resolved : ResolvedAction) : BattleState × ResolvedAction :=
  if state.Player1.UserID = attackerID then
    let r := applyHazard state.Player2Hazards hazard
    ({ state with Player2Hazards := r.1 }, { resolved with Messages := resolved.Messages ++ r.2 })
  else
    let r := applyHazard state.Player1Hazards hazard
    ({ state with Player1Hazards := r.1 }, { resolved with Messages := resolved.Messages ++ r.2 })

/-- Go `TurnResolver.BuildDamageContext`: abilities and items are not loaded. -/
def BuildDamageContext (state : BattleState) (attacker defender : BattlePlayer) (move : Move) :
    DamageContext :=
  { Attacker := attacker.Pokemon, Defender := defender.Pokemon, Move := move,
    Weather := state.Weather, Terrain := state.Terrain, Turn := state.Turn,
    AttackerAbility := none, AttackerItem := none, DefenderAbility := none,
    DefenderItem := none }

/-- The stat-change block of `ExecuteStatusMove`. -/
def statChangeStep (state : BattleState) (attacker : Side) (move : Move)
    (resolved : ResolvedAction) : ResolvedAction × BattleState :=
  let stats := statusMoveStatLoop move.StatChanges (state.player attacker).Pokemon
    (state.player attacker.other).Pokemon resolved.Messages
  ({ resolved with Messages := stats.2.2 },
    (state.setPokemon attacker stats.1).setPokemon attacker.other stats.2.1)

/-- The status-condition block of `ExecuteStatusMove`: the infliction is
attempted with chance 100. -/
def statusInflictStep (rng : Rand) (state : BattleState) (defender : Side) (move : Move)
    (resolved : ResolvedAction) : ResolvedAction × BattleState × Rand :=
  match move.StatusInflict with
  | some inflict =>
    let r := TryInflictStatus rng (state.player defender).Pokemon inflict.Status 100
    (if r.1 then
        { resolved with
          Messages := resolved.Messages ++
            [(state.player defender).Pokemon.Species.Name ++ " was inflicted with " ++
              inflict.Status ++ "!"] }
      else resolved,
      state.setPokemon defender r.2.1, r.2.2)
  | none => (resolved, state, rng)

/-- The weather block of `ExecuteStatusMove`. -/
def weatherStep (state : BattleState) (move : Move) (resolved : ResolvedAction) :
    ResolvedAction × BattleState :=
  match move.WeatherEffect with
  | some w =>
    ({ resolved with Messages := resolved.Messages ++ [GetWeatherSetMessage w.Weather] },
      { state with Weather := w.Weather, WeatherTurns := w.Duration })
  | none => (resolved, state)

/-- The terrain block of `ExecuteStatusMove`. -/
def terrainStep (state : BattleState) (move : Move) (resolved : ResolvedAction) :
    ResolvedAction × BattleState :=
  match move.TerrainEffect with
  | some t =>
    ({ resolved with Messages := resolved.Messages ++ [GetTerrainSetMessage t.Terrain] },
      { state with Terrain := t.Terrain, TerrainTurns := t.Duration })
  | none => (resolved, state)

/-- The entry-hazard block of `ExecuteStatusMove`. -/
def hazardStep (state : BattleState) (attacker : Side) (move : Move)
    (resolved : ResolvedAction) : ResolvedAction × BattleState :=
  match move.EntryHazard with
  | some hazard =>
    let r := ApplyEntryHazard state (state.player attacker).UserID hazard resolved
    (r.2, r.1)
  | none => (resolved, state)

/-- The healing block of `ExecuteStatusMove`. -/
def healStep (state : BattleState) (attacker : Side) (move : Move)
    (resolved : ResolvedAction) : ResolvedAction × BattleState :=
  if move.HealPercent > 0 then
    let healAmount := ((state.player attacker).Pokemon.MaxHP * move.HealPercent).tdiv 100
    let healed := (state.player attacker).Pokemon.Heal healAmount
    ({ resolved with
        Messages := resolved.Messages ++
          [(state.player attacker).Pokemon.Species.Name ++ " restored " ++ toString healed.2 ++
            " HP!"] },
      state.setPokemon attacker healed.1)
  else (resolved, state)

/-- Go `TurnResolver.ExecuteStatusMove`, block by block; `attacker` is the
side of the attacker pointer, the defender pointer being the other side. -/
def ExecuteStatusMove (rng : Rand) (state : BattleState) (attacker : Side) (move : Move)
    (resolved : ResolvedAction) : ResolvedAction × BattleState × Rand :=
  let r1 := statChangeStep state attacker move resolved
  let r2 := statusInflictStep rng r1.2 attacker.other move r1.1
  let r3 := weatherStep r2.2.1 move r2.1
  let r4 := terrainStep r3.2 move r3.1
  let r5 := hazardStep r4.2 attacker move r4.1
  let r6 := healStep r5.2 attacker move r5.1
  (r6.1, r6.2, r2.2.2)

/-- The damage block of `ExecuteMove`: the defender takes the damage, the
result is recorded and the damage message is added. -/
def damageStep (state : BattleState) (defender : Side) (resolved : ResolvedAction)
    (damageResult : DamageResult) : ResolvedAction × BattleState :=
  let damageMsg := (state.player defender).Pokemon.Species.Name ++ " took " ++
    toString damageResult.Damage ++ " damage!"
  let damageMsg := if damageResult.IsCritical then "A critical hit! " ++ damageMsg else damageMsg
  ({ resolved with Result := some damageResult, Messages := resolved.Messages ++ [damageMsg] },
    state.setPokemon defender
      ((state.player defender).Pokemon.TakeDamage damageResult.Damage).1)

/-- The messages of `ExecuteMove` between the damage and the recoil: the type
effectiveness message and the faint message. -/
def effectivenessMessages (name : String) (damageResult : DamageResult) : List String :=
  (if damageResult.Effectiveness > 1 then ["It\x27s super effective!"]
    else if damageResult.Effectiveness < 1 ∧ damageResult.Effectiveness > 0 then
      ["It\x27s not very effective..."]
    else []) ++
  (if damageResult.Fainted then [name ++ " fainted!"] else [])

/-- The recoil block of `ExecuteMove`. -/
def recoilStep (state : BattleState) (attacker : Side) (resolved : ResolvedAction)
    (damageResult : DamageResult) : ResolvedAction × BattleState :=
  if damageResult.RecoilDamage > 0 then
    ({ resolved with
        Messages := resolved.Messages ++
          [(state.player attacker).Pokemon.Species.Name ++ " took " ++
            toString damageResult.RecoilDamage ++ " recoil damage!"] },
      state.setPokemon attacker
        ((state.player attacker).Pokemon.TakeDamage damageResult.RecoilDamage).1)
  else (resolved, state)

/-- The drain block of `ExecuteMove`. -/
def drainStep (state : BattleState) (attacker : Side) (resolved : ResolvedAction)
    (damageResult : DamageResult) : ResolvedAction × BattleState :=
  if damageResult.DrainAmount > 0 then
    let healed := (state.player attacker).Pokemon.Heal damageResult.DrainAmount
    ({ resolved with
        Messages := resolved.Messages ++
          [(state.player attacker).Pokemon.Species.Name ++ " restored " ++
            toString healed.2 ++ " HP!"] },
      state.setPokemon attacker healed.1)
  else (resolved, state)

/-- The secondary-effect block of `ExecuteMove` and the log entry that
follows it. -/
def secondaryStep (rng : Rand) (state : BattleState) (attacker : Side) (move : Move)
    (resolved : ResolvedAction) : ResolvedAction × BattleState × Rand :=
  let secondary := ApplySecondaryEffects rng (state.player attacker).Pokemon
    (state.player attacker.other).Pokemon move resolved.Messages
  let state := (state.setPokemon attacker secondary.1).setPokemon attacker.other secondary.2.1
  let resolved : ResolvedAction := { resolved with Messages := secondary.2.2.1 }
  (resolved, state.AddLogEntry "move" (resolved.Messages.headD ""), secondary.2.2.2)

/-- The part of `ExecuteMove` after the damage has been calculated and the
move has not missed. -/
def applyDamageResult (rng : Rand) (state : BattleState) (attacker : Side) (move : Move)
    (resolved : ResolvedAction) (damageResult : DamageResult) :
    ResolvedAction × BattleState × Rand :=
  let r1 := damageStep state attacker.other resolved damageResult
  if damageResult.Effectiveness > 1 ∨
      (damageResult.Effectiveness < 1 ∧ damageResult.Effectiveness > 0) ∨
      ¬ (damageResult.Effectiveness = 0) then
    let resolved : ResolvedAction :=
      { r1.1 with
        Messages := r1.1.Messages ++
          effectivenessMessages (r1.2.player attacker.other).Pokemon.Species.Name damageResult }
    let r2 := recoilStep r1.2 attacker resolved damageResult
    let r3 := drainStep r2.2 attacker r2.1 damageResult
    secondaryStep rng r3.2 attacker move r3.1
  else
    ({ r1.1 with Messages := r1.1.Messages ++ ["It doesn\x27t affect the foe!"] }, r1.2, rng)

/-- Go `TurnResolver.ExecuteMove`; `attacker` is the side of the attacker
pointer, the defender pointer being the other side.  `none` is a run-time
panic: a nil `action.Move` or a panic of the damage calculation. -/
def ExecuteMove (rng : Rand) (state : BattleState) (attacker : Side) (action : BattleAction) :
    Option (ResolvedAction × BattleState × Rand) :=
  let defender := attacker.other
  let resolved : ResolvedAction :=
    { PlayerID := action.PlayerID, ActionType := ActionMove, Move := action.Move,
      Target := (state.player defender).UserID, Messages := [] }
  let can := CanPokemonMove rng (state.player attacker).Pokemon resolved
  let state := state.setPokemon attacker can.2.1
  let resolved := can.2.2.1
  let rng := can.2.2.2
  if !can.1 then some ({ resolved with Failed := true }, state, rng)
  else
    match action.Move with
    | none => none
    | some move =>
      let resolved : ResolvedAction :=
        { resolved with
          Messages := resolved.Messages ++
            [(state.player attacker).Pokemon.Species.Name ++ " used " ++ move.Name ++ "!"] }
      let state := state.setPokemon attacker
        ((state.player attacker).Pokemon.DecrementPP action.MoveIndex)
      if move.Category = Status then some (ExecuteStatusMove rng state attacker move resolved)
      else
        let damageCtx := BuildDamageContext state (state.player attacker)
          (state.player defender) move
        match DamageCalculator.CalculateDamage rng damageCtx with
        | none => none
        | some (damageResult, rng) =>
          if damageResult.Damage = 0 ∧ damageResult.Effectiveness > 0 then
            some ({ resolved with
                Messages := resolved.Messages ++ ["But it missed!"], Failed := true },
              state, rng)
          else some (applyDamageResult rng state attacker move resolved damageResult)

/-- Go `TurnResolver.ExecuteAction`. -/
def ExecuteAction (rng : Rand) (state : BattleState) (action : BattleAction) :
    Option (ResolvedAction × BattleState × Rand) :=
  let resolved : ResolvedAction :=
    { PlayerID := action.PlayerID, ActionType := action.Type_, Messages := [] }
  match state.GetPlayer action.PlayerID with
  | none => some ({ resolved with Failed := true, FailReason := "Invalid player" }, state, rng)
  | some player =>
    let opponent := state.GetOpponent action.PlayerID
    if action.Type_ = ActionMove then ExecuteMove rng state player action
    else if action.Type_ = ActionForfeit then
      let resolved : ResolvedAction :=
        { resolved with
          Messages := resolved.Messages ++
            [toString (state.player player).UserID ++ " forfeited the battle!"] }
      let state := state.setPokemon opponent
        { (state.player opponent).Pokemon with CurrentHP := 0 }
      some (resolved, state, rng)
    else some ({ resolved with Failed := true, FailReason := "Unknown action type" }, state, rng)

/-! ## turn_resolver.go: ordering and resolving a turn -/

/-- The priority-and-speed block of `DetermineTurnOrder` for one action: a
move action with a resolved move takes the move's priority and, when its
player is found, the player's speed under the speed stage, halved under
paralysis; a forfeit takes priority -8 and speed 0; any other action keeps
the priority and speed it carries. -/
def orderAction (state : BattleState) (action : BattleAction) : BattleAction :=
  match (if action.Type_ = ActionMove then action.Move else none) with
  | some move =>
    let action : BattleAction := { action with Priority := move.Priority }
    match state.GetPlayer action.PlayerID with
    | some player =>
      let speed := (state.player player).Pokemon.Stats.Speed
      let speedMultiplier := (state.player player).Pokemon.StatStages.GetMultiplier Speed
      let action : BattleAction :=
        { action with Speed := goInt (((speed : Int) : ℚ) * speedMultiplier) }
      if (state.player player).Pokemon.Status = StatusParalysis then
        { action with Speed := action.Speed.tdiv 2 }
      else action
    | none => action
  | none =>
    if action.Type_ = ActionForfeit then { action with Priority := -8, Speed := 0 }
    else action

/-- The comparison closure `DetermineTurnOrder` hands to `sort.Slice`, on
`actions[i]` and `actions[j]`: the random source is drawn from only when
priority and speed are both equal. -/
def lessAction (rng : Rand) (ai aj : BattleAction) : Bool × Rand :=
  if ai.Priority ≠ aj.Priority then (decide (ai.Priority > aj.Priority), rng)
  else if ai.Speed ≠ aj.Speed then (decide (ai.Speed > aj.Speed), rng)
  else
    let r := rng.Intn 2
    (decide (r.1 = 0), r.2)

/-- Go `sort.Slice` on the slice `DetermineTurnOrder` builds, which holds at
most two actions.  On two elements the insertion sort of the library makes
the one call `less(1, 0)` and swaps the elements when it returns true; on
fewer it makes no call. -/
def sortActions (rng : Rand) : List BattleAction → List BattleAction × Rand
  | [a0, a1] =>
    let l := lessAction rng a1 a0
    (if l.1 then [a1, a0] else [a0, a1], l.2)
  | actions => (actions, rng)

/-- Go `TurnResolver.DetermineTurnOrder`: the ordered actions, the state
(whose pending actions now carry their priority and speed) and the random
source after the call. -/
def DetermineTurnOrder (rng : Rand) (state : BattleState) :
    List BattleAction × BattleState × Rand :=
  let state : BattleState :=
    { state with
      Player1Action := state.Player1Action.map (orderAction state),
      Player2Action := state.Player2Action.map (orderAction state) }
  let sorted := sortActions rng (state.Player1Action.toList ++ state.Player2Action.toList)
  (sorted.1, state, sorted.2)

/-- Go `TurnResolver.IsBattleOver`. -/
def IsBattleOver (state : BattleState) : Bool :=
  state.Player1.Pokemon.Fainted || state.Player2.Pokemon.Fainted

/-- Go `TurnResolver.DetermineWinner`. -/
def DetermineWinner (state : BattleState) : UUID :=
  if state.Player2.Pokemon.Fainted then state.Player1.UserID else state.Player2.UserID

/-- The action loop of `ResolveTurn`: an action whose actor is not found or
has fainted is skipped; after each executed action the faint check runs and
ends the loop when the battle is over.  `none` is a run-time panic of
`ExecuteAction`. -/
def actionLoop : List BattleAction → Rand → BattleState → TurnResolution →
    Option (TurnResolution × BattleState × Rand)
  | [], rng, state, resolution => some (resolution, state, rng)
  | action :: rest, rng, state, resolution =>
    match state.GetPlayer action.PlayerID with
    | none => actionLoop rest rng state resolution
    | some actor =>
      if (state.player actor).Pokemon.Fainted then actionLoop rest rng state resolution
      else
        match ExecuteAction rng state action with
        | none => none
        | some (resolvedAction, state, rng) =>
          let resolution : TurnResolution :=
            { resolution with Actions := resolution.Actions ++ [resolvedAction] }
          if IsBattleOver state then
            some ({ resolution with BattleEnded := true, Winner := some (DetermineWinner state) },
              state, rng)
          else actionLoop rest rng state resolution

/-- The body of the loop of `ApplyWeatherEffects` for one player. -/
def weatherPlayer (state : BattleState) (side : Side) (damageAmount : ℚ)
    (resolution : TurnResolution) : BattleState × TurnResolution :=
  let player := state.player side
  if player.Pokemon.Fainted then (state, resolution)
  else
    let immune : Bool :=
      if state.Weather = WeatherSandstorm then
        decide (player.Pokemon.Species.Type1 = Rock ∨ player.Pokemon.Species.Type1 = Ground ∨
          player.Pokemon.Species.Type1 = Steel)
      else if state.Weather = WeatherHail ∨ state.Weather = WeatherSnow then
        decide (player.Pokemon.Species.Type1 = Ice)
      else false
    if immune then (state, resolution)
    else
      let damage : Int := goInt (((player.Pokemon.MaxHP : Int) : ℚ) * damageAmount)
      let damage : Int := if damage < 1 then 1 else damage
      (state.setPokemon side (player.Pokemon.TakeDamage damage).1,
        { resolution with
          WeatherDamage := resolution.WeatherDamage ++
            [{ PlayerID := player.UserID, Weather := state.Weather, Damage := damage }] })

/-- Go `TurnResolver.ApplyWeatherEffects`: player 1, then player 2. -/
def ApplyWeatherEffects (state : BattleState) (resolution : TurnResolution) :
    BattleState × TurnResolution :=
  if state.Weather = WeatherNone then (state, resolution)
  else if state.Weather = WeatherSandstorm ∨ state.Weather = WeatherHail ∨
      state.Weather = WeatherSnow then
    let damageAmount : ℚ := 1 / 16
    let r := weatherPlayer state .player1 damageAmount resolution
    weatherPlayer r.1 .player2 damageAmount r.2
  else (state, resolution)

/-- The body of the loop of `ApplyStatusDamage` for one player. -/
def statusDamagePlayer (state : BattleState) (side : Side) (resolution : TurnResolution) :
    BattleState × TurnResolution :=
  let pokemon := (state.player side).Pokemon
  if pokemon.Fainted then (state, resolution)
  else
    let r : BattlePokemon × Int :=
      if pokemon.Status = StatusBurn then (pokemon, pokemon.MaxHP.tdiv 16)
      else if pokemon.Status = StatusPoison then (pokemon, pokemon.MaxHP.tdiv 8)
      else if pokemon.Status = StatusBadlyPoison then
        let pokemon : BattlePokemon := { pokemon with StatusTurns := pokemon.StatusTurns + 1 }
        (pokemon, (pokemon.MaxHP * pokemon.StatusTurns).tdiv 16)
      else (pokemon, 0)
    if r.2 > 0 then
      (state.setPokemon side (r.1.TakeDamage r.2).1,
        { resolution with
          StatusDamage := resolution.StatusDamage ++
            [{ PlayerID := (state.player side).UserID, Status := r.1.Status, Damage := r.2 }] })
    else (state.setPokemon side r.1, resolution)

/-- Go `TurnResolver.ApplyStatusDamage`: player 1, then player 2. -/
def ApplyStatusDamage (state : BattleState) (resolution : TurnResolution) :
    BattleState × TurnResolution :=
  let r := statusDamagePlayer state .player1 resolution
  statusDamagePlayer r.1 .player2 r.2

/-- The body of the loop of `ApplyHealingEffects` for one player. -/
def healingPlayer (state : BattleState) (side : Side) (resolution : TurnResolution) :
    BattleState × TurnResolution :=
  let pokemon := (state.player side).Pokemon
  if pokemon.Fainted then (state, resolution)
  else if state.Terrain = TerrainGrassy then
    let healAmount := pokemon.MaxHP.tdiv 16
    let healed := pokemon.Heal healAmount
    (state.setPokemon side healed.1,
      if healed.2 > 0 then
        { resolution with
          EndOfTurnHeals := resolution.EndOfTurnHeals ++
            [{ PlayerID := (state.player side).UserID, Source := "grassy_terrain",
               Amount := healed.2 }] }
      else resolution)
  else (state, resolution)

/-- Go `TurnResolver.ApplyHealingEffects`: player 1, then player 2. -/
def ApplyHealingEffects (state : BattleState) (resolution : TurnResolution) :
    BattleState × TurnResolution :=
  let r := healingPlayer state .player1 resolution
  healingPlayer r.1 .player2 r.2

/-- The weather countdown of `ApplyEndOfTurnEffects`. -/
def weatherTurnsStep (state : BattleState) : BattleState :=
  if state.WeatherTurns > 0 then
    let state : BattleState := { state with WeatherTurns := state.WeatherTurns - 1 }
    if state.WeatherTurns = 0 then
      ({ state with Weather := WeatherNone }).AddLogEntry "weather"
        "The weather returned to normal"
    else state
  else state

/-- The terrain countdown of `ApplyEndOfTurnEffects`. -/
def terrainTurnsStep (state : BattleState) : BattleState :=
  if state.TerrainTurns > 0 then
    let state : BattleState := { state with TerrainTurns := state.TerrainTurns - 1 }
    if state.TerrainTurns = 0 then
      ({ state with Terrain := TerrainNone }).AddLogEntry "terrain" "The terrain faded"
    else state
  else state

/-- Go `TurnResolver.ApplyEndOfTurnEffects`. -/
def ApplyEndOfTurnEffects (state : BattleState) (resolution : TurnResolution) :
    BattleState × TurnResolution :=
  let r1 := ApplyWeatherEffects state resolution
  let r2 := ApplyStatusDamage r1.1 r1.2
  let r3 := ApplyHealingEffects r2.1 r2.2
  (terrainTurnsStep (weatherTurnsStep r3.1), r3.2)

/-- The end-of-turn block of `ResolveTurn`, entered when no action ended the
battle: the end-of-turn effects and the second faint check. -/
def endOfTurnStep (state : BattleState) (resolution : TurnResolution) :
    BattleState × TurnResolution :=
  let r := ApplyEndOfTurnEffects state resolution
  if IsBattleOver r.1 then
    (r.1, { r.2 with BattleEnded := true, Winner := some (DetermineWinner r.1) })
  else r

/-- Go `TurnResolver.ResolveTurn`: the resolution, the state and the random
source after the call; `none` is a run-time panic of an executed action. -/
def ResolveTurn (rng : Rand) (state : BattleState) :
    Option (TurnResolution × BattleState × Rand) :=
  let resolution : TurnResolution := { Turn := state.Turn, Actions := [] }
  if !state.BothPlayersReady then some (resolution, state, rng)
  else
    let order := DetermineTurnOrder rng state
    match actionLoop order.1 order.2.2 order.2.1 resolution with
    | none => none
    | some (resolution, state, rng) =>
      let r := if !resolution.BattleEnded then endOfTurnStep state resolution
        else (state, resolution)
      let state : BattleState := r.1.ClearActions
      some (r.2, { state with Turn := state.Turn + 1 }, rng)

end TurnResolver

/-! ## The invariant of the data model -/

/-- The invariant of the data model on a combatant: `0 ≤ currentHP ≤ maxHP`
and `fainted ⇔ currentHP == 0`. -/
def hpInvariant (p : BattlePokemon) : Prop :=
  0 ≤ p.CurrentHP ∧ p.CurrentHP ≤ p.MaxHP ∧ (p.Fainted = true ↔ p.CurrentHP = 0)

instance (p : BattlePokemon) : Decidable (hpInvariant p) := by
  unfold hpInvariant; infer_instance

/-- Both combatants of a state satisfy the invariant. -/
def stateInvariant (state : BattleState) : Prop :=
  hpInvariant state.Player1.Pokemon ∧ hpInvariant state.Player2.Pokemon

instance (state : BattleState) : Decidable (stateInvariant state) := by
  unfold stateInvariant; infer_instance

/-! ## The ordering rule in the words of the specification -/

/-- The priority the specification gives an action: a forfeit has the fixed
priority -8, a move its own priority. -/
def claimedPriority (action : BattleAction) : Int :=
  if action.Type_ = ActionForfeit then -8
  else
    match action.Move with
    | some move => move.Priority
    | none => 0

/-- The effective speed the specification gives an action: 0 for a forfeit;
for a move the truncation of the user's speed times the multiplier of its
speed stage, integer-halved when the user is paralysed. -/
def claimedSpeed (state : BattleState) (action : BattleAction) : Int :=
  if action.Type_ = ActionForfeit then 0
  else
    match state.GetPlayer action.PlayerID with
    | some user =>
      let pokemon := (state.player user).Pokemon
      let speed := goInt (((pokemon.Stats.Speed : Int) : ℚ) * GetStatMultiplier pokemon.StatStages.Speed)
      if pokemon.Status = StatusParalysis then speed.tdiv 2 else speed
    | none => 0

/-- The actions the ordering rule speaks of: a forfeit, or a move whose move
is resolved and whose player takes part in the battle. -/
def moveOrForfeit (state : BattleState) (action : BattleAction) : Prop :=
  action.Type_ = ActionForfeit ∨
    (action.Type_ = ActionMove ∧ action.Move.isSome = true ∧
      (state.GetPlayer action.PlayerID).isSome = true)

instance (state : BattleState) (action : BattleAction) :
    Decidable (moveOrForfeit state action) := by
  unfold moveOrForfeit; infer_instance

/-- The action with the priority and the effective speed of the
specification written into it. -/
def withClaimedOrder (state : BattleState) (action : BattleAction) : BattleAction :=
  { action with Priority := claimedPriority action, Speed := claimedSpeed state action }

namespace TurnResolver

/-- Whether the action loop of `ResolveTurn` skips an action in a state: its
actor is not found or has already fainted. -/
def skippedIn (state : BattleState) (action : BattleAction) : Bool :=
  match state.GetPlayer action.PlayerID with
  | none => true
  | some actor => (state.player actor).Pokemon.Fainted

end TurnResolver

/-! ## battle.go: the persisted envelope -/

def BattleStatusWaitingForPlayers : BattleStatus := "waiting_for_players"
def BattleStatusResolvingTurn : BattleStatus := "resolving_turn"
def BattleStatusCompleted : BattleStatus := "completed"

/-- Go `Battle`, the persisted envelope of a battle (the wall-clock
timestamps are left out); `WinnerID` and `State` are pointers. -/
structure Battle where
  ID : UUID := 0
  Player1ID : UUID := 0
  Player2ID : UUID := 0
  Player1Pokemon : UUID := 0
  Player2Pokemon : UUID := 0
  WagerAmount : Int := 0
  Status : BattleStatus := ""
  WinnerID : Option UUID := none
  CurrentTurn : Int := 0
  State : Option BattleState := none
deriving DecidableEq, Repr

/-- The `BattleState` that `Battle.InitializeBattleState` allocates. -/
def Battle.initialState (b : Battle) (p1Pokemon p2Pokemon : BattlePokemon) : BattleState :=
  { BattleID := b.ID, Turn := 1, Phase := BattleStatusInProgress,
    Player1 := { UserID := b.Player1ID, Pokemon := p1Pokemon },
    Player2 := { UserID := b.Player2ID, Pokemon := p2Pokemon },
    Weather := WeatherNone, Terrain := TerrainNone,
    Player1Hazards := {}, Player2Hazards := {}, Log := [] }

/-- Go `Battle.InitializeBattleState`. -/
def Battle.InitializeBattleState (b : Battle) (p1Pokemon p2Pokemon : BattlePokemon) : Battle :=
  { b with State := some (b.initialState p1Pokemon p2Pokemon) }

/-! ## The persistence collaborators -/

/-- Go `error` values are their messages; a nil error is `none`. -/
abbrev Error := String

/-- The message of an error raised by a collaborator. -/
def collaboratorError : Error := "collaborator failure"

/-- Modelled from the spec: the persistence collaborators of the battle
service (section 6).  `repository.BattleRepository` is declared nowhere in
the sources, and the service calls the user and creature repositories
without the context argument of `repository.UserRepository` and
`repository.UserPokemonRepository`.  Owned creatures and battle envelopes are
records stored and returned by value, `update` writing the envelope under its
id.  The live `State` is not one of the persisted fields of the envelope
(section 3; battle.go marks it as not persisted), so an envelope is stored
and read back without it.  User funds are a balance per user.  `adjusts` is the reading of
`UpdateCoins(id, coins)`: `false` is the method of the sources
(`PostgresUserRepository.UpdateCoins` and the mock store `coins` as the new
balance), `true` the reading of the specification (`adjustBalance(id,
delta)`), under which the deltas the battle service passes adjust the balance.
Any call may fail: `fails n` tells whether the `n`-th call made to the
collaborators returns an error, and `calls` counts the calls made so far.  A
failed call has no effect. -/
structure Persistence where
  balances : UUID → Int
  creatures : UUID → Option UserPokemon
  battles : UUID → Option Battle
  fails : Nat → Bool
  calls : Nat := 0
  adjusts : Bool := false

/-- One call to a collaborator: whether it fails, and the call counted. -/
def Persistence.call (db : Persistence) : Bool × Persistence :=
  (db.fails db.calls, { db with calls := db.calls + 1 })

/-- The funds collaborator, `userRepo.UpdateCoins(userID, coins)`: the
balance of the user becomes `coins`, or moves by `coins` under the adjusting
reading. -/
def Persistence.UpdateCoins (db : Persistence) (userID : UUID) (coins : Int) :
    Option Error × Persistence :=
  let c := db.call
  if c.1 then (some collaboratorError, c.2)
  else
    (none,
      { c.2 with
        balances := fun u =>
          if u = userID then (if db.adjusts then db.balances u + coins else coins)
          else db.balances u })

/-- The creature collaborator, `pokemonRepo.GetByID(id)`. -/
def Persistence.GetPokemon (db : Persistence) (id : UUID) : Except Error UserPokemon × Persistence :=
  let c := db.call
  if c.1 then (.error collaboratorError, c.2)
  else
    match db.creatures id with
    | some pokemon => (.ok pokemon, c.2)
    | none => (.error "not found", c.2)

/-- The envelope collaborator, `battleRepo.GetByID(id)`: the envelope read
back carries no `State`. -/
def Persistence.GetBattle (db : Persistence) (id : UUID) : Except Error Battle × Persistence :=
  let c := db.call
  if c.1 then (.error collaboratorError, c.2)
  else
    match db.battles id with
    | some battle => (.ok { battle with State := none }, c.2)
    | none => (.error "not found", c.2)

/-- The envelope collaborator, `battleRepo.Update(battle)`: the persisted
fields of the envelope are stored, the `State` is not. -/
def Persistence.UpdateBattle (db : Persistence) (battle : Battle) : Option Error × Persistence :=
  let c := db.call
  if c.1 then (some collaboratorError, c.2)
  else
    (none,
      { c.2 with
        battles := fun i =>
          if i = battle.ID then some { battle with State := none } else db.battles i })
/-! ## battle_service.go -/

def ErrBattleNotFound : Error := "battle not found"
def ErrInvalidAction : Error := "invalid action"
def ErrBattleNotActive : Error := "battle is not active"
def ErrPlayerNotInBattle : Error := "player not in this battle"

/-- Go `BattleService`: the collaborators, the two maps (a Go map is a
partial function on its keys) and the random source of the turn resolver. -/
structure BattleService where
  db : Persistence
  activeBattles : UUID → Option BattleState
  playerBattles : UUID → Option UUID
  rng : Rand

/-- Go `delete(m, key)` on a map. -/
def mapDelete {α : Type} (m : UUID → Option α) (key : UUID) : UUID → Option α :=
  fun k => if k = key then none else m k

/-- Go `m[key] = value` on a map. -/
def mapSet {α : Type} (m : UUID → Option α) (key : UUID) (value : α) : UUID → Option α :=
  fun k => if k = key then some value else m k

namespace BattleService

/-- Go `BattleService.createBattlePokemon`: the placeholder moves Tackle and
Quick Attack with the PP slice `[35, 30, 0, 0]`.  A creature returned without
its species gives a combatant with a nil `Species`, here the empty species. -/
def createBattlePokemon (pokemon : UserPokemon) : BattlePokemon :=
  let stats := pokemon.GetStats
  { Species := pokemon.Species.getD {}, Level := pokemon.Level, CurrentHP := stats.HP,
    MaxHP := stats.HP, Stats := stats,
    Moves := [{ Name := "Tackle", Type_ := Normal, Category := Physical, Power := 40,
                Accuracy := 100, PP := 35, Priority := 0 },
              { Name := "Quick Attack", Type_ := Normal, Category := Physical, Power := 40,
                Accuracy := 100, PP := 30, Priority := 1 }],
    Status := StatusNone, StatusTurns := 0, StatStages := {}, MovePP := [35, 30, 0, 0],
    Fainted := false }

/-- The escrow block of `startBattle` and what follows it: both wagers are
deducted, the envelope is persisted, the state is stored in the active map
and the start is logged; a failure after the first deduction is compensated
by refunds whose own errors are discarded. -/
def escrowAndStore (s : BattleService) (battle : Battle) (state : BattleState) :
    Option Error × BattleService :=
  let r3 := s.db.UpdateCoins battle.Player1ID (-battle.WagerAmount)
  match r3.1 with
  | some e => (some ("failed to deduct wager from player 1: " ++ e), { s with db := r3.2 })
  | none =>
    let r4 := r3.2.UpdateCoins battle.Player2ID (-battle.WagerAmount)
    match r4.1 with
    | some e =>
      let r5 := r4.2.UpdateCoins battle.Player1ID battle.WagerAmount
      (some ("failed to deduct wager from player 2: " ++ e), { s with db := r5.2 })
    | none =>
      let r5 := r4.2.UpdateBattle battle
      match r5.1 with
      | some e =>
        let r6 := r5.2.UpdateCoins battle.Player1ID battle.WagerAmount
        let r7 := r6.2.UpdateCoins battle.Player2ID battle.WagerAmount
        (some ("failed to update battle: " ++ e), { s with db := r7.2 })
      | none =>
        (none,
          { s with
            db := r5.2,
            activeBattles := mapSet s.activeBattles battle.ID
              (state.AddLogEntry "battle_start" "Battle has started!") })

/-- Go `BattleService.startBattle`: the returned error and the service after
the call. -/
def startBattle (s : BattleService) (battle : Battle) : Option Error × BattleService :=
  let r1 := s.db.GetPokemon battle.Player1Pokemon
  match r1.1 with
  | .error e => (some ("failed to load player 1 pokemon: " ++ e), { s with db := r1.2 })
  | .ok p1Pokemon =>
    let r2 := r1.2.GetPokemon battle.Player2Pokemon
    match r2.1 with
    | .error e => (some ("failed to load player 2 pokemon: " ++ e), { s with db := r2.2 })
    | .ok p2Pokemon =>
      let p1BattlePokemon := createBattlePokemon p1Pokemon
      let p2BattlePokemon := createBattlePokemon p2Pokemon
      let state := battle.initialState p1BattlePokemon p2BattlePokemon
      let battle := battle.InitializeBattleState p1BattlePokemon p2BattlePokemon
      let battle : Battle := { battle with Status := BattleStatusInProgress }
      escrowAndStore { s with db := r2.2 } battle state

/-- Go `BattleService.endBattle`: the outcome of the call and the service
after it.  The outcome `some err` is the returned error (`some none` a nil
error); the outcome `none` is a run-time panic, the `State` of the envelope
read back being nil when the end of the battle is logged, and the service is
then as the panic leaves it, after the payout, the update of the envelope and
the removal from both maps. -/
def endBattle (s : BattleService) (battleID winnerID : UUID) :
    Option (Option Error) × BattleService :=
  let r1 := s.db.GetBattle battleID
  match r1.1 with
  | .error e => (some (some e), { s with db := r1.2 })
  | .ok battle =>
    let battle : Battle := { battle with WinnerID := some winnerID, Status := BattleStatusCompleted }
    let totalPrize := battle.WagerAmount * 2
    let r2 := r1.2.UpdateCoins winnerID totalPrize
    match r2.1 with
    | some e => (some (some ("failed to award winner: " ++ e)), { s with db := r2.2 })
    | none =>
      let r3 := r2.2.UpdateBattle battle
      match r3.1 with
      | some e =>
        let r4 := r3.2.UpdateCoins winnerID (-totalPrize)
        (some (some ("failed to update battle: " ++ e)), { s with db := r4.2 })
      | none =>
        let s : BattleService :=
          { s with
            db := r3.2,
            activeBattles := mapDelete s.activeBattles battleID,
            playerBattles := mapDelete (mapDelete s.playerBattles battle.Player1ID)
              battle.Player2ID }
        match battle.State with
        | none => (none, s)
        | some _ => (some none, s)

/-- Go `BattleService.ForfeitBattle`: the outcome (`none` for a run-time
panic of `endBattle`) and the service after the call. -/
def ForfeitBattle (s : BattleService) (battleID playerID : UUID) :
    Option (Option Error) × BattleService :=
  match s.activeBattles battleID with
  | none => (some (some ErrBattleNotFound), s)
  | some state =>
    let winnerID :=
      if state.Player1.UserID = playerID then state.Player2.UserID else state.Player1.UserID
    endBattle s battleID winnerID

/-- Go `BattleService.resolveTurn` on the state stored under `battleID`: the
state after the call (the map holds a pointer to it until settlement deletes
the entry), the returned error and the service.  `none` is a run-time panic of
the resolver or of the settlement. -/
def resolveTurn (s : BattleService) (battleID : UUID) (state : BattleState) :
    Option ((BattleState × Option Error) × BattleService) :=
  let state : BattleState := { state with Phase := BattleStatusResolvingTurn }
  match TurnResolver.ResolveTurn s.rng state with
  | none => none
  | some (resolution, state, rng) =>
    let s : BattleService :=
      { s with activeBattles := mapSet s.activeBattles battleID state, rng := rng }
    match (if resolution.BattleEnded then resolution.Winner else none) with
    | some winner =>
      match endBattle s battleID winner with
      | (none, _) => none
      | (some err, s) => some ((state, err), s)
    | none =>
      let state : BattleState := { state with Phase := BattleStatusInProgress }
      some ((state, none), { s with activeBattles := mapSet s.activeBattles battleID state })

/-- The action that `SubmitAction` creates and validates: an error for a move
index out of range or a move that cannot be used; `none` is a run-time panic
of `CanUseMove`. -/
def buildAction (pokemon : BattlePokemon) (playerID : UUID) (actionType : BattleActionType)
    (moveIndex : Int) : Option (Except Error BattleAction) :=
  let action : BattleAction := { PlayerID := playerID, Type_ := actionType }
  if actionType = ActionMove then
    if moveIndex < 0 ∨ moveIndex ≥ (pokemon.Moves.length : Int) then some (.error ErrInvalidAction)
    else
      match pokemon.CanUseMove moveIndex with
      | none => none
      | some (canUse, reason) =>
        if !canUse then some (.error ("cannot use move: " ++ reason))
        else
          some (.ok { action with MoveIndex := moveIndex,
                                  Move := pokemon.Moves[moveIndex.toNat]? })
  else some (.ok action)

/-- The end of `SubmitAction`: the action is buffered and, when both players
are ready, the turn is resolved. -/
def bufferAndResolve (s : BattleService) (battleID playerID : UUID) (state : BattleState)
    (action : BattleAction) : Option ((Option BattleState × Option Error) × BattleService) :=
  let state := (state.SetPlayerAction playerID action).1
  let s : BattleService := { s with activeBattles := mapSet s.activeBattles battleID state }
  if state.BothPlayersReady then
    match resolveTurn s battleID state with
    | none => none
    | some r => some ((some r.1.1, r.1.2), r.2)
  else some ((some state, none), s)

/-- Go `BattleService.SubmitAction`: the returned state pointer and error,
and the service after the call; `none` is a run-time panic. -/
def SubmitAction (s : BattleService) (battleID playerID : UUID) (actionType : BattleActionType)
    (moveIndex : Int) : Option ((Option BattleState × Option Error) × BattleService) :=
  match s.activeBattles battleID with
  | none => some ((none, some ErrBattleNotFound), s)
  | some state =>
    if state.Phase ≠ BattleStatusInProgress then some ((none, some ErrBattleNotActive), s)
    else
      match state.GetPlayer playerID with
      | none => some ((none, some ErrPlayerNotInBattle), s)
      | some player =>
        if state.Player1.UserID = playerID ∧ state.Player1Action.isSome = true then
          some ((none, some "action already submitted for this turn"), s)
        else if state.Player2.UserID = playerID ∧ state.Player2Action.isSome = true then
          some ((none, some "action already submitted for this turn"), s)
        else
          match buildAction (state.player player).Pokemon playerID actionType moveIndex with
          | none => none
          | some (.error e) => some ((none, some e), s)
          | some (.ok action) => bufferAndResolve s battleID playerID state action

end BattleService

/-! ## nature.go: the stat names and the neutral natures -/

/-- The five stat names that `Nature.GetModifiers` hands out. -/
def natureStats : List String := ["attack", "defense", "sp_attack", "sp_defense", "speed"]

/-- The five natures of the first case of `Nature.GetModifiers`. -/
def neutralNatures : List Nature := [Hardy, Docile, Serious, Bashful, Quirky]

/-! ## damage_calculator.go: contexts that differ in the stages or the critical flag -/

namespace DamageCalculator

/-- The same context with other stat stages on the attacker. -/
def withAttackerStages (ctx : DamageContext) (stages : StatStages) : DamageContext :=
  { ctx with Attacker := { ctx.Attacker with StatStages := stages } }

/-- The same context with other stat stages on the defender. -/
def withDefenderStages (ctx : DamageContext) (stages : StatStages) : DamageContext :=
  { ctx with Defender := { ctx.Defender with StatStages := stages } }

/-- The same context with the critical-hit flag set to `crit`. -/
def withCritical (ctx : DamageContext) (crit : Bool) : DamageContext :=
  { ctx with IsCriticalHit := crit }

end DamageCalculator

/-! ## The base damage in the words of the specification -/

namespace DamageCalculator

/-- The damage before modifiers as the specification words it:
`trunc(((trunc(2 * level / 5) + 2) * power * A) / D) / 50 + 2`, the two inner
divisions truncating, the division by 50 exact. -/
def claimedBaseDamage (level power A D : Int) : ℚ :=
  (((((2 * level).tdiv 5 + 2) * power * A).tdiv D : Int) : ℚ) / 50 + 2

/-- The product of the modifiers that `CalculateDamage` applies after the
base formula, in its order: weather, critical hit, roll, STAB, type
effectiveness, burn, item, ability, terrain. -/
def modifierProduct (ctx : DamageContext) (effectiveness itemModifier abilityModifier : ℚ) :
    ℚ :=
  GetWeatherModifier ctx * (if ctx.IsCriticalHit then 3 / 2 else 1) *
    (((ctx.RandomRoll : Int) : ℚ) / 100) * GetSTABModifier ctx * effectiveness *
    (if ctx.Attacker.Status = StatusBurn ∧ ctx.Move.Category = Physical ∧
        HasBurnIgnoreAbility ctx.AttackerAbility = false then 1 / 2 else 1) *
    itemModifier * abilityModifier * GetTerrainModifier ctx

end DamageCalculator

/-! ## turn_resolver.go: the stages of `ExecuteMove` before the damage is applied -/

namespace TurnResolver

/-- The `resolved` value that `ExecuteMove` starts from. -/
def moveResolved (state : BattleState) (attacker : Side) (action : BattleAction) :
    ResolvedAction :=
  { PlayerID := action.PlayerID, ActionType := ActionMove, Move := action.Move,
    Target := (state.player attacker.other).UserID, Messages := [] }

/-- The can-move check at the head of `ExecuteMove`. -/
def moveCheck (rng : Rand) (state : BattleState) (attacker : Side) (action : BattleAction) :
    Bool × BattlePokemon × ResolvedAction × Rand :=
  CanPokemonMove rng (state.player attacker).Pokemon (moveResolved state attacker action)

/-- The state of `ExecuteMove` when the damage is calculated: the attacker
as the can-move check left it, with the PP of the move decremented. -/
def usedMoveState (rng : Rand) (state : BattleState) (attacker : Side)
    (action : BattleAction) : BattleState :=
  let state := state.setPokemon attacker (moveCheck rng state attacker action).2.1
  state.setPokemon attacker ((state.player attacker).Pokemon.DecrementPP action.MoveIndex)

/-- The damage context that `ExecuteMove` hands to `CalculateDamage`. -/
def moveContext (rng : Rand) (state : BattleState) (attacker : Side) (action : BattleAction)
    (move : Move) : DamageContext :=
  BuildDamageContext (usedMoveState rng state attacker action)
    ((usedMoveState rng state attacker action).player attacker)
    ((usedMoveState rng state attacker action).player attacker.other) move

/-- The `resolved` value of `ExecuteMove` after the "used" message. -/
def usedMoveResolved (rng : Rand) (state : BattleState) (attacker : Side)
    (action : BattleAction) (move : Move) : ResolvedAction :=
  { (moveCheck rng state attacker action).2.2.1 with
    Messages := (moveCheck rng state attacker action).2.2.1.Messages ++
      [(moveCheck rng state attacker action).2.1.Species.Name ++ " used " ++ move.Name ++ "!"] }

end TurnResolver

/-! ## validators/user_validator.go -/

def ErrEmptyDiscordID : Error := "discord ID cannot be empty"
def ErrInvalidDiscordID : Error := "discord ID must be numeric"

/-- Go `unicode.IsSpace`: the Latin-1 spaces tab, line feed, vertical tab,
form feed, carriage return, space, U+0085 and U+00A0, and beyond Latin-1 the
code points of the `White_Space` property. -/
def unicodeIsSpace (c : Char) : Bool :=
  let r := c.toNat
  if r ≤ 0xFF then
    r = 0x09 ∨ r = 0x0A ∨ r = 0x0B ∨ r = 0x0C ∨ r = 0x0D ∨ r = 0x20 ∨ r = 0x85 ∨ r = 0xA0
  else
    r = 0x1680 ∨ (0x2000 ≤ r ∧ r ≤ 0x200A) ∨ r = 0x2028 ∨ r = 0x2029 ∨ r = 0x202F ∨
      r = 0x205F ∨ r = 0x3000

/-- Go `strings.TrimSpace`: the string without its leading and trailing
white space. -/
def TrimSpace (s : String) : String :=
  String.mk ((s.data.dropWhile unicodeIsSpace).reverse.dropWhile unicodeIsSpace).reverse

/-- Go `isNumeric`: the trimmed string is not empty and each of its runes is
in `0..9`. -/
def isNumeric (s : String) : Bool :=
  let s := TrimSpace s
  if s = "" then false
  else s.data.all fun c => !(decide (c < '0') || decide (c > '9'))

/-- Go `ValidateDiscordID`; `len` is the length in bytes of the string as it
was passed. -/
def ValidateDiscordID (discordID : String) : Option Error :=
  if discordID = "" then some ErrEmptyDiscordID
  else if !isNumeric discordID then some ErrInvalidDiscordID
  else if discordID.utf8ByteSize < 17 ∨ discordID.utf8ByteSize > 20 then
    some ErrInvalidDiscordID
  else none

/-! ## user.go -/

/-- Go `User`; a `time.Time` is its Unix time in nanoseconds (`CreatedAt` is
left out). -/
structure User where
  ID : UUID := 0
  DiscordID : String := ""
  Coins : Int := 0
  LastDailyRoll : Option Int := none
deriving DecidableEq, Repr

def PremiumRollCost : Int := 100

/-- Go `DailyCooldown`: 24 hours as a `time.Duration`, in nanoseconds. -/
def DailyCooldown : Int := 24 * 3600 * 1000000000

/-- Go `User.CanDailyRoll`; `now` is the reading of the clock. -/
def User.CanDailyRoll (u : User) (now : Int) : Bool :=
  match u.LastDailyRoll with
  | none => true
  | some last => decide (now - last ≥ DailyCooldown)

/-- Go `User.HasCoins`. -/
def User.HasCoins (u : User) (amount : Int) : Bool := decide (u.Coins ≥ amount)

/-- Go `User.DeductCoins`: the user after the call and the returned flag. -/
def User.DeductCoins (u : User) (amount : Int) : User × Bool :=
  if !u.HasCoins amount then (u, false)
  else ({ u with Coins := u.Coins - amount }, true)

/-! ## pokemon.go: a new creature -/

/-- The sources outside the program that `NewUserPokemon` reads: the
identifiers that `uuid.New()` hands out and the generators that
`rand.New(rand.NewSource(time.Now().UnixNano()))` creates, each an arbitrary
stream with a read position. -/
structure Entropy where
  uuids : Nat → UUID
  seeds : Nat → Rand
  uuidPos : Nat := 0
  seedPos : Nat := 0

/-- Go `GenerateRandomIVs`: six draws in `0..31` from a fresh generator. -/
def GenerateRandomIVs (e : Entropy) : PokemonIVs × Entropy :=
  let r := e.seeds e.seedPos
  let hp := r.Intn 32
  let attack := hp.2.Intn 32
  let defense := attack.2.Intn 32
  let spAttack := defense.2.Intn 32
  let spDefense := spAttack.2.Intn 32
  let speed := spDefense.2.Intn 32
  ({ HP := hp.1, Attack := attack.1, Defense := defense.1, SpAttack := spAttack.1,
     SpDefense := spDefense.1, Speed := speed.1 },
    { e with seedPos := e.seedPos + 1 })

/-- Go `RandomNature`: one draw from a fresh generator that indexes
`AllNatures`. -/
def RandomNature (e : Entropy) : Nature × Entropy :=
  let r := e.seeds e.seedPos
  (AllNatures.getD (r.Intn AllNatures.length).1.toNat "",
    { e with seedPos := e.seedPos + 1 })

/-- Go `NewUserPokemon`: a creature of the species at level 50, owned by the
user, with a new identifier, random IVs and a random nature. -/
def NewUserPokemon (e : Entropy) (userID : UUID) (species : PokemonSpecies) :
    UserPokemon × Entropy :=
  let id := e.uuids e.uuidPos
  let e : Entropy := { e with uuidPos := e.uuidPos + 1 }
  let ivs := GenerateRandomIVs e
  let nature := RandomNature ivs.2
  ({ ID := id, UserID := userID, SpeciesID := species.ID, Species := some species,
     IVs := ivs.1, Nature := nature.1, Level := 50 },
    nature.2)

/-! ## repository: the collaborators of the gacha service -/

def ErrUserNotFound : Error := "user not found"
def ErrNoSpeciesFound : Error := "no pokemon species found for rarity"

/-- The three repositories of `interfaces.go` as the gacha service uses them,
after their Postgres implementations: the `users` table by id, the rows of
`user_pokemon` in the order of insertion, and for the species table the row
that `ORDER BY RANDOM() LIMIT 1` picks for a rarity at a given call (`none`
when there is no row).  Any call may fail: `fails n` tells whether the `n`-th
call returns an error, and `calls` counts the calls made so far.  A failed
call has no effect. -/
structure Repositories where
  users : UUID → Option User
  species : Nat → Rarity → Option PokemonSpecies
  pokemons : List UserPokemon := []
  fails : Nat → Bool
  calls : Nat := 0

/-- One call to a repository: whether it fails, and the call counted. -/
def Repositories.call (db : Repositories) : Bool × Repositories :=
  (db.fails db.calls, { db with calls := db.calls + 1 })

/-- Go `PostgresUserRepository.GetByID`. -/
def Repositories.GetByID (db : Repositories) (id : UUID) : Except Error User × Repositories :=
  let c := db.call
  if c.1 then (.error collaboratorError, c.2)
  else
    match db.users id with
    | some user => (.ok user, c.2)
    | none => (.error ErrUserNotFound, c.2)

/-- Go `PostgresUserRepository.UpdateCoins`: `SET coins = $2`. -/
def Repositories.UpdateCoins (db : Repositories) (userID : UUID) (coins : Int) :
    Option Error × Repositories :=
  let c := db.call
  if c.1 then (some collaboratorError, c.2)
  else
    match db.users userID with
    | some user =>
      (none,
        { c.2 with
          users := fun u => if u = userID then some { user with Coins := coins } else db.users u })
    | none => (some ErrUserNotFound, c.2)

/-- Go `PostgresUserRepository.UpdateLastDailyRoll`: `SET last_daily_roll =
CURRENT_TIMESTAMP`, `now` being that timestamp. -/
def Repositories.UpdateLastDailyRoll (db : Repositories) (userID : UUID) (now : Int) :
    Option Error × Repositories :=
  let c := db.call
  if c.1 then (some collaboratorError, c.2)
  else
    match db.users userID with
    | some user =>
      (none,
        { c.2 with
          users := fun u =>
            if u = userID then some { user with LastDailyRoll := some now } else db.users u })
    | none => (some ErrUserNotFound, c.2)

/-- Go `PostgresPokemonSpeciesRepository.GetRandomByRarity`. -/
def Repositories.GetRandomByRarity (db : Repositories) (rarity : Rarity) :
    Except Error PokemonSpecies × Repositories :=
  let c := db.call
  if c.1 then (.error collaboratorError, c.2)
  else
    match db.species db.calls rarity with
    | some species => (.ok species, c.2)
    | none => (.error ErrNoSpeciesFound, c.2)

/-- Go `PostgresUserPokemonRepository.Create`. -/
def Repositories.Create (db : Repositories) (pokemon : UserPokemon) :
    Option Error × Repositories :=
  let c := db.call
  if c.1 then (some collaboratorError, c.2)
  else (none, { c.2 with pokemons := db.pokemons ++ [pokemon] })
/-! ## gacha.go -/

def ErrAlreadyRolledToday : Error := "daily roll already claimed today"
def ErrInsufficientCoins : Error := "insufficient coins for premium roll"

/-- Go `GachaService`: the repositories, the generator of the rolls and the
sources that `NewUserPokemon` reads. -/
structure GachaService where
  db : Repositories
  rand : Rand
  entropy : Entropy

namespace GachaService

/-- The `switch` of `rollSpecies`: the rarity that a roll in `[0, 1)`
targets. -/
def targetRarity (roll : ℚ) : Rarity :=
  if roll < 5 / 1000 then Mythic
  else if roll < 3 / 100 then Legendary
  else if roll < 10 / 100 then Epic
  else if roll < 25 / 100 then Rare
  else if roll < 50 / 100 then Uncommon
  else Common

/-- Go `GachaService.rollSpecies`. -/
def rollSpecies (g : GachaService) : Except Error PokemonSpecies × GachaService :=
  let roll := g.rand.Float64
  let r := g.db.GetRandomByRarity (targetRarity roll.1)
  (r.1, { g with db := r.2, rand := roll.2 })

/-- Go `GachaService.rollSpeciesWithMinRarity`. -/
def rollSpeciesWithMinRarity (g : GachaService) (minRarity : Rarity) :
    Except Error PokemonSpecies × GachaService :=
  match rollSpecies g with
  | (.error err, g) => (.error err, g)
  | (.ok species, g) =>
    if Rarity.Value species.Rarity ≥ Rarity.Value minRarity then (.ok species, g)
    else
      let r := g.db.GetRandomByRarity minRarity
      (r.1, { g with db := r.2 })

/-- The roll loop of `PremiumRoll` and `DailyRoll`: `n` more normal rolls,
each followed by `NewUserPokemon`, appended to `pokemons`; the first error
ends the loop. -/
def rollLoop (userID : UUID) : Nat → GachaService → List UserPokemon →
    Except Error (List UserPokemon) × GachaService
  | 0, g, pokemons => (.ok pokemons, g)
  | n + 1, g, pokemons =>
    match rollSpecies g with
    | (.error err, g) => (.error err, g)
    | (.ok species, g) =>
      let p := NewUserPokemon g.entropy userID species
      rollLoop userID n { g with entropy := p.2 } (pokemons ++ [p.1])

/-- The save loop of `PremiumRoll` and `DailyRoll`: `Create` for each
creature in turn; the first error ends the loop. -/
def createLoop : List UserPokemon → Repositories → Option Error × Repositories
  | [], db => (none, db)
  | pokemon :: rest, db =>
    match db.Create pokemon with
    | (some err, db) => (some err, db)
    | (none, db) => createLoop rest db

/-- The block of `PremiumRoll` after the rolls: the coins are deducted on the
user value read at the start, the result is written with `UpdateCoins`, and
the creatures are saved. -/
def payAndSave (g : GachaService) (userID : UUID) (user : User) (cost : Int)
    (pokemons : List UserPokemon) : Except Error (List UserPokemon) × GachaService :=
  let user := (user.DeductCoins cost).1
  match g.db.UpdateCoins userID user.Coins with
  | (some err, db) => (.error err, { g with db := db })
  | (none, db) =>
    match createLoop pokemons db with
    | (some err, db) => (.error err, { g with db := db })
    | (none, db) => (.ok pokemons, { g with db := db })

/-- The multi-roll bonus of `PremiumRoll`: with ten rolls or more the tenth
creature is replaced by one of a species that is epic or better. -/
def bonusRoll (g : GachaService) (userID : UUID) (count : Int) (pokemons : List UserPokemon) :
    Except Error (List UserPokemon) × GachaService :=
  if count ≥ 10 then
    match rollSpeciesWithMinRarity g Epic with
    | (.error err, g) => (.error err, g)
    | (.ok species, g) =>
      let p := NewUserPokemon g.entropy userID species
      (.ok (pokemons.set 9 p.1), { g with entropy := p.2 })
  else (.ok pokemons, g)

/-- Go `GachaService.PremiumRoll`; `none` is the run-time panic of `make` on a
negative count. -/
def PremiumRoll (g : GachaService) (userID : UUID) (count : Int) :
    Option (Except Error (List UserPokemon) × GachaService) :=
  let cost := count * PremiumRollCost
  match g.db.GetByID userID with
  | (.error _, db) => some (.error ErrUserNotFound, { g with db := db })
  | (.ok user, db) =>
    let g : GachaService := { g with db := db }
    if !user.HasCoins cost then some (.error ErrInsufficientCoins, g)
    else if count < 0 then none
    else
      match rollLoop userID count.toNat g [] with
      | (.error err, g) => some (.error err, g)
      | (.ok pokemons, g) =>
        match bonusRoll g userID count pokemons with
        | (.error err, g) => some (.error err, g)
        | (.ok pokemons, g) => some (payAndSave g userID user cost pokemons)

/-- The block of `DailyRoll` after the rolls: the creatures are saved and
the time of the roll is recorded. -/
def saveAndStamp (g : GachaService) (userID : UUID) (now : Int)
    (pokemons : List UserPokemon) : Except Error (List UserPokemon) × GachaService :=
  match createLoop pokemons g.db with
  | (some err, db) => (.error err, { g with db := db })
  | (none, db) =>
    match db.UpdateLastDailyRoll userID now with
    | (some err, db) => (.error err, { g with db := db })
    | (none, db) => (.ok pokemons, { g with db := db })

/-- Go `GachaService.DailyRoll`; `now` is the reading of the clock. -/
def DailyRoll (g : GachaService) (userID : UUID) (now : Int) :
    Except Error (List UserPokemon) × GachaService :=
  match g.db.GetByID userID with
  | (.error _, db) => (.error ErrUserNotFound, { g with db := db })
  | (.ok user, db) =>
    let g : GachaService := { g with db := db }
    if !user.CanDailyRoll now then (.error ErrAlreadyRolledToday, g)
    else
      match rollLoop userID 4 g [] with
      | (.error err, g) => (.error err, g)
      | (.ok pokemons, g) =>
        match rollSpeciesWithMinRarity g Rare with
        | (.error err, g) => (.error err, g)
        | (.ok species, g) =>
          let p := NewUserPokemon g.entropy userID species
          saveAndStamp { g with entropy := p.2 } userID now (pokemons ++ [p.1])

end GachaService

/-! ## move.go: the stand-alone critical-hit chance -/

/-- Go `Move.GetCriticalHitChance`: the `switch` on the crit ratio, with its
default of 6.25. -/
def Move.GetCriticalHitChance (m : Move) : ℚ :=
  if m.CritRatio = 0 then 25 / 4
  else if m.CritRatio = 1 then 25 / 2
  else if m.CritRatio = 2 then 50
  else if m.CritRatio = 3 then 100
  else 25 / 4

/-! ## turn_resolver.go: the status damage of one combatant -/

namespace TurnResolver

/-- The `switch` of `ApplyStatusDamage`: the combatant, with its counter
increased when it is badly poisoned, and the damage. -/
def statusSwitch (pokemon : BattlePokemon) : BattlePokemon × Int :=
  if pokemon.Status = StatusBurn then (pokemon, pokemon.MaxHP.tdiv 16)
  else if pokemon.Status = StatusPoison then (pokemon, pokemon.MaxHP.tdiv 8)
  else if pokemon.Status = StatusBadlyPoison then
    let pokemon : BattlePokemon := { pokemon with StatusTurns := pokemon.StatusTurns + 1 }
    (pokemon, (pokemon.MaxHP * pokemon.StatusTurns).tdiv 16)
  else (pokemon, 0)

/-- The combatant after the loop body of `ApplyStatusDamage`: skipped when it
has fainted, damaged when the damage is above 0. -/
def afterStatusDamage (pokemon : BattlePokemon) : BattlePokemon :=
  if pokemon.Fainted then pokemon
  else if (statusSwitch pokemon).2 > 0 then
    ((statusSwitch pokemon).1.TakeDamage (statusSwitch pokemon).2).1
  else (statusSwitch pokemon).1

/-- The state after the status phase of one end of turn. -/
def statusPhase (state : BattleState) : BattleState := (ApplyStatusDamage state {}).1

end TurnResolver

/-! ## turn_resolver.go: the end-of-turn phase over several turns -/

namespace TurnResolver

/-- The state after the end-of-turn phase of one turn. -/
def endOfTurnPhase (state : BattleState) : BattleState := (ApplyEndOfTurnEffects state {}).1

/-- The state after `k` end-of-turn phases, `between k` being what happens to
the state between the `k`-th phase and the next one. -/
def afterPhases (between : Nat → BattleState → BattleState) (state : BattleState) :
    Nat → BattleState
  | 0 => state
  | k + 1 => between k (endOfTurnPhase (afterPhases between state k))

end TurnResolver

/-! ## turn_resolver.go: consecutive move attempts of one combatant -/

namespace TurnResolver

/-- The combatant and the random source after `n` consecutive can-move
checks. -/
def afterAttempts : Nat → Rand → BattlePokemon → BattlePokemon × Rand
  | 0, rng, pokemon => (pokemon, rng)
  | n + 1, rng, pokemon =>
    afterAttempts n (CanPokemonMove rng pokemon {}).2.2.2 (CanPokemonMove rng pokemon {}).2.1

end TurnResolver

/-! ## battle.go and turn_resolver.go: the hazards of a side and the reachable states -/

/-- Dereference of the hazards pointer of one side: `Player1Hazards` for
player 1 and `Player2Hazards` for player 2. -/
def BattleState.hazards (b : BattleState) : Side → EntryHazards
  | .player1 => b.Player1Hazards
  | .player2 => b.Player2Hazards

/-- The caps on the two hazard counters: at most 3 layers of spikes and at
most 2 layers of toxic spikes, neither negative. -/
def EntryHazards.withinCaps (h : EntryHazards) : Prop :=
  0 ≤ h.Spikes ∧ h.Spikes ≤ 3 ∧ 0 ≤ h.ToxicSpikes ∧ h.ToxicSpikes ≤ 2

instance (h : EntryHazards) : Decidable h.withinCaps := by
  unfold EntryHazards.withinCaps
  infer_instance

namespace TurnResolver

/-- The battle states reachable from `Battle.InitializeBattleState`: the
state it allocates, and from a reachable state the states produced by the
methods of the state (`SetPlayerAction`, `ClearActions`, `AddLogEntry`), by a
write to the phase as the service makes, and by the resolver
(`ApplyEntryHazard`, `ExecuteAction`, `ApplyEndOfTurnEffects` and
`ResolveTurn`, the last two when they return). -/
inductive Reachable : BattleState → Prop
  | init (b : Battle) (p1Pokemon p2Pokemon : BattlePokemon) (state : BattleState) :
      (b.InitializeBattleState p1Pokemon p2Pokemon).State = some state → Reachable state
  | setAction (state : BattleState) (playerID : UUID) (action : BattleAction) :
      Reachable state → Reachable (state.SetPlayerAction playerID action).1
  | clear (state : BattleState) : Reachable state → Reachable state.ClearActions
  | log (state : BattleState) (entryType message : String) :
      Reachable state → Reachable (state.AddLogEntry entryType message)
  | phase (state : BattleState) (phase : BattleStatus) :
      Reachable state → Reachable { state with Phase := phase }
  | hazard (state : BattleState) (attackerID : UUID) (hazard : EntryHazard)
      (resolved : ResolvedAction) :
      Reachable state → Reachable (ApplyEntryHazard state attackerID hazard resolved).1
  | action (state : BattleState) (rng : Rand) (action : BattleAction)
      (r : ResolvedAction × BattleState × Rand) :
      Reachable state → ExecuteAction rng state action = some r → Reachable r.2.1
  | endOfTurn (state : BattleState) (resolution : TurnResolution) :
      Reachable state → Reachable (ApplyEndOfTurnEffects state resolution).1
  | turn (state : BattleState) (rng : Rand) (r : TurnResolution × BattleState × Rand) :
      Reachable state → ResolveTurn rng state = some r → Reachable r.2.1

end TurnResolver

/-! ## battle_service.go: selecting a combatant -/

def ErrInvalidPokemon : Error := "invalid Pokemon selection"

namespace BattleService

/-- Go `BattleService.SelectPokemon`: the returned error and the service after
the call; `uuid.Nil` is 0. -/
def SelectPokemon (s : BattleService) (battleID playerID pokemonID : UUID) :
    Option Error × BattleService :=
  let r1 := s.db.GetBattle battleID
  match r1.1 with
  | .error _ => (some ErrBattleNotFound, { s with db := r1.2 })
  | .ok battle =>
    if battle.Player1ID ≠ playerID ∧ battle.Player2ID ≠ playerID then
      (some ErrPlayerNotInBattle, { s with db := r1.2 })
    else
      let r2 := r1.2.GetPokemon pokemonID
      match r2.1 with
      | .error _ => (some ErrInvalidPokemon, { s with db := r2.2 })
      | .ok pokemon =>
        if pokemon.UserID ≠ playerID then (some ErrInvalidPokemon, { s with db := r2.2 })
        else
          let battle : Battle :=
            if battle.Player1ID = playerID then { battle with Player1Pokemon := pokemonID }
            else { battle with Player2Pokemon := pokemonID }
          let r3 := r2.2.UpdateBattle battle
          match r3.1 with
          | some e => (some ("failed to update battle: " ++ e), { s with db := r3.2 })
          | none =>
            if battle.Player1Pokemon ≠ 0 ∧ battle.Player2Pokemon ≠ 0 then
              startBattle { s with db := r3.2 } battle
            else (none, { s with db := r3.2 })

end BattleService

/-! ## Example inputs -/


/-- A random source whose first draw passes any accuracy check of a move of
accuracy at least 1, whose second draw is no critical hit at stages below 3
and whose third draw is the roll 100. -/
def exampleRand : Rand :=
  { draws := fun i => if i = 0 then 0 else if i = 1 then 2 ^ 53 - 1 else 15 }

/-- A level-50 Normal-type combatant with every stat at 120 (base 100, IV 31,
neutral nature) and 175 HP. -/
def exampleCombatant : BattlePokemon :=
  { Species := { Name := "example", Type1 := Normal, BaseHP := 100, BaseAttack := 100,
                 BaseDefense := 100, BaseSpAttack := 100, BaseSpDefense := 100,
                 BaseSpeed := 100 },
    Level := 50, CurrentHP := 175, MaxHP := 175,
    Stats := { HP := 175, Attack := 120, Defense := 120, SpAttack := 120, SpDefense := 120,
               Speed := 120 },
    Status := StatusNone }

/-- A physical Water-type move of power 90 and accuracy 100. -/
def exampleWaterMove : Move :=
  { Name := "water_move", Type_ := Water, Category := Physical, Power := 90, Accuracy := 100,
    PP := 15 }

/-- The example of the specification: the Water move between two example
combatants, no ability or item, no weather, no terrain. -/
def exampleContext : DamageContext :=
  { Attacker := exampleCombatant, Defender := exampleCombatant, Move := exampleWaterMove,
    Weather := WeatherNone, Terrain := TerrainNone, Turn := 1 }

/-- The example context with an attacker ability that is neither Guts nor
Magic Guard and doubles damage while the holder is burned. -/
def flareContext : DamageContext :=
  { exampleContext with
    AttackerAbility := some
      { Name := "flare_boost",
        Effects := [{ Type_ := EffectDamageModifier,
                      Condition := some { RequiredStatus := StatusBurn },
                      DamageMultiplier := 2 }] } }

/-- A battle between two example combatants, users 1 and 2, at turn 1. -/
def exampleState : BattleState :=
  { BattleID := 7, Turn := 1, Phase := BattleStatusInProgress,
    Player1 := { UserID := 1, Pokemon := exampleCombatant },
    Player2 := { UserID := 2, Pokemon := exampleCombatant },
    Weather := WeatherNone, Terrain := TerrainNone }

/-- User 1 forfeits. -/
def forfeitAction : BattleAction := { PlayerID := 1, Type_ := ActionForfeit }

/-- A status move without any effect. -/
def idleMove : Move :=
  { Name := "splash", Type_ := Normal, Category := Status, Accuracy := 0, PP := 40 }

/-- The action of a user who uses the idle move, taken at a given priority. -/
def idleAction (user : UUID) (priority : Int) : BattleAction :=
  { PlayerID := user, Type_ := ActionMove, MoveIndex := 0,
    Move := some { idleMove with Priority := priority } }

/-- User 1 has submitted a forfeit and user 2 the idle move. -/
def forfeitTurnState : BattleState :=
  { exampleState with
    Player1Action := some forfeitAction,
    Player2Action := some (idleAction 2 0) }

/-- Both combatants are poisoned with 10 HP left, so that the poison damage
of the end-of-turn phase (175 / 8 = 21) brings each of them down; user 1 has
submitted the idle move and user 2 the idle move with priority 1. -/
def poisonedState : BattleState :=
  { exampleState with
    Player1 := { UserID := 1,
                 Pokemon := { exampleCombatant with CurrentHP := 10, Status := StatusPoison } },
    Player2 := { UserID := 2,
                 Pokemon := { exampleCombatant with CurrentHP := 10, Status := StatusPoison } },
    Player1Action := some (idleAction 1 0),
    Player2Action := some (idleAction 2 1) }

/-- User 1 attacks with the example Water move. -/
def knockoutAttack : BattleAction :=
  { PlayerID := 1, Type_ := ActionMove, MoveIndex := 0, Move := some exampleWaterMove }

/-- User 1 attacks user 2, who has 30 HP left and has submitted the idle
move. -/
def knockoutState : BattleState :=
  { exampleState with
    Player2 := { UserID := 2, Pokemon := { exampleCombatant with CurrentHP := 30 } },
    Player1Action := some knockoutAttack,
    Player2Action := some (idleAction 2 (-1)) }

/-- The damage context of the attack of user 1 in `knockoutState`. -/
def knockoutContext : DamageContext :=
  { exampleContext with Defender := { exampleCombatant with CurrentHP := 30 } }

/-- The resolved attack of user 1 in `knockoutState`: 41 damage against
30 HP. -/
def knockoutResolved : ResolvedAction :=
  { PlayerID := 1, ActionType := ActionMove, Move := some exampleWaterMove, Target := 2,
    Result := some { Damage := 41, IsCritical := false, Effectiveness := 1, RandomRoll := 100,
                     RemainingHP := 0, Fainted := true, RecoilDamage := 0, DrainAmount := 0 },
    Messages := ["example used water_move!", "example took 41 damage!", "example fainted!"] }

/-- The owned creature behind the example combatant: level 50, every IV 31,
a neutral nature. -/
def exampleCreature : UserPokemon :=
  { Species := some exampleCombatant.Species,
    IVs := { HP := 31, Attack := 31, Defense := 31, SpAttack := 31, SpDefense := 31,
             Speed := 31 },
    Nature := Hardy, Level := 50 }

/-- The envelope of battle 7 between users 1 and 2 with a wager of 100, both
creatures chosen, before the battle starts. -/
def exampleEnvelope : Battle :=
  { ID := 7, Player1ID := 1, Player2ID := 2, Player1Pokemon := 11, Player2Pokemon := 12,
    WagerAmount := 100, Status := BattleStatusWaitingForPlayers }

/-- A service in which battle 7 is about to start: every user holds 1000
coins, creatures 11 and 12 exist, the collaborators fail on the calls that
`fails` names, and `UpdateCoins` is read as `adjusts` tells. -/
def exampleService (fails : Nat → Bool) (adjusts : Bool) : BattleService :=
  { db := { balances := fun _ => 1000,
            creatures := fun i => if i = 11 ∨ i = 12 then some exampleCreature else none,
            battles := fun i => if i = 7 then some exampleEnvelope else none,
            fails := fails, adjusts := adjusts },
    activeBattles := fun _ => none,
    playerBattles := fun u => if u = 1 ∨ u = 2 then some 7 else none,
    rng := exampleRand }

/-- A service in which battle 7 is active with a given state: the wagers of
100 are escrowed, every user holds 900 coins, no collaborator call fails, and
`UpdateCoins` is read as `adjusts` tells. -/
def activeService (state : BattleState) (adjusts : Bool) : BattleService :=
  { db := { balances := fun _ => 900,
            creatures := fun i => if i = 11 ∨ i = 12 then some exampleCreature else none,
            battles := fun i =>
              if i = 7 then
                some { exampleEnvelope with Status := BattleStatusInProgress }
              else none,
            fails := fun _ => false, adjusts := adjusts },
    activeBattles := fun i => if i = 7 then some state else none,
    playerBattles := fun u => if u = 1 ∨ u = 2 then some 7 else none,
    rng := exampleRand }

/-- The example context with a Fire-type move against a defender whose
ability halves the damage of Fire and Ice moves; the attacker has no
ability. -/
def thickFatContext : DamageContext :=
  { exampleContext with
    Move := { exampleWaterMove with Name := "fire_move", Type_ := Fire },
    DefenderAbility := some
      { Name := "thick_fat",
        Effects := [{ Type_ := EffectDamageModifier, DamageMultiplier := 1 / 2,
                      AffectedTypes := [Fire, Ice] }] } }

/-- The same context with an attacker ability that has no effect at all. -/
def thickFatContextWithAbility : DamageContext :=
  { thickFatContext with AttackerAbility := some { Name := "plain", Effects := [] } }

/-- The example Water move with accuracy 50. -/
def inaccurateMove : Move := { exampleWaterMove with Name := "wild_water", Accuracy := 50 }

/-- User 1 attacks with the inaccurate move. -/
def inaccurateAttack : BattleAction :=
  { PlayerID := 1, Type_ := ActionMove, MoveIndex := 0, Move := some inaccurateMove }

/-- The example battle with a frozen user 1. -/
def frozenState : BattleState :=
  { exampleState with
    Player1 := { UserID := 1, Pokemon := { exampleCombatant with Status := StatusFreeze } } }

/-- The example source from its second draw on: the next roll of 100 is 91. -/
def missRand : Rand := { exampleRand with pos := 1 }

/-- A user with the given balance, identifier 1. -/
def exampleUser (coins : Int) : User :=
  { ID := 1, DiscordID := "123456789012345678", Coins := coins }

/-- The example species in the given rarity. -/
def exampleSpecies (rarity : Rarity) : PokemonSpecies :=
  { exampleCombatant.Species with Rarity := rarity }

/-- Repositories that never fail, holding the example user with the given
balance, no creature, and a species of every rarity. -/
def exampleRepositories (coins : Int) : Repositories :=
  { users := fun u => if u = 1 then some (exampleUser coins) else none,
    species := fun _ rarity => some (exampleSpecies rarity),
    fails := fun _ => false }

/-- Identifiers 100, 101, ... and the example generator for every seed. -/
def exampleEntropy : Entropy :=
  { uuids := fun n => 100 + n, seeds := fun _ => exampleRand }

/-- A gacha service on the example repositories. -/
def exampleGacha (coins : Int) : GachaService :=
  { db := exampleRepositories coins, rand := exampleRand, entropy := exampleEntropy }

/-- The example battle in a sandstorm; the combatant of user 1 is of the types
Normal and Rock. -/
def sandstormState : BattleState :=
  { exampleState with
    Weather := WeatherSandstorm, WeatherTurns := 5,
    Player1 := { UserID := 1,
                 Pokemon := { exampleCombatant with
                   Species := { exampleCombatant.Species with Type2 := some Rock } } } }

/-- The example combatant asleep with `turns` on its sleep counter. -/
def sleepingCombatant (turns : Int) : BattlePokemon :=
  { exampleCombatant with Status := StatusSleep, StatusTurns := turns, MovePP := [15] }

/-- The example battle with user 1 asleep for `turns` more attempts. -/
def sleepingState (turns : Int) : BattleState :=
  { exampleState with Player1 := { UserID := 1, Pokemon := sleepingCombatant turns } }

/-- One layer of spikes. -/
def spikesHazard : EntryHazard := { HazardType := HazardSpikes, Layers := 1 }

/-- The state `Battle.InitializeBattleState` allocates for users 1 and 2 with
two example combatants, after user 1 has laid spikes four times. -/
def spikedState : BattleState :=
  (fun state => (TurnResolver.ApplyEntryHazard state 1 spikesHazard {}).1)^[4]
    (({ ID := 7, Player1ID := 1, Player2ID := 2 } : Battle).initialState
      exampleCombatant exampleCombatant)

/-- The example creature stored under `id` and owned by user `owner`. -/
def ownedCreature (id owner : UUID) : UserPokemon :=
  { exampleCreature with ID := id, UserID := owner }

/-- A service in which battle 7 between users 1 and 2, wager 100, waits for
its players: no creature is chosen yet, every user holds 1000 coins, creature
11 belongs to user 1 and creature 12 to user 2, no collaborator call fails,
and `UpdateCoins` is read as `adjusts` tells. -/
def waitingService (adjusts : Bool) : BattleService :=
  { db := { balances := fun _ => 1000,
            creatures := fun i =>
              if i = 11 then some (ownedCreature 11 1)
              else if i = 12 then some (ownedCreature 12 2)
              else none,
            battles := fun i =>
              if i = 7 then some { exampleEnvelope with Player1Pokemon := 0, Player2Pokemon := 0 }
              else none,
            fails := fun _ => false, adjusts := adjusts },
    activeBattles := fun _ => none,
    playerBattles := fun u => if u = 1 ∨ u = 2 then some 7 else none,
    rng := exampleRand }

/-- The waiting service after user 1 has selected creature 11 and user 2
creature 12: the battle has started. -/
def startedService (adjusts : Bool) : BattleService :=
  (BattleService.SelectPokemon
    (BattleService.SelectPokemon (waitingService adjusts) 7 1 11).2 7 2 12).2

/-- The started service once the battle has been played up to the live state
`state`. -/
def playedService (state : BattleState) (adjusts : Bool) : BattleService :=
  { startedService adjusts with
    activeBattles := mapSet (startedService adjusts).activeBattles 7 state }

/-- The state with which battle 7 starts: turn 1, both combatants of the
chosen creatures at full HP, and the one log entry of the start. -/
def freshState : BattleState :=
  (exampleEnvelope.initialState (BattleService.createBattlePokemon (ownedCreature 11 1))
    (BattleService.createBattlePokemon (ownedCreature 12 2))).AddLogEntry
    "battle_start" "Battle has started!"

/-! # Theorems -/

/-- The clamped stage lies in `[-6, 6]`. -/
theorem clampStage_bounds (c d : Int) : -6 ≤ clampStage c d ∧ clampStage c d ≤ 6 := by
  unfold clampStage
  constructor <;> (simp only []; split_ifs <;> omega)

/-- A stage at the upper bound stays there under a non-negative change, and
one at the lower bound under a non-positive change. -/
theorem clampStage_at_bound (c d : Int) :
    (c = 6 → 0 ≤ d → clampStage c d = c) ∧ (c = -6 → d ≤ 0 → clampStage c d = c) := by
  unfold clampStage
  constructor <;> (intro h1 h2; simp only []; split_ifs <;> omega)

/-- C2: for each of the seven stage stats, every starting stage and every
delta, `ApplyChange` leaves the stage of that stat in `[-6, 6]` and returns
exactly the stage after the call minus the stage before it; it returns 0 when
the stage is already at the bound in the requested direction. -/
theorem ApplyChange_clamps_and_returns_delta (s : StatStages) (stat : StatType)
    (stages : Int) (hstat : stat ∈ stageStats) :
    ∃ before after : Int,
      s.stageOf stat = some before ∧
      (s.ApplyChange stat stages).1.stageOf stat = some after ∧
      -6 ≤ after ∧ after ≤ 6 ∧
      (s.ApplyChange stat stages).2 = after - before ∧
      (before = 6 → 0 ≤ stages → (s.ApplyChange stat stages).2 = 0) ∧
      (before = -6 → stages ≤ 0 → (s.ApplyChange stat stages).2 = 0) := by
  simp only [stageStats, List.mem_cons, List.mem_singleton, List.not_mem_nil, or_false] at hstat
  rcases hstat with rfl | rfl | rfl | rfl | rfl | rfl | rfl
  · have hb := clampStage_bounds s.Attack stages
    have ha := clampStage_at_bound s.Attack stages
    refine ⟨s.Attack, clampStage s.Attack stages, ?_, ?_, hb.1, hb.2, ?_, ?_, ?_⟩ <;>
      simp [StatStages.stageOf, StatStages.ApplyChange, Attack] <;>
      intro h1 h2 <;> omega
  · have hb := clampStage_bounds s.Defense stages
    have ha := clampStage_at_bound s.Defense stages
    refine ⟨s.Defense, clampStage s.Defense stages, ?_, ?_, hb.1, hb.2, ?_, ?_, ?_⟩ <;>
      simp [StatStages.stageOf, StatStages.ApplyChange, Attack, Defense] <;>
      intro h1 h2 <;> omega
  · have hb := clampStage_bounds s.SpecialAttack stages
    have ha := clampStage_at_bound s.SpecialAttack stages
    refine ⟨s.SpecialAttack, clampStage s.SpecialAttack stages, ?_, ?_, hb.1, hb.2, ?_, ?_, ?_⟩ <;>
      simp [StatStages.stageOf, StatStages.ApplyChange, Attack, Defense, SpecialAttack] <;>
      intro h1 h2 <;> omega
  · have hb := clampStage_bounds s.SpecialDefense stages
    have ha := clampStage_at_bound s.SpecialDefense stages
    refine ⟨s.SpecialDefense, clampStage s.SpecialDefense stages, ?_, ?_, hb.1, hb.2, ?_, ?_, ?_⟩ <;>
      simp [StatStages.stageOf, StatStages.ApplyChange, Attack, Defense, SpecialAttack,
        SpecialDefense] <;>
      intro h1 h2 <;> omega
  · have hb := clampStage_bounds s.Speed stages
    have ha := clampStage_at_bound s.Speed stages
    refine ⟨s.Speed, clampStage s.Speed stages, ?_, ?_, hb.1, hb.2, ?_, ?_, ?_⟩ <;>
      simp [StatStages.stageOf, StatStages.ApplyChange, Attack, Defense, SpecialAttack,
        SpecialDefense, Speed] <;>
      intro h1 h2 <;> omega
  · have hb := clampStage_bounds s.Accuracy stages
    have ha := clampStage_at_bound s.Accuracy stages
    refine ⟨s.Accuracy, clampStage s.Accuracy stages, ?_, ?_, hb.1, hb.2, ?_, ?_, ?_⟩ <;>
      simp [StatStages.stageOf, StatStages.ApplyChange, Attack, Defense, SpecialAttack,
        SpecialDefense, Speed, Accuracy] <;>
      intro h1 h2 <;> omega
  · have hb := clampStage_bounds s.Evasion stages
    have ha := clampStage_at_bound s.Evasion stages
    refine ⟨s.Evasion, clampStage s.Evasion stages, ?_, ?_, hb.1, hb.2, ?_, ?_, ?_⟩ <;>
      simp [StatStages.stageOf, StatStages.ApplyChange, Attack, Defense, SpecialAttack,
        SpecialDefense, Speed, Accuracy, Evasion] <;>
      intro h1 h2 <;> omega

/-- C2 at a concrete input: evasion at stage 5 raised by 3. -/
theorem ApplyChange_clamps_and_returns_delta_witness :
    ∃ before after : Int,
      ({ Evasion := 5 } : StatStages).stageOf Evasion = some before ∧
      (({ Evasion := 5 } : StatStages).ApplyChange Evasion 3).1.stageOf Evasion = some after ∧
      -6 ≤ after ∧ after ≤ 6 ∧
      (({ Evasion := 5 } : StatStages).ApplyChange Evasion 3).2 = after - before ∧
      (before = 6 → (0 : Int) ≤ 3 → (({ Evasion := 5 } : StatStages).ApplyChange Evasion 3).2 = 0) ∧
      (before = -6 → (3 : Int) ≤ 0 → (({ Evasion := 5 } : StatStages).ApplyChange Evasion 3).2 = 0) :=
  ApplyChange_clamps_and_returns_delta _ Evasion 3 (by decide)

/-! ## Numeric conversions -/

/-- Converting a floored value to `int` gives the floor. -/
theorem goInt_goFloor (x : ℚ) : goInt (goFloor x) = ⌊x⌋ := by
  unfold goInt goFloor
  split_ifs <;> simp

/-! ## Stage multiplier -/

/-- C3: for every stage `s`, with `c` the stage clamped to `[-6, 6]`,
`GetStatMultiplier s` is `(2 + c) / 2` when `c ≥ 0` and `2 / (2 - c)` when
`c < 0`; a stage beyond the bounds gives the multiplier of the bound. -/
theorem GetStatMultiplier_clamped_formula (s : Int) :
    GetStatMultiplier s =
        (if 0 ≤ max (-6) (min s 6) then (2 + ((max (-6) (min s 6) : Int) : ℚ)) / 2
         else 2 / (2 - ((max (-6) (min s 6) : Int) : ℚ))) ∧
      GetStatMultiplier s = GetStatMultiplier (max (-6) (min s 6)) := by
  have key : ∀ t : Int, GetStatMultiplier t =
      (if 0 ≤ max (-6) (min t 6) then (2 + ((max (-6) (min t 6) : Int) : ℚ)) / 2
         else 2 / (2 - ((max (-6) (min t 6) : Int) : ℚ))) := by
    intro t
    unfold GetStatMultiplier
    simp only []
    by_cases h1 : t < -6
    · have hc : max (-6) (min t 6) = -6 := by omega
      rw [hc]; simp [h1]; norm_num
    · by_cases h2 : t > 6
      · have hc : max (-6) (min t 6) = 6 := by omega
        rw [hc]; simp [h1, h2]; norm_num
      · have hc : max (-6) (min t 6) = t := by omega
        rw [hc]; simp only [h1, h2, if_false]
        by_cases h3 : 0 ≤ t
        · simp [h3]
        · simp [h3]
  refine ⟨key s, ?_⟩
  rw [key s, key (max (-6) (min s 6))]
  have hidem : max (-6) (min (max (-6) (min s 6)) 6) = max (-6) (min s 6) := by omega
  rw [hidem]

/-- C4 (as stated, refuted): the multiplier of stage `-2` is `1/2`, so the
table with `mult(-2) = 0.6` does not hold. -/
theorem GetStatMultiplier_table_as_stated_fails :
    GetStatMultiplier (-2) = 1 / 2 ∧
      ¬ (GetStatMultiplier (-6) = 1 / 4 ∧ GetStatMultiplier (-2) = 3 / 5 ∧
          GetStatMultiplier 0 = 1 ∧ GetStatMultiplier 2 = 2 ∧ GetStatMultiplier 6 = 4) := by
  have h : GetStatMultiplier (-2) = 1 / 2 := by
    unfold GetStatMultiplier; norm_num
  refine ⟨h, ?_⟩
  rintro ⟨-, h2, -⟩
  rw [h] at h2
  norm_num at h2

/-- C4 (amended): `mult(-6) = 0.25`, `mult(-2) = 0.5`, `mult(0) = 1`,
`mult(2) = 2` and `mult(6) = 4`. -/
theorem GetStatMultiplier_table :
    GetStatMultiplier (-6) = 1 / 4 ∧ GetStatMultiplier (-2) = 1 / 2 ∧
      GetStatMultiplier 0 = 1 ∧ GetStatMultiplier 2 = 2 ∧ GetStatMultiplier 6 = 4 := by
  refine ⟨?_, ?_, ?_, ?_, ?_⟩ <;> (unfold GetStatMultiplier; norm_num)

/-! ## Stat formulas -/

/-- C6: for a Pokemon with a species, base stat `≥ 0`, IV in `0..31` and level
in `1..100`, `CalculateStat` is `floor(floor((2*base + iv) * level / 100 + 5) * m)`
in exact rational arithmetic, where `m` is `11/10` if the nature boosts the
stat, `9/10` if it lowers it and `1` otherwise. -/
theorem CalculateStat_formula (p : UserPokemon) (species : PokemonSpecies)
    (baseStat iv : Int) (statName : String)
    (hspecies : p.Species = some species) (hbase : 0 ≤ baseStat)
    (hiv : 0 ≤ iv ∧ iv ≤ 31) (hlevel : 1 ≤ p.Level ∧ p.Level ≤ 100) :
    p.CalculateStat baseStat iv statName =
      ⌊((⌊(((2 * baseStat + iv) * p.Level : Int) : ℚ) / 100 + 5⌋ : Int) : ℚ) *
        (if statName = (Nature.GetModifiers p.Nature).1 then (11 / 10 : ℚ)
         else if statName = (Nature.GetModifiers p.Nature).2 then 9 / 10
         else 1)⌋ := by
  unfold UserPokemon.CalculateStat
  rw [hspecies]
  simp only [Nature.GetMultiplier, goInt_goFloor]
  simp only [goFloor]

/-- C6 on the example of the claim: base 100, IV 31, level 50 gives 120 with a
neutral nature, 132 with a boosting one and 108 with a lowering one. -/
theorem CalculateStat_formula_witness :
    ({ Species := some {}, Nature := Hardy, Level := 50 } : UserPokemon).CalculateStat
        100 31 "attack" = 120 ∧
      ({ Species := some {}, Nature := Adamant, Level := 50 } : UserPokemon).CalculateStat
        100 31 "attack" = 132 ∧
      ({ Species := some {}, Nature := Modest, Level := 50 } : UserPokemon).CalculateStat
        100 31 "attack" = 108 := by
  have hfloor : (⌊(((2 * 100 + 31) * 50 : Int) : ℚ) / 100 + 5⌋ : Int) = 120 := by
    rw [Int.floor_eq_iff]; norm_num
  have hHardy : Nature.GetModifiers Hardy = ("", "") := by decide
  have hAdamant : Nature.GetModifiers Adamant = ("attack", "sp_attack") := by decide
  have hModest : Nature.GetModifiers Modest = ("sp_attack", "attack") := by decide
  have hne1 : ¬ ("attack" = "") := by decide
  have hne2 : ¬ ("attack" = "sp_attack") := by decide
  refine ⟨?_, ?_, ?_⟩
  · rw [CalculateStat_formula { Species := some {}, Nature := Hardy, Level := 50 } {} 100 31
      "attack" rfl (by norm_num) (by norm_num) (by norm_num)]
    simp only [hfloor, hHardy, hne1, if_false]
    rw [Int.floor_eq_iff]
    norm_num
  · rw [CalculateStat_formula { Species := some {}, Nature := Adamant, Level := 50 } {} 100 31
      "attack" rfl (by norm_num) (by norm_num) (by norm_num)]
    simp only [hfloor, hAdamant, if_true]
    rw [Int.floor_eq_iff]
    norm_num
  · rw [CalculateStat_formula { Species := some {}, Nature := Modest, Level := 50 } {} 100 31
      "attack" rfl (by norm_num) (by norm_num) (by norm_num)]
    simp only [hfloor, hModest, hne2, if_false, if_true]
    rw [Int.floor_eq_iff]
    norm_num

/-- C7: for a Pokemon with a species, base HP `≥ 0`, HP IV `≥ 0` and level
`≥ 1`, `CalculateHP` is `floor((2*baseHP + ivHP) * level / 100) + level + 10`,
whatever the nature; hence it is at least `level + 10` and never 0. -/
theorem CalculateHP_formula (p : UserPokemon) (species : PokemonSpecies)
    (hspecies : p.Species = some species) (hbase : 0 ≤ species.BaseHP)
    (hiv : 0 ≤ p.IVs.HP) (hlevel : 1 ≤ p.Level) :
    p.CalculateHP =
        ⌊(((2 * species.BaseHP + p.IVs.HP) * p.Level : Int) : ℚ) / 100⌋ + p.Level + 10 ∧
      (∀ n : Nature, ({ p with Nature := n } : UserPokemon).CalculateHP = p.CalculateHP) ∧
      p.Level + 10 ≤ p.CalculateHP ∧ p.CalculateHP ≠ 0 := by
  have hval : p.CalculateHP =
      ⌊(((2 * species.BaseHP + p.IVs.HP) * p.Level : Int) : ℚ) / 100⌋ + p.Level + 10 := by
    unfold UserPokemon.CalculateHP
    rw [hspecies]
    simp only [goInt_goFloor]
    have h10 : ((10 : ℚ)) = ((10 : Int) : ℚ) := by norm_num
    rw [h10, Int.floor_add_int, Int.floor_add_int]
  have hnonneg : 0 ≤ ⌊(((2 * species.BaseHP + p.IVs.HP) * p.Level : Int) : ℚ) / 100⌋ := by
    apply Int.floor_nonneg.mpr
    apply div_nonneg
    · have : 0 ≤ (2 * species.BaseHP + p.IVs.HP) * p.Level := by positivity
      exact_mod_cast this
    · norm_num
  refine ⟨hval, ?_, ?_, ?_⟩
  · intro n
    simp [UserPokemon.CalculateHP]
  · rw [hval]; omega
  · rw [hval]; omega

/-- C7 on the example of the claim: base HP 100, HP IV 31, level 50 gives 175. -/
theorem CalculateHP_formula_witness :
    ({ Species := some { BaseHP := 100 }, IVs := { HP := 31 }, Level := 50 } :
        UserPokemon).CalculateHP = 175 := by
  have h := (CalculateHP_formula
    { Species := some { BaseHP := 100 }, IVs := { HP := 31 }, Level := 50 } { BaseHP := 100 }
    rfl (by norm_num) (by norm_num) (by norm_num)).1
  rw [h]
  have hfloor : (⌊(((2 * 100 + 31) * 50 : Int) : ℚ) / 100⌋ : Int) = 115 := by
    rw [Int.floor_eq_iff]; norm_num
  simp only [hfloor]
  norm_num

/-! ## Type chart -/

/-- A successful lookup in an association list returns the value of one of
its entries. -/
theorem lookup_some_mem {β : Type} (k : String) (v : β) :
    ∀ l : List (String × β), l.lookup k = some v → (k, v) ∈ l := by
  intro l
  induction l with
  | nil => intro h; simp at h
  | cons hd tl ih =>
    intro h
    obtain ⟨k', v'⟩ := hd
    by_cases hk : k = k'
    · subst hk
      simp [List.lookup] at h
      simp [h]
    · have hb : (k == k') = false := by simpa using hk
      simp [List.lookup, hb] at h
      exact List.mem_cons_of_mem _ (ih h)

/-- Every entry of the chart is one of 0, 1/2, 1, 2. -/
theorem effectiveness_entries :
    ∀ row ∈ effectiveness, ∀ e ∈ row.2, e.2 = 0 ∨ e.2 = 1 / 2 ∨ e.2 = 1 ∨ e.2 = 2 := by
  simp only [effectiveness, List.forall_mem_cons, List.not_mem_nil, false_imp_iff,
    implies_true, and_true]
  norm_num

/-- Every single-type factor is one of 0, 1/2, 1, 2, for all type names. -/
theorem TypeEffectiveness_values (a d : PokemonType) :
    TypeEffectiveness a d = 0 ∨ TypeEffectiveness a d = 1 / 2 ∨
      TypeEffectiveness a d = 1 ∨ TypeEffectiveness a d = 2 := by
  unfold TypeEffectiveness
  cases h1 : effectiveness.lookup a with
  | none => simp
  | some typeMap =>
    cases h2 : typeMap.lookup d with
    | none => simp [h2]
    | some m =>
      have hrow := lookup_some_mem a typeMap effectiveness h1
      have he := lookup_some_mem d m typeMap h2
      simpa [h2] using effectiveness_entries _ hrow _ he

/-- C8: `CalculateTypeEffectiveness` is the single-type factor when the
second type is absent and the product of the two factors otherwise; every
single-type factor is one of 0, 0.5, 1, 2 and every dual-type result one of
0, 0.25, 0.5, 1, 2, 4. -/
theorem CalculateTypeEffectiveness_multiplicative :
    (∀ a t1 : PokemonType, CalculateTypeEffectiveness a t1 none = TypeEffectiveness a t1) ∧
      (∀ a t1 t2 : PokemonType, CalculateTypeEffectiveness a t1 (some t2) =
        TypeEffectiveness a t1 * TypeEffectiveness a t2) ∧
      (∀ a d : PokemonType, TypeEffectiveness a d = 0 ∨ TypeEffectiveness a d = 1 / 2 ∨
        TypeEffectiveness a d = 1 ∨ TypeEffectiveness a d = 2) ∧
      (∀ a t1 t2 : PokemonType,
        CalculateTypeEffectiveness a t1 (some t2) = 0 ∨
        CalculateTypeEffectiveness a t1 (some t2) = 1 / 4 ∨
        CalculateTypeEffectiveness a t1 (some t2) = 1 / 2 ∨
        CalculateTypeEffectiveness a t1 (some t2) = 1 ∨
        CalculateTypeEffectiveness a t1 (some t2) = 2 ∨
        CalculateTypeEffectiveness a t1 (some t2) = 4) := by
  refine ⟨fun a t1 => rfl, fun a t1 t2 => rfl, TypeEffectiveness_values, ?_⟩
  intro a t1 t2
  have h1 := TypeEffectiveness_values a t1
  have h2 := TypeEffectiveness_values a t2
  have hprod : CalculateTypeEffectiveness a t1 (some t2) =
      TypeEffectiveness a t1 * TypeEffectiveness a t2 := rfl
  rw [hprod]
  rcases h1 with h1 | h1 | h1 | h1 <;> rcases h2 with h2 | h2 | h2 | h2 <;>
    rw [h1, h2] <;> norm_num

/-! ## Damage calculator -/

namespace DamageCalculator

/-- The damage reported by `finishResult` is the floor with a minimum of 1. -/
theorem finishResult_Damage (ctx : DamageContext) (result : DamageResult) (d : ℚ) :
    (finishResult ctx result d).Damage = max 1 ⌊d⌋ := by
  have h : (if goInt (goFloor d) < 1 then 1 else goInt (goFloor d)) = max 1 ⌊d⌋ := by
    rw [goInt_goFloor]
    split_ifs with h <;> omega
  unfold finishResult
  simp only [h]
  split_ifs <;> rfl

/-- The type effectiveness does not depend on the critical-hit flag. -/
theorem CalculateTypeEffectiveness_crit (ctx : DamageContext) (crit : Bool) :
    CalculateTypeEffectiveness { ctx with IsCriticalHit := crit } =
      CalculateTypeEffectiveness ctx := rfl

/-- For a move that is not a status move, hits and is not fully resisted,
`CalculateDamage` is the base formula with its modifiers followed by
`finishResult`, on the context with the critical flag and the roll drawn. -/
theorem CalculateDamage_connects (rng : Rand) (ctx : DamageContext)
    (hcat : ctx.Move.Category ≠ Status) (hhit : (CheckAccuracy rng ctx).1 = true)
    (heff : CalculateTypeEffectiveness ctx ≠ 0) :
    CalculateDamage rng ctx =
      (damageBeforeFloor (rolledContext rng ctx) (CalculateTypeEffectiveness ctx)).map
        (fun d => (finishResult (rolledContext rng ctx)
          { IsCritical := (rolledContext rng ctx).IsCriticalHit,
            Effectiveness := CalculateTypeEffectiveness ctx,
            RandomRoll := (rolledContext rng ctx).RandomRoll } d,
          ((CheckCriticalHit (CheckAccuracy rng ctx).2 ctx).2.Intn 16).2)) := by
  unfold CalculateDamage
  simp only [hcat, if_false, hhit, Bool.not_true, Bool.false_eq_true,
    CalculateTypeEffectiveness_crit, heff]
  unfold rolledContext
  simp only []
  cases damageBeforeFloor _ _ <;> rfl


/-! ### No panic when `MaxHP` is not zero -/

/-- The HP-threshold test does not panic when `MaxHP` is not zero. -/
theorem hpThresholdFails_isSome (t : Int) (c : String) (cur maxHP : Int) (h : maxHP ≠ 0) :
    ∃ b, hpThresholdFails t c cur maxHP = some b := by
  unfold hpThresholdFails goDiv
  simp only [h, if_false]
  split_ifs <;> exact ⟨_, rfl⟩

/-- An ability condition is evaluated without a panic when `MaxHP` is not zero. -/
theorem EffectCondition_MeetsCondition_isSome (c : EffectCondition) (bc : BattleContext)
    (h : bc.MaxHP ≠ 0) : ∃ b, c.MeetsCondition bc = some b := by
  obtain ⟨b, hb⟩ := hpThresholdFails_isSome c.HPThreshold c.HPComparison bc.CurrentHP bc.MaxHP h
  unfold EffectCondition.MeetsCondition
  rw [hb]
  cases b
  · simp only []
    split_ifs <;> exact ⟨_, rfl⟩
  · exact ⟨_, rfl⟩

/-- An item condition is evaluated without a panic when `MaxHP` is not zero. -/
theorem ItemCondition_MeetsCondition_isSome (c : ItemCondition) (ic : ItemContext)
    (h : ic.MaxHP ≠ 0) : ∃ b, c.MeetsCondition ic = some b := by
  obtain ⟨b, hb⟩ := hpThresholdFails_isSome c.HPThreshold c.HPComparison ic.CurrentHP ic.MaxHP h
  unfold ItemCondition.MeetsCondition
  rw [hb]
  cases b
  · simp only [goDiv, h, if_false, Option.map_some']
    cases hp : c.IsPinchBerry <;> simp only [Bool.false_eq_true, if_false, if_true]
    · split_ifs <;> exact ⟨_, rfl⟩
    · split
      · rename_i hnone; simp at hnone
      · exact ⟨_, rfl⟩
      · split_ifs <;> exact ⟨_, rfl⟩
  · exact ⟨_, rfl⟩

/-- The ability loop of the attack stat ends without a panic. -/
theorem attackAbilityLoop_isSome (category : MoveCategory) (bc : BattleContext)
    (h : bc.MaxHP ≠ 0) :
    ∀ (l : List AbilityEffect) (stat : ℚ), ∃ q, attackAbilityLoop category bc l stat = some q := by
  intro l
  induction l with
  | nil => intro stat; exact ⟨stat, rfl⟩
  | cons e rest ih =>
    intro stat
    unfold attackAbilityLoop
    split_ifs
    · cases hc : e.Condition with
      | none => exact ih _
      | some c =>
        obtain ⟨b, hb⟩ := EffectCondition_MeetsCondition_isSome c bc h
        simp only [hb]
        cases b
        · exact ih _
        · exact ih _
    · exact ih _

/-- The ability loop of the defense stat ends without a panic. -/
theorem defenseAbilityLoop_isSome (bc : BattleContext) (h : bc.MaxHP ≠ 0) :
    ∀ (l : List AbilityEffect) (stat : ℚ), ∃ q, defenseAbilityLoop bc l stat = some q := by
  intro l
  induction l with
  | nil => intro stat; exact ⟨stat, rfl⟩
  | cons e rest ih =>
    intro stat
    unfold defenseAbilityLoop
    split_ifs
    · cases hc : e.Condition with
      | none => exact ih _
      | some c =>
        obtain ⟨b, hb⟩ := EffectCondition_MeetsCondition_isSome c bc h
        simp only [hb]
        cases b
        · exact ih _
        · exact ih _
    · exact ih _

/-- The item loop ends without a panic. -/
theorem itemLoop_isSome (moveType : PokemonType) (ic : ItemContext) (h : ic.MaxHP ≠ 0) :
    ∀ (l : List ItemEffect) (m : ℚ), ∃ q, itemLoop moveType ic l m = some q := by
  intro l
  induction l with
  | nil => intro m; exact ⟨m, rfl⟩
  | cons e rest ih =>
    intro m
    have happ : ∃ b, e.AppliesInContext ic = some b := by
      unfold ItemEffect.AppliesInContext
      cases e.Condition with
      | none => exact ⟨_, rfl⟩
      | some c => exact ItemCondition_MeetsCondition_isSome c ic h
    obtain ⟨b, hb⟩ := happ
    unfold itemLoop
    rw [hb]
    cases b
    · exact ih _
    · exact ih _

/-- The attacker loop of the ability modifier ends without a panic. -/
theorem abilityAttackerLoop_isSome (moveType : PokemonType) (category : MoveCategory)
    (bc : BattleContext) (h : bc.MaxHP ≠ 0) :
    ∀ (l : List AbilityEffect) (m : ℚ),
      ∃ q, abilityAttackerLoop moveType category bc l m = some q := by
  intro l
  induction l with
  | nil => intro m; exact ⟨m, rfl⟩
  | cons e rest ih =>
    intro m
    have hcond : ∃ b, (match e.Condition with
        | none => some true
        | some c => c.MeetsCondition bc) = some b := by
      cases e.Condition with
      | none => exact ⟨_, rfl⟩
      | some c => exact EffectCondition_MeetsCondition_isSome c bc h
    obtain ⟨b, hb⟩ := hcond
    unfold abilityAttackerLoop
    rw [hb]
    cases b
    · simp only []
      split_ifs <;> exact ih _
    · simp only []
      split_ifs <;> exact ih _

/-- The effective attack stat is computed without a panic. -/
theorem GetEffectiveAttackStat_isSome (ctx : DamageContext) (h : ctx.Attacker.MaxHP ≠ 0) :
    ∃ a, GetEffectiveAttackStat ctx = some a := by
  unfold GetEffectiveAttackStat
  cases hab : ctx.AttackerAbility with
  | none => exact ⟨_, rfl⟩
  | some ability =>
    simp only []
    obtain ⟨q, hq⟩ := attackAbilityLoop_isSome ctx.Move.Category
      { CurrentHP := ctx.Attacker.CurrentHP, MaxHP := ctx.Attacker.MaxHP,
        Status := ctx.Attacker.Status, Weather := ctx.Weather,
        MoveCategory := ctx.Move.Category, MoveType := ctx.Move.Type_ } h ability.Effects
      ((((attackBase ctx).1 : Int) : ℚ) * GetStatMultiplier (attackBase ctx).2)
    rw [hq]
    exact ⟨_, rfl⟩

/-- The effective defense stat is computed without a panic. -/
theorem GetEffectiveDefenseStat_isSome (ctx : DamageContext) (h : ctx.Defender.MaxHP ≠ 0) :
    ∃ a, GetEffectiveDefenseStat ctx = some a := by
  unfold GetEffectiveDefenseStat
  cases hab : ctx.DefenderAbility with
  | none => exact ⟨_, rfl⟩
  | some ability =>
    simp only []
    obtain ⟨q, hq⟩ := defenseAbilityLoop_isSome
      { CurrentHP := ctx.Defender.CurrentHP, MaxHP := ctx.Defender.MaxHP,
        Status := ctx.Defender.Status, Weather := ctx.Weather } h ability.Effects
      ((((defenseBase ctx).1 : Int) : ℚ) * GetStatMultiplier (defenseBase ctx).2)
    rw [hq]
    exact ⟨_, rfl⟩

/-- The item modifier is computed without a panic. -/
theorem GetItemModifier_isSome (ctx : DamageContext) (h : ctx.Attacker.MaxHP ≠ 0) :
    ∃ m, GetItemModifier ctx = some m := by
  unfold GetItemModifier
  cases ctx.AttackerItem with
  | none => exact ⟨_, rfl⟩
  | some item => exact itemLoop_isSome _ _ h _ _

/-- The ability modifier is computed without a panic. -/
theorem GetAbilityModifier_isSome (ctx : DamageContext) (h : ctx.Attacker.MaxHP ≠ 0) :
    ∃ m, GetAbilityModifier ctx = some m := by
  unfold GetAbilityModifier
  cases ctx.AttackerAbility with
  | none => exact ⟨_, rfl⟩
  | some ability =>
    obtain ⟨q, hq⟩ := abilityAttackerLoop_isSome ctx.Move.Type_ ctx.Move.Category
      { CurrentHP := ctx.Attacker.CurrentHP, MaxHP := ctx.Attacker.MaxHP,
        Status := ctx.Attacker.Status, Weather := ctx.Weather, Terrain := ctx.Terrain,
        MoveCategory := ctx.Move.Category, MoveType := ctx.Move.Type_,
        TurnNumber := ctx.Turn } h ability.Effects 1
    simp only [hq]
    cases ctx.DefenderAbility <;> exact ⟨_, rfl⟩

/-- The base formula and the modifiers produce a value whenever no `MaxHP` is
zero and the effective defense stat is not zero. -/
theorem damageBeforeFloor_isSome (ctx : DamageContext) (eff : ℚ)
    (hA : ctx.Attacker.MaxHP ≠ 0) (hD : ctx.Defender.MaxHP ≠ 0)
    (hdef : GetEffectiveDefenseStat ctx ≠ some 0) :
    ∃ d, damageBeforeFloor ctx eff = some d := by
  obtain ⟨a, ha⟩ := GetEffectiveAttackStat_isSome ctx hA
  obtain ⟨b, hb⟩ := GetEffectiveDefenseStat_isSome ctx hD
  obtain ⟨i, hi⟩ := GetItemModifier_isSome ctx hA
  obtain ⟨m, hm⟩ := GetAbilityModifier_isSome ctx hA
  have hb0 : b ≠ 0 := by
    intro h0; apply hdef; rw [hb, h0]
  unfold damageBeforeFloor goDiv
  simp only [ha, hb, hi, hm, hb0, if_false]
  exact ⟨_, rfl⟩

/-- The type effectiveness of a context is never negative. -/
theorem CalculateTypeEffectiveness_nonneg (ctx : DamageContext) :
    0 ≤ CalculateTypeEffectiveness ctx := by
  unfold CalculateTypeEffectiveness GoBattleServer.CalculateTypeEffectiveness
  have h1 := TypeEffectiveness_values ctx.Move.Type_ ctx.Defender.Species.Type1
  have hn1 : 0 ≤ TypeEffectiveness ctx.Move.Type_ ctx.Defender.Species.Type1 := by
    rcases h1 with h | h | h | h <;> rw [h] <;> norm_num
  cases ht : ctx.Defender.Species.Type2 with
  | none => simpa using hn1
  | some t2 =>
    have h2 := TypeEffectiveness_values ctx.Move.Type_ t2
    have hn2 : 0 ≤ TypeEffectiveness ctx.Move.Type_ t2 := by
      rcases h2 with h | h | h | h <;> rw [h] <;> norm_num
    simpa using mul_nonneg hn1 hn2

/-- A status move, a miss and an immunity return Damage 0, without a panic. -/
theorem CalculateDamage_zero_cases (rng : Rand) (ctx : DamageContext)
    (h : ctx.Move.Category = Status ∨ (CheckAccuracy rng ctx).1 = false ∨
      CalculateTypeEffectiveness ctx = 0) :
    ∃ res rng', CalculateDamage rng ctx = some (res, rng') ∧ res.Damage = 0 := by
  by_cases hcat : ctx.Move.Category = Status
  · unfold CalculateDamage
    simp only [hcat, if_true]
    exact ⟨_, _, rfl, rfl⟩
  · by_cases hhit : (CheckAccuracy rng ctx).1 = true
    · have heff : CalculateTypeEffectiveness ctx = 0 := by
        rcases h with h | h | h
        · exact absurd h hcat
        · rw [hhit] at h; exact absurd h (by simp)
        · exact h
      unfold CalculateDamage
      simp only [hcat, if_false, hhit, Bool.not_true, Bool.false_eq_true,
        CalculateTypeEffectiveness_crit, heff, if_true]
      exact ⟨_, _, rfl, rfl⟩
    · have hhit' : (CheckAccuracy rng ctx).1 = false := by simpa using hhit
      unfold CalculateDamage
      simp only [hcat, if_false, hhit', Bool.not_false, if_true]
      exact ⟨_, _, rfl, rfl⟩

/-- A move that is not a status move, hits and is not fully resisted returns
a Damage of at least 1 whenever it returns. -/
theorem CalculateDamage_connects_ge_one (rng : Rand) (ctx : DamageContext)
    (hcat : ctx.Move.Category ≠ Status) (hhit : (CheckAccuracy rng ctx).1 = true)
    (heff : CalculateTypeEffectiveness ctx ≠ 0) (res : DamageResult) (rng' : Rand)
    (hres : CalculateDamage rng ctx = some (res, rng')) : 1 ≤ res.Damage := by
  rw [CalculateDamage_connects rng ctx hcat hhit heff] at hres
  cases hd : damageBeforeFloor (rolledContext rng ctx) (CalculateTypeEffectiveness ctx) with
  | none => rw [hd] at hres; simp at hres
  | some d =>
    rw [hd] at hres
    simp only [Option.map_some', Option.some.injEq, Prod.mk.injEq] at hres
    rw [← hres.1, finishResult_Damage]
    exact le_max_left _ _

/-- A returned Damage is never negative. -/
theorem CalculateDamage_Damage_nonneg (rng : Rand) (ctx : DamageContext)
    (res : DamageResult) (rng' : Rand) (hres : CalculateDamage rng ctx = some (res, rng')) :
    0 ≤ res.Damage := by
  by_cases hcase : ctx.Move.Category = Status ∨ (CheckAccuracy rng ctx).1 = false ∨
      CalculateTypeEffectiveness ctx = 0
  · obtain ⟨res0, rng0, h0, hd0⟩ := CalculateDamage_zero_cases rng ctx hcase
    rw [h0] at hres
    simp only [Option.some.injEq, Prod.mk.injEq] at hres
    rw [← hres.1, hd0]
  · push_neg at hcase
    have hhit : (CheckAccuracy rng ctx).1 = true := by simpa using hcase.2.1
    have := CalculateDamage_connects_ge_one rng ctx hcase.1 hhit hcase.2.2 res rng' hres
    omega

/-- C1: a status move, a miss and an immunity return Damage 0; a physical or
special move whose accuracy check passes, with effectiveness greater than 0
and a non-zero effective defense stat (and combatants whose MaxHP is not 0),
returns Damage at least 1; the effectiveness is never negative, so these are
all the cases, and a returned Damage is never negative. -/
theorem CalculateDamage_damage_cases (rng : Rand) (ctx : DamageContext) :
    ((ctx.Move.Category = Status ∨ (CheckAccuracy rng ctx).1 = false ∨
        CalculateTypeEffectiveness ctx = 0) →
      ∃ res rng', CalculateDamage rng ctx = some (res, rng') ∧ res.Damage = 0) ∧
    ((ctx.Move.Category = Physical ∨ ctx.Move.Category = Special) →
      (CheckAccuracy rng ctx).1 = true → 0 < CalculateTypeEffectiveness ctx →
      ctx.Attacker.MaxHP ≠ 0 → ctx.Defender.MaxHP ≠ 0 →
      GetEffectiveDefenseStat (rolledContext rng ctx) ≠ some 0 →
      ∃ res rng', CalculateDamage rng ctx = some (res, rng') ∧ 1 ≤ res.Damage) ∧
    0 ≤ CalculateTypeEffectiveness ctx ∧
    (∀ res rng', CalculateDamage rng ctx = some (res, rng') → 0 ≤ res.Damage) := by
  refine ⟨CalculateDamage_zero_cases rng ctx, ?_, CalculateTypeEffectiveness_nonneg ctx,
    CalculateDamage_Damage_nonneg rng ctx⟩
  intro hcat hhit heff hA hD hdef
  have hcat' : ctx.Move.Category ≠ Status := by
    rcases hcat with h | h <;> rw [h] <;> decide
  have heff' : CalculateTypeEffectiveness ctx ≠ 0 := ne_of_gt heff
  obtain ⟨d, hd⟩ := damageBeforeFloor_isSome (rolledContext rng ctx)
    (CalculateTypeEffectiveness ctx) hA hD hdef
  have hres := CalculateDamage_connects rng ctx hcat' hhit heff'
  rw [hd] at hres
  exact ⟨_, _, hres, CalculateDamage_connects_ge_one rng ctx hcat' hhit heff' _ _ hres⟩

/-- The stage multiplier of stage 0 is 1. -/
theorem GetStatMultiplier_zero : GetStatMultiplier 0 = 1 := by
  unfold GetStatMultiplier; norm_num

/-- Converting an integer-valued `float64` back gives the integer. -/
theorem goInt_intCast (n : Int) : goInt ((n : Int) : ℚ) = n := by
  unfold goInt
  split_ifs <;> simp

/-- With no ability, no item, no weather, no terrain, no burn and the stages
of the stats in play at 0, the damage before flooring is the base formula
times the critical, roll, STAB and effectiveness factors. -/
theorem damageBeforeFloor_plain (ctx : DamageContext) (eff : ℚ)
    (hcat : ctx.Move.Category = Physical ∨ ctx.Move.Category = Special)
    (hAb : ctx.AttackerAbility = none) (hItem : ctx.AttackerItem = none)
    (hDefAb : ctx.DefenderAbility = none)
    (hweather : ctx.Weather = WeatherNone) (hterrain : ctx.Terrain = TerrainNone)
    (hburn : ctx.Attacker.Status ≠ StatusBurn)
    (hstA : ctx.Attacker.StatStages = {}) (hstD : ctx.Defender.StatStages = {})
    (hdef : (defenseBase ctx).1 ≠ 0) :
    damageBeforeFloor ctx eff =
      some ((((baseQuotient ctx : Int) : ℚ) / 50 + 2) *
        (if ctx.IsCriticalHit then 3 / 2 else 1) * ((ctx.RandomRoll : Int) : ℚ) / 100 *
        GetSTABModifier ctx * eff) := by
  have hA2 : (attackBase ctx).2 = 0 := by
    unfold attackBase; rw [hstA]; split_ifs <;> rfl
  have hD2 : (defenseBase ctx).2 = 0 := by
    unfold defenseBase; rw [hstD]; split_ifs <;> rfl
  have hatk : GetEffectiveAttackStat ctx = some (attackBase ctx).1 := by
    unfold GetEffectiveAttackStat
    simp only [hAb, hA2, GetStatMultiplier_zero, mul_one, Option.map_some', goInt_intCast]
  have hdf : GetEffectiveDefenseStat ctx = some (defenseBase ctx).1 := by
    unfold GetEffectiveDefenseStat
    simp only [hDefAb, hD2, GetStatMultiplier_zero, mul_one, Option.map_some', goInt_intCast]
  have hw : GetWeatherModifier ctx = 1 := by
    unfold GetWeatherModifier; rw [hweather]; simp [WeatherNone, WeatherSun, WeatherRain]
  have ht : GetTerrainModifier ctx = 1 := by
    unfold GetTerrainModifier; rw [hterrain, hAb]
    simp [TerrainNone, TerrainElectric, TerrainGrassy, TerrainPsychic]
  have hi : GetItemModifier ctx = some 1 := by
    unfold GetItemModifier; rw [hItem]
  have ha : GetAbilityModifier ctx = some 1 := by
    unfold GetAbilityModifier; rw [hAb]
  unfold damageBeforeFloor goDiv baseQuotient
  simp only [hatk, hdf, hdef, if_false, hw, ht, hi, ha, hburn, false_and, mul_one]
  by_cases hc : ctx.IsCriticalHit = true
  · simp [hc]
  · simp [hc]

/-- Replacing the defender's types commutes with drawing the critical hit
and the roll. -/
theorem rolledContext_withDefenderTypes (rng : Rand) (ctx : DamageContext)
    (t1 : PokemonType) (t2 : Option PokemonType) :
    rolledContext rng (withDefenderTypes ctx t1 t2) =
      withDefenderTypes (rolledContext rng ctx) t1 t2 := rfl

/-- The random roll of the damage formula is at least 85. -/
theorem rolledContext_roll_ge (rng : Rand) (ctx : DamageContext) :
    85 ≤ (rolledContext rng ctx).RandomRoll := by
  unfold rolledContext Rand.Intn
  simp only []
  omega

/-- The STAB modifier is at least 1. -/
theorem GetSTABModifier_ge_one (ctx : DamageContext) : 1 ≤ GetSTABModifier ctx := by
  unfold GetSTABModifier
  simp only []
  split_ifs
  · norm_num
  · cases ctx.AttackerAbility with
    | none => norm_num
    | some a => simp only []; split_ifs <;> norm_num

/-- Twice a value of at least 17/10 floors, with the minimum of 1, strictly
above half of it. -/
theorem floor_quadruple_gt (y : ℚ) (hy : 17 / 10 ≤ y) :
    max 1 ⌊y * (1 / 2)⌋ < max 1 ⌊y * 2⌋ := by
  have h1 : ⌊y * (1 / 2)⌋ + 1 ≤ ⌊y * 2⌋ := by
    rw [Int.le_floor]
    have := Int.floor_le (y * (1 / 2))
    push_cast
    linarith
  have h3 : (3 : Int) ≤ ⌊y * 2⌋ := by
    rw [Int.le_floor]
    push_cast
    linarith
  omega

/-- C9: with no ability or item, no weather, no terrain, no burn, no stage
changes, the same random source (hence the same critical outcome and roll),
for a well-formed attacker and move (level at least 1, power, attack stat not
negative, defense stat positive) that connects, the damage against a defender
of type effectiveness 2 is strictly more than against an otherwise identical
defender of type effectiveness 1/2. -/
theorem super_effective_exceeds_resisted (rng : Rand) (ctx : DamageContext)
    (s1 : PokemonType) (s2 : Option PokemonType) (r1 : PokemonType) (r2 : Option PokemonType)
    (hcat : ctx.Move.Category = Physical ∨ ctx.Move.Category = Special)
    (hAb : ctx.AttackerAbility = none) (hItem : ctx.AttackerItem = none)
    (hDefAb : ctx.DefenderAbility = none) (hDefItem : ctx.DefenderItem = none)
    (hweather : ctx.Weather = WeatherNone) (hterrain : ctx.Terrain = TerrainNone)
    (hburn : ctx.Attacker.Status ≠ StatusBurn)
    (hstA : ctx.Attacker.StatStages = {}) (hstD : ctx.Defender.StatStages = {})
    (hlevel : 1 ≤ ctx.Attacker.Level) (hpower : 0 ≤ ctx.Move.Power)
    (hatk : 0 ≤ (attackBase ctx).1) (hdef : 0 < (defenseBase ctx).1)
    (hhit : (CheckAccuracy rng ctx).1 = true)
    (hsuper : CalculateTypeEffectiveness (withDefenderTypes ctx s1 s2) = 2)
    (hresist : CalculateTypeEffectiveness (withDefenderTypes ctx r1 r2) = 1 / 2) :
    ∃ rs rr rngs rngr,
      CalculateDamage rng (withDefenderTypes ctx s1 s2) = some (rs, rngs) ∧
      CalculateDamage rng (withDefenderTypes ctx r1 r2) = some (rr, rngr) ∧
      rr.Damage < rs.Damage := by
  have hcat' : ctx.Move.Category ≠ Status := by
    rcases hcat with h | h <;> rw [h] <;> decide
  -- the stats the formula uses do not depend on the critical flag or the roll
  have hm : (rolledContext rng ctx).Move = ctx.Move := rfl
  have ha : (rolledContext rng ctx).Attacker = ctx.Attacker := rfl
  have hd : (rolledContext rng ctx).Defender = ctx.Defender := rfl
  have hA1 : (attackBase (rolledContext rng ctx)).1 = (attackBase ctx).1 := by
    unfold attackBase; rw [hm, ha]; split_ifs <;> rfl
  have hD1 : (defenseBase (rolledContext rng ctx)).1 = (defenseBase ctx).1 := by
    unfold defenseBase; rw [hm, hd]; split_ifs <;> rfl
  have hdef' : (defenseBase (rolledContext rng ctx)).1 ≠ 0 := by rw [hD1]; omega
  have hplain : ∀ (t1 : PokemonType) (t2 : Option PokemonType) (eff : ℚ),
      damageBeforeFloor (rolledContext rng (withDefenderTypes ctx t1 t2)) eff =
        some ((((baseQuotient (rolledContext rng ctx) : Int) : ℚ) / 50 + 2) *
          (if (rolledContext rng ctx).IsCriticalHit then 3 / 2 else 1) *
          (((rolledContext rng ctx).RandomRoll : Int) : ℚ) / 100 *
          GetSTABModifier (rolledContext rng ctx) * eff) := by
    intro t1 t2 eff
    rw [rolledContext_withDefenderTypes]
    exact damageBeforeFloor_plain (withDefenderTypes (rolledContext rng ctx) t1 t2) eff
      hcat hAb hItem hDefAb hweather hterrain hburn hstA hstD hdef'
  -- the common factor is at least 17/10
  have hq : 0 ≤ baseQuotient (rolledContext rng ctx) := by
    unfold baseQuotient
    rw [hA1, hD1]
    apply Int.tdiv_nonneg _ (le_of_lt hdef)
    have h5 : 0 ≤ (2 * ctx.Attacker.Level).tdiv 5 := Int.tdiv_nonneg (by omega) (by norm_num)
    have hl : 0 ≤ (2 * (rolledContext rng ctx).Attacker.Level).tdiv 5 + 2 := by
      show 0 ≤ (2 * ctx.Attacker.Level).tdiv 5 + 2
      omega
    exact mul_nonneg (mul_nonneg hl hpower) hatk
  have hroll := rolledContext_roll_ge rng ctx
  have hstab := GetSTABModifier_ge_one (rolledContext rng ctx)
  have hy : (17 : ℚ) / 10 ≤
      (((baseQuotient (rolledContext rng ctx) : Int) : ℚ) / 50 + 2) *
        (if (rolledContext rng ctx).IsCriticalHit then 3 / 2 else 1) *
        (((rolledContext rng ctx).RandomRoll : Int) : ℚ) / 100 *
        GetSTABModifier (rolledContext rng ctx) := by
    have hb : (2 : ℚ) ≤ ((baseQuotient (rolledContext rng ctx) : Int) : ℚ) / 50 + 2 := by
      have : (0 : ℚ) ≤ ((baseQuotient (rolledContext rng ctx) : Int) : ℚ) := by exact_mod_cast hq
      linarith [div_nonneg this (by norm_num : (0 : ℚ) ≤ 50)]
    have hc : (1 : ℚ) ≤ (if (rolledContext rng ctx).IsCriticalHit then (3 / 2 : ℚ) else 1) := by
      split_ifs <;> norm_num
    have hr : (85 : ℚ) ≤ (((rolledContext rng ctx).RandomRoll : Int) : ℚ) := by
      exact_mod_cast hroll
    have h1 : (2 : ℚ) ≤ (((baseQuotient (rolledContext rng ctx) : Int) : ℚ) / 50 + 2) *
        (if (rolledContext rng ctx).IsCriticalHit then 3 / 2 else 1) := by nlinarith
    have h2 : (170 : ℚ) ≤ (((baseQuotient (rolledContext rng ctx) : Int) : ℚ) / 50 + 2) *
        (if (rolledContext rng ctx).IsCriticalHit then 3 / 2 else 1) *
        (((rolledContext rng ctx).RandomRoll : Int) : ℚ) := by nlinarith
    have h3 : (17 : ℚ) / 10 ≤ (((baseQuotient (rolledContext rng ctx) : Int) : ℚ) / 50 + 2) *
        (if (rolledContext rng ctx).IsCriticalHit then 3 / 2 else 1) *
        (((rolledContext rng ctx).RandomRoll : Int) : ℚ) / 100 := by
      rw [le_div_iff₀ (by norm_num : (0 : ℚ) < 100)]; linarith
    nlinarith
  have hs := CalculateDamage_connects rng (withDefenderTypes ctx s1 s2) hcat' hhit
    (by rw [hsuper]; norm_num)
  have hr := CalculateDamage_connects rng (withDefenderTypes ctx r1 r2) hcat' hhit
    (by rw [hresist]; norm_num)
  rw [hsuper, hplain] at hs
  rw [hresist, hplain] at hr
  refine ⟨_, _, _, _, hs, hr, ?_⟩
  rw [finishResult_Damage, finishResult_Damage]
  exact floor_quadruple_gt _ hy

/-! ### Burn -/

/-- A condition that requires no status is indifferent to the status. -/
theorem EffectCondition_MeetsCondition_status (c : EffectCondition) (bc : BattleContext)
    (s : StatusCondition) (h : c.RequiredStatus = "") :
    c.MeetsCondition { bc with Status := s } = c.MeetsCondition bc := by
  unfold EffectCondition.MeetsCondition
  simp only [h, ne_eq, not_true_eq_false, false_and, if_false]

/-- An item condition that requires no status is indifferent to the status. -/
theorem ItemCondition_MeetsCondition_status (c : ItemCondition) (ic : ItemContext)
    (s : StatusCondition) (h : c.HasStatus = "") :
    c.MeetsCondition { ic with Status := s } = c.MeetsCondition ic := by
  unfold ItemCondition.MeetsCondition
  simp only [h, ne_eq, not_true_eq_false, false_and, if_false]

/-- The ability loop of the attack stat does not depend on the status when no
effect is conditioned on one. -/
theorem attackAbilityLoop_status (category : MoveCategory) (bc : BattleContext)
    (s : StatusCondition) :
    ∀ l : List AbilityEffect,
      (∀ e ∈ l, ∀ c, e.Condition = some c → c.RequiredStatus = "") →
      ∀ stat, attackAbilityLoop category { bc with Status := s } l stat =
        attackAbilityLoop category bc l stat := by
  intro l
  induction l with
  | nil => intro _ stat; rfl
  | cons e rest ih =>
    intro hl stat
    have ih' := ih (fun e' he' => hl e' (List.mem_cons_of_mem _ he'))
    unfold attackAbilityLoop
    cases hc : e.Condition with
    | none => simp only [ih']
    | some c =>
      have hs := hl e (List.mem_cons_self _ _) c hc
      simp only [EffectCondition_MeetsCondition_status c bc s hs, ih']

/-- The attacker loop of the ability modifier does not depend on the status
when no effect is conditioned on one. -/
theorem abilityAttackerLoop_status (moveType : PokemonType) (category : MoveCategory)
    (bc : BattleContext) (s : StatusCondition) :
    ∀ l : List AbilityEffect,
      (∀ e ∈ l, ∀ c, e.Condition = some c → c.RequiredStatus = "") →
      ∀ m, abilityAttackerLoop moveType category { bc with Status := s } l m =
        abilityAttackerLoop moveType category bc l m := by
  intro l
  induction l with
  | nil => intro _ m; rfl
  | cons e rest ih =>
    intro hl m
    have ih' := ih (fun e' he' => hl e' (List.mem_cons_of_mem _ he'))
    unfold abilityAttackerLoop
    cases hc : e.Condition with
    | none => simp only [ih']
    | some c =>
      have hs := hl e (List.mem_cons_self _ _) c hc
      simp only [EffectCondition_MeetsCondition_status c bc s hs, ih']

/-- The item loop does not depend on the status when no effect is conditioned
on one. -/
theorem itemLoop_status (moveType : PokemonType) (ic : ItemContext) (s : StatusCondition) :
    ∀ l : List ItemEffect,
      (∀ e ∈ l, ∀ c, e.Condition = some c → c.HasStatus = "") →
      ∀ m, itemLoop moveType { ic with Status := s } l m = itemLoop moveType ic l m := by
  intro l
  induction l with
  | nil => intro _ m; rfl
  | cons e rest ih =>
    intro hl m
    have ih' := ih (fun e' he' => hl e' (List.mem_cons_of_mem _ he'))
    have happ : e.AppliesInContext { ic with Status := s } = e.AppliesInContext ic := by
      unfold ItemEffect.AppliesInContext
      cases hc : e.Condition with
      | none => rfl
      | some c =>
        exact ItemCondition_MeetsCondition_status c ic s (hl e (List.mem_cons_self _ _) c hc)
    unfold itemLoop
    simp only [happ, ih']

/-- The Boolean check on the ability, as a statement about its effects. -/
theorem abilityIgnoresStatus_spec (ability : Option Ability)
    (h : abilityIgnoresStatus ability = true) :
    ∀ a, ability = some a → ∀ e ∈ a.Effects, ∀ c, e.Condition = some c →
      c.RequiredStatus = "" := by
  intro a ha e he c hc
  rw [ha] at h
  simp only [abilityIgnoresStatus, List.all_eq_true] at h
  have := h e he
  rw [hc] at this
  simpa using this

/-- The Boolean check on the item, as a statement about its effects. -/
theorem itemIgnoresStatus_spec (item : Option HeldItem) (h : itemIgnoresStatus item = true) :
    ∀ i, item = some i → ∀ e ∈ i.Effects, ∀ c, e.Condition = some c → c.HasStatus = "" := by
  intro i hi e he c hc
  rw [hi] at h
  simp only [itemIgnoresStatus, List.all_eq_true] at h
  have := h e he
  rw [hc] at this
  simpa using this

/-- The effective attack stat does not depend on the attacker's status when
no ability effect is conditioned on one. -/
theorem GetEffectiveAttackStat_status (c : DamageContext) (s : StatusCondition)
    (hAb : abilityIgnoresStatus c.AttackerAbility = true) :
    GetEffectiveAttackStat (withAttackerStatus c s) = GetEffectiveAttackStat c := by
  unfold GetEffectiveAttackStat
  have hbase : attackBase (withAttackerStatus c s) = attackBase c := rfl
  rw [hbase]
  cases hab : c.AttackerAbility with
  | none =>
    have : (withAttackerStatus c s).AttackerAbility = none := hab
    simp only [this]
  | some a =>
    have : (withAttackerStatus c s).AttackerAbility = some a := hab
    simp only [this]
    have hl := attackAbilityLoop_status c.Move.Category
      { CurrentHP := c.Attacker.CurrentHP, MaxHP := c.Attacker.MaxHP,
        Status := c.Attacker.Status, Weather := c.Weather,
        MoveCategory := c.Move.Category, MoveType := c.Move.Type_ } s a.Effects
      (abilityIgnoresStatus_spec _ hAb a hab)
      ((((attackBase c).1 : Int) : ℚ) * GetStatMultiplier (attackBase c).2)
    exact congrArg (Option.map goInt) hl

/-- The item modifier does not depend on the attacker's status when no item
effect is conditioned on one. -/
theorem GetItemModifier_status (c : DamageContext) (s : StatusCondition)
    (hItem : itemIgnoresStatus c.AttackerItem = true) :
    GetItemModifier (withAttackerStatus c s) = GetItemModifier c := by
  unfold GetItemModifier
  cases hit : c.AttackerItem with
  | none =>
    have : (withAttackerStatus c s).AttackerItem = none := hit
    simp only [this]
  | some i =>
    have : (withAttackerStatus c s).AttackerItem = some i := hit
    simp only [this]
    exact itemLoop_status c.Move.Type_
      { CurrentHP := c.Attacker.CurrentHP, MaxHP := c.Attacker.MaxHP,
        Status := c.Attacker.Status, MoveCategory := c.Move.Category,
        MoveType := c.Move.Type_,
        IsFullHP := decide (c.Attacker.CurrentHP = c.Attacker.MaxHP) } s i.Effects
      (itemIgnoresStatus_spec _ hItem i hit) 1

/-- The ability modifier does not depend on the attacker's status when no
ability effect is conditioned on one. -/
theorem GetAbilityModifier_status (c : DamageContext) (s : StatusCondition)
    (hAb : abilityIgnoresStatus c.AttackerAbility = true) :
    GetAbilityModifier (withAttackerStatus c s) = GetAbilityModifier c := by
  unfold GetAbilityModifier
  cases hab : c.AttackerAbility with
  | none =>
    have : (withAttackerStatus c s).AttackerAbility = none := hab
    simp only [this]
  | some a =>
    have : (withAttackerStatus c s).AttackerAbility = some a := hab
    simp only [this]
    have hl := abilityAttackerLoop_status c.Move.Type_ c.Move.Category
      { CurrentHP := c.Attacker.CurrentHP, MaxHP := c.Attacker.MaxHP,
        Status := c.Attacker.Status, Weather := c.Weather, Terrain := c.Terrain,
        MoveCategory := c.Move.Category, MoveType := c.Move.Type_,
        TurnNumber := c.Turn } s a.Effects (abilityIgnoresStatus_spec _ hAb a hab) 1
    have hl' : abilityAttackerLoop (withAttackerStatus c s).Move.Type_
        (withAttackerStatus c s).Move.Category
        { CurrentHP := (withAttackerStatus c s).Attacker.CurrentHP,
          MaxHP := (withAttackerStatus c s).Attacker.MaxHP,
          Status := (withAttackerStatus c s).Attacker.Status,
          Weather := (withAttackerStatus c s).Weather,
          Terrain := (withAttackerStatus c s).Terrain,
          MoveCategory := (withAttackerStatus c s).Move.Category,
          MoveType := (withAttackerStatus c s).Move.Type_,
          TurnNumber := (withAttackerStatus c s).Turn } a.Effects 1 =
        abilityAttackerLoop c.Move.Type_ c.Move.Category
        { CurrentHP := c.Attacker.CurrentHP, MaxHP := c.Attacker.MaxHP,
          Status := c.Attacker.Status, Weather := c.Weather, Terrain := c.Terrain,
          MoveCategory := c.Move.Category, MoveType := c.Move.Type_,
          TurnNumber := c.Turn } a.Effects 1 := hl
    rw [hl']
    rfl

/-- Burn step: for a physical move and an attacker whose ability does not
ignore burn, with no status-conditioned effect in the ability or item, the
damage before flooring of the burned attacker is half of that of the
otherwise identical unburned attacker. -/
theorem damageBeforeFloor_burned (c : DamageContext) (eff : ℚ)
    (hphys : c.Move.Category = Physical) (hnb : c.Attacker.Status ≠ StatusBurn)
    (hign : HasBurnIgnoreAbility c.AttackerAbility = false)
    (hAb : abilityIgnoresStatus c.AttackerAbility = true)
    (hItem : itemIgnoresStatus c.AttackerItem = true) :
    damageBeforeFloor (withAttackerStatus c StatusBurn) eff =
      (damageBeforeFloor c eff).map (fun u => u / 2) := by
  have h1 := GetEffectiveAttackStat_status c StatusBurn hAb
  have h2 : GetEffectiveDefenseStat (withAttackerStatus c StatusBurn) =
      GetEffectiveDefenseStat c := rfl
  have h3 := GetItemModifier_status c StatusBurn hItem
  have h4 := GetAbilityModifier_status c StatusBurn hAb
  have h5 : GetWeatherModifier (withAttackerStatus c StatusBurn) = GetWeatherModifier c := rfl
  have h6 : GetSTABModifier (withAttackerStatus c StatusBurn) = GetSTABModifier c := rfl
  have h7 : GetTerrainModifier (withAttackerStatus c StatusBurn) = GetTerrainModifier c := rfl
  have h8 : (withAttackerStatus c StatusBurn).Attacker.Status = StatusBurn := rfl
  have h9 : (withAttackerStatus c StatusBurn).Move = c.Move := rfl
  have h10 : (withAttackerStatus c StatusBurn).AttackerAbility = c.AttackerAbility := rfl
  have h11 : (withAttackerStatus c StatusBurn).Attacker.Level = c.Attacker.Level := rfl
  have h12 : (withAttackerStatus c StatusBurn).IsCriticalHit = c.IsCriticalHit := rfl
  have h13 : (withAttackerStatus c StatusBurn).RandomRoll = c.RandomRoll := rfl
  unfold damageBeforeFloor
  rw [h1, h2, h3, h4, h5, h6, h7, h8, h9, h10, h11, h12, h13]
  cases GetEffectiveAttackStat c with
  | none => rfl
  | some a =>
    cases GetEffectiveDefenseStat c with
    | none => rfl
    | some d =>
      simp only []
      cases goDiv (((2 * c.Attacker.Level).tdiv 5 + 2) * c.Move.Power * a) d with
      | none => rfl
      | some q =>
        simp only [hphys, hnb, hign, and_self, true_and, false_and, if_true, if_false,
          Bool.not_false]
        cases GetItemModifier c with
        | none => rfl
        | some i =>
          cases GetAbilityModifier c with
          | none => rfl
          | some m =>
            simp only [Option.map_some', Option.some.injEq]
            ring

/-! ### The burn claim on the example -/

/-- On the example source the move hits, is no critical hit and rolls 100. -/
theorem rolledContext_flare (s : StatusCondition) :
    (CheckAccuracy exampleRand (withAttackerStatus flareContext s)).1 = true ∧
    rolledContext exampleRand (withAttackerStatus flareContext s) =
      { withAttackerStatus flareContext s with IsCriticalHit := false, RandomRoll := 100 } := by
  constructor
  · simp [CheckAccuracy, finalAccuracy, withAttackerStatus,
      flareContext, exampleContext, exampleWaterMove, exampleRand, Rand.Intn,
      exampleCombatant, GetStatMultiplier, accuracyLoop]
  · simp [rolledContext, CheckCriticalHit, critChance, critStage, CheckAccuracy, finalAccuracy,
      withAttackerStatus,
      flareContext, exampleContext, exampleWaterMove, exampleRand, Rand.Intn, Rand.Float64,
      exampleCombatant, GetStatMultiplier, accuracyLoop]
    norm_num

/-- C10 (as stated, refuted): an attacker whose ability is neither Guts nor
Magic Guard but doubles damage while burned.  The physical move connects with
effectiveness 1; before flooring the unburned attacker deals 208/5 and the
burned one 406/5, which is not half of it, and the burned attacker's final
damage is 81, not max(1, floor(208/5 / 2)) = 20. -/
theorem burn_halving_fails_for_status_conditioned_ability :
    HasBurnIgnoreAbility flareContext.AttackerAbility = false ∧
    flareContext.Move.Category = Physical ∧
    (CheckAccuracy exampleRand flareContext).1 = true ∧
    CalculateTypeEffectiveness flareContext = 1 ∧
    damageBeforeFloor (rolledContext exampleRand (withAttackerStatus flareContext StatusNone)) 1 =
      some (208 / 5) ∧
    damageBeforeFloor (rolledContext exampleRand (withAttackerStatus flareContext StatusBurn)) 1 =
      some (406 / 5) ∧
    (406 / 5 : ℚ) ≠ 208 / 5 / 2 ∧
    (∃ res rng', CalculateDamage exampleRand (withAttackerStatus flareContext StatusBurn) =
        some (res, rng') ∧ res.Damage = 81 ∧ res.Damage ≠ max 1 ⌊(208 / 5 : ℚ) / 2⌋) := by
  have h20 : Int.tdiv 100 5 = 20 := rfl
  have heff : ∀ s, CalculateTypeEffectiveness (withAttackerStatus flareContext s) = 1 := by
    intro s
    simp [CalculateTypeEffectiveness, GoBattleServer.CalculateTypeEffectiveness,
      TypeEffectiveness, effectiveness, withAttackerStatus, flareContext, exampleContext,
      exampleWaterMove, exampleCombatant, List.lookup, Normal, Fire, Water, Electric, Grass, Ice,
      Fighting, Poison, Ground, Flying, Psychic, Bug, Rock, Ghost, Dragon, Dark, Steel, Fairy]
  have hburned : damageBeforeFloor
      (rolledContext exampleRand (withAttackerStatus flareContext StatusBurn)) 1 =
        some (406 / 5) := by
    rw [(rolledContext_flare StatusBurn).2]
    simp [damageBeforeFloor, GetEffectiveAttackStat, GetEffectiveDefenseStat, attackBase,
      defenseBase, attackAbilityLoop, EffectCondition.MeetsCondition, hpThresholdFails, goDiv,
      GetWeatherModifier, GetSTABModifier, GetItemModifier, GetAbilityModifier,
      abilityAttackerLoop, GetTerrainModifier, HasBurnIgnoreAbility, withAttackerStatus,
      flareContext, exampleContext, exampleWaterMove, exampleCombatant, GetStatMultiplier,
      Physical, Special, Status, StatusBurn, StatusNone, WeatherNone, WeatherSun, WeatherRain,
      TerrainNone, TerrainElectric, TerrainGrassy, TerrainPsychic, EffectDamageModifier, Water,
      Normal, Flying, Fire, AbilityGuts, AbilityMagicGuard, AbilityLevitate,
      AbilityAdaptability, goInt, h20]
    have hf : ⌊(120 : ℚ) * 2⌋ = 240 := by
      rw [Int.floor_eq_iff]; norm_num
    have ht : (1980 * 240 : Int).tdiv 120 = 3960 := rfl
    rw [hf, ht]
    norm_num
  have hunburned : damageBeforeFloor
      (rolledContext exampleRand (withAttackerStatus flareContext StatusNone)) 1 =
        some (208 / 5) := by
    rw [(rolledContext_flare StatusNone).2]
    simp [damageBeforeFloor, GetEffectiveAttackStat, GetEffectiveDefenseStat, attackBase,
      defenseBase, attackAbilityLoop, EffectCondition.MeetsCondition, hpThresholdFails, goDiv,
      GetWeatherModifier, GetSTABModifier, GetItemModifier, GetAbilityModifier,
      abilityAttackerLoop, GetTerrainModifier, HasBurnIgnoreAbility, withAttackerStatus,
      flareContext, exampleContext, exampleWaterMove, exampleCombatant, GetStatMultiplier,
      Physical, Special, Status, StatusBurn, StatusNone, WeatherNone, WeatherSun, WeatherRain,
      TerrainNone, TerrainElectric, TerrainGrassy, TerrainPsychic, EffectDamageModifier, Water,
      Normal, Flying, Fire, AbilityGuts, AbilityMagicGuard, AbilityLevitate,
      AbilityAdaptability, goInt, h20]
    have ht : Int.tdiv 237600 120 = 1980 := rfl
    rw [ht]
    norm_num
  have hfloor81 : ⌊(406 / 5 : ℚ)⌋ = 81 := by rw [Int.floor_eq_iff]; norm_num
  have hfloor20 : ⌊(208 / 5 : ℚ) / 2⌋ = 20 := by rw [Int.floor_eq_iff]; norm_num
  refine ⟨by decide, by decide, (rolledContext_flare StatusNone).1, heff StatusNone, hunburned,
    hburned, by norm_num, ?_⟩
  have hres := CalculateDamage_connects exampleRand (withAttackerStatus flareContext StatusBurn)
    (by decide) (rolledContext_flare StatusBurn).1 (by rw [heff]; norm_num)
  rw [heff, hburned] at hres
  refine ⟨_, _, hres, ?_, ?_⟩
  · rw [finishResult_Damage, hfloor81]; rfl
  · rw [finishResult_Damage, hfloor81, hfloor20]; decide

/-- Replacing the attacker's status commutes with drawing the critical hit
and the roll. -/
theorem rolledContext_withAttackerStatus (rng : Rand) (ctx : DamageContext)
    (s : StatusCondition) :
    rolledContext rng (withAttackerStatus ctx s) =
      withAttackerStatus (rolledContext rng ctx) s := rfl

/-- C10 (amended): for a physical move that connects with effectiveness
greater than 0 and an attacker whose ability is neither Guts nor Magic Guard
(or absent) and whose ability and held item carry no effect conditioned on a
status, under the same random source the damage before flooring of the burned
attacker is exactly half of the damage `u` of the otherwise identical unburned
attacker, and its final damage is `max(1, floor(u / 2))`. -/
theorem burn_halves_physical_damage (rng : Rand) (ctx : DamageContext)
    (hphys : ctx.Move.Category = Physical) (hnb : ctx.Attacker.Status ≠ StatusBurn)
    (hign : HasBurnIgnoreAbility ctx.AttackerAbility = false)
    (hAb : abilityIgnoresStatus ctx.AttackerAbility = true)
    (hItem : itemIgnoresStatus ctx.AttackerItem = true)
    (hhit : (CheckAccuracy rng ctx).1 = true) (heff : 0 < CalculateTypeEffectiveness ctx)
    (hA : ctx.Attacker.MaxHP ≠ 0) (hD : ctx.Defender.MaxHP ≠ 0)
    (hdef : GetEffectiveDefenseStat (rolledContext rng ctx) ≠ some 0) :
    ∃ u ru rb rngu rngb,
      damageBeforeFloor (rolledContext rng ctx) (CalculateTypeEffectiveness ctx) = some u ∧
      damageBeforeFloor (rolledContext rng (withAttackerStatus ctx StatusBurn))
        (CalculateTypeEffectiveness ctx) = some (u / 2) ∧
      CalculateDamage rng ctx = some (ru, rngu) ∧ ru.Damage = max 1 ⌊u⌋ ∧
      CalculateDamage rng (withAttackerStatus ctx StatusBurn) = some (rb, rngb) ∧
      rb.Damage = max 1 ⌊u / 2⌋ := by
  have hcat : ctx.Move.Category ≠ Status := by rw [hphys]; decide
  have heff' : CalculateTypeEffectiveness ctx ≠ 0 := ne_of_gt heff
  obtain ⟨u, hu⟩ := damageBeforeFloor_isSome (rolledContext rng ctx)
    (CalculateTypeEffectiveness ctx) hA hD hdef
  have hb : damageBeforeFloor (rolledContext rng (withAttackerStatus ctx StatusBurn))
      (CalculateTypeEffectiveness ctx) = some (u / 2) := by
    rw [rolledContext_withAttackerStatus,
      damageBeforeFloor_burned (rolledContext rng ctx) _ hphys hnb hign hAb hItem, hu]
    rfl
  have hru := CalculateDamage_connects rng ctx hcat hhit heff'
  have hrb := CalculateDamage_connects rng (withAttackerStatus ctx StatusBurn) hcat hhit heff'
  have hsame : CalculateTypeEffectiveness (withAttackerStatus ctx StatusBurn) =
      CalculateTypeEffectiveness ctx := rfl
  rw [hu] at hru
  rw [hsame, hb] at hrb
  exact ⟨u, _, _, _, _, hu, hb, hru, finishResult_Damage _ _ _, hrb, finishResult_Damage _ _ _⟩

/-- On the example source the example move hits, is no critical hit and rolls
100, whatever the defender's types and the attacker's status. -/
theorem rolledContext_example (t1 : PokemonType) (t2 : Option PokemonType) :
    (CheckAccuracy exampleRand (withDefenderTypes exampleContext t1 t2)).1 = true ∧
    rolledContext exampleRand (withDefenderTypes exampleContext t1 t2) =
      { withDefenderTypes exampleContext t1 t2 with IsCriticalHit := false, RandomRoll := 100 } := by
  constructor
  · simp [CheckAccuracy, finalAccuracy, withDefenderTypes,
      exampleContext, exampleWaterMove, exampleRand, Rand.Intn,
      exampleCombatant, GetStatMultiplier]
  · simp [rolledContext, CheckCriticalHit, critChance, critStage, CheckAccuracy, finalAccuracy,
      withDefenderTypes,
      exampleContext, exampleWaterMove, exampleRand, Rand.Intn, Rand.Float64,
      exampleCombatant, GetStatMultiplier]
    norm_num

/-- C10 (amended) on the example: the unburned example attacker deals 41 and,
burned, 20. -/
theorem burn_halves_physical_damage_witness :
    ∃ u ru rb rngu rngb,
      damageBeforeFloor (rolledContext exampleRand (withDefenderTypes exampleContext Normal none))
        (CalculateTypeEffectiveness (withDefenderTypes exampleContext Normal none)) = some u ∧
      damageBeforeFloor (rolledContext exampleRand
        (withAttackerStatus (withDefenderTypes exampleContext Normal none) StatusBurn))
        (CalculateTypeEffectiveness (withDefenderTypes exampleContext Normal none)) = some (u / 2) ∧
      CalculateDamage exampleRand (withDefenderTypes exampleContext Normal none) = some (ru, rngu) ∧
      ru.Damage = max 1 ⌊u⌋ ∧
      CalculateDamage exampleRand
        (withAttackerStatus (withDefenderTypes exampleContext Normal none) StatusBurn) =
          some (rb, rngb) ∧
      rb.Damage = max 1 ⌊u / 2⌋ :=
  burn_halves_physical_damage exampleRand (withDefenderTypes exampleContext Normal none)
    (by decide) (by decide) (by decide)
    rfl rfl
    (rolledContext_example Normal none).1
    (by
      simp [CalculateTypeEffectiveness, GoBattleServer.CalculateTypeEffectiveness,
        TypeEffectiveness, effectiveness, withDefenderTypes, exampleContext,
        exampleWaterMove, exampleCombatant, List.lookup, Normal, Fire, Water, Electric, Grass,
        Ice, Fighting, Poison, Ground, Flying, Psychic, Bug, Rock, Ghost, Dragon, Dark, Steel,
        Fairy])
    (by decide) (by decide)
    (by
      rw [(rolledContext_example Normal none).2]
      simp [GetEffectiveDefenseStat, defenseBase, withDefenderTypes, exampleContext,
        exampleWaterMove, exampleCombatant, Physical, GetStatMultiplier, goInt])

/-! ### The example of the specification -/

/-- The damage before flooring of the example move against a defender of the
given types is 208/5 times the type effectiveness. -/
theorem damageBeforeFloor_example (t1 : PokemonType) (t2 : Option PokemonType) (eff : ℚ) :
    damageBeforeFloor (rolledContext exampleRand (withDefenderTypes exampleContext t1 t2)) eff =
      some (208 / 5 * eff) := by
  rw [(rolledContext_example t1 t2).2]
  rw [damageBeforeFloor_plain
    { withDefenderTypes exampleContext t1 t2 with IsCriticalHit := false, RandomRoll := 100 }
    eff (Or.inl rfl) rfl rfl rfl rfl rfl
    (show exampleCombatant.Status ≠ StatusBurn by decide) rfl rfl
    (show (120 : Int) ≠ 0 by decide)]
  have hq : baseQuotient { withDefenderTypes exampleContext t1 t2 with
      IsCriticalHit := false, RandomRoll := 100 } = 1980 := rfl
  have hstab : GetSTABModifier { withDefenderTypes exampleContext t1 t2 with
      IsCriticalHit := false, RandomRoll := 100 } = 1 := by
    simp [GetSTABModifier, withDefenderTypes, exampleContext, exampleCombatant,
      exampleWaterMove, Water, Normal]
  rw [hq, hstab]
  norm_num

/-- The example move is super effective against Fire and resisted by Water. -/
theorem example_effectiveness :
    CalculateTypeEffectiveness (withDefenderTypes exampleContext Fire none) = 2 ∧
    CalculateTypeEffectiveness (withDefenderTypes exampleContext Water none) = 1 / 2 := by
  constructor <;>
  simp [CalculateTypeEffectiveness, GoBattleServer.CalculateTypeEffectiveness,
    TypeEffectiveness, effectiveness, withDefenderTypes, exampleContext,
    exampleWaterMove, exampleCombatant, List.lookup, Normal, Fire, Water, Electric, Grass,
    Ice, Fighting, Poison, Ground, Flying, Psychic, Bug, Rock, Ghost, Dragon, Dark, Steel,
    Fairy]

/-- C9 on the example of the specification: the Water move of power 90 at
level 50 with attack and defense 120, roll 100 and no critical hit deals 83
to a Fire defender and 20 to a Water defender. -/
theorem super_effective_exceeds_resisted_witness :
    ∃ rs rr rngs rngr,
      CalculateDamage exampleRand (withDefenderTypes exampleContext Fire none) = some (rs, rngs) ∧
      CalculateDamage exampleRand (withDefenderTypes exampleContext Water none) =
        some (rr, rngr) ∧
      rr.Damage < rs.Damage ∧ rs.Damage = 83 ∧ rr.Damage = 20 := by
  obtain ⟨rs, rr, rngs, rngr, hs, hr, hlt⟩ :=
    super_effective_exceeds_resisted exampleRand exampleContext Fire none Water none
      (Or.inl rfl) rfl rfl rfl rfl rfl rfl (by decide) rfl rfl (by decide) (by decide)
      (by decide) (by decide) (rolledContext_example Normal none).1
      example_effectiveness.1 example_effectiveness.2
  refine ⟨rs, rr, rngs, rngr, hs, hr, hlt, ?_, ?_⟩
  · have h := CalculateDamage_connects exampleRand (withDefenderTypes exampleContext Fire none)
      (by decide) (rolledContext_example Fire none).1
      (by rw [example_effectiveness.1]; norm_num)
    rw [damageBeforeFloor_example, example_effectiveness.1, hs] at h
    simp only [Option.map_some', Option.some.injEq, Prod.mk.injEq] at h
    rw [h.1, finishResult_Damage]
    have hf : ⌊(208 / 5 * 2 : ℚ)⌋ = 83 := by rw [Int.floor_eq_iff]; norm_num
    rw [hf]; rfl
  · have h := CalculateDamage_connects exampleRand (withDefenderTypes exampleContext Water none)
      (by decide) (rolledContext_example Water none).1
      (by rw [example_effectiveness.2]; norm_num)
    rw [damageBeforeFloor_example, example_effectiveness.2, hr] at h
    simp only [Option.map_some', Option.some.injEq, Prod.mk.injEq] at h
    rw [h.1, finishResult_Damage]
    have hf : ⌊(208 / 5 * (1 / 2) : ℚ)⌋ = 20 := by rw [Int.floor_eq_iff]; norm_num
    rw [hf]; rfl

/-- C1 on the example: the Water move connects against a Fire defender with a
non-zero defense stat and deals at least 1 damage. -/
theorem CalculateDamage_damage_cases_witness :
    ∃ res rng', CalculateDamage exampleRand (withDefenderTypes exampleContext Fire none) =
      some (res, rng') ∧ 1 ≤ res.Damage :=
  (CalculateDamage_damage_cases exampleRand (withDefenderTypes exampleContext Fire none)).2.1
    (Or.inl rfl) (rolledContext_example Fire none).1
    (by rw [example_effectiveness.1]; norm_num) (by decide) (by decide)
    (by
      rw [(rolledContext_example Fire none).2]
      simp [GetEffectiveDefenseStat, defenseBase, withDefenderTypes, exampleContext,
        exampleWaterMove, exampleCombatant, Physical, GetStatMultiplier, goInt])

end DamageCalculator

/-! ## Turn resolver: the HP invariant -/

/-- `TakeDamage` with a non-negative damage preserves the invariant. -/
theorem TakeDamage_preserves_hpInvariant (p : BattlePokemon) (damage : Int)
    (hd : 0 ≤ damage) (hp : hpInvariant p) : hpInvariant (p.TakeDamage damage).1 := by
  obtain ⟨h0, hmax, hf⟩ := hp
  unfold BattlePokemon.TakeDamage hpInvariant
  simp only []
  by_cases h1 : p.CurrentHP - damage < 0
  · simp [h1]; omega
  · by_cases h2 : p.CurrentHP - damage = 0
    · simp [h1, h2]; omega
    · simp only [h1, h2, if_false]
      refine ⟨by omega, by omega, ?_⟩
      constructor
      · intro hft
        have := hf.mp hft
        omega
      · intro h; exact h.elim

/-- `Heal` with a non-negative amount preserves the invariant. -/
theorem Heal_preserves_hpInvariant (p : BattlePokemon) (amount : Int)
    (ha : 0 ≤ amount) (hp : hpInvariant p) : hpInvariant (p.Heal amount).1 := by
  obtain ⟨h0, hmax, hf⟩ := hp
  unfold BattlePokemon.Heal
  by_cases hfaint : p.Fainted = true
  · simp only [hfaint, if_true]; exact ⟨h0, hmax, hf⟩
  · simp only [hfaint, Bool.false_eq_true, if_false]
    have hpos : p.CurrentHP ≠ 0 := fun h => hfaint (hf.mpr h)
    unfold hpInvariant
    by_cases h1 : p.CurrentHP + amount > p.MaxHP
    · simp only [h1, if_true]
      refine ⟨by omega, le_refl _, ?_⟩
      constructor
      · intro h; exact absurd h (by decide)
      · intro h; omega
    · simp only [h1, if_false]
      refine ⟨by omega, by omega, ?_⟩
      constructor
      · intro h; exact absurd h (by decide)
      · intro h; omega

namespace TurnResolver

/-- C5 (the forfeit branch of `ExecuteAction`, evaluated): both example
combatants satisfy the invariant; after user 1 forfeits, the opponent's
combatant has `CurrentHP = 0` and `Fainted = false`, so the invariant
`fainted ⇔ currentHP == 0` no longer holds. -/
theorem forfeit_breaks_hpInvariant :
    hpInvariant exampleState.Player1.Pokemon ∧ hpInvariant exampleState.Player2.Pokemon ∧
    ∃ resolved state' rng',
      ExecuteAction exampleRand exampleState forfeitAction = some (resolved, state', rng') ∧
      state'.Player2.Pokemon.CurrentHP = 0 ∧ state'.Player2.Pokemon.Fainted = false ∧
      ¬ hpInvariant state'.Player2.Pokemon := by
  refine ⟨by unfold hpInvariant; decide, by unfold hpInvariant; decide,
    _, _, _, rfl, rfl, rfl, ?_⟩
  unfold hpInvariant
  decide

end TurnResolver
/-- In a state that satisfies the invariant, so does each side's combatant. -/
theorem stateInvariant_player (state : BattleState) (side : Side) (h : stateInvariant state) :
    hpInvariant (state.player side).Pokemon := by
  cases side
  · exact h.1
  · exact h.2

/-- Writing a combatant that satisfies the invariant keeps the state's. -/
theorem stateInvariant_setPokemon (state : BattleState) (side : Side) (p : BattlePokemon)
    (h : stateInvariant state) (hp : hpInvariant p) :
    stateInvariant (state.setPokemon side p) := by
  cases side
  · exact ⟨hp, h.2⟩
  · exact ⟨h.1, hp⟩

/-- `DecrementPP` touches neither HP nor the fainted flag. -/
theorem DecrementPP_preserves_hpInvariant (p : BattlePokemon) (i : Int) (hp : hpInvariant p) :
    hpInvariant (p.DecrementPP i) := by
  unfold BattlePokemon.DecrementPP
  split_ifs
  · exact hp
  · exact hp

namespace TurnResolver

/-- `CanPokemonMove` touches neither HP nor the fainted flag. -/
theorem CanPokemonMove_preserves_hpInvariant (rng : Rand) (p : BattlePokemon)
    (r : ResolvedAction) (hp : hpInvariant p) : hpInvariant (CanPokemonMove rng p r).2.1 := by
  unfold CanPokemonMove
  simp only []
  split_ifs <;> exact hp

/-- `TryInflictStatus` touches neither HP nor the fainted flag. -/
theorem TryInflictStatus_preserves_hpInvariant (rng : Rand) (p : BattlePokemon)
    (status : StatusCondition) (chance : Int) (hp : hpInvariant p) :
    hpInvariant (TryInflictStatus rng p status chance).2.1 := by
  unfold TryInflictStatus
  simp only []
  split_ifs <;> exact hp

/-- The stat changes of a status move touch neither HP nor the fainted flag. -/
theorem statusMoveStatLoop_preserves_hpInvariant :
    ∀ (l : List StatChange) (a d : BattlePokemon) (m : List String),
      hpInvariant a → hpInvariant d →
      hpInvariant (statusMoveStatLoop l a d m).1 ∧ hpInvariant (statusMoveStatLoop l a d m).2.1 := by
  intro l
  induction l with
  | nil => intro a d m ha hd; exact ⟨ha, hd⟩
  | cons c rest ih =>
    intro a d m ha hd
    unfold statusMoveStatLoop
    split_ifs
    · exact ih _ _ _ ha hd
    · exact ih _ _ _ ha hd
    · exact ih _ _ _ ha hd

/-- The stat changes of a secondary effect touch neither HP nor the fainted
flag. -/
theorem secondaryStatLoop_preserves_hpInvariant :
    ∀ (l : List StatChange) (a d : BattlePokemon) (m : List String),
      hpInvariant a → hpInvariant d →
      hpInvariant (secondaryStatLoop l a d m).1 ∧ hpInvariant (secondaryStatLoop l a d m).2.1 := by
  intro l
  induction l with
  | nil => intro a d m ha hd; exact ⟨ha, hd⟩
  | cons c rest ih =>
    intro a d m ha hd
    unfold secondaryStatLoop
    split_ifs
    · exact ih _ _ _ ha hd
    · exact ih _ _ _ ha hd

/-- `ApplySecondaryEffects` touches neither HP nor the fainted flag. -/
theorem ApplySecondaryEffects_preserves_hpInvariant (rng : Rand) (a d : BattlePokemon)
    (move : Move) (m : List String) (ha : hpInvariant a) (hd : hpInvariant d) :
    hpInvariant (ApplySecondaryEffects rng a d move m).1 ∧
      hpInvariant (ApplySecondaryEffects rng a d move m).2.1 := by
  unfold ApplySecondaryEffects
  cases move.SecondaryEffect with
  | none => exact ⟨ha, hd⟩
  | some effect =>
    simp only []
    have hl := secondaryStatLoop_preserves_hpInvariant effect.StatChanges a d m ha hd
    have hi : ∀ rng' : Rand, hpInvariant
        (match effect.StatusInflict with
          | some inflict =>
            TryInflictStatus rng' (secondaryStatLoop effect.StatChanges a d m).2.1
              inflict.Status inflict.Chance
          | none => (false, (secondaryStatLoop effect.StatChanges a d m).2.1, rng')).2.1 := by
      intro rng'
      cases effect.StatusInflict with
      | none => exact hl.2
      | some inflict => exact TryInflictStatus_preserves_hpInvariant _ _ _ _ hl.2
    split_ifs <;> first | exact ⟨ha, hd⟩ | exact ⟨hl.1, hi _⟩

/-- `ApplyEntryHazard` changes no combatant. -/
theorem ApplyEntryHazard_preserves_stateInvariant (state : BattleState) (id : UUID)
    (hazard : EntryHazard) (r : ResolvedAction) (h : stateInvariant state) :
    stateInvariant (ApplyEntryHazard state id hazard r).1 := by
  unfold ApplyEntryHazard
  split_ifs <;> exact h

/-- A status move preserves the invariant of both combatants: its only HP
change is a `Heal` by a non-negative amount. -/
theorem ExecuteStatusMove_preserves_stateInvariant (rng : Rand) (state : BattleState)
    (attacker : Side) (move : Move) (resolved : ResolvedAction) (h : stateInvariant state) :
    stateInvariant (ExecuteStatusMove rng state attacker move resolved).2.1 := by
  have h1 : stateInvariant (statChangeStep state attacker move resolved).2 := by
    have hl := statusMoveStatLoop_preserves_hpInvariant move.StatChanges
      (state.player attacker).Pokemon (state.player attacker.other).Pokemon resolved.Messages
      (stateInvariant_player _ _ h) (stateInvariant_player _ _ h)
    exact stateInvariant_setPokemon _ attacker.other _
      (stateInvariant_setPokemon state attacker _ h hl.1) hl.2
  have h2 : ∀ (st : BattleState) (r : ResolvedAction), stateInvariant st →
      stateInvariant (statusInflictStep rng st attacker.other move r).2.1 := by
    intro st r hst
    unfold statusInflictStep
    cases move.StatusInflict with
    | none => exact hst
    | some inflict =>
      exact stateInvariant_setPokemon _ _ _ hst
        (TryInflictStatus_preserves_hpInvariant _ _ _ _ (stateInvariant_player _ _ hst))
  have h3 : ∀ (st : BattleState) (r : ResolvedAction), stateInvariant st →
      stateInvariant (weatherStep st move r).2 := by
    intro st r hst
    unfold weatherStep
    cases move.WeatherEffect <;> exact hst
  have h4 : ∀ (st : BattleState) (r : ResolvedAction), stateInvariant st →
      stateInvariant (terrainStep st move r).2 := by
    intro st r hst
    unfold terrainStep
    cases move.TerrainEffect <;> exact hst
  have h5 : ∀ (st : BattleState) (r : ResolvedAction), stateInvariant st →
      stateInvariant (hazardStep st attacker move r).2 := by
    intro st r hst
    unfold hazardStep
    cases move.EntryHazard with
    | none => exact hst
    | some hazard => exact ApplyEntryHazard_preserves_stateInvariant _ _ _ _ hst
  have h6 : ∀ (st : BattleState) (r : ResolvedAction), stateInvariant st →
      stateInvariant (healStep st attacker move r).2 := by
    intro st r hst
    unfold healStep
    split_ifs with hheal
    · have hp := stateInvariant_player st attacker hst
      apply stateInvariant_setPokemon _ _ _ hst
      apply Heal_preserves_hpInvariant _ _ _ hp
      apply Int.tdiv_nonneg _ (by norm_num)
      exact mul_nonneg (le_trans hp.1 hp.2.1) (le_of_lt hheal)
    · exact hst
  unfold ExecuteStatusMove
  exact h6 _ _ (h5 _ _ (h4 _ _ (h3 _ _ (h2 _ _ h1))))

/-- Applying a damage result with a non-negative damage preserves the
invariant of both combatants. -/
theorem applyDamageResult_preserves_stateInvariant (rng : Rand) (state : BattleState)
    (attacker : Side) (move : Move) (resolved : ResolvedAction) (damageResult : DamageResult)
    (hdamage : 0 ≤ damageResult.Damage) (h : stateInvariant state) :
    stateInvariant (applyDamageResult rng state attacker move resolved damageResult).2.1 := by
  have h1 : stateInvariant (damageStep state attacker.other resolved damageResult).2 := by
    unfold damageStep
    exact stateInvariant_setPokemon _ _ _ h
      (TakeDamage_preserves_hpInvariant _ _ hdamage (stateInvariant_player _ _ h))
  have h2 : ∀ (st : BattleState) (r : ResolvedAction), stateInvariant st →
      stateInvariant (recoilStep st attacker r damageResult).2 := by
    intro st r hst
    unfold recoilStep
    split_ifs with hrec
    · exact stateInvariant_setPokemon _ _ _ hst
        (TakeDamage_preserves_hpInvariant _ _ (le_of_lt hrec) (stateInvariant_player _ _ hst))
    · exact hst
  have h3 : ∀ (st : BattleState) (r : ResolvedAction), stateInvariant st →
      stateInvariant (drainStep st attacker r damageResult).2 := by
    intro st r hst
    unfold drainStep
    split_ifs with hdr
    · exact stateInvariant_setPokemon _ _ _ hst
        (Heal_preserves_hpInvariant _ _ (le_of_lt hdr) (stateInvariant_player _ _ hst))
    · exact hst
  have h4 : ∀ (st : BattleState) (r : ResolvedAction), stateInvariant st →
      stateInvariant (secondaryStep rng st attacker move r).2.1 := by
    intro st r hst
    have hs := ApplySecondaryEffects_preserves_hpInvariant rng (st.player attacker).Pokemon
      (st.player attacker.other).Pokemon move r.Messages (stateInvariant_player _ _ hst)
      (stateInvariant_player _ _ hst)
    unfold secondaryStep
    exact stateInvariant_setPokemon _ attacker.other _
      (stateInvariant_setPokemon st attacker _ hst hs.1) hs.2
  unfold applyDamageResult
  simp only []
  split_ifs
  · exact h4 _ _ (h3 _ _ (h2 _ _ h1))
  · exact h1

/-- The move branch of `ExecuteAction` preserves the invariant of both
combatants whenever it returns. -/
theorem ExecuteMove_preserves_stateInvariant (rng : Rand) (state : BattleState)
    (attacker : Side) (action : BattleAction) (h : stateInvariant state)
    (resolved : ResolvedAction) (state' : BattleState) (rng' : Rand)
    (hexec : ExecuteMove rng state attacker action = some (resolved, state', rng')) :
    stateInvariant state' := by
  have hcan : ∀ r : ResolvedAction, stateInvariant (state.setPokemon attacker
      (CanPokemonMove rng (state.player attacker).Pokemon r).2.1) := fun r =>
    stateInvariant_setPokemon _ _ _ h
      (CanPokemonMove_preserves_hpInvariant _ _ _ (stateInvariant_player _ _ h))
  have hpp : ∀ r : ResolvedAction, stateInvariant ((state.setPokemon attacker
      (CanPokemonMove rng (state.player attacker).Pokemon r).2.1).setPokemon attacker
        (((state.setPokemon attacker
          (CanPokemonMove rng (state.player attacker).Pokemon r).2.1).player
            attacker).Pokemon.DecrementPP action.MoveIndex)) := fun r =>
    stateInvariant_setPokemon _ attacker _ (hcan r)
      (DecrementPP_preserves_hpInvariant _ action.MoveIndex
        (stateInvariant_player _ attacker (hcan r)))
  have key : ∀ X : ResolvedAction × BattleState × Rand, X = (resolved, state', rng') →
      stateInvariant X.2.1 → stateInvariant state' := by
    intro X hX hinv; rw [hX] at hinv; exact hinv
  unfold ExecuteMove at hexec
  simp only [] at hexec
  split_ifs at hexec with hmove
  · simp only [Option.some.injEq, Prod.mk.injEq] at hexec
    rw [← hexec.2.1]; exact hcan _
  · cases hm : action.Move with
    | none => rw [hm] at hexec; simp at hexec
    | some move =>
      rw [hm] at hexec
      simp only [] at hexec
      split_ifs at hexec with hstatus
      · simp only [Option.some.injEq] at hexec
        exact key _ hexec (ExecuteStatusMove_preserves_stateInvariant _ _ _ _ _ (hpp _))
      · split at hexec
        · simp at hexec
        · rename_i damageResult rng1 hcalc
          have hdmg : 0 ≤ damageResult.Damage :=
            DamageCalculator.CalculateDamage_Damage_nonneg _ _ _ _ hcalc
          split_ifs at hexec
          · simp only [Option.some.injEq, Prod.mk.injEq] at hexec
            rw [← hexec.2.1]; exact hpp _
          · simp only [Option.some.injEq] at hexec
            exact key _ hexec
              (applyDamageResult_preserves_stateInvariant _ _ _ _ _ _ hdmg (hpp _))

/-- `ExecuteAction` on a move action preserves the invariant of both
combatants whenever it returns. -/
theorem ExecuteAction_move_preserves_stateInvariant (rng : Rand) (state : BattleState)
    (action : BattleAction) (htype : action.Type_ = ActionMove) (h : stateInvariant state)
    (resolved : ResolvedAction) (state' : BattleState) (rng' : Rand)
    (hexec : ExecuteAction rng state action = some (resolved, state', rng')) :
    stateInvariant state' := by
  unfold ExecuteAction at hexec
  cases hp : state.GetPlayer action.PlayerID with
  | none =>
    rw [hp] at hexec
    simp only [Option.some.injEq, Prod.mk.injEq] at hexec
    rw [← hexec.2.1]; exact h
  | some player =>
    rw [hp] at hexec
    simp only [htype, if_true] at hexec
    exact ExecuteMove_preserves_stateInvariant _ _ _ _ h _ _ _ hexec

end TurnResolver

/-! ## Accuracy 0, the idle resolver and the turn order -/

/-- C11: a move whose accuracy is 0 always hits.  `CheckAccuracy` reports a
hit and leaves the random source untouched in every context that uses the
move (every accuracy and evasion stage, every ability, every critical-hit
flag), and `DoesMoveHit` reports a hit for every pair of stages and every
roll. -/
theorem accuracy_zero_always_hits (m : Move) (h : m.Accuracy = 0) :
    (∀ (rng : Rand) (ctx : DamageContext), ctx.Move = m →
      DamageCalculator.CheckAccuracy rng ctx = (true, rng)) ∧
    (∀ accuracyStage evasionStage randomValue : Int,
      m.DoesMoveHit accuracyStage evasionStage randomValue = true) := by
  constructor
  · intro rng ctx hm
    unfold DamageCalculator.CheckAccuracy
    rw [hm, if_pos h]
  · intro a e r
    unfold Move.DoesMoveHit
    rw [if_pos h]

/-- C11 at a concrete input: a sure-hit move against an evasion stage of +6
with the worst roll. -/
theorem accuracy_zero_always_hits_witness :
    DamageCalculator.CheckAccuracy exampleRand
        { exampleContext with
          Move := { Name := "swift", Category := Special, Power := 60, Accuracy := 0 },
          Defender := { exampleCombatant with StatStages := { Evasion := 6 } } } =
      (true, exampleRand) ∧
    Move.DoesMoveHit { Name := "swift", Category := Special, Power := 60, Accuracy := 0 }
      (-6) 6 100 = true :=
  ⟨(accuracy_zero_always_hits
      { Name := "swift", Category := Special, Power := 60, Accuracy := 0 } rfl).1 _ _ rfl,
    (accuracy_zero_always_hits
      { Name := "swift", Category := Special, Power := 60, Accuracy := 0 } rfl).2 _ _ _⟩

namespace TurnResolver

/-- C12: when at least one player has not submitted an action, `ResolveTurn`
returns the empty resolution of the current turn (no action, no end-of-turn
entry, battle not ended, no winner) and leaves the state, the pending action
included, and the random source as they were. -/
theorem ResolveTurn_not_ready (rng : Rand) (state : BattleState)
    (h : state.Player1Action = none ∨ state.Player2Action = none) :
    ResolveTurn rng state =
      some ({ Turn := state.Turn, Actions := [], WeatherDamage := [], StatusDamage := [],
              EndOfTurnHeals := [], BattleEnded := false, Winner := none },
            state, rng) := by
  have hready : state.BothPlayersReady = false := by
    unfold BattleState.BothPlayersReady
    rcases h with h | h <;> simp [h]
  unfold ResolveTurn
  simp only [hready, Bool.not_false, if_true]

/-- C12 at a concrete input: player 1 alone has forfeited; nothing happens
and the forfeit stays pending. -/
theorem ResolveTurn_not_ready_witness :
    ResolveTurn exampleRand { exampleState with Player1Action := some forfeitAction } =
      some ({ Turn := 1, Actions := [], WeatherDamage := [], StatusDamage := [],
              EndOfTurnHeals := [], BattleEnded := false, Winner := none },
            { exampleState with Player1Action := some forfeitAction }, exampleRand) :=
  ResolveTurn_not_ready exampleRand { exampleState with Player1Action := some forfeitAction }
    (Or.inr rfl)

end TurnResolver

namespace TurnResolver

/-- On a forfeit, or on a move with a resolved move and a participating
player, `orderAction` writes the priority and the effective speed of the
specification. -/
theorem orderAction_claimed (state : BattleState) (a : BattleAction)
    (h : moveOrForfeit state a) : orderAction state a = withClaimedOrder state a := by
  have hne : ActionForfeit ≠ ActionMove := by decide
  have hspeed : ∀ s : StatStages, s.GetMultiplier Speed = GetStatMultiplier s.Speed := by
    intro s
    simp [StatStages.GetMultiplier, StatStages.stageOf, Speed, Attack, Defense, SpecialAttack,
      SpecialDefense]
  unfold orderAction withClaimedOrder claimedPriority claimedSpeed
  rcases h with hf | ⟨hm, hmove, hplayer⟩
  · simp only [hf, if_neg hne, if_true]
  · have hnf : a.Type_ ≠ ActionForfeit := by rw [hm]; exact fun h => hne h.symm
    obtain ⟨move, hmv⟩ := Option.isSome_iff_exists.mp hmove
    obtain ⟨side, hsd⟩ := Option.isSome_iff_exists.mp hplayer
    simp only [hm, hmv, hsd, if_true, hspeed]
    have : ¬ (ActionMove = ActionForfeit) := fun h => hne h.symm
    simp only [this, if_false]
    split_ifs <;> rfl

end TurnResolver

namespace TurnResolver

/-- With both actions pending, `DetermineTurnOrder` sorts the two actions as
`orderAction` has prepared them. -/
theorem DetermineTurnOrder_pair (rng : Rand) (state : BattleState) (a1 a2 : BattleAction)
    (h1 : state.Player1Action = some a1) (h2 : state.Player2Action = some a2) :
    (DetermineTurnOrder rng state).1 =
        (sortActions rng [orderAction state a1, orderAction state a2]).1 ∧
      (DetermineTurnOrder rng state).2.2 =
        (sortActions rng [orderAction state a1, orderAction state a2]).2 := by
  unfold DetermineTurnOrder
  simp only [h1, h2, Option.map_some', Option.toList_some, List.singleton_append, and_self]

/-- C13: with both actions pending, each a forfeit or a resolved move of a
participant, `DetermineTurnOrder` writes into each action the priority and
effective speed of the specification (move priority, or -8 and speed 0 for a
forfeit; truncated speed times speed-stage multiplier, integer-halved under
paralysis) and puts the strictly higher priority first whatever the speeds,
then the strictly higher speed first, in both cases without drawing from the
random source; only when priority and speed are both equal does one draw
`Intn(2)` decide the order. -/
theorem DetermineTurnOrder_priority_then_speed (rng : Rand) (state : BattleState)
    (a1 a2 : BattleAction)
    (h1 : state.Player1Action = some a1) (h2 : state.Player2Action = some a2)
    (hs1 : moveOrForfeit state a1) (hs2 : moveOrForfeit state a2) :
    (claimedPriority a1 > claimedPriority a2 →
      (DetermineTurnOrder rng state).1 = [withClaimedOrder state a1, withClaimedOrder state a2] ∧
      (DetermineTurnOrder rng state).2.2 = rng) ∧
    (claimedPriority a2 > claimedPriority a1 →
      (DetermineTurnOrder rng state).1 = [withClaimedOrder state a2, withClaimedOrder state a1] ∧
      (DetermineTurnOrder rng state).2.2 = rng) ∧
    (claimedPriority a1 = claimedPriority a2 → claimedSpeed state a1 > claimedSpeed state a2 →
      (DetermineTurnOrder rng state).1 = [withClaimedOrder state a1, withClaimedOrder state a2] ∧
      (DetermineTurnOrder rng state).2.2 = rng) ∧
    (claimedPriority a1 = claimedPriority a2 → claimedSpeed state a2 > claimedSpeed state a1 →
      (DetermineTurnOrder rng state).1 = [withClaimedOrder state a2, withClaimedOrder state a1] ∧
      (DetermineTurnOrder rng state).2.2 = rng) ∧
    (claimedPriority a1 = claimedPriority a2 → claimedSpeed state a1 = claimedSpeed state a2 →
      (DetermineTurnOrder rng state).1 =
        (if (rng.Intn 2).1 = 0 then [withClaimedOrder state a2, withClaimedOrder state a1]
          else [withClaimedOrder state a1, withClaimedOrder state a2]) ∧
      (DetermineTurnOrder rng state).2.2 = (rng.Intn 2).2) := by
  obtain ⟨hl, hr⟩ := DetermineTurnOrder_pair rng state a1 a2 h1 h2
  rw [hl, hr, orderAction_claimed state a1 hs1, orderAction_claimed state a2 hs2]
  have p1 : (withClaimedOrder state a1).Priority = claimedPriority a1 := rfl
  have p2 : (withClaimedOrder state a2).Priority = claimedPriority a2 := rfl
  have s1 : (withClaimedOrder state a1).Speed = claimedSpeed state a1 := rfl
  have s2 : (withClaimedOrder state a2).Speed = claimedSpeed state a2 := rfl
  simp only [sortActions, lessAction, p1, p2, s1, s2]
  refine ⟨fun h => ?_, fun h => ?_, fun hp h => ?_, fun hp h => ?_, fun hp hsp => ?_⟩
  · have hne : claimedPriority a2 ≠ claimedPriority a1 := by omega
    have hng : ¬ claimedPriority a2 > claimedPriority a1 := by omega
    simp [hne, hng]
  · have hne : claimedPriority a2 ≠ claimedPriority a1 := by omega
    simp [hne, h]
  · have hne : claimedSpeed state a2 ≠ claimedSpeed state a1 := by omega
    have hng : ¬ claimedSpeed state a2 > claimedSpeed state a1 := by omega
    simp [hp, hne, hng]
  · have hne : claimedSpeed state a2 ≠ claimedSpeed state a1 := by omega
    simp [hp, hne, h]
  · simp only [hp, hsp, ne_eq, not_true_eq_false, if_false, decide_eq_true_eq, and_true]

end TurnResolver

/-! ## Resolving a turn: the faint check -/

namespace TurnResolver

/-- The action loop skips a prefix of skipped actions. -/
theorem actionLoop_skip (skipped rest : List BattleAction) (rng : Rand) (state : BattleState)
    (resolution : TurnResolution) (hskip : ∀ x ∈ skipped, skippedIn state x = true) :
    actionLoop (skipped ++ rest) rng state resolution = actionLoop rest rng state resolution := by
  induction skipped with
  | nil => rfl
  | cons x xs ih =>
    have hx := hskip x (List.mem_cons_self x xs)
    have hxs : ∀ y ∈ xs, skippedIn state y = true :=
      fun y hy => hskip y (List.mem_cons_of_mem x hy)
    rw [List.cons_append, actionLoop]
    unfold skippedIn at hx
    cases hp : state.GetPlayer x.PlayerID with
    | none => simpa using ih hxs
    | some actor =>
      rw [hp] at hx
      have hx' : (state.player actor).Pokemon.Fainted = true := hx
      simp only [hx', if_true]
      exact ih hxs

/-- The action loop on an action that executes and ends the battle. -/
theorem actionLoop_ends (a : BattleAction) (rest : List BattleAction) (rng : Rand)
    (state : BattleState) (resolution : TurnResolution)
    (r : ResolvedAction × BattleState × Rand)
    (halive : skippedIn state a = false)
    (hexec : ExecuteAction rng state a = some r)
    (hover : IsBattleOver r.2.1 = true) :
    actionLoop (a :: rest) rng state resolution =
      some ({ resolution with
              Actions := resolution.Actions ++ [r.1], BattleEnded := true,
              Winner := some (DetermineWinner r.2.1) }, r.2.1, r.2.2) := by
  rw [actionLoop]
  unfold skippedIn at halive
  cases hp : state.GetPlayer a.PlayerID with
  | none => rw [hp] at halive; exact Bool.noConfusion halive
  | some actor =>
    rw [hp] at halive
    have halive' : (state.player actor).Pokemon.Fainted = false := halive
    simp only [halive', Bool.false_eq_true, if_false, hexec, hover, if_true]

/-- C14: when the first action that executes (the actions ordered before it
being skipped because their actor had already fainted) leaves exactly one
combatant fainted, `ResolveTurn` lists that one action only, applies no
end-of-turn effect (the state is the one the action left, with the pending
actions cleared and the turn counter advanced, and the resolution has no
weather, status or healing entry) and reports the battle ended with the user
id of the side that has not fainted as winner. -/
theorem ResolveTurn_stops_at_first_faint (rng : Rand) (state : BattleState)
    (skipped : List BattleAction) (a : BattleAction) (rest : List BattleAction)
    (r : ResolvedAction × BattleState × Rand)
    (hready : state.BothPlayersReady = true)
    (horder : (DetermineTurnOrder rng state).1 = skipped ++ a :: rest)
    (hskip : ∀ x ∈ skipped, skippedIn (DetermineTurnOrder rng state).2.1 x = true)
    (halive : skippedIn (DetermineTurnOrder rng state).2.1 a = false)
    (hexec : ExecuteAction (DetermineTurnOrder rng state).2.2
      (DetermineTurnOrder rng state).2.1 a = some r)
    (hone : r.2.1.Player1.Pokemon.Fainted ≠ r.2.1.Player2.Pokemon.Fainted) :
    ResolveTurn rng state =
      some ({ Turn := state.Turn, Actions := [r.1], WeatherDamage := [], StatusDamage := [],
              EndOfTurnHeals := [], BattleEnded := true,
              Winner := some (if r.2.1.Player1.Pokemon.Fainted then r.2.1.Player2.UserID
                else r.2.1.Player1.UserID) },
            { r.2.1.ClearActions with Turn := r.2.1.Turn + 1 }, r.2.2) := by
  have hover : IsBattleOver r.2.1 = true := by
    unfold IsBattleOver
    cases h1 : r.2.1.Player1.Pokemon.Fainted <;> cases h2 : r.2.1.Player2.Pokemon.Fainted <;>
      simp_all
  have hwin : DetermineWinner r.2.1 =
      if r.2.1.Player1.Pokemon.Fainted then r.2.1.Player2.UserID else r.2.1.Player1.UserID := by
    unfold DetermineWinner
    cases h1 : r.2.1.Player1.Pokemon.Fainted <;> cases h2 : r.2.1.Player2.Pokemon.Fainted <;>
      simp_all
  unfold ResolveTurn
  simp only [hready, Bool.not_true, Bool.false_eq_true, if_false, horder]
  rw [actionLoop_skip skipped (a :: rest) _ _ _ hskip,
    actionLoop_ends a rest _ _ _ r halive hexec hover, hwin]
  rfl

end TurnResolver

namespace TurnResolver

/-- With both combatants fainted, `DetermineWinner` names player 1, whoever
fainted first. -/
theorem DetermineWinner_both_fainted (state : BattleState)
    (h : state.Player2.Pokemon.Fainted = true) :
    DetermineWinner state = state.Player1.UserID := by
  unfold DetermineWinner
  rw [if_pos h]

/-- C15 fails on the code: in `poisonedState` neither combatant has fainted
and no action does damage; the status-damage loop of the end-of-turn phase
brings down player 1 first (player 2 is still standing after player 1 has
been processed) and then player 2, and `ResolveTurn` reports user 1, the
combatant that fainted first, as winner instead of its opponent, user 2. -/
theorem ResolveTurn_mutual_faint_names_first_fainted :
    (poisonedState.Player1.Pokemon.Fainted = false ∧
      poisonedState.Player2.Pokemon.Fainted = false) ∧
    ((statusDamagePlayer poisonedState .player1 {}).1.Player1.Pokemon.Fainted = true ∧
      (statusDamagePlayer poisonedState .player1 {}).1.Player2.Pokemon.Fainted = false) ∧
    (ResolveTurn exampleRand poisonedState).map
        (fun x => x.1.Actions.map (fun a => (a.PlayerID, a.Result))) =
      some [(2, none), (1, none)] ∧
    (ResolveTurn exampleRand poisonedState).map (fun x => x.1.StatusDamage) =
      some [{ PlayerID := 1, Status := StatusPoison, Damage := 21 },
            { PlayerID := 2, Status := StatusPoison, Damage := 21 }] ∧
    (ResolveTurn exampleRand poisonedState).map
        (fun x => (x.2.1.Player1.Pokemon.Fainted, x.2.1.Player2.Pokemon.Fainted)) =
      some (true, true) ∧
    (ResolveTurn exampleRand poisonedState).map (fun x => (x.1.BattleEnded, x.1.Winner)) =
      some (true, some 1) := by
  refine ⟨by decide, by decide, by decide, by decide, by decide, by decide⟩

/-- C16 fails on the code: in `forfeitTurnState` both players are ready,
user 1 forfeits and user 2 uses a move without effect; no combatant faints,
both actions execute, the forfeit sets the HP of user 2 (the opponent of the
forfeiting player) from 175 to 0 without marking it fainted, and `ResolveTurn`
reports the battle as not ended and names no winner. -/
theorem ResolveTurn_forfeit_does_not_end_battle :
    (forfeitTurnState.BothPlayersReady = true ∧
      forfeitTurnState.Player2.Pokemon.CurrentHP = 175) ∧
    (ResolveTurn exampleRand forfeitTurnState).map
        (fun x => x.1.Actions.map (fun a => (a.PlayerID, a.ActionType))) =
      some [(2, ActionMove), (1, ActionForfeit)] ∧
    (ResolveTurn exampleRand forfeitTurnState).map
        (fun x => (x.2.1.Player1.Pokemon.Fainted, x.2.1.Player2.Pokemon.Fainted,
          x.2.1.Player2.Pokemon.CurrentHP)) =
      some (false, false, 0) ∧
    (ResolveTurn exampleRand forfeitTurnState).map (fun x => (x.1.BattleEnded, x.1.Winner)) =
      some (false, none) := by
  refine ⟨by decide, by decide, by decide, by decide⟩

end TurnResolver

/-! ## The turn order and the faint check on examples -/

namespace TurnResolver

/-- C13 at a concrete input: in `poisonedState` the two combatants have the
same speed, user 2 uses a move of priority 1 against priority 0 of user 1 and
is ordered first, the random source being left untouched. -/
theorem DetermineTurnOrder_priority_then_speed_witness :
    (DetermineTurnOrder exampleRand poisonedState).1 =
        [withClaimedOrder poisonedState (idleAction 2 1),
         withClaimedOrder poisonedState (idleAction 1 0)] ∧
      (DetermineTurnOrder exampleRand poisonedState).2.2 = exampleRand :=
  (DetermineTurnOrder_priority_then_speed exampleRand poisonedState (idleAction 1 0)
    (idleAction 2 1) rfl rfl (by decide) (by decide)).2.1 (by decide)

end TurnResolver

namespace DamageCalculator

/-- The damage calculation of the attack in `knockoutState`: a hit without
critical hit at roll 100, 41 damage against 30 HP. -/
theorem CalculateDamage_knockout :
    CalculateDamage exampleRand knockoutContext =
      some ({ Damage := 41, IsCritical := false, Effectiveness := 1, RandomRoll := 100,
              RemainingHP := 0, Fainted := true, RecoilDamage := 0, DrainAmount := 0 },
            { exampleRand with pos := 3 }) := by
  have hhit : (CheckAccuracy exampleRand knockoutContext).1 = true := by
    simp [CheckAccuracy, finalAccuracy, knockoutContext,
      exampleContext, exampleWaterMove, exampleRand, Rand.Intn,
      exampleCombatant, GetStatMultiplier]
  have hroll : rolledContext exampleRand knockoutContext =
      { knockoutContext with IsCriticalHit := false, RandomRoll := 100 } := by
    simp [rolledContext, CheckCriticalHit, critChance, critStage, CheckAccuracy, finalAccuracy,
      knockoutContext,
      exampleContext, exampleWaterMove, exampleRand, Rand.Intn, Rand.Float64,
      exampleCombatant, GetStatMultiplier]
    norm_num
  have heff : CalculateTypeEffectiveness knockoutContext = 1 := by
    simp [CalculateTypeEffectiveness, GoBattleServer.CalculateTypeEffectiveness,
      TypeEffectiveness, effectiveness, knockoutContext, exampleContext,
      exampleWaterMove, exampleCombatant, List.lookup, Normal, Fire, Water, Electric, Grass,
      Ice, Fighting, Poison, Ground, Flying, Psychic, Bug, Rock, Ghost, Dragon, Dark, Steel,
      Fairy]
  have hdmg : damageBeforeFloor (rolledContext exampleRand knockoutContext) 1 =
      some (208 / 5) := by
    rw [hroll]
    rw [damageBeforeFloor_plain
      { knockoutContext with IsCriticalHit := false, RandomRoll := 100 }
      1 (Or.inl rfl) rfl rfl rfl rfl rfl
      (show exampleCombatant.Status ≠ StatusBurn by decide) rfl rfl
      (show (120 : Int) ≠ 0 by decide)]
    have hq : baseQuotient { knockoutContext with
        IsCriticalHit := false, RandomRoll := 100 } = 1980 := rfl
    have hstab : GetSTABModifier { knockoutContext with
        IsCriticalHit := false, RandomRoll := 100 } = 1 := by
      simp [GetSTABModifier, knockoutContext, exampleContext, exampleCombatant,
        exampleWaterMove, Water, Normal]
    rw [hq, hstab]
    norm_num
  have h := CalculateDamage_connects exampleRand knockoutContext (by decide) hhit
    (by rw [heff]; norm_num)
  rw [h, heff, hdmg, hroll]
  have hf : goInt (goFloor (208 / 5 : ℚ)) = 41 := by
    rw [goInt_goFloor, Int.floor_eq_iff]; norm_num
  simp only [Option.map_some', finishResult, hf]
  rfl

end DamageCalculator

namespace TurnResolver

/-- In `knockoutState` the attack of user 1 is ordered first, without a draw
from the random source. -/
theorem DetermineTurnOrder_knockout :
    (DetermineTurnOrder exampleRand knockoutState).1 =
        [] ++ orderAction knockoutState knockoutAttack ::
          [orderAction knockoutState (idleAction 2 (-1))] ∧
      (DetermineTurnOrder exampleRand knockoutState).2.2 = exampleRand := by
  have h := DetermineTurnOrder_pair exampleRand knockoutState knockoutAttack (idleAction 2 (-1)) rfl rfl
  have p1 : (orderAction knockoutState knockoutAttack).Priority = 0 := by decide
  have p2 : (orderAction knockoutState (idleAction 2 (-1))).Priority = -1 := by decide
  rw [h.1, h.2]
  simp [sortActions, lessAction, p1, p2]

theorem ExecuteAction_knockout :
    ExecuteAction exampleRand (DetermineTurnOrder exampleRand knockoutState).2.1
        (orderAction knockoutState knockoutAttack) =
      some (knockoutResolved,
            (((DetermineTurnOrder exampleRand knockoutState).2.1.setPokemon .player2
                { exampleCombatant with CurrentHP := 0, Fainted := true }).AddLogEntry "move"
              "example used water_move!"),
            { exampleRand with pos := 3 }) := by
  have hctx : BuildDamageContext (DetermineTurnOrder exampleRand knockoutState).2.1
      ((DetermineTurnOrder exampleRand knockoutState).2.1.player .player1)
      ((DetermineTurnOrder exampleRand knockoutState).2.1.player .player2) exampleWaterMove =
      knockoutContext := rfl
  have hpid : (orderAction knockoutState knockoutAttack).PlayerID = 1 := by decide
  have hty : (orderAction knockoutState knockoutAttack).Type_ = ActionMove := by decide
  have hmv : (orderAction knockoutState knockoutAttack).Move = some exampleWaterMove := by decide
  have hidx : (orderAction knockoutState knockoutAttack).MoveIndex = 0 := by decide
  have hgp : (DetermineTurnOrder exampleRand knockoutState).2.1.GetPlayer 1 = some .player1 := by
    decide
  have hcan : CanPokemonMove exampleRand
      ((DetermineTurnOrder exampleRand knockoutState).2.1.player .player1).Pokemon
      { PlayerID := 1, ActionType := ActionMove, Move := some exampleWaterMove, Target := 2,
        Messages := [] } =
      (true, exampleCombatant,
        { PlayerID := 1, ActionType := ActionMove, Move := some exampleWaterMove, Target := 2,
          Messages := [] }, exampleRand) := by
    rfl
  unfold ExecuteAction
  simp only [hpid, hgp, hty, if_true]
  unfold ExecuteMove
  simp only [hpid, hmv, hidx]
  have htgt : ((DetermineTurnOrder exampleRand knockoutState).2.1.player
      Side.player1.other).UserID = 2 := rfl
  simp only [htgt, hcan, Bool.not_true, Bool.false_eq_true, if_false]
  have hst : ((DetermineTurnOrder exampleRand knockoutState).2.1.setPokemon .player1
        exampleCombatant).setPokemon .player1
      ((((DetermineTurnOrder exampleRand knockoutState).2.1.setPokemon .player1
        exampleCombatant).player .player1).Pokemon.DecrementPP 0) =
      (DetermineTurnOrder exampleRand knockoutState).2.1 := rfl
  have hcat : ¬ (exampleWaterMove.Category = Status) := by decide
  simp only [hst, hcat, if_false]
  have hother : Side.player1.other = Side.player2 := rfl
  rw [hother, hctx, DamageCalculator.CalculateDamage_knockout]
  simp only []
  rw [if_neg (by norm_num)]
  have hdmg : applyDamageResult { exampleRand with pos := 3 }
      (DetermineTurnOrder exampleRand knockoutState).2.1 .player1 exampleWaterMove
      { PlayerID := 1, ActionType := ActionMove, Move := some exampleWaterMove, Target := 2,
        Messages := ["example used water_move!"] }
      { Damage := 41, IsCritical := false, Effectiveness := 1, RandomRoll := 100,
        RemainingHP := 0, Fainted := true, RecoilDamage := 0, DrainAmount := 0 } =
      (knockoutResolved,
        (((DetermineTurnOrder exampleRand knockoutState).2.1.setPokemon .player2
            { exampleCombatant with CurrentHP := 0, Fainted := true }).AddLogEntry "move"
          "example used water_move!"),
        { exampleRand with pos := 3 }) := by
    unfold applyDamageResult
    rw [if_pos (by norm_num)]
    simp only [effectivenessMessages]
    rw [if_neg (by norm_num), if_neg (by norm_num)]
    rfl
  exact congrArg some hdmg

end TurnResolver

namespace TurnResolver

/-- C14 at a concrete input: in `knockoutState` the attack of user 1 is
ordered first and deals 41 damage to the 30 HP of user 2; the idle move of
user 2 is not executed, no end-of-turn entry is made, and the battle ends
with user 1 as winner. -/
theorem ResolveTurn_stops_at_first_faint_witness :
    ResolveTurn exampleRand knockoutState =
      some ({ Turn := 1, Actions := [knockoutResolved], WeatherDamage := [], StatusDamage := [],
              EndOfTurnHeals := [], BattleEnded := true, Winner := some 1 },
            { exampleState with
              Player2 := { UserID := 2,
                           Pokemon := { exampleCombatant with CurrentHP := 0, Fainted := true } },
              Turn := 2,
              Log := [{ Turn := 1, Type_ := "move", Message := "example used water_move!" }] },
            { exampleRand with pos := 3 }) :=
  (ResolveTurn_stops_at_first_faint exampleRand knockoutState []
    (orderAction knockoutState knockoutAttack) [orderAction knockoutState (idleAction 2 (-1))]
    (knockoutResolved,
      (((DetermineTurnOrder exampleRand knockoutState).2.1.setPokemon .player2
          { exampleCombatant with CurrentHP := 0, Fainted := true }).AddLogEntry "move"
        "example used water_move!"),
      { exampleRand with pos := 3 })
    (by decide) DetermineTurnOrder_knockout.1 (by simp) (by decide)
    (by rw [DetermineTurnOrder_knockout.2]; exact ExecuteAction_knockout)
    (by decide)).trans rfl

end TurnResolver

/-! ## Battle service: escrow, settlement, forfeit and rejected requests -/

namespace BattleService

/-- A successful `UpdateCoins` writes one balance and counts one call. -/
theorem UpdateCoins_ok (db : Persistence) (u : UUID) (d : Int) (h : db.fails db.calls = false) :
    db.UpdateCoins u d =
      (none, { db with calls := db.calls + 1,
                       balances := fun v =>
                         if v = u then (if db.adjusts then db.balances v + d else d)
                         else db.balances v }) := by
  unfold Persistence.UpdateCoins Persistence.call
  simp [h]

/-- A failed `UpdateCoins` only counts the call. -/
theorem UpdateCoins_fail (db : Persistence) (u : UUID) (d : Int) (h : db.fails db.calls = true) :
    db.UpdateCoins u d = (some collaboratorError, { db with calls := db.calls + 1 }) := by
  unfold Persistence.UpdateCoins Persistence.call
  simp [h]

/-- A successful `UpdateBattle` writes the envelope and counts one call. -/
theorem UpdateBattle_ok (db : Persistence) (b : Battle) (h : db.fails db.calls = false) :
    db.UpdateBattle b =
      (none, { db with calls := db.calls + 1,
                       battles := fun i =>
                         if i = b.ID then some { b with State := none }
                         else db.battles i }) := by
  unfold Persistence.UpdateBattle Persistence.call
  simp [h]

/-- A failed `UpdateBattle` only counts the call. -/
theorem UpdateBattle_fail (db : Persistence) (b : Battle) (h : db.fails db.calls = true) :
    db.UpdateBattle b = (some collaboratorError, { db with calls := db.calls + 1 }) := by
  unfold Persistence.UpdateBattle Persistence.call
  simp [h]

/-- `GetPokemon` only counts the call. -/
theorem GetPokemon_db (db : Persistence) (id : UUID) :
    (db.GetPokemon id).2 = { db with calls := db.calls + 1 } := by
  unfold Persistence.GetPokemon Persistence.call
  simp only []
  split_ifs
  · rfl
  · cases db.creatures id <;> rfl

/-- `GetBattle` only counts the call. -/
theorem GetBattle_db (db : Persistence) (id : UUID) :
    (db.GetBattle id).2 = { db with calls := db.calls + 1 } := by
  unfold Persistence.GetBattle Persistence.call
  simp only []
  split_ifs
  · rfl
  · cases db.battles id <;> rfl

/-- Under the adjusting reading of `UpdateCoins`, the escrow block returns an
error only with every balance and both maps as they were, provided the
refunds it issues after a failed call succeed. -/
theorem escrowAndStore_error (s : BattleService) (battle : Battle) (state : BattleState)
    (e : Error) (s' : BattleService) (hadj : s.db.adjusts = true)
    (hrefund : ∀ i j, s.db.calls ≤ i → i < j → s.db.fails i = true → s.db.fails j = false)
    (herr : escrowAndStore s battle state = (some e, s')) :
    s'.db.balances = s.db.balances ∧ s'.activeBattles = s.activeBattles ∧
      s'.playerBattles = s.playerBattles := by
  unfold escrowAndStore at herr
  cases h0 : s.db.fails s.db.calls with
  | true =>
    rw [UpdateCoins_fail _ _ _ h0] at herr
    simp only [Prod.mk.injEq] at herr
    rw [← herr.2]
    exact ⟨rfl, rfl, rfl⟩
  | false =>
    rw [UpdateCoins_ok _ _ _ h0] at herr
    simp only [] at herr
    cases h1 : s.db.fails (s.db.calls + 1) with
    | true =>
      have h2 : s.db.fails (s.db.calls + 1 + 1) = false :=
        hrefund (s.db.calls + 1) (s.db.calls + 1 + 1) (by omega) (by omega) h1
      rw [UpdateCoins_fail _ _ _ h1] at herr
      simp only [] at herr
      rw [UpdateCoins_ok _ _ _ h2] at herr
      simp only [Prod.mk.injEq] at herr
      rw [← herr.2]
      refine ⟨?_, rfl, rfl⟩
      funext v
      simp only [hadj, if_true]
      split_ifs <;> omega
    | false =>
      rw [UpdateCoins_ok _ _ _ h1] at herr
      simp only [] at herr
      cases h2 : s.db.fails (s.db.calls + 1 + 1) with
      | true =>
        have h3 : s.db.fails (s.db.calls + 1 + 1 + 1) = false :=
          hrefund (s.db.calls + 1 + 1) (s.db.calls + 1 + 1 + 1) (by omega) (by omega) h2
        have h4 : s.db.fails (s.db.calls + 1 + 1 + 1 + 1) = false :=
          hrefund (s.db.calls + 1 + 1) (s.db.calls + 1 + 1 + 1 + 1) (by omega) (by omega) h2
        rw [UpdateBattle_fail _ _ h2] at herr
        simp only [] at herr
        rw [UpdateCoins_ok _ battle.Player1ID _ h3] at herr
        simp only [] at herr
        rw [UpdateCoins_ok _ battle.Player2ID _ h4] at herr
        simp only [Prod.mk.injEq] at herr
        rw [← herr.2]
        refine ⟨?_, rfl, rfl⟩
        funext v
        simp only [hadj, if_true]
        split_ifs <;> omega
      | false =>
        rw [UpdateBattle_ok _ _ h2] at herr
        simp only [Prod.mk.injEq] at herr
        exact absurd herr.1 (by simp)

end BattleService

namespace BattleService

/-- Under the adjusting reading of `UpdateCoins`: whenever `startBattle`
returns an error (a combatant cannot be loaded, a wager deduction fails or
the envelope cannot be persisted) and the compensating refunds succeed (the
only calls `startBattle` makes after a failed collaborator call are its
refunds), every balance is what it was before the call, and the active-battle
map and the player-to-battle map are unchanged. -/
theorem startBattle_error_is_compensated (s : BattleService) (battle : Battle) (e : Error)
    (s' : BattleService) (hadj : s.db.adjusts = true)
    (hrefund : ∀ i j, s.db.calls ≤ i → i < j → s.db.fails i = true → s.db.fails j = false)
    (herr : startBattle s battle = (some e, s')) :
    s'.db.balances = s.db.balances ∧ s'.activeBattles = s.activeBattles ∧
      s'.playerBattles = s.playerBattles := by
  unfold startBattle at herr
  have hdb1 := GetPokemon_db s.db battle.Player1Pokemon
  cases h1 : (s.db.GetPokemon battle.Player1Pokemon).1 with
  | error e1 =>
    simp only [h1, Prod.mk.injEq] at herr
    rw [← herr.2, hdb1]
    exact ⟨rfl, rfl, rfl⟩
  | ok p1 =>
    simp only [h1] at herr
    have hdb2 := GetPokemon_db (s.db.GetPokemon battle.Player1Pokemon).2 battle.Player2Pokemon
    cases h2 : ((s.db.GetPokemon battle.Player1Pokemon).2.GetPokemon battle.Player2Pokemon).1 with
    | error e2 =>
      simp only [h2, Prod.mk.injEq] at herr
      rw [← herr.2, hdb2, hdb1]
      exact ⟨rfl, rfl, rfl⟩
    | ok p2 =>
      simp only [h2] at herr
      have h := escrowAndStore_error _ _ _ e s' (by rw [hdb2, hdb1]; exact hadj) (by
        rw [hdb2, hdb1]
        intro i j hi hij hf
        exact hrefund i j (by simp only [] at hi; omega) hij hf) herr
      rw [hdb2, hdb1] at h
      exact h

end BattleService

namespace BattleService

/-- A successful `GetBattle` returns the stored envelope, without a state. -/
theorem GetBattle_ok (db : Persistence) (id : UUID) (b : Battle)
    (h : db.fails db.calls = false) (hb : db.battles id = some b) :
    db.GetBattle id = (.ok { b with State := none }, { db with calls := db.calls + 1 }) := by
  unfold Persistence.GetBattle Persistence.call
  simp [h, hb]

/-- A failed `GetBattle` returns an error. -/
theorem GetBattle_fail (db : Persistence) (id : UUID) (h : db.fails db.calls = true) :
    db.GetBattle id = (.error collaboratorError, { db with calls := db.calls + 1 }) := by
  unfold Persistence.GetBattle Persistence.call
  simp [h]

/-- An envelope read back from the repository carries no state. -/
theorem GetBattle_State (db : Persistence) (id : UUID) (b : Battle)
    (h : (db.GetBattle id).1 = .ok b) : b.State = none := by
  unfold Persistence.GetBattle at h
  simp only [] at h
  split_ifs at h
  cases hb : db.battles id with
  | none => simp [hb] at h
  | some b0 =>
    simp only [hb, Except.ok.injEq] at h
    rw [← h]

/-- The call of `endBattle` never returns a nil error: when the settlement
goes through, the log entry dereferences the nil `State` of the envelope read
back. -/
theorem endBattle_never_nil (s : BattleService) (id winner : UUID) :
    (endBattle s id winner).1 ≠ some none := by
  unfold endBattle
  simp only []
  cases h1 : (s.db.GetBattle id).1 with
  | error e => simp
  | ok b =>
    have hst := GetBattle_State s.db id b h1
    simp only []
    split
    · simp
    · split
      · simp
      · simp [hst]

/-- Under the adjusting reading of `UpdateCoins`: when none of its three
collaborator calls fails, `endBattle` on a persisted envelope credits the
winner with twice the wager, moves no other balance, stores the envelope as
completed with the winner, removes the battle from both maps, and then
panics on the nil `State` of the envelope read back. -/
theorem endBattle_settles (s : BattleService) (id winner : UUID) (b : Battle)
    (hadj : s.db.adjusts = true) (hb : s.db.battles id = some b) (hid : b.ID = id)
    (h0 : s.db.fails s.db.calls = false) (h1 : s.db.fails (s.db.calls + 1) = false)
    (h2 : s.db.fails (s.db.calls + 1 + 1) = false) :
    (endBattle s id winner).1 = none ∧
    (endBattle s id winner).2.db.battles id =
      some { b with WinnerID := some winner, Status := BattleStatusCompleted, State := none } ∧
    (endBattle s id winner).2.db.balances winner = s.db.balances winner + 2 * b.WagerAmount ∧
    (∀ u, u ≠ winner → (endBattle s id winner).2.db.balances u = s.db.balances u) ∧
    (endBattle s id winner).2.activeBattles id = none ∧
    (endBattle s id winner).2.playerBattles b.Player1ID = none ∧
    (endBattle s id winner).2.playerBattles b.Player2ID = none := by
  unfold endBattle
  rw [GetBattle_ok _ _ b h0 hb]
  simp only []
  rw [UpdateCoins_ok _ _ _ h1]
  simp only []
  rw [UpdateBattle_ok _ _ h2]
  simp only []
  refine ⟨trivial, ?_, ?_, ?_, ?_, ?_, ?_⟩
  · simp [hid]
  · simp only [if_true, hadj]; rw [mul_comm]
  · intro u hu
    simp only [if_neg hu]
  · simp [mapDelete]
  · simp only [mapDelete, if_true]
    split_ifs <;> rfl
  · simp [mapDelete]

end BattleService

namespace BattleService

/-- Under the adjusting reading of `UpdateCoins`: when the escrow block
returns without error, both wagers have been
deducted, the envelope is persisted and the state is in the active map. -/
theorem escrowAndStore_ok (s : BattleService) (battle : Battle) (state : BattleState)
    (s' : BattleService) (hadj : s.db.adjusts = true)
    (hne : battle.Player1ID ≠ battle.Player2ID)
    (hok : escrowAndStore s battle state = (none, s')) :
    s'.db.balances battle.Player1ID = s.db.balances battle.Player1ID - battle.WagerAmount ∧
    s'.db.balances battle.Player2ID = s.db.balances battle.Player2ID - battle.WagerAmount ∧
    s'.db.battles battle.ID = some { battle with State := none } ∧
    s'.activeBattles battle.ID = some (state.AddLogEntry "battle_start" "Battle has started!") := by
  unfold escrowAndStore at hok
  cases h0 : s.db.fails s.db.calls with
  | true =>
    rw [UpdateCoins_fail _ _ _ h0] at hok
    simp at hok
  | false =>
    rw [UpdateCoins_ok _ _ _ h0] at hok
    simp only [] at hok
    cases h1 : s.db.fails (s.db.calls + 1) with
    | true =>
      rw [UpdateCoins_fail _ _ _ h1] at hok
      simp at hok
    | false =>
      rw [UpdateCoins_ok _ _ _ h1] at hok
      simp only [] at hok
      cases h2 : s.db.fails (s.db.calls + 1 + 1) with
      | true =>
        rw [UpdateBattle_fail _ _ h2] at hok
        simp at hok
      | false =>
        rw [UpdateBattle_ok _ _ h2] at hok
        simp only [Prod.mk.injEq, true_and] at hok
        rw [← hok]
        refine ⟨?_, ?_, ?_, ?_⟩
        · simp only [if_neg hne, if_true, hadj]; omega
        · simp only [if_true, if_neg (Ne.symm hne), hadj]; omega
        · simp
        · simp [mapSet]

end BattleService

namespace BattleService

/-- Under the adjusting reading of `UpdateCoins`: when `startBattle` returns
without error, both wagers have been deducted
and the battle is active and persisted as in progress, its state and its
envelope naming the two players of the battle. -/
theorem startBattle_ok (s : BattleService) (battle : Battle) (s1 : BattleService)
    (hadj : s.db.adjusts = true) (hne : battle.Player1ID ≠ battle.Player2ID)
    (hok : startBattle s battle = (none, s1)) :
    s1.db.balances battle.Player1ID = s.db.balances battle.Player1ID - battle.WagerAmount ∧
    s1.db.balances battle.Player2ID = s.db.balances battle.Player2ID - battle.WagerAmount ∧
    (∃ st b, s1.activeBattles battle.ID = some st ∧ s1.db.battles battle.ID = some b ∧
      b.ID = battle.ID ∧ st.Player1.UserID = battle.Player1ID ∧
      st.Player2.UserID = battle.Player2ID ∧ b.Player1ID = battle.Player1ID ∧
      b.Player2ID = battle.Player2ID ∧ b.WagerAmount = battle.WagerAmount ∧
      b.Status = BattleStatusInProgress) := by
  unfold startBattle at hok
  have hdb1 := GetPokemon_db s.db battle.Player1Pokemon
  cases h1 : (s.db.GetPokemon battle.Player1Pokemon).1 with
  | error e1 => simp [h1] at hok
  | ok p1 =>
    simp only [h1] at hok
    have hdb2 := GetPokemon_db (s.db.GetPokemon battle.Player1Pokemon).2 battle.Player2Pokemon
    cases h2 : ((s.db.GetPokemon battle.Player1Pokemon).2.GetPokemon battle.Player2Pokemon).1 with
    | error e2 => simp [h2] at hok
    | ok p2 =>
      simp only [h2] at hok
      have h := (fun ha hn => escrowAndStore_ok _ _ _ s1 ha hn hok)
        (by rw [hdb2, hdb1]; exact hadj) hne
      rw [hdb2, hdb1] at h
      obtain ⟨hb1, hb2, hbat, hact⟩ := h
      exact ⟨hb1, hb2, _, _, hact, hbat, rfl, rfl, rfl, rfl, rfl, rfl, rfl⟩

/-- C17 fails on the code: `ForfeitBattle` never succeeds.  No call of it
returns a nil error.  (Escrow) when `startBattle` succeeds on a battle between
two distinct players, the balance of each is exactly the wager lower than
before and the battle is active and persisted, naming its two players.
(Forfeit) for every battle that is active and persisted in this way, between
`A` and `B` with wager `w`, when none of the three collaborator calls fails,
`ForfeitBattle` by `A` stores the envelope as completed with winner `B`,
credits `B` with exactly `2 * w`, leaves the balance of `A` (and of every user
other than `B`) unchanged and removes the battle from the active-battle map
and from the player-to-battle entries of both players, and then panics: the
end of the battle is logged through the `State` of the envelope read back,
which is nil.  `UpdateCoins(id, d)` is read as adjusting the balance by `d`
(`adjusts = true`), as the claim states.  On battle 7 between users 1 and 2
with wager 100, started through `SelectPokemon` from balances of 1000: after
the start both hold 900; the forfeit of user 1 panics with user 2 at 1100,
user 1 at 900, the envelope completed with winner 2 and the battle gone from
both maps. -/
theorem ForfeitBattle_panics_after_settlement :
    (∀ (s : BattleService) (battleID playerID : UUID),
      (ForfeitBattle s battleID playerID).1 ≠ some none) ∧
    (∀ (s s1 : BattleService) (battle : Battle),
      s.db.adjusts = true → battle.Player1ID ≠ battle.Player2ID →
      startBattle s battle = (none, s1) →
      s1.db.balances battle.Player1ID = s.db.balances battle.Player1ID - battle.WagerAmount ∧
      s1.db.balances battle.Player2ID = s.db.balances battle.Player2ID - battle.WagerAmount ∧
      (∃ st b1, s1.activeBattles battle.ID = some st ∧ s1.db.battles battle.ID = some b1 ∧
        b1.ID = battle.ID ∧ st.Player1.UserID = battle.Player1ID ∧
        st.Player2.UserID = battle.Player2ID ∧ b1.Player1ID = battle.Player1ID ∧
        b1.Player2ID = battle.Player2ID ∧ b1.WagerAmount = battle.WagerAmount ∧
        b1.Status = BattleStatusInProgress)) ∧
    (∀ (t : BattleService) (state : BattleState) (b : Battle) (A : UUID),
      t.db.adjusts = true → t.activeBattles b.ID = some state → t.db.battles b.ID = some b →
      state.Player1.UserID = b.Player1ID → state.Player2.UserID = b.Player2ID →
      b.Player1ID ≠ b.Player2ID → (A = b.Player1ID ∨ A = b.Player2ID) →
      (∀ i, i < 3 → t.db.fails (t.db.calls + i) = false) →
      (ForfeitBattle t b.ID A).1 = none ∧
      (ForfeitBattle t b.ID A).2.db.battles b.ID =
        some { b with
          WinnerID := some (if A = b.Player1ID then b.Player2ID else b.Player1ID),
          Status := BattleStatusCompleted, State := none } ∧
      (ForfeitBattle t b.ID A).2.db.balances
          (if A = b.Player1ID then b.Player2ID else b.Player1ID) =
        t.db.balances (if A = b.Player1ID then b.Player2ID else b.Player1ID) +
          2 * b.WagerAmount ∧
      (ForfeitBattle t b.ID A).2.db.balances A = t.db.balances A ∧
      (∀ u, u ≠ (if A = b.Player1ID then b.Player2ID else b.Player1ID) →
        (ForfeitBattle t b.ID A).2.db.balances u = t.db.balances u) ∧
      (ForfeitBattle t b.ID A).2.activeBattles b.ID = none ∧
      (ForfeitBattle t b.ID A).2.playerBattles b.Player1ID = none ∧
      (ForfeitBattle t b.ID A).2.playerBattles b.Player2ID = none) ∧
    ((waitingService true).db.balances 1 = 1000 ∧ (waitingService true).db.balances 2 = 1000 ∧
      (startedService true).db.balances 1 = 900 ∧ (startedService true).db.balances 2 = 900 ∧
      ((startedService true).activeBattles 7).map
          (fun st => (st.Player1.UserID, st.Player2.UserID)) = some (1, 2) ∧
      ((startedService true).db.battles 7).map
          (fun b => (b.Status, b.Player1ID, b.Player2ID, b.WagerAmount)) =
        some (BattleStatusInProgress, 1, 2, 100)) ∧
    ((ForfeitBattle (startedService true) 7 1).1 = none ∧
      ((ForfeitBattle (startedService true) 7 1).2.db.battles 7).map
          (fun b => (b.Status, b.WinnerID)) = some (BattleStatusCompleted, some 2) ∧
      (ForfeitBattle (startedService true) 7 1).2.db.balances 2 = 1100 ∧
      (ForfeitBattle (startedService true) 7 1).2.db.balances 1 = 900 ∧
      ((ForfeitBattle (startedService true) 7 1).2.activeBattles 7).isSome = false ∧
      (ForfeitBattle (startedService true) 7 1).2.playerBattles 1 = none ∧
      (ForfeitBattle (startedService true) 7 1).2.playerBattles 2 = none) := by
  refine ⟨?_, fun s s1 battle hadj hne hok => startBattle_ok s battle s1 hadj hne hok, ?_,
    ⟨by decide, by decide, by decide, by decide, by decide, by decide⟩,
    ⟨by decide, by decide, by decide, by decide, by decide, by decide, by decide⟩⟩
  · intro s battleID playerID
    unfold ForfeitBattle
    cases s.activeBattles battleID with
    | none => simp
    | some state => exact endBattle_never_nil _ _ _
  · intro t state b A hadj hact hbat hp1 hp2 hne hA hfails
    have hwin : (if b.Player1ID = A then b.Player2ID else b.Player1ID) =
        (if A = b.Player1ID then b.Player2ID else b.Player1ID) := by
      by_cases h : A = b.Player1ID
      · simp [h]
      · have h' : ¬ b.Player1ID = A := fun e => h e.symm
        simp [h, h']
    have hforfeit : ForfeitBattle t b.ID A =
        endBattle t b.ID (if A = b.Player1ID then b.Player2ID else b.Player1ID) := by
      unfold ForfeitBattle
      simp only [hact, hp1, hp2, hwin]
    rw [hforfeit]
    obtain ⟨h0, h1, h2, h3, h4, h5, h6⟩ := endBattle_settles t b.ID
      (if A = b.Player1ID then b.Player2ID else b.Player1ID) b hadj hbat rfl
      (hfails 0 (by omega)) (hfails 1 (by omega)) (hfails 2 (by omega))
    refine ⟨h0, h1, h2, h3 A ?_, h3, h4, h5, h6⟩
    rcases hA with hA | hA
    · rw [hA]; simp only [if_true]; exact hne
    · rw [hA]; simp only [if_neg (Ne.symm hne)]; exact Ne.symm hne

end BattleService

namespace BattleService

/-- C18: in an active battle, a request of a participant that `SubmitAction`
rejects before buffering (the player already has a pending action this turn,
or the action is a move whose index is out of range of `Moves`, or a move that
`CanUseMove` reports unusable) returns an error and no state pointer, and
leaves the service, and with it the `BattleState` of the battle (pending
actions, turn, phase, HP, PP, log), exactly as it was. -/
theorem SubmitAction_rejection_leaves_state (s : BattleService) (battleID playerID : UUID)
    (actionType : BattleActionType) (moveIndex : Int) (state : BattleState) (player : Side)
    (reason : String)
    (hactive : s.activeBattles battleID = some state)
    (hplayer : state.GetPlayer playerID = some player)
    (hcase :
      (state.Player1.UserID = playerID ∧ state.Player1Action ≠ none) ∨
      (state.Player2.UserID = playerID ∧ state.Player2Action ≠ none) ∨
      (actionType = ActionMove ∧
        (moveIndex < 0 ∨ moveIndex ≥ ((state.player player).Pokemon.Moves.length : Int))) ∨
      (actionType = ActionMove ∧
        (state.player player).Pokemon.CanUseMove moveIndex = some (false, reason))) :
    ∃ err, SubmitAction s battleID playerID actionType moveIndex = some ((none, some err), s) := by
  unfold SubmitAction
  simp only [hactive]
  by_cases hphase : state.Phase ≠ BattleStatusInProgress
  · exact ⟨_, by rw [if_pos hphase]⟩
  rw [if_neg hphase]
  simp only [hplayer]
  by_cases hp1 : state.Player1.UserID = playerID ∧ state.Player1Action.isSome = true
  · exact ⟨_, by rw [if_pos hp1]⟩
  rw [if_neg hp1]
  by_cases hp2 : state.Player2.UserID = playerID ∧ state.Player2Action.isSome = true
  · exact ⟨_, by rw [if_pos hp2]⟩
  rw [if_neg hp2]
  rcases hcase with h | h | h | h
  · exact absurd ⟨h.1, Option.isSome_iff_ne_none.mpr h.2⟩ hp1
  · exact absurd ⟨h.1, Option.isSome_iff_ne_none.mpr h.2⟩ hp2
  · refine ⟨ErrInvalidAction, ?_⟩
    unfold buildAction
    simp only [h.1, if_true, if_pos h.2]
  · by_cases hidx : moveIndex < 0 ∨ moveIndex ≥ ((state.player player).Pokemon.Moves.length : Int)
    · refine ⟨ErrInvalidAction, ?_⟩
      unfold buildAction
      simp only [h.1, if_true, if_pos hidx]
    · refine ⟨"cannot use move: " ++ reason, ?_⟩
      unfold buildAction
      simp only [h.1, if_true, if_neg hidx, h.2, Bool.not_false]

end BattleService

namespace BattleService

/-- C19 fails on the code: battle 7 is active between users 1 and 2 and user 3
asks to forfeit it.  `ForfeitBattle` does not reject the request: it completes
the envelope with user 1 as winner, writes the prize of 200 coins to user 1 (the
balance becomes 200 with the `UpdateCoins` of the sources, 1100 when it is
read as an adjustment) and removes the battle from the active mappings; the
call then ends in the panic in which every settlement ends, on the nil
`State` of the envelope read back. -/
theorem ForfeitBattle_by_outsider_settles :
    ((activeService exampleState false).activeBattles 7 = some exampleState ∧
      exampleState.Player1.UserID = 1 ∧ exampleState.Player2.UserID = 2) ∧
    (ForfeitBattle (activeService exampleState false) 7 3).1 = none ∧
    ((ForfeitBattle (activeService exampleState false) 7 3).2.db.battles 7).map
        (fun b => (b.Status, b.WinnerID)) =
      some (BattleStatusCompleted, some 1) ∧
    ((ForfeitBattle (activeService exampleState false) 7 3).2.db.balances 1,
        (ForfeitBattle (activeService exampleState false) 7 3).2.db.balances 2,
        (ForfeitBattle (activeService exampleState false) 7 3).2.db.balances 3) =
      (200, 900, 900) ∧
    ((ForfeitBattle (activeService exampleState true) 7 3).1,
        (ForfeitBattle (activeService exampleState true) 7 3).2.db.balances 1,
        (ForfeitBattle (activeService exampleState true) 7 3).2.db.balances 2,
        (ForfeitBattle (activeService exampleState true) 7 3).2.db.balances 3) =
      (none, 1100, 900, 900) ∧
    (((ForfeitBattle (activeService exampleState false) 7 3).2.activeBattles 7).isSome,
        (ForfeitBattle (activeService exampleState false) 7 3).2.playerBattles 1,
        (ForfeitBattle (activeService exampleState false) 7 3).2.playerBattles 2) =
      (false, none, none) := by
  refine ⟨by decide, by decide, by decide, by decide, by decide, by decide⟩

/-- C20 fails on the code.  Every user holds 1000 coins and `UpdateCoins`
stores its argument as the new balance, as the repository of the sources
does.  When the deduction of the wager of user 2 fails (the fourth
collaborator call) and the refund of user 1 succeeds, `startBattle` returns
the error and no state is active, but user 1 holds 100 coins: the balance was
overwritten with -100 and then with the refund of 100.  When instead the
envelope cannot be persisted (the fifth call) and both refunds succeed, both
players hold 100 coins. -/
theorem startBattle_refund_overwrites_balance :
    ((exampleService (fun n => n == 3) false).db.balances 1 = 1000 ∧
      (exampleService (fun n => n == 3) false).db.balances 2 = 1000 ∧
      (exampleService (fun n => n == 3) false).db.fails 4 = false) ∧
    (startBattle (exampleService (fun n => n == 3) false) exampleEnvelope).1 =
      some "failed to deduct wager from player 2: collaborator failure" ∧
    ((startBattle (exampleService (fun n => n == 3) false) exampleEnvelope).2.db.calls = 5 ∧
      (startBattle (exampleService (fun n => n == 3) false) exampleEnvelope).2.db.balances 1 =
        100 ∧
      (startBattle (exampleService (fun n => n == 3) false) exampleEnvelope).2.db.balances 2 =
        1000 ∧
      (startBattle (exampleService (fun n => n == 3) false) exampleEnvelope).2.activeBattles 7 =
        none) ∧
    (startBattle (exampleService (fun n => n == 4) false) exampleEnvelope).1 =
      some "failed to update battle: collaborator failure" ∧
    ((startBattle (exampleService (fun n => n == 4) false) exampleEnvelope).2.db.calls = 7 ∧
      (startBattle (exampleService (fun n => n == 4) false) exampleEnvelope).2.db.balances 1 =
        100 ∧
      (startBattle (exampleService (fun n => n == 4) false) exampleEnvelope).2.db.balances 2 =
        100 ∧
      (startBattle (exampleService (fun n => n == 4) false) exampleEnvelope).2.activeBattles 7 =
        none) := by
  refine ⟨by decide, by decide, by decide, by decide, by decide⟩

end BattleService

namespace BattleService

/-- C18 at a concrete input: user 1 has a forfeit pending in battle 7 and
submits a move; the request is rejected and the service is unchanged. -/
theorem SubmitAction_rejection_leaves_state_witness :
    ∃ err,
      SubmitAction (activeService { exampleState with Player1Action := some forfeitAction } false) 7 1
          ActionMove 0 =
        some ((none, some err),
          activeService { exampleState with Player1Action := some forfeitAction } false) :=
  SubmitAction_rejection_leaves_state
    (activeService { exampleState with Player1Action := some forfeitAction } false) 7 1 ActionMove 0
    { exampleState with Player1Action := some forfeitAction } .player1 "" rfl rfl
    (Or.inl ⟨rfl, by decide⟩)

end BattleService

/-! ## The Steel row of the type chart -/

/-- C21: the Steel attack row of `TypeEffectiveness` as coded. Against
Electric it returns the neutral 1, not the 0.5 of the Gen 6+ chart that the
function cites; the other seventeen entries agree with that chart: 0.5
against Fire, Water and Steel, 2 against Ice, Rock and Fairy, 1 against the
remaining eleven types. -/
theorem TypeEffectiveness_steel_row_omits_electric :
    TypeEffectiveness Steel Electric = 1 ∧
      TypeEffectiveness Steel Electric ≠ 1 / 2 ∧
      AllTypes.map (TypeEffectiveness Steel) =
        [1, 1 / 2, 1 / 2, 1, 1, 2, 1, 1, 1, 1, 1, 1, 2, 1, 1, 1, 1 / 2, 2] := by
  refine ⟨?_, ?_, ?_⟩
  · simp [TypeEffectiveness, effectiveness, List.lookup, Normal, Fire, Water, Electric, Grass,
      Ice, Fighting, Poison, Ground, Flying, Psychic, Bug, Rock, Ghost, Dragon, Dark, Steel,
      Fairy]
  · simp [TypeEffectiveness, effectiveness, List.lookup, Normal, Fire, Water, Electric, Grass,
      Ice, Fighting, Poison, Ground, Flying, Psychic, Bug, Rock, Ghost, Dragon, Dark, Steel,
      Fairy]
  · simp [AllTypes, TypeEffectiveness, effectiveness, List.lookup, Normal, Fire, Water,
      Electric, Grass, Ice, Fighting, Poison, Ground, Flying, Psychic, Bug, Rock, Ghost,
      Dragon, Dark, Steel, Fairy]

/-! ## Natures -/

/-- `Nature.GetMultiplier` in terms of the pair returned by `Nature.GetModifiers`. -/
theorem Nature.GetMultiplier_eq (n : Nature) (stat : String) :
    Nature.GetMultiplier n stat =
      if stat = (Nature.GetModifiers n).1 then 11 / 10
      else if stat = (Nature.GetModifiers n).2 then 9 / 10 else 1 := rfl

/-- The natures and the pairs of stat names they modify, as data. -/
theorem AllNatures_modifiers :
    AllNatures.length = 25 ∧ AllNatures.Nodup ∧
      (∀ n ∈ neutralNatures, n ∈ AllNatures ∧ Nature.GetModifiers n = ("", "")) ∧
      (∀ n ∈ AllNatures, n ∉ neutralNatures →
        (Nature.GetModifiers n).1 ∈ natureStats ∧ (Nature.GetModifiers n).2 ∈ natureStats ∧
          (Nature.GetModifiers n).1 ≠ (Nature.GetModifiers n).2) ∧
      ((AllNatures.filter (fun n => decide (n ∉ neutralNatures))).map
        Nature.GetModifiers).Nodup ∧
      (AllNatures.filter (fun n => decide (n ∉ neutralNatures))).length = 20 := by
  decide

/-- C22: `AllNatures` lists 25 pairwise distinct natures. The five neutral
ones have multiplier 1 for each of the five stat names. Each of the other
twenty has two different stat names `up` and `down` among the five with
multiplier 1.1 for `up`, 0.9 for `down` and 1 for the remaining three, and
the twenty (boosted, lowered) pairs are pairwise distinct. -/
theorem AllNatures_boost_one_lower_one :
    AllNatures.length = 25 ∧ AllNatures.Nodup ∧
      (∀ n ∈ neutralNatures, n ∈ AllNatures ∧
        ∀ stat ∈ natureStats, Nature.GetMultiplier n stat = 1) ∧
      (AllNatures.filter (fun n => decide (n ∉ neutralNatures))).length = 20 ∧
      (∀ n ∈ AllNatures, n ∉ neutralNatures →
        ∃ up ∈ natureStats, ∃ down ∈ natureStats, up ≠ down ∧
          Nature.GetModifiers n = (up, down) ∧
          Nature.GetMultiplier n up = 11 / 10 ∧ Nature.GetMultiplier n down = 9 / 10 ∧
          ∀ stat ∈ natureStats, stat ≠ up → stat ≠ down → Nature.GetMultiplier n stat = 1) ∧
      ((AllNatures.filter (fun n => decide (n ∉ neutralNatures))).map
        Nature.GetModifiers).Nodup := by
  obtain ⟨hlen, hnodup, hneutral, hother, hpairs, htwenty⟩ := AllNatures_modifiers
  refine ⟨hlen, hnodup, ?_, htwenty, ?_, hpairs⟩
  · intro n hn
    refine ⟨(hneutral n hn).1, ?_⟩
    intro stat hstat
    have hne : stat ≠ "" := by
      intro h
      rw [h] at hstat
      exact absurd hstat (by decide)
    rw [Nature.GetMultiplier_eq, (hneutral n hn).2]
    simp [hne]
  · intro n hn hnot
    obtain ⟨hup, hdown, hdiff⟩ := hother n hn hnot
    refine ⟨(Nature.GetModifiers n).1, hup, (Nature.GetModifiers n).2, hdown, hdiff, rfl,
      ?_, ?_, ?_⟩
    · rw [Nature.GetMultiplier_eq]; simp
    · rw [Nature.GetMultiplier_eq]; simp [Ne.symm hdiff]
    · intro stat _ h1 h2
      rw [Nature.GetMultiplier_eq]; simp [h1, h2]

/-- C22 on Adamant: attack is boosted, special attack lowered, the three
other stats untouched. -/
theorem AllNatures_boost_one_lower_one_witness :
    ∃ up ∈ natureStats, ∃ down ∈ natureStats, up ≠ down ∧
      Nature.GetModifiers Adamant = (up, down) ∧
      Nature.GetMultiplier Adamant up = 11 / 10 ∧ Nature.GetMultiplier Adamant down = 9 / 10 ∧
      ∀ stat ∈ natureStats, stat ≠ up → stat ≠ down → Nature.GetMultiplier Adamant stat = 1 :=
  AllNatures_boost_one_lower_one.2.2.2.2.1 Adamant (by decide) (by decide)

/-! ## Inflicting a status -/

namespace TurnResolver

/-- C30: on a Pokemon whose status is not none `TryInflictStatus` returns
false and hands back the Pokemon and the random source as they were (no
draw, no overwrite). On a Pokemon with status none and a chance of at least
100 it returns true and sets the requested status; for sleep it sets
`StatusTurns` to a value in 1..3 (one draw), for any other status it changes
nothing else and draws nothing. -/
theorem TryInflictStatus_never_overwrites (rng : Rand) (pokemon : BattlePokemon)
    (status : StatusCondition) (chance : Int) :
    (pokemon.Status ≠ StatusNone →
      TryInflictStatus rng pokemon status chance = (false, pokemon, rng)) ∧
    (pokemon.Status = StatusNone → 100 ≤ chance →
      (TryInflictStatus rng pokemon status chance).1 = true ∧
      (TryInflictStatus rng pokemon status chance).2.1.Status = status ∧
      (status = StatusSleep →
        1 ≤ (TryInflictStatus rng pokemon status chance).2.1.StatusTurns ∧
        (TryInflictStatus rng pokemon status chance).2.1.StatusTurns ≤ 3 ∧
        (TryInflictStatus rng pokemon status chance).2.1 =
          { pokemon with
            Status := status,
            StatusTurns := (TryInflictStatus rng pokemon status chance).2.1.StatusTurns } ∧
        (TryInflictStatus rng pokemon status chance).2.2.pos = rng.pos + 1) ∧
      (status ≠ StatusSleep →
        (TryInflictStatus rng pokemon status chance).2 =
          ({ pokemon with Status := status }, rng))) := by
  refine ⟨?_, ?_⟩
  · intro h
    simp [TryInflictStatus, h]
  · intro h hc
    have hc' : ¬ chance < 100 := not_lt.mpr hc
    by_cases hs : status = StatusSleep
    · subst hs
      have hval : TryInflictStatus rng pokemon StatusSleep chance =
          (true, { pokemon with Status := StatusSleep, StatusTurns := 1 + (rng.Intn 3).1 },
            (rng.Intn 3).2) := by
        simp [TryInflictStatus, h, hc']
      rw [hval]
      have h0 : (0 : Int) ≤ ((rng.draws rng.pos % 3 : Nat) : Int) := Int.natCast_nonneg _
      have h3 : rng.draws rng.pos % 3 < 3 := Nat.mod_lt _ (by decide)
      refine ⟨rfl, rfl, fun _ => ⟨?_, ?_, rfl, rfl⟩, fun hne => absurd rfl hne⟩
      · show 1 ≤ 1 + ((rng.draws rng.pos % 3 : Nat) : Int)
        omega
      · show 1 + ((rng.draws rng.pos % 3 : Nat) : Int) ≤ 3
        omega
    · simp [TryInflictStatus, h, hc', hs]

/-- C30 on examples: a poisoned combatant is left poisoned by an attempt to
put it to sleep, and a healthy one is put to sleep for one to three turns. -/
theorem TryInflictStatus_never_overwrites_witness :
    TryInflictStatus exampleRand { exampleCombatant with Status := StatusPoison } StatusSleep 100 =
        (false, { exampleCombatant with Status := StatusPoison }, exampleRand) ∧
      ((TryInflictStatus exampleRand exampleCombatant StatusSleep 100).1 = true ∧
        (TryInflictStatus exampleRand exampleCombatant StatusSleep 100).2.1.Status =
          StatusSleep ∧
        1 ≤ (TryInflictStatus exampleRand exampleCombatant StatusSleep 100).2.1.StatusTurns ∧
        (TryInflictStatus exampleRand exampleCombatant StatusSleep 100).2.1.StatusTurns ≤ 3) :=
  ⟨(TryInflictStatus_never_overwrites exampleRand
      { exampleCombatant with Status := StatusPoison } StatusSleep 100).1 (by decide),
    ((TryInflictStatus_never_overwrites exampleRand exampleCombatant StatusSleep 100).2
      rfl (by decide)).1,
    ((TryInflictStatus_never_overwrites exampleRand exampleCombatant StatusSleep 100).2
      rfl (by decide)).2.1,
    (((TryInflictStatus_never_overwrites exampleRand exampleCombatant StatusSleep 100).2
      rfl (by decide)).2.2.1 rfl).1,
    (((TryInflictStatus_never_overwrites exampleRand exampleCombatant StatusSleep 100).2
      rfl (by decide)).2.2.1 rfl).2.1⟩

end TurnResolver

/-! ## Critical hits and stat stages -/

namespace DamageCalculator

/-- On a critical hit a negative stage of the attacking stat counts as 0. -/
theorem GetEffectiveAttackStat_crit_negative (ctx : DamageContext) (s : StatStages)
    (hcrit : ctx.IsCriticalHit = true) :
    (ctx.Move.Category = Physical → s.Attack < 0 →
      GetEffectiveAttackStat (withAttackerStages ctx s) =
        GetEffectiveAttackStat (withAttackerStages ctx { s with Attack := 0 })) ∧
    (ctx.Move.Category = Special → s.SpecialAttack < 0 →
      GetEffectiveAttackStat (withAttackerStages ctx s) =
        GetEffectiveAttackStat (withAttackerStages ctx { s with SpecialAttack := 0 })) := by
  refine ⟨fun hcat hneg => ?_, fun hcat hneg => ?_⟩
  · simp [GetEffectiveAttackStat, attackBase, withAttackerStages, hcrit, hcat, hneg]
  · have hne : ¬ (Special = Physical) := by decide
    simp [GetEffectiveAttackStat, attackBase, withAttackerStages, hcrit, hcat, hneg, hne]

/-- On a critical hit a positive stage of the defending stat counts as 0. -/
theorem GetEffectiveDefenseStat_crit_positive (ctx : DamageContext) (s : StatStages)
    (hcrit : ctx.IsCriticalHit = true) :
    (ctx.Move.Category = Physical → 0 < s.Defense →
      GetEffectiveDefenseStat (withDefenderStages ctx s) =
        GetEffectiveDefenseStat (withDefenderStages ctx { s with Defense := 0 })) ∧
    (ctx.Move.Category = Special → 0 < s.SpecialDefense →
      GetEffectiveDefenseStat (withDefenderStages ctx s) =
        GetEffectiveDefenseStat (withDefenderStages ctx { s with SpecialDefense := 0 })) := by
  refine ⟨fun hcat hpos => ?_, fun hcat hpos => ?_⟩
  · simp [GetEffectiveDefenseStat, defenseBase, withDefenderStages, hcrit, hcat, hpos]
  · have hne : ¬ (Special = Physical) := by decide
    simp [GetEffectiveDefenseStat, defenseBase, withDefenderStages, hcrit, hcat, hpos, hne]

/-- A stage that is not unfavourable is read the same with and without a
critical hit. -/
theorem effective_stats_crit_unaffected (ctx : DamageContext) :
    ((ctx.Move.Category = Physical → 0 ≤ ctx.Attacker.StatStages.Attack) →
      (ctx.Move.Category = Special → 0 ≤ ctx.Attacker.StatStages.SpecialAttack) →
      GetEffectiveAttackStat (withCritical ctx true) =
        GetEffectiveAttackStat (withCritical ctx false)) ∧
    ((ctx.Move.Category = Physical → ctx.Defender.StatStages.Defense ≤ 0) →
      (ctx.Move.Category = Special → ctx.Defender.StatStages.SpecialDefense ≤ 0) →
      GetEffectiveDefenseStat (withCritical ctx true) =
        GetEffectiveDefenseStat (withCritical ctx false)) := by
  refine ⟨fun h1 h2 => ?_, fun h1 h2 => ?_⟩
  · have hb : attackBase (withCritical ctx true) = attackBase (withCritical ctx false) := by
      by_cases hp : ctx.Move.Category = Physical
      · have := h1 hp
        simp [attackBase, withCritical, hp, not_lt.mpr this]
      · by_cases hs : ctx.Move.Category = Special
        · have := h2 hs
          simp [attackBase, withCritical, hs, not_lt.mpr this, (by decide : ¬ (Special = Physical))]
        · simp [attackBase, withCritical, hp, hs]
    unfold GetEffectiveAttackStat
    rw [hb]
    rfl
  · have hb : defenseBase (withCritical ctx true) = defenseBase (withCritical ctx false) := by
      by_cases hp : ctx.Move.Category = Physical
      · have := h1 hp
        simp [defenseBase, withCritical, hp, not_lt.mpr this]
      · by_cases hs : ctx.Move.Category = Special
        · have := h2 hs
          simp [defenseBase, withCritical, hs, not_lt.mpr this, (by decide : ¬ (Special = Physical))]
        · simp [defenseBase, withCritical, hp, hs]
    unfold GetEffectiveDefenseStat
    rw [hb]
    rfl

/-- Without a critical hit the stage selected is the stored one. -/
theorem effective_stats_stage_not_critical (ctx : DamageContext)
    (hcrit : ctx.IsCriticalHit = false) :
    (ctx.Move.Category = Physical →
      (attackBase ctx).2 = ctx.Attacker.StatStages.Attack ∧
      (defenseBase ctx).2 = ctx.Defender.StatStages.Defense) ∧
    (ctx.Move.Category = Special →
      (attackBase ctx).2 = ctx.Attacker.StatStages.SpecialAttack ∧
      (defenseBase ctx).2 = ctx.Defender.StatStages.SpecialDefense) := by
  refine ⟨fun hcat => ?_, fun hcat => ?_⟩
  · simp [attackBase, defenseBase, hcrit, hcat]
  · have hne : ¬ (Special = Physical) := by decide
    simp [attackBase, defenseBase, hcrit, hcat, hne]

/-- C27: on a critical hit `GetEffectiveAttackStat` with a negative attack
(special-attack) stage returns what it returns with that stage at 0, and
`GetEffectiveDefenseStat` with a positive defense (special-defense) stage
returns what it returns with that stage at 0; with a stage that is not
unfavourable both return the same with and without the critical hit; without
a critical hit the stage they select is the stored one. Both functions
return a number only: the context, and with it the stored stages, is not
changed. -/
theorem critical_hit_ignores_unfavourable_stages (ctx : DamageContext) (s : StatStages) :
    (ctx.IsCriticalHit = true →
      (ctx.Move.Category = Physical → s.Attack < 0 →
        GetEffectiveAttackStat (withAttackerStages ctx s) =
          GetEffectiveAttackStat (withAttackerStages ctx { s with Attack := 0 })) ∧
      (ctx.Move.Category = Special → s.SpecialAttack < 0 →
        GetEffectiveAttackStat (withAttackerStages ctx s) =
          GetEffectiveAttackStat (withAttackerStages ctx { s with SpecialAttack := 0 })) ∧
      (ctx.Move.Category = Physical → 0 < s.Defense →
        GetEffectiveDefenseStat (withDefenderStages ctx s) =
          GetEffectiveDefenseStat (withDefenderStages ctx { s with Defense := 0 })) ∧
      (ctx.Move.Category = Special → 0 < s.SpecialDefense →
        GetEffectiveDefenseStat (withDefenderStages ctx s) =
          GetEffectiveDefenseStat (withDefenderStages ctx { s with SpecialDefense := 0 }))) ∧
    ((ctx.Move.Category = Physical → 0 ≤ ctx.Attacker.StatStages.Attack) →
      (ctx.Move.Category = Special → 0 ≤ ctx.Attacker.StatStages.SpecialAttack) →
      GetEffectiveAttackStat (withCritical ctx true) =
        GetEffectiveAttackStat (withCritical ctx false)) ∧
    ((ctx.Move.Category = Physical → ctx.Defender.StatStages.Defense ≤ 0) →
      (ctx.Move.Category = Special → ctx.Defender.StatStages.SpecialDefense ≤ 0) →
      GetEffectiveDefenseStat (withCritical ctx true) =
        GetEffectiveDefenseStat (withCritical ctx false)) ∧
    (ctx.IsCriticalHit = false →
      (ctx.Move.Category = Physical →
        (attackBase ctx).2 = ctx.Attacker.StatStages.Attack ∧
        (defenseBase ctx).2 = ctx.Defender.StatStages.Defense) ∧
      (ctx.Move.Category = Special →
        (attackBase ctx).2 = ctx.Attacker.StatStages.SpecialAttack ∧
        (defenseBase ctx).2 = ctx.Defender.StatStages.SpecialDefense)) :=
  ⟨fun hcrit =>
      ⟨(GetEffectiveAttackStat_crit_negative ctx s hcrit).1,
        (GetEffectiveAttackStat_crit_negative ctx s hcrit).2,
        (GetEffectiveDefenseStat_crit_positive ctx s hcrit).1,
        (GetEffectiveDefenseStat_crit_positive ctx s hcrit).2⟩,
    (effective_stats_crit_unaffected ctx).1, (effective_stats_crit_unaffected ctx).2,
    effective_stats_stage_not_critical ctx⟩

/-- The attack stat of the example attacker (120) at stage -2: 120 on a
critical hit, as at stage 0, and 60 otherwise. -/
theorem GetEffectiveAttackStat_example_stage :
    GetEffectiveAttackStat
        (withAttackerStages (withCritical exampleContext true) { Attack := 0 }) = some 120 ∧
      GetEffectiveAttackStat
        (withAttackerStages (withCritical exampleContext false) { Attack := -2 }) = some 60 := by
  refine ⟨?_, ?_⟩
  · simp [GetEffectiveAttackStat, attackBase, withAttackerStages, withCritical, exampleContext,
      exampleWaterMove, exampleCombatant, Physical, GetStatMultiplier, goInt]
  · simp [GetEffectiveAttackStat, attackBase, withAttackerStages, withCritical, exampleContext,
      exampleWaterMove, exampleCombatant, Physical, GetStatMultiplier, goInt]
    norm_num

/-- C27 on the example: with the attack stage at -2 a critical hit of the
physical example move reads the attack stat as at stage 0 (120), where a
normal hit reads 60. -/
theorem critical_hit_ignores_unfavourable_stages_witness :
    GetEffectiveAttackStat
        (withAttackerStages (withCritical exampleContext true) { Attack := -2 }) = some 120 ∧
      GetEffectiveAttackStat
        (withAttackerStages (withCritical exampleContext false) { Attack := -2 }) = some 60 :=
  ⟨(((critical_hit_ignores_unfavourable_stages (withCritical exampleContext true)
      { Attack := -2 }).1 rfl).1 rfl (by decide)).trans GetEffectiveAttackStat_example_stage.1,
    GetEffectiveAttackStat_example_stage.2⟩

end DamageCalculator

/-! ## The ability modifier -/

namespace DamageCalculator

/-- C28: for an attacker with no ability `GetAbilityModifier` returns 1 even
though the move's type (Fire) is listed in `AffectedTypes` of a
damage-modifier effect of the defender's ability with multiplier 1/2; the
defender's multiplier is a factor of the result as soon as the attacker has
any ability, even one without effects. With neither ability present the
result is 1. -/
theorem GetAbilityModifier_skips_defender_without_attacker_ability :
    thickFatContext.AttackerAbility = none ∧
      GetAbilityModifier thickFatContext = some 1 ∧
      GetAbilityModifier thickFatContextWithAbility = some (1 / 2) ∧
      (∀ ctx : DamageContext, ctx.AttackerAbility = none → GetAbilityModifier ctx = some 1) := by
  refine ⟨rfl, rfl, ?_, ?_⟩
  · simp [GetAbilityModifier, thickFatContextWithAbility, thickFatContext, abilityAttackerLoop,
      abilityDefenderLoop, exampleContext, exampleWaterMove, EffectDamageModifier, Fire, Ice]
  · intro ctx h
    simp [GetAbilityModifier, h]

end DamageCalculator

/-! ## The base damage formula -/

namespace DamageCalculator

/-- The damage before flooring is the base damage of the specification times
the product of the modifiers. -/
theorem damageBeforeFloor_base_times_modifiers (ctx : DamageContext) (eff : ℚ)
    (A D : Int) (im am : ℚ)
    (hA : GetEffectiveAttackStat ctx = some A) (hD : GetEffectiveDefenseStat ctx = some D)
    (hD0 : D ≠ 0) (hi : GetItemModifier ctx = some im)
    (ha : GetAbilityModifier ctx = some am) :
    damageBeforeFloor ctx eff =
      some (claimedBaseDamage ctx.Attacker.Level ctx.Move.Power A D *
        modifierProduct ctx eff im am) := by
  unfold damageBeforeFloor goDiv claimedBaseDamage modifierProduct
  simp only [hA, hD, hD0, if_false, hi, ha, Option.some.injEq]
  by_cases hc : ctx.IsCriticalHit = true <;>
    by_cases hb : ctx.Attacker.Status = StatusBurn ∧ ctx.Move.Category = Physical <;>
    by_cases hg : HasBurnIgnoreAbility ctx.AttackerAbility = true <;>
    simp [hc, hb, hg] <;> ring

/-- C26: for a damaging move that connects with effectiveness greater than 0,
with `A` and `D` the integer effective attack and defense stats (`D` not 0),
the damage before flooring is the base damage
`trunc(((trunc(2 * level / 5) + 2) * power * A) / D) / 50 + 2` times the
product of the modifiers, `CalculateDamage` returns a result, its Damage is
the floor of that product with a minimum of 1, and when the product of the
modifiers is 1 (every modifier 1, roll 100) the Damage is `max(1, floor(B))`. -/
theorem CalculateDamage_base_formula (rng : Rand) (ctx : DamageContext) (A D : Int)
    (im am : ℚ)
    (hcat : ctx.Move.Category = Physical ∨ ctx.Move.Category = Special)
    (hhit : (CheckAccuracy rng ctx).1 = true) (heff : 0 < CalculateTypeEffectiveness ctx)
    (hA : GetEffectiveAttackStat (rolledContext rng ctx) = some A)
    (hD : GetEffectiveDefenseStat (rolledContext rng ctx) = some D) (hD0 : D ≠ 0)
    (hi : GetItemModifier (rolledContext rng ctx) = some im)
    (ha : GetAbilityModifier (rolledContext rng ctx) = some am) :
    damageBeforeFloor (rolledContext rng ctx) (CalculateTypeEffectiveness ctx) =
        some (claimedBaseDamage ctx.Attacker.Level ctx.Move.Power A D *
          modifierProduct (rolledContext rng ctx) (CalculateTypeEffectiveness ctx) im am) ∧
      ∃ res rng', CalculateDamage rng ctx = some (res, rng') ∧
        res.Damage = max 1 ⌊claimedBaseDamage ctx.Attacker.Level ctx.Move.Power A D *
          modifierProduct (rolledContext rng ctx) (CalculateTypeEffectiveness ctx) im am⌋ ∧
        (modifierProduct (rolledContext rng ctx) (CalculateTypeEffectiveness ctx) im am = 1 →
          res.Damage = max 1 ⌊claimedBaseDamage ctx.Attacker.Level ctx.Move.Power A D⌋) := by
  have hcat' : ctx.Move.Category ≠ Status := by
    rcases hcat with h | h <;> rw [h] <;> decide
  have hbase := damageBeforeFloor_base_times_modifiers (rolledContext rng ctx)
    (CalculateTypeEffectiveness ctx) A D im am hA hD hD0 hi ha
  have hlevel : (rolledContext rng ctx).Attacker.Level = ctx.Attacker.Level := rfl
  have hpower : (rolledContext rng ctx).Move.Power = ctx.Move.Power := rfl
  rw [hlevel, hpower] at hbase
  refine ⟨hbase, ?_⟩
  have hcalc := CalculateDamage_connects rng ctx hcat' hhit (ne_of_gt heff)
  rw [hbase] at hcalc
  simp only [Option.map_some'] at hcalc
  refine ⟨_, _, hcalc, finishResult_Damage _ _ _, ?_⟩
  intro hone
  rw [finishResult_Damage, hone, mul_one]

/-- The example of the specification (level 50, power 90, attack and defense
120, neutral target): the stats, the modifiers and the base damage 41.6. -/
theorem claimedBaseDamage_example :
    GetEffectiveAttackStat (rolledContext exampleRand
        (withDefenderTypes exampleContext Normal none)) = some 120 ∧
      GetEffectiveDefenseStat (rolledContext exampleRand
        (withDefenderTypes exampleContext Normal none)) = some 120 ∧
      GetItemModifier (rolledContext exampleRand
        (withDefenderTypes exampleContext Normal none)) = some 1 ∧
      GetAbilityModifier (rolledContext exampleRand
        (withDefenderTypes exampleContext Normal none)) = some 1 ∧
      CalculateTypeEffectiveness (withDefenderTypes exampleContext Normal none) = 1 ∧
      modifierProduct (rolledContext exampleRand
        (withDefenderTypes exampleContext Normal none)) 1 1 1 = 1 ∧
      claimedBaseDamage 50 90 120 120 = 208 / 5 := by
  rw [(rolledContext_example Normal none).2]
  refine ⟨?_, ?_, rfl, rfl, ?_, ?_, ?_⟩
  · simp [GetEffectiveAttackStat, attackBase, withDefenderTypes, exampleContext,
      exampleWaterMove, exampleCombatant, Physical, GetStatMultiplier, goInt]
  · simp [GetEffectiveDefenseStat, defenseBase, withDefenderTypes, exampleContext,
      exampleWaterMove, exampleCombatant, Physical, GetStatMultiplier, goInt]
  · simp [CalculateTypeEffectiveness, GoBattleServer.CalculateTypeEffectiveness,
      TypeEffectiveness, effectiveness, List.lookup, withDefenderTypes, exampleContext,
      exampleWaterMove, exampleCombatant, Normal, Fire, Water, Electric, Grass,
      Ice, Fighting, Poison, Ground, Flying, Psychic, Bug, Rock, Ghost, Dragon, Dark, Steel,
      Fairy]
  · simp [modifierProduct, GetWeatherModifier, GetSTABModifier, GetTerrainModifier,
      HasBurnIgnoreAbility, withDefenderTypes, exampleContext, exampleWaterMove,
      exampleCombatant, WeatherNone, WeatherSun, WeatherRain, TerrainNone, TerrainElectric,
      TerrainGrassy, TerrainPsychic, StatusNone, StatusBurn, Water, Normal, Flying]
  · have hq : ((((2 * 50 : Int).tdiv 5 + 2) * 90 * 120).tdiv 120 : Int) = 1980 := rfl
    unfold claimedBaseDamage
    rw [hq]
    norm_num

/-- C26 on the example of the specification: level 50, power 90, attack and
defense 120 give B = 41.6 and Damage 41. -/
theorem CalculateDamage_base_formula_witness :
    claimedBaseDamage 50 90 120 120 = 208 / 5 ∧
      ∃ res rng', CalculateDamage exampleRand (withDefenderTypes exampleContext Normal none) =
        some (res, rng') ∧ res.Damage = 41 := by
  refine ⟨claimedBaseDamage_example.2.2.2.2.2.2, ?_⟩
  obtain ⟨hA, hD, hi, ha, heff, hone, hB⟩ := claimedBaseDamage_example
  obtain ⟨-, res, rng', hcalc, -, hdamage⟩ :=
    CalculateDamage_base_formula exampleRand (withDefenderTypes exampleContext Normal none)
      120 120 1 1 (Or.inl rfl) (rolledContext_example Normal none).1
      (by rw [heff]; norm_num) hA hD (by decide) hi ha
  refine ⟨res, rng', hcalc, ?_⟩
  rw [heff] at hdamage
  have h := hdamage hone
  have hlevel : (withDefenderTypes exampleContext Normal none).Attacker.Level = 50 := rfl
  have hpower : (withDefenderTypes exampleContext Normal none).Move.Power = 90 := rfl
  rw [hlevel, hpower, hB] at h
  rw [h]
  have hf : ⌊(208 / 5 : ℚ)⌋ = 41 := by rw [Int.floor_eq_iff]; norm_num
  rw [hf]; rfl

end DamageCalculator

/-! ## Misses and immunities in `ExecuteMove` -/

namespace TurnResolver

/-- Reading back the Pokemon just written behind a player pointer. -/
theorem player_setPokemon_same (state : BattleState) (side : Side) (p : BattlePokemon) :
    ((state.setPokemon side p).player side).Pokemon = p := by
  cases side <;> rfl

/-- A write behind one player pointer leaves the other player alone. -/
theorem player_setPokemon_other (state : BattleState) (side : Side) (p : BattlePokemon) :
    (state.setPokemon side p).player side.other = state.player side.other := by
  cases side <;> rfl

/-- `ExecuteMove` for a damaging move whose user passes the can-move check:
the damage is calculated on `moveContext`, a result with Damage 0 and an
effectiveness above 0 is reported as a miss, any other result is applied. -/
theorem ExecuteMove_damaging (rng : Rand) (state : BattleState) (attacker : Side)
    (action : BattleAction) (move : Move) (hmove : action.Move = some move)
    (hcat : move.Category ≠ Status) (hcan : (moveCheck rng state attacker action).1 = true) :
    ExecuteMove rng state attacker action =
      match DamageCalculator.CalculateDamage (moveCheck rng state attacker action).2.2.2
          (moveContext rng state attacker action move) with
      | none => none
      | some (damageResult, rng') =>
        if damageResult.Damage = 0 ∧ damageResult.Effectiveness > 0 then
          some ({ usedMoveResolved rng state attacker action move with
              Messages := (usedMoveResolved rng state attacker action move).Messages ++
                ["But it missed!"],
              Failed := true },
            usedMoveState rng state attacker action, rng')
        else
          some (applyDamageResult rng' (usedMoveState rng state attacker action) attacker move
            (usedMoveResolved rng state attacker action move) damageResult) := by
  cases action
  simp only at hmove
  subst hmove
  unfold moveCheck moveResolved at hcan
  unfold ExecuteMove
  simp only [hcan, hcat, Bool.not_true, Bool.false_eq_true, if_false]
  cases attacker <;> rfl

/-- The can-move check leaves the `Failed` flag of the resolved action alone. -/
theorem CanPokemonMove_Failed (rng : Rand) (p : BattlePokemon) (r : ResolvedAction) :
    (CanPokemonMove rng p r).2.2.1.Failed = r.Failed := by
  unfold CanPokemonMove
  simp only []
  split_ifs <;> rfl

/-- A Pokemon that is not frozen and passes the can-move check is handed
back as it was, with the resolved action as it was. -/
theorem CanPokemonMove_passes (rng : Rand) (p : BattlePokemon) (r : ResolvedAction)
    (hfrozen : p.Status ≠ StatusFreeze) (hcan : (CanPokemonMove rng p r).1 = true) :
    (CanPokemonMove rng p r).2.1 = p ∧ (CanPokemonMove rng p r).2.2.1 = r := by
  unfold CanPokemonMove at hcan ⊢
  simp only [] at hcan ⊢
  split_ifs at hcan ⊢ <;> exact ⟨rfl, rfl⟩

/-- Taking 0 damage changes no HP (when it is not negative), status, status
counter or stat stage. -/
theorem TakeDamage_zero (p : BattlePokemon) (h : 0 ≤ p.CurrentHP) :
    (p.TakeDamage 0).1.CurrentHP = p.CurrentHP ∧ (p.TakeDamage 0).1.Status = p.Status ∧
      (p.TakeDamage 0).1.StatusTurns = p.StatusTurns ∧
      (p.TakeDamage 0).1.StatStages = p.StatStages ∧ (p.TakeDamage 0).1.MovePP = p.MovePP := by
  unfold BattlePokemon.TakeDamage
  simp only [sub_zero, not_lt.mpr h, if_false]
  split_ifs <;> exact ⟨rfl, rfl, rfl, rfl, rfl⟩

/-- Decrementing PP changes no HP, status, status counter or stat stage. -/
theorem DecrementPP_frame (p : BattlePokemon) (i : Int) :
    (p.DecrementPP i).CurrentHP = p.CurrentHP ∧ (p.DecrementPP i).Status = p.Status ∧
      (p.DecrementPP i).StatusTurns = p.StatusTurns ∧
      (p.DecrementPP i).StatStages = p.StatStages ∧ (p.DecrementPP i).Fainted = p.Fainted := by
  unfold BattlePokemon.DecrementPP
  split_ifs <;> exact ⟨rfl, rfl, rfl, rfl, rfl⟩

/-- The part of `ExecuteMove` after the damage calculation does not set the
`Failed` flag. -/
theorem applyDamageResult_Failed (rng : Rand) (state : BattleState) (attacker : Side)
    (move : Move) (resolved : ResolvedAction) (damageResult : DamageResult) :
    (applyDamageResult rng state attacker move resolved damageResult).1.Failed =
      resolved.Failed := by
  unfold applyDamageResult
  split_ifs
  · simp only [secondaryStep, drainStep, recoilStep, damageStep]
    split_ifs <;> rfl
  · rfl

/-- The part of `ExecuteMove` after the damage calculation, for a result of
effectiveness 0: the defender takes the Damage, the immunity is reported, and
nothing else happens. -/
theorem applyDamageResult_immune (rng : Rand) (state : BattleState) (attacker : Side)
    (move : Move) (resolved : ResolvedAction) (damageResult : DamageResult)
    (heff : damageResult.Effectiveness = 0) :
    applyDamageResult rng state attacker move resolved damageResult =
      ({ (damageStep state attacker.other resolved damageResult).1 with
          Messages := (damageStep state attacker.other resolved damageResult).1.Messages ++
            ["It doesn\x27t affect the foe!"] },
        state.setPokemon attacker.other
          ((state.player attacker.other).Pokemon.TakeDamage damageResult.Damage).1, rng) := by
  unfold applyDamageResult
  simp [heff, damageStep]

end TurnResolver

namespace DamageCalculator

/-- A damaging move that fails the accuracy check returns the initial result
right after the accuracy roll. -/
theorem CalculateDamage_miss (rng : Rand) (ctx : DamageContext)
    (hcat : ctx.Move.Category ≠ Status) (hmiss : (CheckAccuracy rng ctx).1 = false) :
    CalculateDamage rng ctx =
      some ({ IsCritical := false, Effectiveness := 1, RandomRoll := 85 },
        (CheckAccuracy rng ctx).2) := by
  unfold CalculateDamage
  simp only [hcat, if_false, hmiss, Bool.not_false, if_true]

/-- A damaging move that hits an immune defender returns Damage 0 and
effectiveness 0 right after the critical-hit roll. -/
theorem CalculateDamage_immune (rng : Rand) (ctx : DamageContext)
    (hcat : ctx.Move.Category ≠ Status) (hhit : (CheckAccuracy rng ctx).1 = true)
    (heff : CalculateTypeEffectiveness ctx = 0) :
    ∃ res, CalculateDamage rng ctx =
        some (res, (CheckCriticalHit (CheckAccuracy rng ctx).2 ctx).2) ∧
      res.Damage = 0 ∧ res.Effectiveness = 0 := by
  unfold CalculateDamage
  simp only [hcat, if_false, hhit, Bool.not_true, Bool.false_eq_true,
    CalculateTypeEffectiveness_crit, heff, if_true]
  exact ⟨_, rfl, rfl, rfl⟩

end DamageCalculator

namespace TurnResolver

/-- On the example source the frozen user 1 thaws out (roll 0) and the
inaccurate move then misses (roll 92 against accuracy 50). -/
theorem frozenState_thaws_and_misses :
    moveCheck exampleRand frozenState .player1 inaccurateAttack =
        (true, exampleCombatant,
          { moveResolved frozenState .player1 inaccurateAttack with
            Messages := ["example thawed out!"] },
          { exampleRand with pos := 1 }) ∧
      DamageCalculator.CheckAccuracy { exampleRand with pos := 1 }
        (moveContext exampleRand frozenState .player1 inaccurateAttack inaccurateMove) =
        (false, { exampleRand with pos := 2 }) := by
  have h1 : moveCheck exampleRand frozenState .player1 inaccurateAttack =
      (true, exampleCombatant,
        { moveResolved frozenState .player1 inaccurateAttack with
          Messages := ["example thawed out!"] },
        { exampleRand with pos := 1 }) := rfl
  refine ⟨h1, ?_⟩
  have hctx : moveContext exampleRand frozenState .player1 inaccurateAttack inaccurateMove =
      { exampleContext with Move := inaccurateMove } := by
    unfold moveContext usedMoveState
    rw [h1]
    rfl
  rw [hctx]
  simp [DamageCalculator.CheckAccuracy, DamageCalculator.finalAccuracy, exampleContext,
    inaccurateMove, exampleWaterMove, exampleRand, Rand.Intn, exampleCombatant,
    GetStatMultiplier]
  norm_num

end TurnResolver

namespace TurnResolver

/-- C29 as stated fails: the frozen user 1 thaws out in the can-move check of
`ExecuteMove` and its damaging move then misses; the miss is reported, and
the user's status has changed from freeze to none. -/
theorem ExecuteMove_thaw_then_miss_changes_status :
    (frozenState.player .player1).Pokemon.Status = StatusFreeze ∧
      inaccurateMove.Category ≠ Status ∧
      (ExecuteMove exampleRand frozenState .player1 inaccurateAttack).map
          (fun r => (r.1.Failed, r.1.Messages, (r.2.1.player .player1).Pokemon.Status)) =
        some (true, ["example thawed out!", "example used wild_water!", "But it missed!"],
          StatusNone) := by
  refine ⟨rfl, by decide, ?_⟩
  obtain ⟨hcheck, hacc⟩ := frozenState_thaws_and_misses
  have hcan : (moveCheck exampleRand frozenState .player1 inaccurateAttack).1 = true := by
    rw [hcheck]
  have hrng : (moveCheck exampleRand frozenState .player1 inaccurateAttack).2.2.2 =
      { exampleRand with pos := 1 } := by rw [hcheck]
  rw [ExecuteMove_damaging exampleRand frozenState .player1 inaccurateAttack inaccurateMove rfl
    (by decide) hcan, hrng]
  rw [DamageCalculator.CalculateDamage_miss _ _ (by decide) (by rw [hacc])]
  have hst : ((usedMoveState exampleRand frozenState .player1 inaccurateAttack).player
      .player1).Pokemon.Status = StatusNone := by
    unfold usedMoveState
    rw [hcheck]
    rfl
  have hmsg : (usedMoveResolved exampleRand frozenState .player1 inaccurateAttack
      inaccurateMove).Messages = ["example thawed out!", "example used wild_water!"] := by
    unfold usedMoveResolved
    rw [hcheck]
    decide
  simp [hst, hmsg]

end TurnResolver

namespace TurnResolver

/-- C29 (amended): for a damaging move whose user is not frozen and passes
the can-move check, against a defender with non-negative HP: every result of
`ExecuteMove` is flagged as failed exactly when the accuracy check failed; on
a miss `ExecuteMove` returns, with "But it missed!" as its last message, the
state in which only the PP of the user has been decremented, and the random
source as the accuracy roll left it; on an immunity (the hit connects with
effectiveness 0) it returns, not flagged as failed, the state in which the
user has only its PP decremented and the defender has taken 0 damage, and
the random source as the critical-hit roll left it (no recoil, no drain, no
secondary-effect roll); decrementing PP and taking 0 damage change no HP,
status, status counter or stat stage. -/
theorem ExecuteMove_miss_or_immune_frame (rng : Rand) (state : BattleState) (attacker : Side)
    (action : BattleAction) (move : Move) (hmove : action.Move = some move)
    (hcat : move.Category ≠ Status)
    (hfrozen : (state.player attacker).Pokemon.Status ≠ StatusFreeze)
    (hhp : 0 ≤ (state.player attacker.other).Pokemon.CurrentHP)
    (hcan : (moveCheck rng state attacker action).1 = true) :
    (∀ resolved state' rng',
        ExecuteMove rng state attacker action = some (resolved, state', rng') →
        (resolved.Failed = true ↔
          (DamageCalculator.CheckAccuracy (moveCheck rng state attacker action).2.2.2
            (moveContext rng state attacker action move)).1 = false)) ∧
      ((DamageCalculator.CheckAccuracy (moveCheck rng state attacker action).2.2.2
          (moveContext rng state attacker action move)).1 = false →
        ∃ resolved, ExecuteMove rng state attacker action =
            some (resolved,
              state.setPokemon attacker
                ((state.player attacker).Pokemon.DecrementPP action.MoveIndex),
              (DamageCalculator.CheckAccuracy (moveCheck rng state attacker action).2.2.2
                (moveContext rng state attacker action move)).2) ∧
          resolved.Messages.getLast? = some "But it missed!") ∧
      ((DamageCalculator.CheckAccuracy (moveCheck rng state attacker action).2.2.2
          (moveContext rng state attacker action move)).1 = true →
        DamageCalculator.CalculateTypeEffectiveness
          (moveContext rng state attacker action move) = 0 →
        ∃ resolved, ExecuteMove rng state attacker action =
            some (resolved,
              (state.setPokemon attacker
                ((state.player attacker).Pokemon.DecrementPP action.MoveIndex)).setPokemon
                attacker.other ((state.player attacker.other).Pokemon.TakeDamage 0).1,
              (DamageCalculator.CheckCriticalHit
                (DamageCalculator.CheckAccuracy (moveCheck rng state attacker action).2.2.2
                  (moveContext rng state attacker action move)).2
                (moveContext rng state attacker action move)).2) ∧
          resolved.Messages.getLast? = some "It doesn\x27t affect the foe!") ∧
      (((state.player attacker).Pokemon.DecrementPP action.MoveIndex).CurrentHP =
          (state.player attacker).Pokemon.CurrentHP ∧
        ((state.player attacker).Pokemon.DecrementPP action.MoveIndex).Status =
          (state.player attacker).Pokemon.Status ∧
        ((state.player attacker).Pokemon.DecrementPP action.MoveIndex).StatusTurns =
          (state.player attacker).Pokemon.StatusTurns ∧
        ((state.player attacker).Pokemon.DecrementPP action.MoveIndex).StatStages =
          (state.player attacker).Pokemon.StatStages) ∧
      (((state.player attacker.other).Pokemon.TakeDamage 0).1.CurrentHP =
          (state.player attacker.other).Pokemon.CurrentHP ∧
        ((state.player attacker.other).Pokemon.TakeDamage 0).1.Status =
          (state.player attacker.other).Pokemon.Status ∧
        ((state.player attacker.other).Pokemon.TakeDamage 0).1.StatusTurns =
          (state.player attacker.other).Pokemon.StatusTurns ∧
        ((state.player attacker.other).Pokemon.TakeDamage 0).1.StatStages =
          (state.player attacker.other).Pokemon.StatStages) := by
  have hpass := CanPokemonMove_passes rng (state.player attacker).Pokemon
    (moveResolved state attacker action) hfrozen hcan
  have hpok : (moveCheck rng state attacker action).2.1 = (state.player attacker).Pokemon :=
    hpass.1
  have hst : usedMoveState rng state attacker action =
      state.setPokemon attacker
        ((state.player attacker).Pokemon.DecrementPP action.MoveIndex) := by
    unfold usedMoveState
    rw [hpok]
    cases attacker <;> rfl
  have hfailed : (usedMoveResolved rng state attacker action move).Failed = false := by
    show (moveCheck rng state attacker action).2.2.1.Failed = false
    unfold moveCheck
    rw [CanPokemonMove_Failed]
    rfl
  have hctxcat : (moveContext rng state attacker action move).Move.Category ≠ Status := hcat
  have hexec := ExecuteMove_damaging rng state attacker action move hmove hcat hcan
  have hdef : ((state.setPokemon attacker
      ((state.player attacker).Pokemon.DecrementPP action.MoveIndex)).player
        attacker.other).Pokemon = (state.player attacker.other).Pokemon := by
    rw [player_setPokemon_other]
  have hzero := TakeDamage_zero _ hhp
  have hpp := DecrementPP_frame (state.player attacker).Pokemon action.MoveIndex
  refine ⟨?_, ?_, ?_, ⟨hpp.1, hpp.2.1, hpp.2.2.1, hpp.2.2.2.1⟩,
    ⟨hzero.1, hzero.2.1, hzero.2.2.1, hzero.2.2.2.1⟩⟩
  · intro resolved state' rng' hres
    rw [hexec] at hres
    by_cases hhit : (DamageCalculator.CheckAccuracy (moveCheck rng state attacker action).2.2.2
        (moveContext rng state attacker action move)).1 = true
    · rw [hhit]
      have hnot : resolved.Failed = false := by
        by_cases heff : DamageCalculator.CalculateTypeEffectiveness
            (moveContext rng state attacker action move) = 0
        · obtain ⟨res, hcalc, -, hres0⟩ :=
            DamageCalculator.CalculateDamage_immune _ _ hctxcat hhit heff
          rw [hcalc] at hres
          simp only [hres0, gt_iff_lt, lt_self_iff_false, and_false, if_false,
            Option.some.injEq] at hres
          have h1 := congrArg Prod.fst hres
          simp only at h1
          rw [← h1, applyDamageResult_Failed, hfailed]
        · cases hcalc : DamageCalculator.CalculateDamage
              (moveCheck rng state attacker action).2.2.2
              (moveContext rng state attacker action move) with
          | none => rw [hcalc] at hres; simp at hres
          | some r =>
            obtain ⟨res, rng2⟩ := r
            have hge := DamageCalculator.CalculateDamage_connects_ge_one _ _ hctxcat hhit heff
              res rng2 hcalc
            have hne : ¬ (res.Damage = 0 ∧ res.Effectiveness > 0) := by
              intro h; omega
            rw [hcalc] at hres
            simp only [hne, if_false, Option.some.injEq] at hres
            have h1 := congrArg Prod.fst hres
            simp only at h1
            rw [← h1, applyDamageResult_Failed, hfailed]
      simp [hnot]
    · have hmiss : (DamageCalculator.CheckAccuracy (moveCheck rng state attacker action).2.2.2
          (moveContext rng state attacker action move)).1 = false := by simpa using hhit
      rw [DamageCalculator.CalculateDamage_miss _ _ hctxcat hmiss] at hres
      simp only [gt_iff_lt, zero_lt_one, and_self, if_true, Option.some.injEq] at hres
      have h1 := congrArg Prod.fst hres
      simp only at h1
      rw [hmiss, ← h1]
      simp
  · intro hmiss
    rw [hexec, DamageCalculator.CalculateDamage_miss _ _ hctxcat hmiss, hst]
    simp only [gt_iff_lt, zero_lt_one, and_self, if_true]
    exact ⟨_, rfl, by simp⟩
  · intro hhit heff
    obtain ⟨res, hcalc, hdmg, hres0⟩ :=
      DamageCalculator.CalculateDamage_immune _ _ hctxcat hhit heff
    rw [hexec, hcalc, hst]
    simp only [hres0, gt_iff_lt, lt_self_iff_false, and_false, if_false]
    rw [applyDamageResult_immune _ _ _ _ _ _ hres0, hdmg, hdef]
    exact ⟨_, rfl, by simp⟩

end TurnResolver

namespace TurnResolver

/-- On `missRand` the healthy user 1 passes the can-move check without a
draw and the inaccurate move misses (roll 92 against accuracy 50). -/
theorem exampleState_misses :
    (moveCheck missRand exampleState .player1 inaccurateAttack).1 = true ∧
      (DamageCalculator.CheckAccuracy
        (moveCheck missRand exampleState .player1 inaccurateAttack).2.2.2
        (moveContext missRand exampleState .player1 inaccurateAttack inaccurateMove)).1 =
        false := by
  have h1 : moveCheck missRand exampleState .player1 inaccurateAttack =
      (true, exampleCombatant, moveResolved exampleState .player1 inaccurateAttack,
        missRand) := rfl
  have hctx : moveContext missRand exampleState .player1 inaccurateAttack inaccurateMove =
      { exampleContext with Move := inaccurateMove } := by
    unfold moveContext usedMoveState
    rw [h1]
    rfl
  rw [hctx, h1]
  refine ⟨rfl, ?_⟩
  simp [DamageCalculator.CheckAccuracy, DamageCalculator.finalAccuracy, exampleContext,
    inaccurateMove, exampleWaterMove, exampleRand, missRand, Rand.Intn, exampleCombatant,
    GetStatMultiplier]
  norm_num

/-- C29 (amended) on the example: the healthy user 1 misses with the
inaccurate move; the miss is reported and the state returned differs from
the one before only in the PP of user 1. -/
theorem ExecuteMove_miss_or_immune_frame_witness :
    ∃ resolved, ExecuteMove missRand exampleState .player1 inaccurateAttack =
        some (resolved,
          exampleState.setPokemon .player1
            ((exampleState.player .player1).Pokemon.DecrementPP inaccurateAttack.MoveIndex),
          (DamageCalculator.CheckAccuracy
            (moveCheck missRand exampleState .player1 inaccurateAttack).2.2.2
            (moveContext missRand exampleState .player1 inaccurateAttack inaccurateMove)).2) ∧
      resolved.Messages.getLast? = some "But it missed!" :=
  (ExecuteMove_miss_or_immune_frame missRand exampleState .player1 inaccurateAttack
    inaccurateMove rfl (by decide) (by decide) (by decide) exampleState_misses.1).2.1
    exampleState_misses.2

end TurnResolver

/-! ## Validating a Discord ID -/

/-- What `ValidateDiscordID` guarantees for an accepted string: a length of
17 to 20 bytes, and digits only once the surrounding white space is trimmed. -/
theorem ValidateDiscordID_accepted (s : String) (h : ValidateDiscordID s = none) :
    17 ≤ s.utf8ByteSize ∧ s.utf8ByteSize ≤ 20 ∧
      ∀ c ∈ (TrimSpace s).data, '0' ≤ c ∧ c ≤ '9' := by
  unfold ValidateDiscordID at h
  split_ifs at h with h1 h2 h3
  push_neg at h3
  refine ⟨h3.1, h3.2, ?_⟩
  have hnum : isNumeric s = true := by simpa using h2
  unfold isNumeric at hnum
  simp only [] at hnum
  split_ifs at hnum with h4
  intro c hc
  have := List.all_eq_true.mp hnum c hc
  simp only [Bool.not_eq_true', Bool.or_eq_false_iff, decide_eq_false_iff_not, not_lt] at this
  exact this

/-- C25: `ValidateDiscordID` returns nil for the 17-byte string made of a
space and sixteen digits, although its first character is not a decimal
digit: `isNumeric` trims the string before it looks at the characters, the
length is taken of the untrimmed string. The rest of the claim holds: the
empty string is rejected with `ErrEmptyDiscordID`, every other rejected
string with `ErrInvalidDiscordID`, and an accepted string has a length of 17
to 20 and only digits between its leading and trailing white space. -/
theorem ValidateDiscordID_accepts_padded_digits :
    ValidateDiscordID " 1234567890123456" = none ∧
      ¬ (∀ c ∈ " 1234567890123456".data, '0' ≤ c ∧ c ≤ '9') ∧
      ValidateDiscordID "" = some ErrEmptyDiscordID ∧
      (∀ s : String, s ≠ "" →
        ValidateDiscordID s = none ∨ ValidateDiscordID s = some ErrInvalidDiscordID) ∧
      (∀ s : String, ValidateDiscordID s = none →
        17 ≤ s.utf8ByteSize ∧ s.utf8ByteSize ≤ 20 ∧
          ∀ c ∈ (TrimSpace s).data, '0' ≤ c ∧ c ≤ '9') := by
  refine ⟨by decide, by decide, by decide, ?_, ValidateDiscordID_accepted⟩
  intro s hs
  unfold ValidateDiscordID
  simp only [hs, if_false]
  split_ifs <;> simp

/-! ## The gacha service -/

namespace GachaService

/-- What every repository call leaves alone: the two oracles. -/
theorem GetRandomByRarity_frame (db : Repositories) (rarity : Rarity) :
    (db.GetRandomByRarity rarity).2.fails = db.fails ∧
      (db.GetRandomByRarity rarity).2.species = db.species ∧
      (db.GetRandomByRarity rarity).2.users = db.users ∧
      (db.GetRandomByRarity rarity).2.pokemons = db.pokemons := by
  unfold Repositories.GetRandomByRarity Repositories.call
  simp only []
  split_ifs
  · exact ⟨rfl, rfl, rfl, rfl⟩
  · cases db.species db.calls rarity <;> exact ⟨rfl, rfl, rfl, rfl⟩

/-- The species that `GetRandomByRarity` returns is the pick of the species
table for the rarity asked. -/
theorem GetRandomByRarity_ok (db : Repositories) (rarity : Rarity) (species : PokemonSpecies)
    (h : (db.GetRandomByRarity rarity).1 = .ok species) :
    db.species db.calls rarity = some species := by
  unfold Repositories.GetRandomByRarity Repositories.call at h
  simp only [] at h
  by_cases hf : db.fails db.calls = true
  · rw [if_pos hf] at h; cases h
  · rw [if_neg hf] at h
    cases hs : db.species db.calls rarity with
    | none => rw [hs] at h; cases h
    | some s => rw [hs] at h; cases h; rfl

/-- `GetRandomByRarity` succeeds when the call does not fail and the table has
a row of the rarity. -/
theorem GetRandomByRarity_succeeds (db : Repositories) (rarity : Rarity)
    (hfails : ∀ n, db.fails n = false) (hspecies : ∀ n r, ∃ s, db.species n r = some s) :
    ∃ species, (db.GetRandomByRarity rarity).1 = .ok species := by
  obtain ⟨s, hs⟩ := hspecies db.calls rarity
  refine ⟨s, ?_⟩
  unfold Repositories.GetRandomByRarity Repositories.call
  simp only [hfails, hs, Bool.false_eq_true, if_false]

/-- `rollSpecies` changes the repositories only through `GetRandomByRarity`
and leaves the entropy alone. -/
theorem rollSpecies_frame (g : GachaService) :
    (rollSpecies g).2.db.fails = g.db.fails ∧ (rollSpecies g).2.db.species = g.db.species ∧
      (rollSpecies g).2.db.users = g.db.users ∧
      (rollSpecies g).2.db.pokemons = g.db.pokemons ∧
      (rollSpecies g).2.entropy = g.entropy :=
  ⟨(GetRandomByRarity_frame _ _).1, (GetRandomByRarity_frame _ _).2.1,
    (GetRandomByRarity_frame _ _).2.2.1, (GetRandomByRarity_frame _ _).2.2.2, rfl⟩

/-- A species rolled by `rollSpecies` has the rarity that the roll targets,
when the species table returns the rarity it is asked for. -/
theorem rollSpecies_rarity (g : GachaService)
    (hsp : ∀ n r s, g.db.species n r = some s → s.Rarity = r) (species : PokemonSpecies)
    (h : (rollSpecies g).1 = .ok species) :
    species.Rarity = targetRarity g.rand.Float64.1 :=
  hsp _ _ _ (GetRandomByRarity_ok _ _ _ h)

/-- `rollSpecies` succeeds when no call fails and the table has a row of
every rarity. -/
theorem rollSpecies_succeeds (g : GachaService) (hfails : ∀ n, g.db.fails n = false)
    (hspecies : ∀ n r, ∃ s, g.db.species n r = some s) :
    ∃ species, (rollSpecies g).1 = .ok species :=
  GetRandomByRarity_succeeds _ _ hfails hspecies

/-- `rollSpeciesWithMinRarity` changes the repositories only through
`GetRandomByRarity` and leaves the entropy alone. -/
theorem rollSpeciesWithMinRarity_frame (g : GachaService) (m : Rarity) :
    (rollSpeciesWithMinRarity g m).2.db.fails = g.db.fails ∧
      (rollSpeciesWithMinRarity g m).2.db.species = g.db.species ∧
      (rollSpeciesWithMinRarity g m).2.db.users = g.db.users ∧
      (rollSpeciesWithMinRarity g m).2.db.pokemons = g.db.pokemons ∧
      (rollSpeciesWithMinRarity g m).2.entropy = g.entropy := by
  have hf := rollSpecies_frame g
  unfold rollSpeciesWithMinRarity
  rcases hr : rollSpecies g with ⟨_ | species, g1⟩
  · rw [hr] at hf; exact hf
  · rw [hr] at hf
    simp only []
    split_ifs
    · exact hf
    · have hf2 := GetRandomByRarity_frame g1.db m
      exact ⟨hf2.1.trans hf.1, hf2.2.1.trans hf.2.1, hf2.2.2.1.trans hf.2.2.1,
        hf2.2.2.2.trans hf.2.2.2.1, hf.2.2.2.2⟩

/-- A species returned by `rollSpeciesWithMinRarity` is at least of the
minimum rarity, when the species table returns the rarity it is asked for. -/
theorem rollSpeciesWithMinRarity_value (g : GachaService) (m : Rarity)
    (hsp : ∀ n r s, g.db.species n r = some s → s.Rarity = r) (species : PokemonSpecies)
    (h : (rollSpeciesWithMinRarity g m).1 = .ok species) :
    Rarity.Value m ≤ Rarity.Value species.Rarity := by
  have hf := rollSpecies_frame g
  unfold rollSpeciesWithMinRarity at h
  rcases hr : rollSpecies g with ⟨_ | rolled, g1⟩
  · rw [hr] at h; cases h
  · rw [hr] at h hf
    simp only [] at h
    split_ifs at h with hge
    · cases h; exact hge
    · have hsp1 : ∀ n r s, g1.db.species n r = some s → s.Rarity = r := by
        rw [hf.2.1]; exact hsp
      rw [hsp1 _ _ _ (GetRandomByRarity_ok _ _ _ h)]

/-- `rollSpeciesWithMinRarity` succeeds when no call fails and the table has a
row of every rarity. -/
theorem rollSpeciesWithMinRarity_succeeds (g : GachaService) (m : Rarity)
    (hfails : ∀ n, g.db.fails n = false)
    (hspecies : ∀ n r, ∃ s, g.db.species n r = some s) :
    ∃ species, (rollSpeciesWithMinRarity g m).1 = .ok species := by
  have hf := rollSpecies_frame g
  obtain ⟨s, hs⟩ := rollSpecies_succeeds g hfails hspecies
  unfold rollSpeciesWithMinRarity
  rcases hr : rollSpecies g with ⟨_ | rolled, g1⟩
  · rw [hr] at hs; cases hs
  · rw [hr] at hf
    simp only []
    split_ifs
    · exact ⟨_, rfl⟩
    · exact GetRandomByRarity_succeeds _ _ (by rw [hf.1]; exact hfails)
        (by rw [hf.2.1]; exact hspecies)

end GachaService

namespace GachaService

/-- A successful roll loop appends `n` creatures owned by the user and
leaves the tables and the oracles of the repositories alone. -/
theorem rollLoop_spec (userID : UUID) :
    ∀ (n : Nat) (g : GachaService) (acc ps : List UserPokemon) (g' : GachaService),
      rollLoop userID n g acc = (.ok ps, g') →
      (∃ new, ps = acc ++ new ∧ new.length = n ∧ ∀ p ∈ new, p.UserID = userID) ∧
        g'.db.fails = g.db.fails ∧ g'.db.species = g.db.species ∧
        g'.db.users = g.db.users ∧ g'.db.pokemons = g.db.pokemons := by
  intro n
  induction n with
  | zero =>
    intro g acc ps g' h
    unfold rollLoop at h
    cases h
    exact ⟨⟨[], by simp, rfl, by simp⟩, rfl, rfl, rfl, rfl⟩
  | succ n ih =>
    intro g acc ps g' h
    have hf := rollSpecies_frame g
    unfold rollLoop at h
    rcases hr : rollSpecies g with ⟨_ | species, g1⟩
    · rw [hr] at h; cases h
    · rw [hr] at h hf
      simp only [] at h
      obtain ⟨⟨new, hps, hlen, hown⟩, h1, h2, h3, h4⟩ := ih _ _ _ _ h
      refine ⟨⟨(NewUserPokemon g1.entropy userID species).1 :: new, ?_, ?_, ?_⟩,
        h1.trans hf.1, h2.trans hf.2.1, h3.trans hf.2.2.1, h4.trans hf.2.2.2.1⟩
      · rw [hps]; simp
      · simp [hlen]
      · intro p hp
        rcases List.mem_cons.mp hp with hp | hp
        · rw [hp]; rfl
        · exact hown p hp

/-- The roll loop succeeds when no call fails and the table has a row of
every rarity. -/
theorem rollLoop_succeeds (userID : UUID) :
    ∀ (n : Nat) (g : GachaService) (acc : List UserPokemon),
      (∀ k, g.db.fails k = false) → (∀ k r, ∃ s, g.db.species k r = some s) →
      ∃ ps g', rollLoop userID n g acc = (.ok ps, g') := by
  intro n
  induction n with
  | zero => intro g acc _ _; exact ⟨_, _, rfl⟩
  | succ n ih =>
    intro g acc hfails hspecies
    have hf := rollSpecies_frame g
    obtain ⟨s, hs⟩ := rollSpecies_succeeds g hfails hspecies
    unfold rollLoop
    rcases hr : rollSpecies g with ⟨_ | species, g1⟩
    · rw [hr] at hs; cases hs
    · rw [hr] at hf
      exact ih _ _ (by rw [show _ = g1.db.fails from rfl, hf.1]; exact hfails)
        (by rw [show _ = g1.db.species from rfl, hf.2.1]; exact hspecies)

/-- The save loop, when no call fails, appends the creatures to the table and
changes nothing else but the call counter. -/
theorem createLoop_succeeds :
    ∀ (pokemons : List UserPokemon) (db : Repositories), (∀ k, db.fails k = false) →
      ∃ db', createLoop pokemons db = (none, db') ∧ db'.pokemons = db.pokemons ++ pokemons ∧
        db'.users = db.users ∧ db'.fails = db.fails ∧ db'.species = db.species := by
  intro pokemons
  induction pokemons with
  | nil => intro db _; exact ⟨db, rfl, by simp, rfl, rfl, rfl⟩
  | cons p rest ih =>
    intro db hfails
    have hc : db.Create p =
        (none, { db with calls := db.calls + 1, pokemons := db.pokemons ++ [p] }) := by
      unfold Repositories.Create Repositories.call
      simp only [hfails, Bool.false_eq_true, if_false]
    obtain ⟨db', h1, h2, h3, h4, h5⟩ :=
      ih { db with calls := db.calls + 1, pokemons := db.pokemons ++ [p] } hfails
    refine ⟨db', ?_, ?_, h3, h4, h5⟩
    · unfold createLoop
      rw [hc]
      exact h1
    · rw [h2]; simp

/-- A save loop that fails or not leaves the users alone. -/
theorem createLoop_users :
    ∀ (pokemons : List UserPokemon) (db : Repositories),
      (createLoop pokemons db).2.users = db.users := by
  intro pokemons
  induction pokemons with
  | nil => intro db; rfl
  | cons p rest ih =>
    intro db
    unfold createLoop
    have hu : (db.Create p).2.users = db.users := by
      unfold Repositories.Create Repositories.call
      simp only []
      split_ifs <;> rfl
    rcases hc : db.Create p with ⟨_ | err, db1⟩
    · rw [hc] at hu
      simp only []
      rw [ih, hu]
    · rw [hc] at hu
      exact hu

end GachaService

namespace GachaService

/-- A successful bonus roll keeps the list as it is below ten rolls and
otherwise replaces its tenth entry by a creature of the user whose species
is epic or better (when the species table returns the rarity it is asked
for); it leaves the tables and the oracles of the repositories alone. -/
theorem bonusRoll_spec (g : GachaService) (userID : UUID) (count : Int)
    (pokemons ps : List UserPokemon) (g' : GachaService)
    (h : bonusRoll g userID count pokemons = (.ok ps, g')) :
    ((count < 10 ∧ ps = pokemons) ∨
        (10 ≤ count ∧ ∃ p species, ps = pokemons.set 9 p ∧ p.UserID = userID ∧
          p.Species = some species ∧
          ((∀ n r s, g.db.species n r = some s → s.Rarity = r) →
            Rarity.Value Epic ≤ Rarity.Value species.Rarity))) ∧
      g'.db.fails = g.db.fails ∧ g'.db.species = g.db.species ∧
      g'.db.users = g.db.users ∧ g'.db.pokemons = g.db.pokemons := by
  unfold bonusRoll at h
  by_cases hc : count ≥ 10
  · rw [if_pos hc] at h
    have hf := rollSpeciesWithMinRarity_frame g Epic
    have hv := rollSpeciesWithMinRarity_value g Epic
    rcases hr : rollSpeciesWithMinRarity g Epic with ⟨_ | species, g1⟩
    · rw [hr] at h; cases h
    · rw [hr] at h hf hv
      simp only [Prod.mk.injEq, Except.ok.injEq] at h
      obtain ⟨hps, hg⟩ := h
      subst hg
      refine ⟨Or.inr ⟨hc, _, species, hps.symm, rfl, rfl, fun hsp => hv hsp species rfl⟩,
        hf.1, hf.2.1, hf.2.2.1, hf.2.2.2.1⟩
  · rw [if_neg hc] at h
    simp only [Prod.mk.injEq, Except.ok.injEq] at h
    obtain ⟨hps, hg⟩ := h
    subst hg
    exact ⟨Or.inl ⟨by omega, hps.symm⟩, rfl, rfl, rfl, rfl⟩

/-- The bonus roll succeeds when no call fails and the table has a row of
every rarity. -/
theorem bonusRoll_succeeds (g : GachaService) (userID : UUID) (count : Int)
    (pokemons : List UserPokemon) (hfails : ∀ k, g.db.fails k = false)
    (hspecies : ∀ k r, ∃ s, g.db.species k r = some s) :
    ∃ ps g', bonusRoll g userID count pokemons = (.ok ps, g') := by
  unfold bonusRoll
  by_cases hc : count ≥ 10
  · rw [if_pos hc]
    obtain ⟨s, hs⟩ := rollSpeciesWithMinRarity_succeeds g Epic hfails hspecies
    rcases hr : rollSpeciesWithMinRarity g Epic with ⟨_ | species, g1⟩
    · rw [hr] at hs; cases hs
    · exact ⟨_, _, rfl⟩
  · rw [if_neg hc]
    exact ⟨_, _, rfl⟩

/-- A successful `payAndSave` returns the creatures it was given. -/
theorem payAndSave_ok (g : GachaService) (userID : UUID) (user : User) (cost : Int)
    (pokemons ps : List UserPokemon) (g' : GachaService)
    (h : payAndSave g userID user cost pokemons = (.ok ps, g')) : ps = pokemons := by
  unfold payAndSave at h
  simp only [] at h
  rcases hu : g.db.UpdateCoins userID (user.DeductCoins cost).1.Coins with ⟨_ | err, db1⟩
  · rw [hu] at h
    simp only [] at h
    rcases hc : createLoop pokemons db1 with ⟨_ | err, db2⟩
    · rw [hc] at h
      simp only [Prod.mk.injEq, Except.ok.injEq] at h
      exact h.1.symm
    · rw [hc] at h; cases h
  · rw [hu] at h; cases h

/-- With enough coins, the user stored and no call failing, `payAndSave`
stores the balance less the cost, appends the creatures to the table and
returns them. -/
theorem payAndSave_succeeds (g : GachaService) (userID : UUID) (user : User) (cost : Int)
    (pokemons : List UserPokemon) (hfails : ∀ k, g.db.fails k = false)
    (huser : g.db.users userID = some user) (hcoins : cost ≤ user.Coins) :
    ∃ g', payAndSave g userID user cost pokemons = (.ok pokemons, g') ∧
      g'.db.users userID = some { user with Coins := user.Coins - cost } ∧
      (∀ u, u ≠ userID → g'.db.users u = g.db.users u) ∧
      g'.db.pokemons = g.db.pokemons ++ pokemons := by
  have hd : (user.DeductCoins cost).1.Coins = user.Coins - cost := by
    simp [User.DeductCoins, User.HasCoins, hcoins]
  have hu : g.db.UpdateCoins userID (user.Coins - cost) =
      (none, { g.db with
        calls := g.db.calls + 1,
        users := fun u =>
          if u = userID then some { user with Coins := user.Coins - cost }
          else g.db.users u }) := by
    unfold Repositories.UpdateCoins Repositories.call
    simp only [hfails, huser, Bool.false_eq_true, if_false]
  obtain ⟨db', h1, h2, h3, -, -⟩ := createLoop_succeeds pokemons
    { g.db with
      calls := g.db.calls + 1,
      users := fun u =>
        if u = userID then some { user with Coins := user.Coins - cost } else g.db.users u }
    hfails
  refine ⟨{ g with db := db' }, ?_, ?_, ?_, h2⟩
  · unfold payAndSave
    simp only [hd, hu, h1]
  · show db'.users userID = _
    rw [h3]
    simp
  · intro u hne
    show db'.users u = _
    rw [h3]
    simp [hne]

end GachaService

namespace GachaService

/-- With a balance below the cost, the read of the user succeeding,
`PremiumRoll` returns `ErrInsufficientCoins` and has only read the user. -/
theorem PremiumRoll_insufficient (g : GachaService) (userID : UUID) (count : Int)
    (user : User) (huser : g.db.users userID = some user)
    (hfail : g.db.fails g.db.calls = false) (hlow : user.Coins < count * 100) :
    ∃ g', PremiumRoll g userID count = some (.error ErrInsufficientCoins, g') ∧
      g'.db.pokemons = g.db.pokemons ∧ g'.db.users = g.db.users := by
  have hget : g.db.GetByID userID = (.ok user, { g.db with calls := g.db.calls + 1 }) := by
    unfold Repositories.GetByID Repositories.call
    simp only [hfail, huser, Bool.false_eq_true, if_false]
  have hhas : user.HasCoins (count * PremiumRollCost) = false := by
    simp [User.HasCoins, PremiumRollCost, hlow]
  refine ⟨{ g with db := { g.db with calls := g.db.calls + 1 } }, ?_, rfl, rfl⟩
  unfold PremiumRoll
  simp only [hget, hhas, Bool.not_false, if_true]

/-- With a balance of at least the cost, no call failing and a species of
every rarity, `PremiumRoll` returns `count` creatures of the user, appends
them to the creature table and stores the balance less the cost. -/
theorem PremiumRoll_succeeds (g : GachaService) (userID : UUID) (count : Int)
    (user : User) (hcount : 1 ≤ count) (huser : g.db.users userID = some user)
    (hfails : ∀ k, g.db.fails k = false) (hspecies : ∀ k r, ∃ s, g.db.species k r = some s)
    (hcoins : count * 100 ≤ user.Coins) :
    ∃ pokemons g', PremiumRoll g userID count = some (.ok pokemons, g') ∧
      (pokemons.length : Int) = count ∧ (∀ p ∈ pokemons, p.UserID = userID) ∧
      g'.db.pokemons = g.db.pokemons ++ pokemons ∧
      g'.db.users userID = some { user with Coins := user.Coins - count * 100 } ∧
      (∀ u, u ≠ userID → g'.db.users u = g.db.users u) ∧
      (user.Coins = count * 100 → g'.db.users userID = some { user with Coins := 0 }) := by
  have hget : g.db.GetByID userID = (.ok user, { g.db with calls := g.db.calls + 1 }) := by
    unfold Repositories.GetByID Repositories.call
    simp only [hfails, huser, Bool.false_eq_true, if_false]
  have hhas : user.HasCoins (count * PremiumRollCost) = true := by
    simp [User.HasCoins, PremiumRollCost, hcoins]
  have hneg : ¬ count < 0 := by omega
  obtain ⟨ps, g2, hroll⟩ := rollLoop_succeeds userID count.toNat
    { g with db := { g.db with calls := g.db.calls + 1 } } [] hfails hspecies
  obtain ⟨⟨new, hps, hlen, hown⟩, f1, f2, f3, f4⟩ := rollLoop_spec userID _ _ _ _ _ hroll
  obtain ⟨ps', g3, hbonus⟩ := bonusRoll_succeeds g2 userID count ps
    (by rw [f1]; exact hfails) (by rw [f2]; exact hspecies)
  obtain ⟨hcase, b1, b2, b3, b4⟩ := bonusRoll_spec _ _ _ _ _ _ hbonus
  obtain ⟨g4, hpay, hbal, hothers, hpk⟩ := payAndSave_succeeds g3 userID user
    (count * PremiumRollCost) ps' (by rw [b1, f1]; exact hfails)
    (by rw [b3, f3]; exact huser) (by simpa [PremiumRollCost] using hcoins)
  have hcost : count * PremiumRollCost = count * 100 := rfl
  rw [hcost] at hbal
  have hpsnew : ps = new := by simpa using hps
  have hlen' : ps'.length = count.toNat := by
    rcases hcase with ⟨-, h⟩ | ⟨-, p, s, h, -⟩
    · rw [h, hpsnew, hlen]
    · rw [h, List.length_set, hpsnew, hlen]
  have hown' : ∀ p ∈ ps', p.UserID = userID := by
    intro p hp
    rcases hcase with ⟨-, h⟩ | ⟨-, q, s, h, hq, -⟩
    · rw [h, hpsnew] at hp; exact hown p hp
    · rw [h, hpsnew] at hp
      rcases List.mem_or_eq_of_mem_set hp with hp | hp
      · exact hown p hp
      · rw [hp]; exact hq
  refine ⟨ps', g4, ?_, ?_, hown', ?_, hbal, ?_, ?_⟩
  · unfold PremiumRoll
    simp only [hget, hhas, Bool.not_true, Bool.false_eq_true, if_false, hneg, hroll, hbonus,
      hpay]
  · rw [hlen']; omega
  · rw [hpk, b4, f4]
  · intro u hne
    rw [hothers u hne, b3, f3]
  · intro heq
    rw [hbal, heq, sub_self]

/-- C23: for a stored user and a count of at least 1, `PremiumRoll` costs
`count * 100` coins. With a balance below the cost (the read of the user
succeeding) it returns `ErrInsufficientCoins` and leaves the creature table
and the users as they were. With a balance of at least the cost, no
repository call failing and a species of every rarity in the table, it
returns exactly `count` creatures, all owned by the user and appended to the
creature table, and the stored balance of the user is the old one less the
cost (0 when the balance equalled the cost), the other users unchanged. -/
theorem PremiumRoll_costs_hundred_per_roll (g : GachaService) (userID : UUID) (count : Int)
    (user : User) (hcount : 1 ≤ count) (huser : g.db.users userID = some user) :
    (g.db.fails g.db.calls = false → user.Coins < count * 100 →
      ∃ g', PremiumRoll g userID count = some (.error ErrInsufficientCoins, g') ∧
        g'.db.pokemons = g.db.pokemons ∧ g'.db.users = g.db.users) ∧
    ((∀ k, g.db.fails k = false) → (∀ k r, ∃ s, g.db.species k r = some s) →
      count * 100 ≤ user.Coins →
      ∃ pokemons g', PremiumRoll g userID count = some (.ok pokemons, g') ∧
        (pokemons.length : Int) = count ∧ (∀ p ∈ pokemons, p.UserID = userID) ∧
        g'.db.pokemons = g.db.pokemons ++ pokemons ∧
        g'.db.users userID = some { user with Coins := user.Coins - count * 100 } ∧
        (∀ u, u ≠ userID → g'.db.users u = g.db.users u) ∧
        (user.Coins = count * 100 → g'.db.users userID = some { user with Coins := 0 })) :=
  ⟨PremiumRoll_insufficient g userID count user huser,
    PremiumRoll_succeeds g userID count user hcount huser⟩

end GachaService

namespace GachaService

/-- The read of a user leaves the tables and the oracles alone. -/
theorem GetByID_frame (db : Repositories) (id : UUID) :
    (db.GetByID id).2.fails = db.fails ∧ (db.GetByID id).2.species = db.species ∧
      (db.GetByID id).2.users = db.users ∧ (db.GetByID id).2.pokemons = db.pokemons := by
  unfold Repositories.GetByID Repositories.call
  simp only []
  split_ifs
  · exact ⟨rfl, rfl, rfl, rfl⟩
  · cases db.users id <;> exact ⟨rfl, rfl, rfl, rfl⟩

/-- A successful `saveAndStamp` returns the creatures it was given. -/
theorem saveAndStamp_ok (g : GachaService) (userID : UUID) (now : Int)
    (pokemons ps : List UserPokemon) (g' : GachaService)
    (h : saveAndStamp g userID now pokemons = (.ok ps, g')) : ps = pokemons := by
  unfold saveAndStamp at h
  rcases hc : createLoop pokemons g.db with ⟨_ | err, db1⟩
  · rw [hc] at h
    simp only [] at h
    rcases hu : db1.UpdateLastDailyRoll userID now with ⟨_ | err, db2⟩
    · rw [hu] at h
      simp only [Prod.mk.injEq, Except.ok.injEq] at h
      exact h.1.symm
    · rw [hu] at h; cases h
  · rw [hc] at h; cases h

/-- The fifth creature of a successful `DailyRoll` is of a species that is
rare or better, when the species table returns the rarity it is asked for. -/
theorem DailyRoll_fifth (g : GachaService)
    (hsp : ∀ n r s, g.db.species n r = some s → s.Rarity = r) (userID : UUID) (now : Int)
    (pokemons : List UserPokemon) (g' : GachaService)
    (h : DailyRoll g userID now = (.ok pokemons, g')) :
    ∃ p species, pokemons.length = 5 ∧ pokemons[4]? = some p ∧ p.Species = some species ∧
      Rarity.Value Rare ≤ Rarity.Value species.Rarity := by
  have hg := GetByID_frame g.db userID
  unfold DailyRoll at h
  rcases hget : g.db.GetByID userID with ⟨_ | user, db1⟩
  · rw [hget] at h; cases h
  · rw [hget] at h hg
    simp only [] at h
    by_cases hcan : (!user.CanDailyRoll now) = true
    · rw [if_pos hcan] at h; cases h
    rw [if_neg hcan] at h
    rcases hroll : rollLoop userID 4 { g with db := db1 } [] with ⟨_ | ps, g2⟩
    · rw [hroll] at h; cases h
    · rw [hroll] at h
      simp only [] at h
      obtain ⟨⟨new, hps, hlen, -⟩, -, f2, -, -⟩ := rollLoop_spec userID _ _ _ _ _ hroll
      have hv := rollSpeciesWithMinRarity_value g2 Rare
        (by rw [f2]; show ∀ n r s, db1.species n r = some s → s.Rarity = r
            rw [hg.2.1]; exact hsp)
      rcases hmin : rollSpeciesWithMinRarity g2 Rare with ⟨_ | species, g3⟩
      · rw [hmin] at h; cases h
      · rw [hmin] at h hv
        simp only [] at h
        have hsame := saveAndStamp_ok _ _ _ _ _ _ h
        have hpsnew : ps = new := by simpa using hps
        refine ⟨(NewUserPokemon g3.entropy userID species).1, species, ?_, ?_, rfl,
          hv species rfl⟩
        · rw [hsame, hpsnew]; simp [hlen]
        · rw [hsame, hpsnew, List.getElem?_append_right (by omega)]
          simp [hlen]

/-- The tenth creature of a successful `PremiumRoll` of ten rolls or more is
of a species that is epic or better, when the species table returns the
rarity it is asked for. -/
theorem PremiumRoll_tenth (g : GachaService)
    (hsp : ∀ n r s, g.db.species n r = some s → s.Rarity = r) (userID : UUID) (count : Int)
    (hcount : 10 ≤ count) (pokemons : List UserPokemon) (g' : GachaService)
    (h : PremiumRoll g userID count = some (.ok pokemons, g')) :
    ∃ p species, pokemons[9]? = some p ∧ p.Species = some species ∧
      Rarity.Value Epic ≤ Rarity.Value species.Rarity := by
  have hg := GetByID_frame g.db userID
  unfold PremiumRoll at h
  rcases hget : g.db.GetByID userID with ⟨_ | user, db1⟩
  · rw [hget] at h; cases h
  · rw [hget] at h hg
    simp only [] at h
    by_cases hhas : (!user.HasCoins (count * PremiumRollCost)) = true
    · rw [if_pos hhas] at h; cases h
    rw [if_neg hhas, if_neg (by omega : ¬ count < 0)] at h
    rcases hroll : rollLoop userID count.toNat { g with db := db1 } [] with ⟨_ | ps, g2⟩
    · rw [hroll] at h; cases h
    · rw [hroll] at h
      simp only [] at h
      obtain ⟨⟨new, hps, hlen, -⟩, -, f2, -, -⟩ := rollLoop_spec userID _ _ _ _ _ hroll
      rcases hbonus : bonusRoll g2 userID count ps with ⟨_ | ps', g3⟩
      · rw [hbonus] at h; cases h
      · rw [hbonus] at h
        simp only [Option.some.injEq] at h
        have hsame := payAndSave_ok _ _ _ _ _ _ _ h
        obtain ⟨hcase, -⟩ := bonusRoll_spec _ _ _ _ _ _ hbonus
        rcases hcase with ⟨hlt, -⟩ | ⟨-, p, species, hset, -, hspecies, hval⟩
        · omega
        · have hpsnew : ps = new := by simpa using hps
          refine ⟨p, species, ?_, hspecies, hval ?_⟩
          · rw [hsame, hset, hpsnew]
            have h9 : 9 < new.length := by rw [hlen]; omega
            simp [h9]
          · rw [f2]; show ∀ n r s, db1.species n r = some s → s.Rarity = r
            rw [hg.2.1]; exact hsp

end GachaService

namespace GachaService

/-- `DailyRoll` succeeds for a stored user whose cooldown has passed, when no
call fails and the table has a row of every rarity. -/
theorem DailyRoll_succeeds (g : GachaService) (userID : UUID) (now : Int) (user : User)
    (huser : g.db.users userID = some user) (hcan : user.CanDailyRoll now = true)
    (hfails : ∀ k, g.db.fails k = false) (hspecies : ∀ k r, ∃ s, g.db.species k r = some s) :
    ∃ pokemons g', DailyRoll g userID now = (.ok pokemons, g') := by
  have hget : g.db.GetByID userID = (.ok user, { g.db with calls := g.db.calls + 1 }) := by
    unfold Repositories.GetByID Repositories.call
    simp only [hfails, huser, Bool.false_eq_true, if_false]
  obtain ⟨ps, g2, hroll⟩ := rollLoop_succeeds userID 4
    { g with db := { g.db with calls := g.db.calls + 1 } } [] hfails hspecies
  obtain ⟨-, f1, f2, f3, -⟩ := rollLoop_spec userID _ _ _ _ _ hroll
  have hfails2 : ∀ k, g2.db.fails k = false := by rw [f1]; exact hfails
  obtain ⟨species, hmin⟩ := rollSpeciesWithMinRarity_succeeds g2 Rare hfails2
    (by rw [f2]; exact hspecies)
  have m := rollSpeciesWithMinRarity_frame g2 Rare
  rcases hr : rollSpeciesWithMinRarity g2 Rare with ⟨res, g3⟩
  rw [hr] at hmin m
  simp only at hmin
  subst hmin
  obtain ⟨db4, hc, -, hu4, hf4, -⟩ := createLoop_succeeds
    (ps ++ [(NewUserPokemon g3.entropy userID species).1]) g3.db (by rw [m.1]; exact hfails2)
  have huser4 : db4.users userID = some user := by
    rw [hu4, m.2.2.1, f3]; exact huser
  have hstamp : db4.UpdateLastDailyRoll userID now =
      (none, { db4 with
        calls := db4.calls + 1,
        users := fun u =>
          if u = userID then some { user with LastDailyRoll := some now }
          else db4.users u }) := by
    unfold Repositories.UpdateLastDailyRoll Repositories.call
    have : ∀ k, db4.fails k = false := by rw [hf4, m.1]; exact hfails2
    simp only [this, huser4, Bool.false_eq_true, if_false]
  unfold DailyRoll
  simp only [hget, hcan, Bool.not_true, Bool.false_eq_true, if_false, hroll, hr]
  unfold saveAndStamp
  simp only [hc, hstamp]
  exact ⟨_, _, rfl⟩

/-- C24: when the species table returns a species of the rarity it is asked
for, every species that `rollSpeciesWithMinRarity` returns for a minimum
rarity has a `Value` of at least that of the minimum; the fifth creature of
every successful `DailyRoll` is of a species that is rare or better (value
3), and the tenth creature of every successful `PremiumRoll` of ten rolls or
more is of a species that is epic or better (value 4). When no repository
call fails and the table has a species of every rarity, the three functions
do succeed. -/
theorem rollSpeciesWithMinRarity_guarantee (g : GachaService)
    (hsp : ∀ n r s, g.db.species n r = some s → s.Rarity = r) :
    (∀ m species g', rollSpeciesWithMinRarity g m = (.ok species, g') →
      Rarity.Value m ≤ Rarity.Value species.Rarity) ∧
    (∀ userID now pokemons g', DailyRoll g userID now = (.ok pokemons, g') →
      ∃ p species, pokemons.length = 5 ∧ pokemons[4]? = some p ∧ p.Species = some species ∧
        Rarity.Value Rare ≤ Rarity.Value species.Rarity) ∧
    (∀ userID count pokemons g', 10 ≤ count →
      PremiumRoll g userID count = some (.ok pokemons, g') →
      ∃ p species, pokemons[9]? = some p ∧ p.Species = some species ∧
        Rarity.Value Epic ≤ Rarity.Value species.Rarity) ∧
    Rarity.Value Rare = 3 ∧ Rarity.Value Epic = 4 ∧
    ((∀ k, g.db.fails k = false) → (∀ k r, ∃ s, g.db.species k r = some s) →
      (∀ m, ∃ species, (rollSpeciesWithMinRarity g m).1 = .ok species) ∧
      (∀ userID user now, g.db.users userID = some user → user.CanDailyRoll now = true →
        ∃ pokemons g', DailyRoll g userID now = (.ok pokemons, g')) ∧
      (∀ userID user count, g.db.users userID = some user → 10 ≤ count →
        count * 100 ≤ user.Coins →
        ∃ pokemons g', PremiumRoll g userID count = some (.ok pokemons, g'))) := by
  refine ⟨?_, ?_, ?_, by decide, by decide, ?_⟩
  · intro m species g' h
    exact rollSpeciesWithMinRarity_value g m hsp species (by rw [h])
  · intro userID now pokemons g' h
    exact DailyRoll_fifth g hsp userID now pokemons g' h
  · intro userID count pokemons g' hcount h
    exact PremiumRoll_tenth g hsp userID count hcount pokemons g' h
  · intro hfails hspecies
    refine ⟨fun m => rollSpeciesWithMinRarity_succeeds g m hfails hspecies, ?_, ?_⟩
    · intro userID user now huser hcan
      exact DailyRoll_succeeds g userID now user huser hcan hfails hspecies
    · intro userID user count huser hcount hcoins
      obtain ⟨pokemons, g', h, -⟩ := PremiumRoll_succeeds g userID count user (by omega) huser
        hfails hspecies hcoins
      exact ⟨pokemons, g', h⟩

/-- The species table of the example repositories returns the rarity it is
asked for. -/
theorem exampleRepositories_species (coins : Int) :
    ∀ n r s, (exampleGacha coins).db.species n r = some s → s.Rarity = r := by
  intro n r s h
  have h' : some (exampleSpecies r) = some s := h
  cases h'
  rfl

/-- C23 on the examples: with 500 coins five rolls succeed and leave the
balance at 0; with 50 coins one roll is refused. -/
theorem PremiumRoll_costs_hundred_per_roll_witness :
    (∃ g', PremiumRoll (exampleGacha 50) 1 1 = some (.error ErrInsufficientCoins, g') ∧
        g'.db.pokemons = (exampleGacha 50).db.pokemons ∧
        g'.db.users = (exampleGacha 50).db.users) ∧
      (∃ pokemons g', PremiumRoll (exampleGacha 500) 1 5 = some (.ok pokemons, g') ∧
        (pokemons.length : Int) = 5 ∧ g'.db.users 1 = some { exampleUser 500 with Coins := 0 }) := by
  refine ⟨(PremiumRoll_costs_hundred_per_roll (exampleGacha 50) 1 1 (exampleUser 50)
    (by decide) rfl).1 rfl (by decide), ?_⟩
  obtain ⟨pokemons, g', h, hlen, -, -, -, -, hzero⟩ :=
    (PremiumRoll_costs_hundred_per_roll (exampleGacha 500) 1 5 (exampleUser 500)
      (by decide) rfl).2 (fun _ => rfl) (fun _ r => ⟨exampleSpecies r, rfl⟩) (by decide)
  exact ⟨pokemons, g', h, hlen, hzero (by decide)⟩

/-- C24 on the examples: a daily roll of the example user succeeds and its
fifth creature is rare or better. -/
theorem rollSpeciesWithMinRarity_guarantee_witness :
    ∃ pokemons g' p species, DailyRoll (exampleGacha 0) 1 0 = (.ok pokemons, g') ∧
      pokemons.length = 5 ∧ pokemons[4]? = some p ∧ p.Species = some species ∧
      3 ≤ Rarity.Value species.Rarity := by
  have hthm := rollSpeciesWithMinRarity_guarantee (exampleGacha 0) (exampleRepositories_species 0)
  obtain ⟨pokemons, g', h⟩ := (hthm.2.2.2.2.2 (fun _ => rfl)
    (fun _ r => ⟨exampleSpecies r, rfl⟩)).2.1 1 (exampleUser 0) 0 rfl rfl
  obtain ⟨p, species, hlen, h4, hs, hv⟩ := hthm.2.1 1 0 pokemons g' h
  rw [hthm.2.2.2.1] at hv
  exact ⟨pokemons, g', p, species, h, hlen, h4, hs, hv⟩

end GachaService

/-! ## The stage multiplier as a function -/

/-- The multiplier at each stage of `[-6, 6]`. -/
theorem GetStatMultiplier_values (s : Int) (h1 : -6 ≤ s) (h2 : s ≤ 6) :
    GetStatMultiplier s = if 0 ≤ s then ((2 + s : Int) : ℚ) / 2 else 2 / ((2 - s : Int) : ℚ) := by
  unfold GetStatMultiplier
  simp only [not_lt.mpr h1, if_false, not_lt.mpr h2, gt_iff_lt, ge_iff_le]

/-- Below -6 and above 6 the multiplier is the one of the bound. -/
theorem GetStatMultiplier_outside (s : Int) :
    (s ≤ -6 → GetStatMultiplier s = 1 / 4) ∧ (6 ≤ s → GetStatMultiplier s = 4) := by
  constructor
  · intro h
    unfold GetStatMultiplier
    by_cases h6 : s < -6
    · simp [h6]; norm_num
    · have : s = -6 := by omega
      subst this
      simp; norm_num
  · intro h
    unfold GetStatMultiplier
    have h1 : ¬ s < -6 := by omega
    by_cases h6 : s > 6
    · simp [h1, h6]; norm_num
    · have : s = 6 := by omega
      subst this
      simp; norm_num

/-- The multiplier is strictly increasing on `[-6, 6]`. -/
theorem GetStatMultiplier_strictMono (s t : Int) (h1 : -6 ≤ s) (h2 : s < t) (h3 : t ≤ 6) :
    GetStatMultiplier s < GetStatMultiplier t := by
  rw [GetStatMultiplier_values s h1 (by omega), GetStatMultiplier_values t (by omega) h3]
  by_cases hs : 0 ≤ s
  · have ht : 0 ≤ t := by omega
    simp only [hs, ht, if_true]
    have : ((2 + s : Int) : ℚ) < ((2 + t : Int) : ℚ) := by exact_mod_cast (by omega : 2 + s < 2 + t)
    linarith
  · simp only [hs, if_false]
    have hs' : (0 : ℚ) < ((2 - s : Int) : ℚ) := by exact_mod_cast (by omega : (0 : Int) < 2 - s)
    by_cases ht : 0 ≤ t
    · simp only [ht, if_true]
      have h4 : (2 : ℚ) / ((2 - s : Int) : ℚ) < 1 := by
        rw [div_lt_one hs']
        exact_mod_cast (by omega : (2 : Int) < 2 - s)
      have h5 : (1 : ℚ) ≤ ((2 + t : Int) : ℚ) / 2 := by
        rw [le_div_iff₀ (by norm_num)]
        exact_mod_cast (by omega : (1 : Int) * 2 ≤ 2 + t)
      linarith
    · simp only [ht, if_false]
      have ht' : (0 : ℚ) < ((2 - t : Int) : ℚ) := by exact_mod_cast (by omega : (0 : Int) < 2 - t)
      apply div_lt_div_of_pos_left (by norm_num) ht'
      exact_mod_cast (by omega : 2 - t < 2 - s)

/-- The multipliers of opposite stages are inverse to each other. -/
theorem GetStatMultiplier_neg (s : Int) : GetStatMultiplier s * GetStatMultiplier (-s) = 1 := by
  by_cases hlo : s ≤ -6
  · rw [(GetStatMultiplier_outside s).1 hlo, (GetStatMultiplier_outside (-s)).2 (by omega)]
    norm_num
  · by_cases hhi : 6 ≤ s
    · rw [(GetStatMultiplier_outside s).2 hhi, (GetStatMultiplier_outside (-s)).1 (by omega)]
      norm_num
    · rw [GetStatMultiplier_values s (by omega) (by omega),
        GetStatMultiplier_values (-s) (by omega) (by omega)]
      by_cases hs : 0 ≤ s
      · by_cases h0 : s = 0
        · subst h0; simp
        · have hn : ¬ (0 ≤ -s) := by omega
          simp only [hs, hn, if_true, if_false]
          have hpos : (0 : ℚ) < ((2 + s : Int) : ℚ) := by
            exact_mod_cast (by omega : (0 : Int) < 2 + s)
          have : ((2 - -s : Int) : ℚ) = ((2 + s : Int) : ℚ) := by
            congr 1; omega
          rw [this]
          generalize ((2 + s : Int) : ℚ) = x at hpos ⊢
          field_simp
      · have hn : 0 ≤ -s := by omega
        simp only [hs, hn, if_true, if_false]
        have hpos : (0 : ℚ) < ((2 - s : Int) : ℚ) := by
          exact_mod_cast (by omega : (0 : Int) < 2 - s)
        have : ((2 + -s : Int) : ℚ) = ((2 - s : Int) : ℚ) := by
          congr 1
        rw [this]
        generalize ((2 - s : Int) : ℚ) = x at hpos ⊢
        field_simp

/-- Every multiplier lies in `[1/4, 4]`. -/
theorem GetStatMultiplier_range (s : Int) :
    1 / 4 ≤ GetStatMultiplier s ∧ GetStatMultiplier s ≤ 4 := by
  by_cases hlo : s ≤ -6
  · rw [(GetStatMultiplier_outside s).1 hlo]; norm_num
  · by_cases hhi : 6 ≤ s
    · rw [(GetStatMultiplier_outside s).2 hhi]; norm_num
    · have h1 := GetStatMultiplier_strictMono (-6) s (le_refl _) (by omega) (by omega)
      have h2 := GetStatMultiplier_strictMono s 6 (by omega) (by omega) (le_refl _)
      rw [(GetStatMultiplier_outside (-6)).1 (le_refl _)] at h1
      rw [(GetStatMultiplier_outside 6).2 (le_refl _)] at h2
      exact ⟨le_of_lt h1, le_of_lt h2⟩

/-- C39: the multipliers of opposite stages multiply to 1; `GetStatMultiplier`
is strictly increasing on `[-6, 6]`, constant below -6 (1/4) and above 6 (4),
so every multiplier lies in `[0.25, 4]`. -/
theorem GetStatMultiplier_inverse_and_monotone :
    (∀ s : Int, GetStatMultiplier s * GetStatMultiplier (-s) = 1) ∧
      (∀ s t : Int, -6 ≤ s → s < t → t ≤ 6 → GetStatMultiplier s < GetStatMultiplier t) ∧
      (∀ s : Int, s ≤ -6 → GetStatMultiplier s = 1 / 4) ∧
      (∀ s : Int, 6 ≤ s → GetStatMultiplier s = 4) ∧
      (∀ s : Int, 1 / 4 ≤ GetStatMultiplier s ∧ GetStatMultiplier s ≤ 4) :=
  ⟨GetStatMultiplier_neg, GetStatMultiplier_strictMono,
    fun s => (GetStatMultiplier_outside s).1, fun s => (GetStatMultiplier_outside s).2,
    GetStatMultiplier_range⟩

/-- C39 on stages -1 and 2, and on stage 9 beyond the clamp. -/
theorem GetStatMultiplier_inverse_and_monotone_witness :
    GetStatMultiplier (-1) < GetStatMultiplier 2 ∧ GetStatMultiplier 9 = 4 :=
  ⟨GetStatMultiplier_inverse_and_monotone.2.1 (-1) 2 (by decide) (by decide) (by decide),
    GetStatMultiplier_inverse_and_monotone.2.2.2.1 9 (by decide)⟩

/-! ## The two critical-hit chances -/

namespace DamageCalculator

/-- C38: for a move of crit ratio 4, without ability or item, the chance that
`CheckCriticalHit` compares its roll against is 100, while
`Move.GetCriticalHitChance` returns 6.25. The two agree at the ratios 0 to 3
(6.25, 12.5, 50, 100); at every other ratio, with no ability or item,
`CheckCriticalHit` uses 100 and `GetCriticalHitChance` returns 6.25. -/
theorem critChance_differs_from_GetCriticalHitChance :
    critChance { exampleContext with Move := { exampleWaterMove with CritRatio := 4 } } = 100 ∧
      Move.GetCriticalHitChance { exampleWaterMove with CritRatio := 4 } = 25 / 4 ∧
      (∀ ctx : DamageContext, ctx.AttackerAbility = none → ctx.AttackerItem = none →
        (ctx.Move.CritRatio = 0 → critChance ctx = 25 / 4 ∧
          ctx.Move.GetCriticalHitChance = 25 / 4) ∧
        (ctx.Move.CritRatio = 1 → critChance ctx = 25 / 2 ∧
          ctx.Move.GetCriticalHitChance = 25 / 2) ∧
        (ctx.Move.CritRatio = 2 → critChance ctx = 50 ∧ ctx.Move.GetCriticalHitChance = 50) ∧
        (ctx.Move.CritRatio = 3 → critChance ctx = 100 ∧
          ctx.Move.GetCriticalHitChance = 100) ∧
        (ctx.Move.CritRatio < 0 ∨ 3 < ctx.Move.CritRatio → critChance ctx = 100 ∧
          ctx.Move.GetCriticalHitChance = 25 / 4)) := by
  refine ⟨?_, ?_, ?_⟩
  · simp [critChance, critStage, exampleContext, exampleWaterMove]
  · simp [Move.GetCriticalHitChance, exampleWaterMove]
  · intro ctx hA hI
    have hstage : critStage ctx = ctx.Move.CritRatio := by
      simp [critStage, hA, hI]
    refine ⟨?_, ?_, ?_, ?_, ?_⟩
    · intro h; simp [critChance, Move.GetCriticalHitChance, hstage, h]
    · intro h; simp [critChance, Move.GetCriticalHitChance, hstage, h]
    · intro h; simp [critChance, Move.GetCriticalHitChance, hstage, h]
    · intro h; simp [critChance, Move.GetCriticalHitChance, hstage, h]
    · intro h
      have h0 : ctx.Move.CritRatio ≠ 0 := by omega
      have h1 : ctx.Move.CritRatio ≠ 1 := by omega
      have h2 : ctx.Move.CritRatio ≠ 2 := by omega
      have h3 : ctx.Move.CritRatio ≠ 3 := by omega
      simp [critChance, Move.GetCriticalHitChance, hstage, h0, h1, h2, h3]

end DamageCalculator

/-! ## The two accuracy checks -/

namespace DamageCalculator

/-- For a value that is not negative, an integer is at most its truncation
exactly when it is at most the value. -/
theorem le_goInt_iff (x : ℚ) (r : Int) (hx : 0 ≤ x) : r ≤ goInt x ↔ ((r : Int) : ℚ) ≤ x := by
  unfold goInt
  rw [if_pos hx]
  exact Int.le_floor

/-- Without abilities and without the critical flag, the final accuracy of
`CheckAccuracy` is the base accuracy times the quotient of the two stage
multipliers, which is not negative when the base accuracy is not. -/
theorem finalAccuracy_plain (ctx : DamageContext) (hA : ctx.AttackerAbility = none)
    (hD : ctx.DefenderAbility = none) (hcrit : ctx.IsCriticalHit = false) :
    finalAccuracy ctx = ((ctx.Move.Accuracy : Int) : ℚ) *
        (GetStatMultiplier ctx.Attacker.StatStages.Accuracy /
          GetStatMultiplier ctx.Defender.StatStages.Evasion) ∧
      (0 ≤ ctx.Move.Accuracy → 0 ≤ finalAccuracy ctx) := by
  have h : finalAccuracy ctx = ((ctx.Move.Accuracy : Int) : ℚ) *
      (GetStatMultiplier ctx.Attacker.StatStages.Accuracy /
        GetStatMultiplier ctx.Defender.StatStages.Evasion) := by
    simp [finalAccuracy, hA, hD, hcrit]
  refine ⟨h, fun hacc => ?_⟩
  rw [h]
  have h1 := (GetStatMultiplier_range ctx.Attacker.StatStages.Accuracy).1
  have h2 := (GetStatMultiplier_range ctx.Defender.StatStages.Evasion).1
  have hq : (0 : ℚ) ≤ ((ctx.Move.Accuracy : Int) : ℚ) := by exact_mod_cast hacc
  exact mul_nonneg hq (div_nonneg (by linarith) (by linarith))

/-- C37: for a move with Accuracy at least 0, any accuracy and evasion stage,
no ability on either side and no critical flag, `CheckAccuracy` returns what
`Move.DoesMoveHit` returns on the stages of the two combatants and the roll
that `CheckAccuracy` draws, a value in 1..100: comparing the roll with the
truncated final accuracy is the same as comparing it with the final accuracy. -/
theorem DoesMoveHit_agrees_with_CheckAccuracy (rng : Rand) (ctx : DamageContext)
    (hA : ctx.AttackerAbility = none) (hD : ctx.DefenderAbility = none)
    (hcrit : ctx.IsCriticalHit = false) (hacc : 0 ≤ ctx.Move.Accuracy) :
    (CheckAccuracy rng ctx).1 =
        ctx.Move.DoesMoveHit ctx.Attacker.StatStages.Accuracy ctx.Defender.StatStages.Evasion
          ((rng.Intn 100).1 + 1) ∧
      1 ≤ (rng.Intn 100).1 + 1 ∧ (rng.Intn 100).1 + 1 ≤ 100 ∧
      (∀ roll : Int,
        ctx.Move.DoesMoveHit ctx.Attacker.StatStages.Accuracy ctx.Defender.StatStages.Evasion
            roll =
          (decide (ctx.Move.Accuracy = 0) || decide (((roll : Int) : ℚ) ≤ finalAccuracy ctx))) := by
  obtain ⟨hfinal, hnonneg⟩ := finalAccuracy_plain ctx hA hD hcrit
  have hroll : ∀ roll : Int,
      ctx.Move.DoesMoveHit ctx.Attacker.StatStages.Accuracy ctx.Defender.StatStages.Evasion
          roll =
        (decide (ctx.Move.Accuracy = 0) || decide (((roll : Int) : ℚ) ≤ finalAccuracy ctx)) := by
    intro roll
    unfold Move.DoesMoveHit
    by_cases h0 : ctx.Move.Accuracy = 0
    · simp [h0]
    · simp only [h0, if_false, decide_False, Bool.false_or]
      rw [← hfinal]
      exact decide_eq_decide.mpr (le_goInt_iff _ _ (hnonneg hacc))
  refine ⟨?_, ?_, ?_, hroll⟩
  · rw [hroll]
    unfold CheckAccuracy
    by_cases h0 : ctx.Move.Accuracy = 0
    · simp [h0]
    · simp only [h0, if_false, decide_False, Bool.false_or]
  · have : (0 : Int) ≤ (rng.Intn 100).1 := Int.natCast_nonneg _
    omega
  · have h : rng.draws rng.pos % 100 < 100 := Nat.mod_lt _ (by decide)
    have : (rng.Intn 100).1 = ((rng.draws rng.pos % 100 : Nat) : Int) := rfl
    omega

/-- C37 on the example: the example move on the roll 92 drawn from
`missRand`. -/
theorem DoesMoveHit_agrees_with_CheckAccuracy_witness :
    (CheckAccuracy missRand (withCritical exampleContext false)).1 =
      (withCritical exampleContext false).Move.DoesMoveHit
        (withCritical exampleContext false).Attacker.StatStages.Accuracy
        (withCritical exampleContext false).Defender.StatStages.Evasion
        ((missRand.Intn 100).1 + 1) :=
  (DoesMoveHit_agrees_with_CheckAccuracy missRand (withCritical exampleContext false)
    rfl rfl rfl (by decide)).1

end DamageCalculator

/-! ## The effective defense stat is never zero -/

/-- The nature multiplier is at least 0.9. -/
theorem Nature.GetMultiplier_ge (n : Nature) (stat : String) :
    9 / 10 ≤ Nature.GetMultiplier n stat := by
  rw [Nature.GetMultiplier_eq]
  split_ifs <;> norm_num

/-- With a species, a base stat, an IV and a level that are not negative,
`CalculateStat` is at least 4. -/
theorem CalculateStat_ge_four (p : UserPokemon) (species : PokemonSpecies)
    (hs : p.Species = some species) (baseStat iv : Int) (statName : String)
    (hb : 0 ≤ baseStat) (hiv : 0 ≤ iv) (hl : 0 ≤ p.Level) :
    4 ≤ p.CalculateStat baseStat iv statName := by
  unfold UserPokemon.CalculateStat
  rw [hs]
  simp only [goInt_goFloor]
  have hn := Nature.GetMultiplier_ge p.Nature statName
  have hprod : (0 : ℚ) ≤ (((2 * baseStat + iv) * p.Level : Int) : ℚ) := by
    exact_mod_cast mul_nonneg (by omega) hl
  have h5 : (5 : ℚ) ≤ goFloor ((((2 * baseStat + iv) * p.Level : Int) : ℚ) / 100 + 5) := by
    unfold goFloor
    have : (5 : Int) ≤ ⌊(((2 * baseStat + iv) * p.Level : Int) : ℚ) / 100 + 5⌋ := by
      rw [Int.le_floor]
      push_cast
      have : (0 : ℚ) ≤ (((2 * baseStat + iv) * p.Level : Int) : ℚ) / 100 :=
        div_nonneg hprod (by norm_num)
      push_cast at this
      linarith
    exact_mod_cast this
  generalize goFloor ((((2 * baseStat + iv) * p.Level : Int) : ℚ) / 100 + 5) = F at h5 ⊢
  rw [Int.le_floor]
  push_cast
  nlinarith

/-- A creature for which `CalculateStat` is 4: base stat 1, IV 0, level 1
and a nature that lowers the stat. -/
theorem CalculateStat_four_attained :
    UserPokemon.CalculateStat { Species := some {}, Nature := Bold, Level := 1 } 1 0 "attack" =
      4 := by
  have hm : Nature.GetMultiplier Bold "attack" = 9 / 10 := by
    rw [Nature.GetMultiplier_eq]
    have : Nature.GetModifiers Bold = ("defense", "attack") := by decide
    rw [this]
    simp
  unfold UserPokemon.CalculateStat
  simp only [goInt_goFloor, hm]
  have h1 : goFloor ((((2 * 1 + 0) * 1 : Int) : ℚ) / 100 + 5) = 5 := by
    unfold goFloor
    have : ⌊(((2 * 1 + 0) * 1 : Int) : ℚ) / 100 + 5⌋ = 5 := by
      rw [Int.floor_eq_iff]; norm_num
    rw [this]; norm_num
  rw [h1, Int.floor_eq_iff]
  norm_num

namespace DamageCalculator

/-- Without a defender ability and with a relevant defense stat of at least
4, the effective defense stat is at least 1. -/
theorem GetEffectiveDefenseStat_pos (ctx : DamageContext)
    (hcat : ctx.Move.Category = Physical ∨ ctx.Move.Category = Special)
    (hab : ctx.DefenderAbility = none)
    (hdef : ctx.Move.Category = Physical → 4 ≤ ctx.Defender.Stats.Defense)
    (hsp : ctx.Move.Category = Special → 4 ≤ ctx.Defender.Stats.SpDefense) :
    ∃ d, GetEffectiveDefenseStat ctx = some d ∧ 1 ≤ d := by
  have hbase : 4 ≤ (defenseBase ctx).1 := by
    unfold defenseBase
    rcases hcat with h | h
    · simp only [h, if_true]; exact hdef h
    · have hne : ¬ (Special = Physical) := by decide
      simp only [h, hne, if_false, if_true]; exact hsp h
  have hm := (GetStatMultiplier_range (defenseBase ctx).2).1
  have hq : (4 : ℚ) ≤ (((defenseBase ctx).1 : Int) : ℚ) := by exact_mod_cast hbase
  have hprod : (1 : ℚ) ≤ (((defenseBase ctx).1 : Int) : ℚ) * GetStatMultiplier (defenseBase ctx).2 := by
    nlinarith
  refine ⟨goInt ((((defenseBase ctx).1 : Int) : ℚ) * GetStatMultiplier (defenseBase ctx).2), ?_, ?_⟩
  · unfold GetEffectiveDefenseStat
    simp only [hab, Option.map_some']
  · unfold goInt
    rw [if_pos (by linarith)]
    rw [Int.le_floor]
    exact_mod_cast hprod

/-- C36: for a physical or special move and a defender without an ability
whose relevant defense stat is at least 4, at every defense stage and with or
without the critical flag, `GetEffectiveDefenseStat` returns at least 1, so
the integer division by it is defined, and `CalculateDamage` returns a result
(the attacker's `MaxHP` not being 0, which the HP conditions of its ability
and item divide by). 4 is the smallest value of `CalculateStat` for a
creature with a species and a base stat, IV and level that are not negative. -/
theorem GetEffectiveDefenseStat_never_zero (rng : Rand) (ctx : DamageContext)
    (hcat : ctx.Move.Category = Physical ∨ ctx.Move.Category = Special)
    (hab : ctx.DefenderAbility = none)
    (hdef : ctx.Move.Category = Physical → 4 ≤ ctx.Defender.Stats.Defense)
    (hsp : ctx.Move.Category = Special → 4 ≤ ctx.Defender.Stats.SpDefense) :
    (∀ (crit : Bool) (stages : StatStages),
      ∃ d, GetEffectiveDefenseStat (withDefenderStages (withCritical ctx crit) stages) = some d ∧
        1 ≤ d ∧ ∀ n : Int, goDiv n d = some (n.tdiv d)) ∧
    (ctx.Attacker.MaxHP ≠ 0 → ∃ res rng', CalculateDamage rng ctx = some (res, rng')) ∧
    (∀ (p : UserPokemon) (species : PokemonSpecies) (baseStat iv : Int) (statName : String),
      p.Species = some species → 0 ≤ baseStat → 0 ≤ iv → 0 ≤ p.Level →
      4 ≤ p.CalculateStat baseStat iv statName) ∧
    UserPokemon.CalculateStat { Species := some {}, Nature := Bold, Level := 1 } 1 0 "attack" =
      4 := by
  refine ⟨?_, ?_, ?_, CalculateStat_four_attained⟩
  · intro crit stages
    obtain ⟨d, hd, hd1⟩ := GetEffectiveDefenseStat_pos
      (withDefenderStages (withCritical ctx crit) stages) hcat hab hdef hsp
    refine ⟨d, hd, hd1, fun n => ?_⟩
    unfold goDiv
    rw [if_neg (by omega)]
  · intro hA
    have hcat' : ctx.Move.Category ≠ Status := by
      rcases hcat with h | h <;> rw [h] <;> decide
    by_cases hzero : (CheckAccuracy rng ctx).1 = false ∨ CalculateTypeEffectiveness ctx = 0
    · obtain ⟨res, rng', h, -⟩ := CalculateDamage_zero_cases rng ctx (Or.inr hzero)
      exact ⟨res, rng', h⟩
    · push_neg at hzero
      have hhit : (CheckAccuracy rng ctx).1 = true := by simpa using hzero.1
      rw [CalculateDamage_connects rng ctx hcat' hhit hzero.2]
      obtain ⟨d, hd, hd1⟩ := GetEffectiveDefenseStat_pos (rolledContext rng ctx) hcat hab hdef hsp
      obtain ⟨a, ha⟩ := GetEffectiveAttackStat_isSome (rolledContext rng ctx) hA
      obtain ⟨i, hi⟩ := GetItemModifier_isSome (rolledContext rng ctx) hA
      obtain ⟨m, hm⟩ := GetAbilityModifier_isSome (rolledContext rng ctx) hA
      have hd0 : d ≠ 0 := by omega
      have hsome : ∃ x, damageBeforeFloor (rolledContext rng ctx)
          (CalculateTypeEffectiveness ctx) = some x := by
        unfold damageBeforeFloor goDiv
        simp only [ha, hd, hi, hm, hd0, if_false]
        exact ⟨_, rfl⟩
      obtain ⟨x, hx⟩ := hsome
      rw [hx]
      exact ⟨_, _, rfl⟩
  · intro p species baseStat iv statName hs hb hiv hl
    exact CalculateStat_ge_four p species hs baseStat iv statName hb hiv hl

/-- C36 on the example: the defense stat 120 at stage -6 on a critical hit
still gives an effective defense stat of at least 1. -/
theorem GetEffectiveDefenseStat_never_zero_witness :
    ∃ d, GetEffectiveDefenseStat
        (withDefenderStages (withCritical exampleContext true) { Defense := -6 }) = some d ∧
      1 ≤ d ∧ ∀ n : Int, goDiv n d = some (n.tdiv d) :=
  (GetEffectiveDefenseStat_never_zero exampleRand exampleContext (Or.inl rfl) rfl
    (fun _ => by decide) (fun _ => by decide)).1 true { Defense := -6 }

end DamageCalculator

/-! ## Weather damage -/

namespace TurnResolver

/-- The weather damage of a combatant: a sixteenth of `MaxHP`, rounded down,
at least 1. -/
theorem weatherDamage_amount (m : Int) (h : 0 ≤ m) :
    (if goInt (((m : Int) : ℚ) * (1 / 16)) < 1 then 1 else goInt (((m : Int) : ℚ) * (1 / 16))) =
      max 1 (m / 16) := by
  have hx : (0 : ℚ) ≤ ((m : Int) : ℚ) * (1 / 16) := by
    have : (0 : ℚ) ≤ ((m : Int) : ℚ) := by exact_mod_cast h
    positivity
  have hfl : goInt (((m : Int) : ℚ) * (1 / 16)) = m / 16 := by
    unfold goInt
    rw [if_pos hx]
    have : ((m : Int) : ℚ) * (1 / 16) = ((m : Int) : ℚ) / ((16 : Nat) : ℚ) := by
      push_cast; ring
    rw [this, Rat.floor_intCast_div_natCast]
    rfl
  rw [hfl]
  split_ifs with h1 <;> omega

/-- The loop body of `ApplyWeatherEffects` on a combatant that has not
fainted: it is spared exactly when its first type is rock, ground or steel in
a sandstorm, or ice in hail or snow; otherwise it takes the weather damage,
which is recorded. -/
theorem weatherPlayer_first_type (state : BattleState) (side : Side)
    (resolution : TurnResolution) (hf : (state.player side).Pokemon.Fainted = false)
    (hmax : 0 ≤ (state.player side).Pokemon.MaxHP)
    (hw : state.Weather = WeatherSandstorm ∨ state.Weather = WeatherHail ∨
      state.Weather = WeatherSnow) :
    (((state.Weather = WeatherSandstorm ∧
          ((state.player side).Pokemon.Species.Type1 = Rock ∨
            (state.player side).Pokemon.Species.Type1 = Ground ∨
            (state.player side).Pokemon.Species.Type1 = Steel)) ∨
        (state.Weather ≠ WeatherSandstorm ∧ (state.player side).Pokemon.Species.Type1 = Ice)) →
      weatherPlayer state side (1 / 16) resolution = (state, resolution)) ∧
    (¬ ((state.Weather = WeatherSandstorm ∧
          ((state.player side).Pokemon.Species.Type1 = Rock ∨
            (state.player side).Pokemon.Species.Type1 = Ground ∨
            (state.player side).Pokemon.Species.Type1 = Steel)) ∨
        (state.Weather ≠ WeatherSandstorm ∧ (state.player side).Pokemon.Species.Type1 = Ice)) →
      weatherPlayer state side (1 / 16) resolution =
        (state.setPokemon side
            ((state.player side).Pokemon.TakeDamage
              (max 1 ((state.player side).Pokemon.MaxHP / 16))).1,
          { resolution with
            WeatherDamage := resolution.WeatherDamage ++
              [{ PlayerID := (state.player side).UserID, Weather := state.Weather,
                 Damage := max 1 ((state.player side).Pokemon.MaxHP / 16) }] })) := by
  have hamount := weatherDamage_amount _ hmax
  have hne1 : WeatherHail ≠ WeatherSandstorm := by decide
  have hne2 : WeatherSnow ≠ WeatherSandstorm := by decide
  refine ⟨?_, ?_⟩
  · intro himm
    unfold weatherPlayer
    simp only [hf, Bool.false_eq_true, if_false]
    rcases himm with ⟨hs, ht⟩ | ⟨hs, ht⟩
    · simp [hs, ht]
    · have hw' : state.Weather = WeatherHail ∨ state.Weather = WeatherSnow := by
        rcases hw with h | h
        · exact absurd h hs
        · exact h
      simp [hs, hw', ht]
  · intro himm
    push_neg at himm
    unfold weatherPlayer
    simp only [hf, Bool.false_eq_true, if_false, hamount]
    by_cases hs : state.Weather = WeatherSandstorm
    · have ht := himm.1 hs
      simp [hs, ht.1, ht.2.1, ht.2.2]
    · have hw' : state.Weather = WeatherHail ∨ state.Weather = WeatherSnow := by
        rcases hw with h | h
        · exact absurd h hs
        · exact h
      have ht := himm.2 hs
      simp [hs, hw', ht]

/-- C32: in a sandstorm a combatant that has not fainted, of the types Normal
and Rock, loses 10 HP (a sixteenth of its 175): `ApplyWeatherEffects` looks
at the first type only, so a rock, ground, steel or ice second type does not
protect. What the claim says otherwise holds: the damage is
`max(1, floor(MaxHP / 16))`, a combatant protected by its first type takes
none, and under any weather other than sandstorm, hail and snow nobody takes
weather damage. -/
theorem ApplyWeatherEffects_ignores_second_type :
    sandstormState.Weather = WeatherSandstorm ∧
      (sandstormState.player .player1).Pokemon.Species.Type2 = some Rock ∧
      (sandstormState.player .player1).Pokemon.Fainted = false ∧
      (ApplyWeatherEffects sandstormState {}).2.WeatherDamage =
        [{ PlayerID := 1, Weather := WeatherSandstorm, Damage := 10 },
         { PlayerID := 2, Weather := WeatherSandstorm, Damage := 10 }] ∧
      ((ApplyWeatherEffects sandstormState {}).1.player .player1).Pokemon.CurrentHP = 165 ∧
      (∀ (state : BattleState) (resolution : TurnResolution),
        state.Weather ≠ WeatherSandstorm → state.Weather ≠ WeatherHail →
        state.Weather ≠ WeatherSnow →
        ApplyWeatherEffects state resolution = (state, resolution)) := by
  have h1 := (weatherPlayer_first_type sandstormState .player1 {} rfl (by decide)
    (Or.inl rfl)).2 (by decide)
  have h2 := fun resolution => (weatherPlayer_first_type
    (sandstormState.setPokemon .player1
      ((sandstormState.player .player1).Pokemon.TakeDamage
        (max 1 ((sandstormState.player .player1).Pokemon.MaxHP / 16))).1) .player2
    resolution rfl (by decide) (Or.inl rfl)).2 (by decide)
  have happly : ApplyWeatherEffects sandstormState {} =
      weatherPlayer (weatherPlayer sandstormState .player1 (1 / 16) {}).1 .player2 (1 / 16)
        (weatherPlayer sandstormState .player1 (1 / 16) {}).2 := by
    unfold ApplyWeatherEffects
    have hw : sandstormState.Weather = WeatherSandstorm := rfl
    have hne : ¬ (WeatherSandstorm = WeatherNone) := by decide
    simp only [hw, hne, if_false, true_or, if_true]
  refine ⟨rfl, rfl, rfl, ?_, ?_, ?_⟩
  · rw [happly, h1, h2]
    decide
  · rw [happly, h1, h2]
    decide
  · intro state resolution hs hh hn
    unfold ApplyWeatherEffects
    simp [hs, hh, hn]

end TurnResolver

/-! ## Status damage -/

namespace TurnResolver

/-- The loop body of `ApplyStatusDamage` acts on the combatant of its side as
`afterStatusDamage` and leaves the other side alone. -/
theorem statusDamagePlayer_pokemon (state : BattleState) (side : Side)
    (resolution : TurnResolution) :
    ((statusDamagePlayer state side resolution).1.player side).Pokemon =
        afterStatusDamage (state.player side).Pokemon ∧
      (statusDamagePlayer state side resolution).1.player side.other =
        state.player side.other := by
  unfold statusDamagePlayer afterStatusDamage statusSwitch
  simp only []
  split_ifs <;>
    first
    | exact ⟨rfl, rfl⟩
    | exact ⟨player_setPokemon_same _ _ _, player_setPokemon_other _ _ _⟩

/-- `ApplyStatusDamage` acts on each combatant as `afterStatusDamage`. -/
theorem ApplyStatusDamage_pokemon (state : BattleState) (resolution : TurnResolution)
    (side : Side) :
    ((ApplyStatusDamage state resolution).1.player side).Pokemon =
      afterStatusDamage (state.player side).Pokemon := by
  unfold ApplyStatusDamage
  simp only []
  cases side
  · have h1 := statusDamagePlayer_pokemon state .player1 resolution
    have h2 := statusDamagePlayer_pokemon
      (statusDamagePlayer state .player1 resolution).1 .player2
      (statusDamagePlayer state .player1 resolution).2
    have : (Side.player2).other = Side.player1 := rfl
    rw [this] at h2
    rw [h2.2, h1.1]
  · have h1 := statusDamagePlayer_pokemon state .player1 resolution
    have h2 := statusDamagePlayer_pokemon
      (statusDamagePlayer state .player1 resolution).1 .player2
      (statusDamagePlayer state .player1 resolution).2
    have : (Side.player1).other = Side.player2 := rfl
    rw [this] at h1
    rw [h2.1, h1.2]

/-- Taking damage leaves `max(0, HP - damage)`. -/
theorem TakeDamage_CurrentHP (p : BattlePokemon) (d : Int) :
    (p.TakeDamage d).1.CurrentHP = max 0 (p.CurrentHP - d) ∧
      (p.TakeDamage d).1.Status = p.Status ∧ (p.TakeDamage d).1.StatusTurns = p.StatusTurns ∧
      (p.TakeDamage d).1.MaxHP = p.MaxHP := by
  refine ⟨?_, ?_, ?_, ?_⟩
  · unfold BattlePokemon.TakeDamage
    by_cases h : p.CurrentHP - d < 0
    · simp only [h, if_true]; omega
    · simp only [h, if_false]
      split_ifs with h0 <;> simp only [] <;> omega
  · unfold BattlePokemon.TakeDamage
    simp only []
    split_ifs <;> rfl
  · unfold BattlePokemon.TakeDamage
    simp only []
    split_ifs <;> rfl
  · unfold BattlePokemon.TakeDamage
    simp only []
    split_ifs <;> rfl

/-- The combatant after the status phase, in terms of the `switch`: for a
combatant that has not fainted, with HP and damage not negative, the HP fall by
the damage, not below 0, and nothing but the HP, the fainted flag and the
counter set by the `switch` changes. -/
theorem afterStatusDamage_spec (p : BattlePokemon) (hf : p.Fainted = false)
    (hhp : 0 ≤ p.CurrentHP) (hd : 0 ≤ (statusSwitch p).2)
    (hsame : (statusSwitch p).1.CurrentHP = p.CurrentHP) :
    (afterStatusDamage p).CurrentHP = max 0 (p.CurrentHP - (statusSwitch p).2) ∧
      (afterStatusDamage p).Status = (statusSwitch p).1.Status ∧
      (afterStatusDamage p).StatusTurns = (statusSwitch p).1.StatusTurns ∧
      (afterStatusDamage p).MaxHP = (statusSwitch p).1.MaxHP := by
  unfold afterStatusDamage
  simp only [hf, Bool.false_eq_true, if_false]
  by_cases hpos : (statusSwitch p).2 > 0
  · rw [if_pos hpos]
    have h := TakeDamage_CurrentHP (statusSwitch p).1 (statusSwitch p).2
    rw [hsame] at h
    exact h
  · rw [if_neg hpos]
    refine ⟨?_, rfl, rfl, rfl⟩
    rw [hsame]
    have : (statusSwitch p).2 = 0 := by omega
    rw [this]
    omega

/-- The `switch` of `ApplyStatusDamage`, status by status. -/
theorem statusSwitch_cases (p : BattlePokemon) :
    (p.Status = StatusBurn → statusSwitch p = (p, p.MaxHP.tdiv 16)) ∧
      (p.Status = StatusPoison → statusSwitch p = (p, p.MaxHP.tdiv 8)) ∧
      (p.Status = StatusBadlyPoison →
        statusSwitch p = ({ p with StatusTurns := p.StatusTurns + 1 },
          (p.MaxHP * (p.StatusTurns + 1)).tdiv 16)) ∧
      (p.Status ≠ StatusBurn → p.Status ≠ StatusPoison → p.Status ≠ StatusBadlyPoison →
        statusSwitch p = (p, 0)) := by
  refine ⟨?_, ?_, ?_, ?_⟩
  · intro h; simp [statusSwitch, h]
  · intro h
    have : ¬ (StatusPoison = StatusBurn) := by decide
    simp [statusSwitch, h, this]
  · intro h
    have h1 : ¬ (StatusBadlyPoison = StatusBurn) := by decide
    have h2 : ¬ (StatusBadlyPoison = StatusPoison) := by decide
    simp [statusSwitch, h, h1, h2]
  · intro h1 h2 h3
    simp [statusSwitch, h1, h2, h3]

/-- The badly poisoned combatant through `n` status phases in which it has
not fainted before: status and `MaxHP` stay, the counter has grown by `n` and
the HP are not negative. -/
theorem statusPhase_iterate (state : BattleState) (side : Side)
    (hs : (state.player side).Pokemon.Status = StatusBadlyPoison)
    (hhp : 0 ≤ (state.player side).Pokemon.CurrentHP)
    (hmax : 0 ≤ (state.player side).Pokemon.MaxHP)
    (hturns : 0 ≤ (state.player side).Pokemon.StatusTurns) :
    ∀ n : Nat, (∀ k < n, ((statusPhase^[k] state).player side).Pokemon.Fainted = false) →
      ((statusPhase^[n] state).player side).Pokemon.Status = StatusBadlyPoison ∧
        ((statusPhase^[n] state).player side).Pokemon.MaxHP =
          (state.player side).Pokemon.MaxHP ∧
        ((statusPhase^[n] state).player side).Pokemon.StatusTurns =
          (state.player side).Pokemon.StatusTurns + n ∧
        0 ≤ ((statusPhase^[n] state).player side).Pokemon.CurrentHP ∧
        (∀ m, n = m + 1 →
          ((statusPhase^[n] state).player side).Pokemon.CurrentHP =
            max 0 (((statusPhase^[m] state).player side).Pokemon.CurrentHP -
              (state.player side).Pokemon.MaxHP *
                ((state.player side).Pokemon.StatusTurns + n) / 16)) := by
  intro n
  induction n with
  | zero =>
    intro _
    exact ⟨hs, rfl, by simp, hhp, fun m hm => by omega⟩
  | succ n ih =>
    intro halive
    obtain ⟨ihs, ihmax, ihturns, ihhp, -⟩ := ih (fun k hk => halive k (by omega))
    have hf := halive n (by omega)
    rw [Function.iterate_succ_apply']
    set st := statusPhase^[n] state with hst
    have hp : ((statusPhase st).player side).Pokemon =
        afterStatusDamage (st.player side).Pokemon := ApplyStatusDamage_pokemon st {} side
    have hsw := (statusSwitch_cases (st.player side).Pokemon).2.2.1 ihs
    have hd : 0 ≤ (statusSwitch (st.player side).Pokemon).2 := by
      rw [hsw]
      simp only []
      rw [Int.tdiv_eq_ediv (mul_nonneg (by omega) (by omega)) (by decide)]
      exact Int.ediv_nonneg (mul_nonneg (by omega) (by omega)) (by decide)
    obtain ⟨a1, a2, a3, a4⟩ := afterStatusDamage_spec (st.player side).Pokemon hf ihhp hd
      (by rw [hsw])
    rw [hp, a1, a2, a3, a4, hsw]
    simp only []
    refine ⟨ihs, ihmax, ?_, le_max_left _ _, ?_⟩
    · rw [ihturns]; push_cast; ring
    · intro m hm
      have hmn : m = n := by omega
      subst hmn
      rw [Int.tdiv_eq_ediv (mul_nonneg (by omega) (by omega)) (by decide), ihmax, ihturns,
        ← hst]
      push_cast
      ring_nf

/-- C33: in the status phase a combatant that has not fainted (HP and `MaxHP`
not negative) loses `floor(MaxHP / 16)` HP when burned and `floor(MaxHP / 8)`
when poisoned, the HP not falling below 0; when badly poisoned its counter is
increased by one and it loses `floor(MaxHP * counter / 16)` for the new
counter; any other status costs no HP; the status itself is not changed. So a
badly poisoned combatant whose counter starts at 0 has, after the `n`-th
status phase it goes through alive, the counter `n` and has lost
`floor(n * MaxHP / 16)` HP in that phase. -/
theorem ApplyStatusDamage_amounts (state : BattleState) (resolution : TurnResolution)
    (side : Side) (hf : (state.player side).Pokemon.Fainted = false)
    (hhp : 0 ≤ (state.player side).Pokemon.CurrentHP)
    (hmax : 0 ≤ (state.player side).Pokemon.MaxHP) :
    ((state.player side).Pokemon.Status = StatusBurn →
      ((ApplyStatusDamage state resolution).1.player side).Pokemon.CurrentHP =
          max 0 ((state.player side).Pokemon.CurrentHP -
            (state.player side).Pokemon.MaxHP / 16) ∧
        ((ApplyStatusDamage state resolution).1.player side).Pokemon.StatusTurns =
          (state.player side).Pokemon.StatusTurns) ∧
    ((state.player side).Pokemon.Status = StatusPoison →
      ((ApplyStatusDamage state resolution).1.player side).Pokemon.CurrentHP =
          max 0 ((state.player side).Pokemon.CurrentHP -
            (state.player side).Pokemon.MaxHP / 8) ∧
        ((ApplyStatusDamage state resolution).1.player side).Pokemon.StatusTurns =
          (state.player side).Pokemon.StatusTurns) ∧
    ((state.player side).Pokemon.Status = StatusBadlyPoison →
      0 ≤ (state.player side).Pokemon.StatusTurns →
      ((ApplyStatusDamage state resolution).1.player side).Pokemon.StatusTurns =
          (state.player side).Pokemon.StatusTurns + 1 ∧
        ((ApplyStatusDamage state resolution).1.player side).Pokemon.CurrentHP =
          max 0 ((state.player side).Pokemon.CurrentHP -
            (state.player side).Pokemon.MaxHP *
              ((state.player side).Pokemon.StatusTurns + 1) / 16)) ∧
    ((state.player side).Pokemon.Status ≠ StatusBurn →
      (state.player side).Pokemon.Status ≠ StatusPoison →
      (state.player side).Pokemon.Status ≠ StatusBadlyPoison →
      ((ApplyStatusDamage state resolution).1.player side).Pokemon =
        (state.player side).Pokemon) ∧
    ((ApplyStatusDamage state resolution).1.player side).Pokemon.Status =
      (state.player side).Pokemon.Status ∧
    (∀ n : Nat, (state.player side).Pokemon.Status = StatusBadlyPoison →
      (state.player side).Pokemon.StatusTurns = 0 →
      (∀ k < n + 1, ((statusPhase^[k] state).player side).Pokemon.Fainted = false) →
      ((statusPhase^[n + 1] state).player side).Pokemon.StatusTurns = ((n + 1 : Nat) : Int) ∧
        ((statusPhase^[n + 1] state).player side).Pokemon.CurrentHP =
          max 0 (((statusPhase^[n] state).player side).Pokemon.CurrentHP -
            ((n + 1 : Nat) : Int) * (state.player side).Pokemon.MaxHP / 16)) := by
  rw [ApplyStatusDamage_pokemon]
  obtain ⟨c1, c2, c3, c4⟩ := statusSwitch_cases (state.player side).Pokemon
  have h16 : 0 ≤ (state.player side).Pokemon.MaxHP.tdiv 16 := by
    rw [Int.tdiv_eq_ediv hmax (by decide)]; exact Int.ediv_nonneg hmax (by decide)
  have h8 : 0 ≤ (state.player side).Pokemon.MaxHP.tdiv 8 := by
    rw [Int.tdiv_eq_ediv hmax (by decide)]; exact Int.ediv_nonneg hmax (by decide)
  have hstatus : (afterStatusDamage (state.player side).Pokemon).Status =
      (state.player side).Pokemon.Status := by
    unfold afterStatusDamage
    have hsw : (statusSwitch (state.player side).Pokemon).1.Status =
        (state.player side).Pokemon.Status := by
      unfold statusSwitch
      split_ifs <;> rfl
    split_ifs
    · rfl
    · rw [(TakeDamage_CurrentHP _ _).2.1, hsw]
    · exact hsw
  refine ⟨?_, ?_, ?_, ?_, hstatus, ?_⟩
  · intro h
    obtain ⟨a1, -, a3, -⟩ := afterStatusDamage_spec (state.player side).Pokemon hf hhp
      (by rw [c1 h]; exact h16) (by rw [c1 h])
    rw [a1, a3, c1 h, Int.tdiv_eq_ediv hmax (by decide)]
    exact ⟨rfl, rfl⟩
  · intro h
    obtain ⟨a1, -, a3, -⟩ := afterStatusDamage_spec (state.player side).Pokemon hf hhp
      (by rw [c2 h]; exact h8) (by rw [c2 h])
    rw [a1, a3, c2 h, Int.tdiv_eq_ediv hmax (by decide)]
    exact ⟨rfl, rfl⟩
  · intro h hturns
    have hprod : 0 ≤ (state.player side).Pokemon.MaxHP *
        ((state.player side).Pokemon.StatusTurns + 1) := mul_nonneg hmax (by omega)
    obtain ⟨a1, -, a3, -⟩ := afterStatusDamage_spec (state.player side).Pokemon hf hhp
      (by
        rw [c3 h]
        simp only []
        rw [Int.tdiv_eq_ediv hprod (by decide)]
        exact Int.ediv_nonneg hprod (by decide))
      (by rw [c3 h])
    rw [a1, a3, c3 h]
    simp only []
    rw [Int.tdiv_eq_ediv hprod (by decide)]
    constructor <;> first | rfl | trivial
  · intro h1 h2 h3
    unfold afterStatusDamage
    rw [c4 h1 h2 h3]
    simp [hf]
  · intro n hs h0 halive
    obtain ⟨-, -, i3, -, i5⟩ := statusPhase_iterate state side hs hhp hmax (by omega) (n + 1)
      halive
    refine ⟨by rw [i3, h0]; simp, ?_⟩
    rw [i5 n rfl, h0, zero_add, mul_comm]

/-- C33 on the example: a poisoned combatant with 10 HP left and 175 `MaxHP`
loses `floor(175 / 8) = 21` HP, which leaves 0. -/
theorem ApplyStatusDamage_amounts_witness :
    ((ApplyStatusDamage poisonedState {}).1.player .player1).Pokemon.CurrentHP =
        max 0 ((poisonedState.player .player1).Pokemon.CurrentHP -
          (poisonedState.player .player1).Pokemon.MaxHP / 8) ∧
      ((ApplyStatusDamage poisonedState {}).1.player .player1).Pokemon.StatusTurns =
        (poisonedState.player .player1).Pokemon.StatusTurns :=
  (ApplyStatusDamage_amounts poisonedState {} .player1 rfl (by decide) (by decide)).2.1 rfl

end TurnResolver

/-! ## The weather and terrain countdowns -/

namespace TurnResolver

/-- A write to a combatant leaves weather and terrain alone. -/
theorem setPokemon_field (state : BattleState) (side : Side) (p : BattlePokemon) :
    (state.setPokemon side p).Weather = state.Weather ∧
      (state.setPokemon side p).WeatherTurns = state.WeatherTurns ∧
      (state.setPokemon side p).Terrain = state.Terrain ∧
      (state.setPokemon side p).TerrainTurns = state.TerrainTurns := by
  cases side <;> exact ⟨rfl, rfl, rfl, rfl⟩

/-- The three damage and healing phases of the end of turn leave weather and
terrain alone. -/
theorem endOfTurn_damage_field (state : BattleState) (resolution : TurnResolution) :
    (ApplyHealingEffects (ApplyStatusDamage (ApplyWeatherEffects state resolution).1
        (ApplyWeatherEffects state resolution).2).1
      (ApplyStatusDamage (ApplyWeatherEffects state resolution).1
        (ApplyWeatherEffects state resolution).2).2).1.Weather = state.Weather ∧
    (ApplyHealingEffects (ApplyStatusDamage (ApplyWeatherEffects state resolution).1
        (ApplyWeatherEffects state resolution).2).1
      (ApplyStatusDamage (ApplyWeatherEffects state resolution).1
        (ApplyWeatherEffects state resolution).2).2).1.WeatherTurns = state.WeatherTurns ∧
    (ApplyHealingEffects (ApplyStatusDamage (ApplyWeatherEffects state resolution).1
        (ApplyWeatherEffects state resolution).2).1
      (ApplyStatusDamage (ApplyWeatherEffects state resolution).1
        (ApplyWeatherEffects state resolution).2).2).1.Terrain = state.Terrain ∧
    (ApplyHealingEffects (ApplyStatusDamage (ApplyWeatherEffects state resolution).1
        (ApplyWeatherEffects state resolution).2).1
      (ApplyStatusDamage (ApplyWeatherEffects state resolution).1
        (ApplyWeatherEffects state resolution).2).2).1.TerrainTurns = state.TerrainTurns := by
  have hw : ∀ (s : BattleState) (side : Side) (d : ℚ) (r : TurnResolution),
      (weatherPlayer s side d r).1.Weather = s.Weather ∧
      (weatherPlayer s side d r).1.WeatherTurns = s.WeatherTurns ∧
      (weatherPlayer s side d r).1.Terrain = s.Terrain ∧
      (weatherPlayer s side d r).1.TerrainTurns = s.TerrainTurns := by
    intro s side d r
    unfold weatherPlayer
    simp only []
    split_ifs <;> first | exact ⟨rfl, rfl, rfl, rfl⟩ | exact setPokemon_field _ _ _
  have hs : ∀ (s : BattleState) (side : Side) (r : TurnResolution),
      (statusDamagePlayer s side r).1.Weather = s.Weather ∧
      (statusDamagePlayer s side r).1.WeatherTurns = s.WeatherTurns ∧
      (statusDamagePlayer s side r).1.Terrain = s.Terrain ∧
      (statusDamagePlayer s side r).1.TerrainTurns = s.TerrainTurns := by
    intro s side r
    unfold statusDamagePlayer
    simp only []
    split_ifs <;> first | exact ⟨rfl, rfl, rfl, rfl⟩ | exact setPokemon_field _ _ _
  have hh : ∀ (s : BattleState) (side : Side) (r : TurnResolution),
      (healingPlayer s side r).1.Weather = s.Weather ∧
      (healingPlayer s side r).1.WeatherTurns = s.WeatherTurns ∧
      (healingPlayer s side r).1.Terrain = s.Terrain ∧
      (healingPlayer s side r).1.TerrainTurns = s.TerrainTurns := by
    intro s side r
    unfold healingPlayer
    simp only []
    split_ifs <;> first | exact ⟨rfl, rfl, rfl, rfl⟩ | exact setPokemon_field _ _ _
  have hW : ∀ (s : BattleState) (r : TurnResolution),
      (ApplyWeatherEffects s r).1.Weather = s.Weather ∧
      (ApplyWeatherEffects s r).1.WeatherTurns = s.WeatherTurns ∧
      (ApplyWeatherEffects s r).1.Terrain = s.Terrain ∧
      (ApplyWeatherEffects s r).1.TerrainTurns = s.TerrainTurns := by
    intro s r
    unfold ApplyWeatherEffects
    split_ifs
    · exact ⟨rfl, rfl, rfl, rfl⟩
    · have a := hw s .player1 (1 / 16) r
      have b := hw (weatherPlayer s .player1 (1 / 16) r).1 .player2 (1 / 16)
        (weatherPlayer s .player1 (1 / 16) r).2
      exact ⟨b.1.trans a.1, b.2.1.trans a.2.1, b.2.2.1.trans a.2.2.1, b.2.2.2.trans a.2.2.2⟩
    · exact ⟨rfl, rfl, rfl, rfl⟩
  have hS : ∀ (s : BattleState) (r : TurnResolution),
      (ApplyStatusDamage s r).1.Weather = s.Weather ∧
      (ApplyStatusDamage s r).1.WeatherTurns = s.WeatherTurns ∧
      (ApplyStatusDamage s r).1.Terrain = s.Terrain ∧
      (ApplyStatusDamage s r).1.TerrainTurns = s.TerrainTurns := by
    intro s r
    have a := hs s .player1 r
    have b := hs (statusDamagePlayer s .player1 r).1 .player2 (statusDamagePlayer s .player1 r).2
    exact ⟨b.1.trans a.1, b.2.1.trans a.2.1, b.2.2.1.trans a.2.2.1, b.2.2.2.trans a.2.2.2⟩
  have hH : ∀ (s : BattleState) (r : TurnResolution),
      (ApplyHealingEffects s r).1.Weather = s.Weather ∧
      (ApplyHealingEffects s r).1.WeatherTurns = s.WeatherTurns ∧
      (ApplyHealingEffects s r).1.Terrain = s.Terrain ∧
      (ApplyHealingEffects s r).1.TerrainTurns = s.TerrainTurns := by
    intro s r
    have a := hh s .player1 r
    have b := hh (healingPlayer s .player1 r).1 .player2 (healingPlayer s .player1 r).2
    exact ⟨b.1.trans a.1, b.2.1.trans a.2.1, b.2.2.1.trans a.2.2.1, b.2.2.2.trans a.2.2.2⟩
  have a := hW state resolution
  have b := hS (ApplyWeatherEffects state resolution).1 (ApplyWeatherEffects state resolution).2
  have c := hH (ApplyStatusDamage (ApplyWeatherEffects state resolution).1
      (ApplyWeatherEffects state resolution).2).1
    (ApplyStatusDamage (ApplyWeatherEffects state resolution).1
      (ApplyWeatherEffects state resolution).2).2
  exact ⟨c.1.trans (b.1.trans a.1), c.2.1.trans (b.2.1.trans a.2.1),
    c.2.2.1.trans (b.2.2.1.trans a.2.2.1), c.2.2.2.trans (b.2.2.2.trans a.2.2.2)⟩

/-- The weather countdown: above 1 the counter falls by one, at 1 it falls to 0
and the weather is reset, at 0 or below nothing changes; terrain untouched. -/
theorem weatherTurnsStep_spec (state : BattleState) :
    (1 < state.WeatherTurns → (weatherTurnsStep state).Weather = state.Weather ∧
        (weatherTurnsStep state).WeatherTurns = state.WeatherTurns - 1) ∧
      (state.WeatherTurns = 1 → (weatherTurnsStep state).Weather = WeatherNone ∧
        (weatherTurnsStep state).WeatherTurns = 0) ∧
      (state.WeatherTurns ≤ 0 → weatherTurnsStep state = state) ∧
      (weatherTurnsStep state).Terrain = state.Terrain ∧
      (weatherTurnsStep state).TerrainTurns = state.TerrainTurns := by
  unfold weatherTurnsStep
  refine ⟨?_, ?_, ?_, ?_, ?_⟩
  · intro h
    have h1 : state.WeatherTurns > 0 := by omega
    have h2 : ¬ (state.WeatherTurns - 1 = 0) := by omega
    simp only [h1, h2, if_true, if_false]
    constructor <;> first | rfl | trivial
  · intro h
    simp only [h]
    exact ⟨rfl, rfl⟩
  · intro h
    have h1 : ¬ (state.WeatherTurns > 0) := by omega
    simp only [h1, if_false]
  · simp only []
    split_ifs <;> rfl
  · simp only []
    split_ifs <;> rfl

/-- The terrain countdown, as the weather countdown. -/
theorem terrainTurnsStep_spec (state : BattleState) :
    (1 < state.TerrainTurns → (terrainTurnsStep state).Terrain = state.Terrain ∧
        (terrainTurnsStep state).TerrainTurns = state.TerrainTurns - 1) ∧
      (state.TerrainTurns = 1 → (terrainTurnsStep state).Terrain = TerrainNone ∧
        (terrainTurnsStep state).TerrainTurns = 0) ∧
      (state.TerrainTurns ≤ 0 → terrainTurnsStep state = state) ∧
      (terrainTurnsStep state).Weather = state.Weather ∧
      (terrainTurnsStep state).WeatherTurns = state.WeatherTurns := by
  unfold terrainTurnsStep
  refine ⟨?_, ?_, ?_, ?_, ?_⟩
  · intro h
    have h1 : state.TerrainTurns > 0 := by omega
    have h2 : ¬ (state.TerrainTurns - 1 = 0) := by omega
    simp only [h1, h2, if_true, if_false]
    constructor <;> first | rfl | trivial
  · intro h
    simp only [h]
    exact ⟨rfl, rfl⟩
  · intro h
    have h1 : ¬ (state.TerrainTurns > 0) := by omega
    simp only [h1, if_false]
  · simp only []
    split_ifs <;> rfl
  · simp only []
    split_ifs <;> rfl

/-- One end-of-turn phase on the weather and terrain counters. -/
theorem ApplyEndOfTurnEffects_countdown (state : BattleState) (resolution : TurnResolution) :
    ((1 < state.WeatherTurns →
        (ApplyEndOfTurnEffects state resolution).1.Weather = state.Weather ∧
        (ApplyEndOfTurnEffects state resolution).1.WeatherTurns = state.WeatherTurns - 1) ∧
      (state.WeatherTurns = 1 →
        (ApplyEndOfTurnEffects state resolution).1.Weather = WeatherNone ∧
        (ApplyEndOfTurnEffects state resolution).1.WeatherTurns = 0) ∧
      (state.WeatherTurns ≤ 0 →
        (ApplyEndOfTurnEffects state resolution).1.Weather = state.Weather ∧
        (ApplyEndOfTurnEffects state resolution).1.WeatherTurns = state.WeatherTurns)) ∧
    ((1 < state.TerrainTurns →
        (ApplyEndOfTurnEffects state resolution).1.Terrain = state.Terrain ∧
        (ApplyEndOfTurnEffects state resolution).1.TerrainTurns = state.TerrainTurns - 1) ∧
      (state.TerrainTurns = 1 →
        (ApplyEndOfTurnEffects state resolution).1.Terrain = TerrainNone ∧
        (ApplyEndOfTurnEffects state resolution).1.TerrainTurns = 0) ∧
      (state.TerrainTurns ≤ 0 →
        (ApplyEndOfTurnEffects state resolution).1.Terrain = state.Terrain ∧
        (ApplyEndOfTurnEffects state resolution).1.TerrainTurns = state.TerrainTurns)) := by
  obtain ⟨f1, f2, f3, f4⟩ := endOfTurn_damage_field state resolution
  unfold ApplyEndOfTurnEffects
  simp only []
  generalize (ApplyHealingEffects (ApplyStatusDamage (ApplyWeatherEffects state resolution).1
        (ApplyWeatherEffects state resolution).2).1
      (ApplyStatusDamage (ApplyWeatherEffects state resolution).1
        (ApplyWeatherEffects state resolution).2).2).1 = s3 at f1 f2 f3 f4 ⊢
  obtain ⟨w1, w2, w3, w4, w5⟩ := weatherTurnsStep_spec s3
  obtain ⟨t1, t2, t3, t4, t5⟩ := terrainTurnsStep_spec (weatherTurnsStep s3)
  rw [← f1, ← f2, ← f3, ← f4, t4, t5]
  refine ⟨⟨w1, w2, fun h => ?_⟩, ⟨?_, ?_, ?_⟩⟩
  · rw [w3 h]; exact ⟨rfl, rfl⟩
  · intro h
    rw [← w4, ← w5]
    exact t1 (by rw [w5]; exact h)
  · intro h
    exact t2 (by rw [w5]; exact h)
  · intro h
    rw [← w4, ← w5]
    rw [t3 (by rw [w5]; exact h)]
    exact ⟨rfl, rfl⟩

/-- A weather with `n` turns left, not overwritten between the phases, is
still there with `n - k` turns left after `k < n` end-of-turn phases. -/
theorem afterPhases_weather (between : Nat → BattleState → BattleState) (state : BattleState)
    (n : Nat)
    (hkeep : ∀ k s, (between k s).Weather = s.Weather ∧
      (between k s).WeatherTurns = s.WeatherTurns)
    (hturns : state.WeatherTurns = n) :
    ∀ k, k < n → (afterPhases between state k).Weather = state.Weather ∧
      (afterPhases between state k).WeatherTurns = (n : Int) - k := by
  intro k
  induction k with
  | zero => intro _; exact ⟨rfl, by simp [afterPhases, hturns]⟩
  | succ k ih =>
    intro hk
    obtain ⟨i1, i2⟩ := ih (by omega)
    obtain ⟨c, -, -⟩ := (ApplyEndOfTurnEffects_countdown (afterPhases between state k) {}).1
    obtain ⟨c1, c2⟩ := c (by rw [i2]; omega)
    show (between k (endOfTurnPhase (afterPhases between state k))).Weather = _ ∧
      (between k (endOfTurnPhase (afterPhases between state k))).WeatherTurns = _
    rw [(hkeep _ _).1, (hkeep _ _).2]
    unfold endOfTurnPhase
    rw [c1, c2, i1, i2]
    exact ⟨rfl, by push_cast; ring⟩

/-- A terrain with `n` turns left, not overwritten between the phases, is
still there with `n - k` turns left after `k < n` end-of-turn phases. -/
theorem afterPhases_terrain (between : Nat → BattleState → BattleState) (state : BattleState)
    (n : Nat)
    (hkeep : ∀ k s, (between k s).Terrain = s.Terrain ∧
      (between k s).TerrainTurns = s.TerrainTurns)
    (hturns : state.TerrainTurns = n) :
    ∀ k, k < n → (afterPhases between state k).Terrain = state.Terrain ∧
      (afterPhases between state k).TerrainTurns = (n : Int) - k := by
  intro k
  induction k with
  | zero => intro _; exact ⟨rfl, by simp [afterPhases, hturns]⟩
  | succ k ih =>
    intro hk
    obtain ⟨i1, i2⟩ := ih (by omega)
    obtain ⟨c, -, -⟩ := (ApplyEndOfTurnEffects_countdown (afterPhases between state k) {}).2
    obtain ⟨c1, c2⟩ := c (by rw [i2]; omega)
    show (between k (endOfTurnPhase (afterPhases between state k))).Terrain = _ ∧
      (between k (endOfTurnPhase (afterPhases between state k))).TerrainTurns = _
    rw [(hkeep _ _).1, (hkeep _ _).2]
    unfold endOfTurnPhase
    rw [c1, c2, i1, i2]
    exact ⟨rfl, by push_cast; ring⟩

/-- C34: a weather set with duration `n ≥ 1` and not overwritten between the
end-of-turn phases is still in effect after each of the first `n - 1` phases
(with `n - k` turns left after `k` of them) and is reset to none, its counter
at 0, by the `n`-th; the same holds for a terrain. The weather and terrain
blocks of `ExecuteStatusMove` set the weather or terrain and the counter to
the duration of the move's effect. A counter that is not negative is not made
negative by `ApplyEndOfTurnEffects`, and one that is negative is left as it
is. -/
theorem weather_and_terrain_expire (between : Nat → BattleState → BattleState)
    (state : BattleState) (n : Nat) (hn : 1 ≤ n) :
    ((∀ k s, (between k s).Weather = s.Weather ∧
        (between k s).WeatherTurns = s.WeatherTurns) →
      state.WeatherTurns = n →
      (∀ k, k < n → (afterPhases between state k).Weather = state.Weather ∧
        (afterPhases between state k).WeatherTurns = (n : Int) - k) ∧
      (afterPhases between state n).Weather = WeatherNone ∧
      (afterPhases between state n).WeatherTurns = 0) ∧
    ((∀ k s, (between k s).Terrain = s.Terrain ∧
        (between k s).TerrainTurns = s.TerrainTurns) →
      state.TerrainTurns = n →
      (∀ k, k < n → (afterPhases between state k).Terrain = state.Terrain ∧
        (afterPhases between state k).TerrainTurns = (n : Int) - k) ∧
      (afterPhases between state n).Terrain = TerrainNone ∧
      (afterPhases between state n).TerrainTurns = 0) ∧
    (∀ (s : BattleState) (move : Move) (resolved : ResolvedAction),
      (∀ w, move.WeatherEffect = some w →
        (weatherStep s move resolved).2.Weather = w.Weather ∧
        (weatherStep s move resolved).2.WeatherTurns = w.Duration) ∧
      (∀ t, move.TerrainEffect = some t →
        (terrainStep s move resolved).2.Terrain = t.Terrain ∧
        (terrainStep s move resolved).2.TerrainTurns = t.Duration)) ∧
    (∀ (s : BattleState) (resolution : TurnResolution),
      (0 ≤ s.WeatherTurns → 0 ≤ (ApplyEndOfTurnEffects s resolution).1.WeatherTurns) ∧
      (s.WeatherTurns < 0 →
        (ApplyEndOfTurnEffects s resolution).1.WeatherTurns = s.WeatherTurns) ∧
      (0 ≤ s.TerrainTurns → 0 ≤ (ApplyEndOfTurnEffects s resolution).1.TerrainTurns) ∧
      (s.TerrainTurns < 0 →
        (ApplyEndOfTurnEffects s resolution).1.TerrainTurns = s.TerrainTurns)) := by
  obtain ⟨m, rfl⟩ : ∃ m, n = m + 1 := ⟨n - 1, by omega⟩
  refine ⟨?_, ?_, ?_, ?_⟩
  · intro hkeep hturns
    have hall := afterPhases_weather between state (m + 1) hkeep hturns
    refine ⟨hall, ?_⟩
    obtain ⟨i1, i2⟩ := hall m (by omega)
    obtain ⟨-, c, -⟩ := (ApplyEndOfTurnEffects_countdown (afterPhases between state m) {}).1
    obtain ⟨c1, c2⟩ := c (by rw [i2]; push_cast; ring)
    show (between m (endOfTurnPhase (afterPhases between state m))).Weather = _ ∧
      (between m (endOfTurnPhase (afterPhases between state m))).WeatherTurns = _
    rw [(hkeep _ _).1, (hkeep _ _).2]
    exact ⟨c1, c2⟩
  · intro hkeep hturns
    have hall := afterPhases_terrain between state (m + 1) hkeep hturns
    refine ⟨hall, ?_⟩
    obtain ⟨i1, i2⟩ := hall m (by omega)
    obtain ⟨-, c, -⟩ := (ApplyEndOfTurnEffects_countdown (afterPhases between state m) {}).2
    obtain ⟨c1, c2⟩ := c (by rw [i2]; push_cast; ring)
    show (between m (endOfTurnPhase (afterPhases between state m))).Terrain = _ ∧
      (between m (endOfTurnPhase (afterPhases between state m))).TerrainTurns = _
    rw [(hkeep _ _).1, (hkeep _ _).2]
    exact ⟨c1, c2⟩
  · intro s move resolved
    refine ⟨fun w hw => ?_, fun t ht => ?_⟩
    · unfold weatherStep; rw [hw]; exact ⟨rfl, rfl⟩
    · unfold terrainStep; rw [ht]; exact ⟨rfl, rfl⟩
  · intro s resolution
    obtain ⟨⟨w1, w2, w3⟩, ⟨t1, t2, t3⟩⟩ := ApplyEndOfTurnEffects_countdown s resolution
    refine ⟨fun h => ?_, fun h => (w3 (by omega)).2, fun h => ?_, fun h => (t3 (by omega)).2⟩
    · by_cases h1 : 1 < s.WeatherTurns
      · rw [(w1 h1).2]; omega
      · by_cases h2 : s.WeatherTurns = 1
        · rw [(w2 h2).2]
        · rw [(w3 (by omega)).2]; exact h
    · by_cases h1 : 1 < s.TerrainTurns
      · rw [(t1 h1).2]; omega
      · by_cases h2 : s.TerrainTurns = 1
        · rw [(t2 h2).2]
        · rw [(t3 (by omega)).2]; exact h

/-- C34 on the example: the sandstorm with 5 turns left is still there after
four end-of-turn phases and gone after the fifth. -/
theorem weather_and_terrain_expire_witness :
    (afterPhases (fun _ s => s) sandstormState 4).Weather = WeatherSandstorm ∧
      (afterPhases (fun _ s => s) sandstormState 5).Weather = WeatherNone ∧
      (afterPhases (fun _ s => s) sandstormState 5).WeatherTurns = 0 :=
  ⟨(((weather_and_terrain_expire (fun _ s => s) sandstormState 5 (by decide)).1
      (fun _ _ => ⟨rfl, rfl⟩) rfl).1 4 (by decide)).1,
    ((weather_and_terrain_expire (fun _ s => s) sandstormState 5 (by decide)).1
      (fun _ _ => ⟨rfl, rfl⟩) rfl).2⟩

end TurnResolver

/-! ## Sleep -/

namespace TurnResolver

/-- The can-move check on a sleeping combatant whose counter is above 0: it
may not move, the counter falls by one, the status is reset exactly when the
counter reaches 0, nothing else changes and no number is drawn. -/
theorem CanPokemonMove_asleep (rng : Rand) (p : BattlePokemon) (r : ResolvedAction)
    (hs : p.Status = StatusSleep) (ht : 0 < p.StatusTurns) :
    (CanPokemonMove rng p r).1 = false ∧
      (CanPokemonMove rng p r).2.1 =
        { p with
          StatusTurns := p.StatusTurns - 1,
          Status := if p.StatusTurns - 1 = 0 then StatusNone else StatusSleep } ∧
      (CanPokemonMove rng p r).2.2.2 = rng := by
  unfold CanPokemonMove
  have h : p.Status = StatusSleep ∧ p.StatusTurns > 0 := ⟨hs, ht⟩
  simp only [h, and_self, if_true]
  by_cases h0 : p.StatusTurns - 1 = 0
  · simp only [h0, if_true]
    exact ⟨trivial, trivial, trivial⟩
  · simp only [h0, if_false]
    exact ⟨trivial, trivial, trivial⟩

/-- A combatant asleep with counter `k` stays asleep, with `k - j` on the
counter, through its first `j < k` can-move checks, none of which draws a
number. -/
theorem afterAttempts_asleep (rng : Rand) (k : Nat) :
    ∀ (j : Nat) (p : BattlePokemon), p.Status = StatusSleep → p.StatusTurns = k → j < k →
      (afterAttempts j rng p).1 =
        { p with StatusTurns := (k : Int) - j } ∧ (afterAttempts j rng p).2 = rng := by
  intro j
  induction j generalizing k with
  | zero =>
    intro p hs ht _
    refine ⟨?_, rfl⟩
    show p = _
    rw [← ht]
    simp
  | succ j ih =>
    intro p hs ht hj
    obtain ⟨-, h2, h3⟩ := CanPokemonMove_asleep rng p {} hs (by omega)
    have hne : ¬ (p.StatusTurns - 1 = 0) := by omega
    rw [if_neg hne] at h2
    unfold afterAttempts
    rw [h2, h3]
    obtain ⟨i1, i2⟩ := ih (k - 1)
      { p with StatusTurns := p.StatusTurns - 1, Status := StatusSleep } rfl
      (by show p.StatusTurns - 1 = ((k - 1 : Nat) : Int); omega) (by omega)
    rw [i1, i2]
    refine ⟨?_, rfl⟩
    have h1 : (((k - 1 : Nat) : Int) - (j : Int)) = (k : Int) - ((j + 1 : Nat) : Int) := by
      omega
    rw [h1, ← hs]

/-- `ExecuteMove` for a user that fails the can-move check: the action is
flagged as failed and only the user, as the check left it, has changed. -/
theorem ExecuteMove_cannot_move (rng : Rand) (state : BattleState) (attacker : Side)
    (action : BattleAction) (hcan : (moveCheck rng state attacker action).1 = false) :
    ExecuteMove rng state attacker action =
      some ({ (moveCheck rng state attacker action).2.2.1 with Failed := true },
        state.setPokemon attacker (moveCheck rng state attacker action).2.1,
        (moveCheck rng state attacker action).2.2.2) := by
  unfold moveCheck moveResolved at hcan
  unfold ExecuteMove
  simp only [hcan, Bool.not_false, if_true]
  rfl

/-- C31 as stated fails: a combatant whose status is sleep and whose counter
is 0 passes the can-move check, and stays asleep with its counter at 0. -/
theorem CanPokemonMove_asleep_at_zero_moves :
    (sleepingCombatant 0).Status = StatusSleep ∧
      (CanPokemonMove exampleRand (sleepingCombatant 0) {}).1 = true ∧
      (CanPokemonMove exampleRand (sleepingCombatant 0) {}).2.1 = sleepingCombatant 0 := by
  decide

/-- C31 (amended): for a combatant whose status is sleep and whose counter is
`k ≥ 1`, the can-move check returns false, draws no number, decreases the
counter by one and resets the status to none exactly when the counter reaches
0, leaving everything else (the PP too) as it was; `ExecuteMove` then flags
the action as failed and changes nothing but the user as the check left it.
So each of the first `k` move attempts fails, the combatant being asleep
before each of them, and after the `k`-th it has status none and counter 0,
and passes the next check. -/
theorem CanPokemonMove_sleep_counts_down (rng : Rand) (p : BattlePokemon) (r : ResolvedAction)
    (k : Nat) (hs : p.Status = StatusSleep) (ht : p.StatusTurns = k) (hk : 1 ≤ k) :
    (CanPokemonMove rng p r).1 = false ∧
      (CanPokemonMove rng p r).2.1 =
        { p with
          StatusTurns := p.StatusTurns - 1,
          Status := if p.StatusTurns - 1 = 0 then StatusNone else StatusSleep } ∧
      (CanPokemonMove rng p r).2.2.2 = rng ∧
      (∀ (state : BattleState) (attacker : Side) (action : BattleAction),
        (state.player attacker).Pokemon = p →
        ∃ resolved, resolved.Failed = true ∧
          ExecuteMove rng state attacker action =
            some (resolved,
              state.setPokemon attacker
                { p with
                  StatusTurns := p.StatusTurns - 1,
                  Status := if p.StatusTurns - 1 = 0 then StatusNone else StatusSleep },
              rng)) ∧
      (∀ j, j < k →
        (afterAttempts j rng p).1.Status = StatusSleep ∧
        (CanPokemonMove (afterAttempts j rng p).2 (afterAttempts j rng p).1 r).1 = false) ∧
      (afterAttempts k rng p).1 = { p with Status := StatusNone, StatusTurns := 0 } ∧
      (CanPokemonMove (afterAttempts k rng p).2 (afterAttempts k rng p).1 r).1 = true := by
  obtain ⟨a1, a2, a3⟩ := CanPokemonMove_asleep rng p r hs (by omega)
  have hbefore : ∀ j, j < k →
      (afterAttempts j rng p).1.Status = StatusSleep ∧
      (afterAttempts j rng p).1.StatusTurns = (k : Int) - j ∧
      (afterAttempts j rng p).2 = rng := by
    intro j hj
    obtain ⟨i1, i2⟩ := afterAttempts_asleep rng k j p hs ht hj
    rw [i1]
    exact ⟨hs, rfl, i2⟩
  have hsucc : ∀ (j : Nat) (rng' : Rand) (q : BattlePokemon),
      afterAttempts (j + 1) rng' q =
        ((CanPokemonMove (afterAttempts j rng' q).2 (afterAttempts j rng' q).1 {}).2.1,
          (CanPokemonMove (afterAttempts j rng' q).2 (afterAttempts j rng' q).1 {}).2.2.2) := by
    intro j
    induction j with
    | zero => intro rng' q; rfl
    | succ j ih =>
      intro rng' q
      show afterAttempts (j + 1) _ _ = _
      rw [ih]
      rfl
  refine ⟨a1, a2, a3, ?_, ?_, ?_, ?_⟩
  · intro state attacker action hp
    have hcheck : moveCheck rng state attacker action =
        CanPokemonMove rng p (moveResolved state attacker action) := by
      unfold moveCheck; rw [hp]
    obtain ⟨b1, b2, b3⟩ := CanPokemonMove_asleep rng p (moveResolved state attacker action) hs
      (by omega)
    refine ⟨{ (CanPokemonMove rng p (moveResolved state attacker action)).2.2.1 with
      Failed := true }, rfl, ?_⟩
    rw [ExecuteMove_cannot_move rng state attacker action (by rw [hcheck, b1]), hcheck, b2, b3]
  · intro j hj
    obtain ⟨i1, i2, i3⟩ := hbefore j hj
    exact ⟨i1, (CanPokemonMove_asleep _ _ r i1 (by rw [i2]; omega)).1⟩
  · obtain ⟨m, rfl⟩ : ∃ m, k = m + 1 := ⟨k - 1, by omega⟩
    obtain ⟨i1, i2⟩ := afterAttempts_asleep rng (m + 1) m p hs ht (by omega)
    rw [hsucc, i2, i1]
    obtain ⟨-, c2, -⟩ := CanPokemonMove_asleep rng
      { p with StatusTurns := ((m + 1 : Nat) : Int) - (m : Int) } {} hs
      (by show (0 : Int) < ((m + 1 : Nat) : Int) - (m : Int); omega)
    rw [c2]
    have h0 : ((m + 1 : Nat) : Int) - (m : Int) - 1 = 0 := by omega
    simp only [h0, if_true]
  · obtain ⟨m, rfl⟩ : ∃ m, k = m + 1 := ⟨k - 1, by omega⟩
    obtain ⟨i1, i2⟩ := afterAttempts_asleep rng (m + 1) m p hs ht (by omega)
    rw [hsucc, i2, i1]
    obtain ⟨-, c2, c3⟩ := CanPokemonMove_asleep rng
      { p with StatusTurns := ((m + 1 : Nat) : Int) - (m : Int) } {} hs
      (by show (0 : Int) < ((m + 1 : Nat) : Int) - (m : Int); omega)
    rw [c2, c3]
    have h0 : ((m + 1 : Nat) : Int) - (m : Int) - 1 = 0 := by omega
    simp only [h0, if_true]
    unfold CanPokemonMove
    have n1 : ¬ (StatusNone = StatusSleep) := by decide
    have n2 : ¬ (StatusNone = StatusFreeze) := by decide
    have n3 : ¬ (StatusNone = StatusParalysis) := by decide
    simp only [n1, n2, n3, false_and, if_false]

/-- C31 (amended) on the example: user 1, asleep with 2 on the counter, fails
this attempt and keeps its PP; after two attempts it is awake. -/
theorem CanPokemonMove_sleep_counts_down_witness :
    (CanPokemonMove exampleRand (sleepingCombatant 2) {}).1 = false ∧
      (afterAttempts 2 exampleRand (sleepingCombatant 2)).1 =
        { sleepingCombatant 2 with Status := StatusNone, StatusTurns := 0 } :=
  ⟨(CanPokemonMove_sleep_counts_down exampleRand (sleepingCombatant 2) {} 2 rfl rfl
      (by decide)).1,
    (CanPokemonMove_sleep_counts_down exampleRand (sleepingCombatant 2) {} 2 rfl rfl
      (by decide)).2.2.2.2.2.1⟩

end TurnResolver

/-! ## Entry hazards -/

namespace TurnResolver

/-- A write to a combatant leaves the hazards alone. -/
theorem hazards_setPokemon (state : BattleState) (side : Side) (p : BattlePokemon) :
    (state.setPokemon side p).hazards = state.hazards := by
  funext s
  cases side <;> cases s <;> rfl

/-- A log entry leaves the hazards alone. -/
theorem hazards_AddLogEntry (state : BattleState) (entryType message : String) :
    (state.AddLogEntry entryType message).hazards = state.hazards := by
  funext s
  cases s <;> rfl

/-- The hazard counters of both sides are within their caps. -/
theorem withinCaps_of_hazards {s t : BattleState} (h : t.hazards = s.hazards)
    (hs : s.Player1Hazards.withinCaps ∧ s.Player2Hazards.withinCaps) :
    t.Player1Hazards.withinCaps ∧ t.Player2Hazards.withinCaps := by
  have h1 := congrFun h .player1
  have h2 := congrFun h .player2
  simp only [BattleState.hazards] at h1 h2
  rw [h1, h2]
  exact hs

/-- The switch on the hazard type keeps the counters within their caps. -/
theorem applyHazard_withinCaps (hazards : EntryHazards) (hazard : EntryHazard)
    (h : hazards.withinCaps) : (applyHazard hazards hazard).1.withinCaps := by
  unfold EntryHazards.withinCaps at h ⊢
  unfold applyHazard
  split_ifs <;> simp only [] <;> omega

/-- Laying a hazard keeps the counters of both sides within their caps. -/
theorem ApplyEntryHazard_withinCaps (state : BattleState) (attackerID : UUID)
    (hazard : EntryHazard) (resolved : ResolvedAction)
    (h : state.Player1Hazards.withinCaps ∧ state.Player2Hazards.withinCaps) :
    (ApplyEntryHazard state attackerID hazard resolved).1.Player1Hazards.withinCaps ∧
      (ApplyEntryHazard state attackerID hazard resolved).1.Player2Hazards.withinCaps := by
  unfold ApplyEntryHazard
  split_ifs
  · exact ⟨h.1, applyHazard_withinCaps _ _ h.2⟩
  · exact ⟨applyHazard_withinCaps _ _ h.1, h.2⟩

/-- The blocks of a status move other than the hazard block leave the hazards
alone. -/
theorem hazards_statusBlocks (rng : Rand) (state : BattleState) (side : Side) (move : Move)
    (resolved : ResolvedAction) :
    (statChangeStep state side move resolved).2.hazards = state.hazards ∧
    (statusInflictStep rng state side move resolved).2.1.hazards = state.hazards ∧
    (weatherStep state move resolved).2.hazards = state.hazards ∧
    (terrainStep state move resolved).2.hazards = state.hazards ∧
    (healStep state side move resolved).2.hazards = state.hazards := by
  refine ⟨?_, ?_, ?_, ?_, ?_⟩
  · unfold statChangeStep
    simp only [hazards_setPokemon]
  · unfold statusInflictStep
    cases move.StatusInflict <;> simp only [hazards_setPokemon]
  · unfold weatherStep
    cases move.WeatherEffect
    · rfl
    · funext s
      cases s <;> rfl
  · unfold terrainStep
    cases move.TerrainEffect
    · rfl
    · funext s
      cases s <;> rfl
  · unfold healStep
    split_ifs
    · simp only [hazards_setPokemon]
    · rfl

/-- A status move keeps the hazard counters within their caps. -/
theorem ExecuteStatusMove_withinCaps (rng : Rand) (state : BattleState) (attacker : Side)
    (move : Move) (resolved : ResolvedAction)
    (h : state.Player1Hazards.withinCaps ∧ state.Player2Hazards.withinCaps) :
    (ExecuteStatusMove rng state attacker move resolved).2.1.Player1Hazards.withinCaps ∧
      (ExecuteStatusMove rng state attacker move resolved).2.1.Player2Hazards.withinCaps := by
  unfold ExecuteStatusMove
  simp only []
  refine withinCaps_of_hazards (hazards_statusBlocks rng _ attacker move _).2.2.2.2 ?_
  have h4 : ∀ (s : BattleState) (r : ResolvedAction),
      s.Player1Hazards.withinCaps ∧ s.Player2Hazards.withinCaps →
      (hazardStep s attacker move r).2.Player1Hazards.withinCaps ∧
        (hazardStep s attacker move r).2.Player2Hazards.withinCaps := by
    intro s r hs
    unfold hazardStep
    cases move.EntryHazard
    · exact hs
    · exact ApplyEntryHazard_withinCaps _ _ _ _ hs
  apply h4
  refine withinCaps_of_hazards (hazards_statusBlocks rng _ attacker move _).2.2.2.1 ?_
  refine withinCaps_of_hazards (hazards_statusBlocks rng _ attacker move _).2.2.1 ?_
  refine withinCaps_of_hazards (hazards_statusBlocks rng _ attacker.other move _).2.1 ?_
  exact withinCaps_of_hazards (hazards_statusBlocks rng _ attacker move _).1 h

/-- The blocks of a damaging move leave the hazards alone. -/
theorem hazards_applyDamageResult (rng : Rand) (state : BattleState) (attacker : Side)
    (move : Move) (resolved : ResolvedAction) (damageResult : DamageResult) :
    (applyDamageResult rng state attacker move resolved damageResult).2.1.hazards =
      state.hazards := by
  have hd : ∀ (s : BattleState) (side : Side) (r : ResolvedAction),
      (damageStep s side r damageResult).2.hazards = s.hazards := by
    intro s side r
    unfold damageStep
    simp only [hazards_setPokemon]
  have hr : ∀ (s : BattleState) (side : Side) (r : ResolvedAction),
      (recoilStep s side r damageResult).2.hazards = s.hazards := by
    intro s side r
    unfold recoilStep
    split_ifs
    · simp only [hazards_setPokemon]
    · rfl
  have hdr : ∀ (s : BattleState) (side : Side) (r : ResolvedAction),
      (drainStep s side r damageResult).2.hazards = s.hazards := by
    intro s side r
    unfold drainStep
    split_ifs
    · simp only [hazards_setPokemon]
    · rfl
  have hsec : ∀ (s : BattleState) (r : ResolvedAction),
      (secondaryStep rng s attacker move r).2.1.hazards = s.hazards := by
    intro s r
    unfold secondaryStep
    simp only [hazards_AddLogEntry, hazards_setPokemon]
  unfold applyDamageResult
  simp only []
  split_ifs
  · rw [hsec, hdr, hr, hd]
  · exact hd state attacker.other resolved

/-- A move keeps the hazard counters within their caps. -/
theorem ExecuteMove_withinCaps (rng : Rand) (state : BattleState) (attacker : Side)
    (action : BattleAction) (r : ResolvedAction × BattleState × Rand)
    (hr : ExecuteMove rng state attacker action = some r)
    (h : state.Player1Hazards.withinCaps ∧ state.Player2Hazards.withinCaps) :
    r.2.1.Player1Hazards.withinCaps ∧ r.2.1.Player2Hazards.withinCaps := by
  unfold ExecuteMove at hr
  simp only [] at hr
  have h1 : ∀ p, ((state.setPokemon attacker p).Player1Hazards.withinCaps ∧
      (state.setPokemon attacker p).Player2Hazards.withinCaps) := fun p =>
    withinCaps_of_hazards (hazards_setPokemon _ _ _) h
  have h2 : ∀ p q, (((state.setPokemon attacker p).setPokemon attacker q).Player1Hazards.withinCaps ∧
      ((state.setPokemon attacker p).setPokemon attacker q).Player2Hazards.withinCaps) :=
    fun p q => withinCaps_of_hazards (hazards_setPokemon _ _ _) (h1 p)
  split at hr
  · cases hr
    exact h1 _
  · split at hr
    · cases hr
    · split at hr
      · cases hr
        exact ExecuteStatusMove_withinCaps _ _ _ _ _ (h2 _ _)
      · split at hr
        · cases hr
        · split at hr
          · cases hr
            exact h2 _ _
          · cases hr
            exact withinCaps_of_hazards (hazards_applyDamageResult _ _ _ _ _ _) (h2 _ _)

/-- An executed action keeps the hazard counters within their caps. -/
theorem ExecuteAction_withinCaps (rng : Rand) (state : BattleState) (action : BattleAction)
    (r : ResolvedAction × BattleState × Rand) (hr : ExecuteAction rng state action = some r)
    (h : state.Player1Hazards.withinCaps ∧ state.Player2Hazards.withinCaps) :
    r.2.1.Player1Hazards.withinCaps ∧ r.2.1.Player2Hazards.withinCaps := by
  unfold ExecuteAction at hr
  simp only [] at hr
  split at hr
  · cases hr
    exact h
  · split at hr
    · exact ExecuteMove_withinCaps _ _ _ _ _ hr h
    · split at hr
      · cases hr
        exact withinCaps_of_hazards (hazards_setPokemon _ _ _) h
      · cases hr
        exact h

/-- The action loop keeps the hazard counters within their caps. -/
theorem actionLoop_withinCaps (actions : List BattleAction) :
    ∀ (rng : Rand) (state : BattleState) (resolution : TurnResolution)
      (r : TurnResolution × BattleState × Rand),
      actionLoop actions rng state resolution = some r →
      state.Player1Hazards.withinCaps ∧ state.Player2Hazards.withinCaps →
      r.2.1.Player1Hazards.withinCaps ∧ r.2.1.Player2Hazards.withinCaps := by
  induction actions with
  | nil =>
    intro rng state resolution r hr h
    simp only [actionLoop] at hr
    cases hr
    exact h
  | cons action rest ih =>
    intro rng state resolution r hr h
    simp only [actionLoop] at hr
    split at hr
    · exact ih _ _ _ _ hr h
    · split at hr
      · exact ih _ _ _ _ hr h
      · split at hr
        · cases hr
        · rename_i resolvedAction state1 rng1 hexec
          have h1 := ExecuteAction_withinCaps _ _ _ _ hexec h
          split at hr
          · cases hr
            exact h1
          · exact ih _ _ _ _ hr h1

/-- The end-of-turn effects leave the hazards alone. -/
theorem hazards_ApplyEndOfTurnEffects (state : BattleState) (resolution : TurnResolution) :
    (ApplyEndOfTurnEffects state resolution).1.hazards = state.hazards := by
  have hw : ∀ (s : BattleState) (side : Side) (d : ℚ) (r : TurnResolution),
      (weatherPlayer s side d r).1.hazards = s.hazards := by
    intro s side d r
    unfold weatherPlayer
    simp only []
    split_ifs <;> first | rfl | exact hazards_setPokemon _ _ _
  have hs : ∀ (s : BattleState) (side : Side) (r : TurnResolution),
      (statusDamagePlayer s side r).1.hazards = s.hazards := by
    intro s side r
    unfold statusDamagePlayer
    simp only []
    split_ifs <;> first | rfl | exact hazards_setPokemon _ _ _
  have hh : ∀ (s : BattleState) (side : Side) (r : TurnResolution),
      (healingPlayer s side r).1.hazards = s.hazards := by
    intro s side r
    unfold healingPlayer
    simp only []
    split_ifs <;> first | rfl | exact hazards_setPokemon _ _ _
  have hW : ∀ (s : BattleState) (r : TurnResolution),
      (ApplyWeatherEffects s r).1.hazards = s.hazards := by
    intro s r
    unfold ApplyWeatherEffects
    split_ifs
    · rfl
    · simp only [hw]
    · rfl
  have hS : ∀ (s : BattleState) (r : TurnResolution),
      (ApplyStatusDamage s r).1.hazards = s.hazards := by
    intro s r
    unfold ApplyStatusDamage
    simp only [hs]
  have hH : ∀ (s : BattleState) (r : TurnResolution),
      (ApplyHealingEffects s r).1.hazards = s.hazards := by
    intro s r
    unfold ApplyHealingEffects
    simp only [hh]
  have hwt : ∀ s : BattleState, (weatherTurnsStep s).hazards = s.hazards := by
    intro s
    unfold weatherTurnsStep
    simp only []
    split_ifs <;> rfl
  have htt : ∀ s : BattleState, (terrainTurnsStep s).hazards = s.hazards := by
    intro s
    unfold terrainTurnsStep
    simp only []
    split_ifs <;> rfl
  unfold ApplyEndOfTurnEffects
  simp only [htt, hwt, hH, hS, hW]

/-- A resolved turn keeps the hazard counters within their caps. -/
theorem ResolveTurn_withinCaps (rng : Rand) (state : BattleState)
    (r : TurnResolution × BattleState × Rand) (hr : ResolveTurn rng state = some r)
    (h : state.Player1Hazards.withinCaps ∧ state.Player2Hazards.withinCaps) :
    r.2.1.Player1Hazards.withinCaps ∧ r.2.1.Player2Hazards.withinCaps := by
  unfold ResolveTurn at hr
  simp only [] at hr
  split at hr
  · cases hr
    exact h
  · split at hr
    · cases hr
    · rename_i resolution state1 rng1 hloop
      have h0 : (DetermineTurnOrder rng state).2.1.Player1Hazards.withinCaps ∧
          (DetermineTurnOrder rng state).2.1.Player2Hazards.withinCaps := h
      have h1 := actionLoop_withinCaps _ _ _ _ _ hloop h0
      have h2 : (endOfTurnStep state1 resolution).1.Player1Hazards.withinCaps ∧
          (endOfTurnStep state1 resolution).1.Player2Hazards.withinCaps := by
        unfold endOfTurnStep
        simp only []
        split_ifs <;> exact withinCaps_of_hazards (hazards_ApplyEndOfTurnEffects _ _) h1
      cases hr
      simp only []
      split_ifs
      · exact h2
      · exact h1

/-- Every reachable state has its hazard counters within their caps. -/
theorem Reachable_withinCaps (state : BattleState) (h : Reachable state) :
    state.Player1Hazards.withinCaps ∧ state.Player2Hazards.withinCaps := by
  induction h with
  | init b p1 p2 state hs =>
    simp only [Battle.InitializeBattleState, Battle.initialState, Option.some.injEq] at hs
    subst hs
    have h0 : ({} : EntryHazards).withinCaps := by decide
    exact ⟨h0, h0⟩
  | setAction state playerID action _ ih =>
    unfold BattleState.SetPlayerAction
    split_ifs <;> exact ih
  | clear state _ ih => exact ih
  | log state entryType message _ ih => exact ih
  | phase state phase _ ih => exact ih
  | hazard state attackerID hazard resolved _ ih =>
    exact ApplyEntryHazard_withinCaps _ _ _ _ ih
  | action state rng action r _ hr ih => exact ExecuteAction_withinCaps _ _ _ _ hr ih
  | endOfTurn state resolution _ ih =>
    exact withinCaps_of_hazards (hazards_ApplyEndOfTurnEffects _ _) ih
  | turn state rng r _ hr ih => exact ResolveTurn_withinCaps _ _ _ hr ih

/-- The switch on the hazard type, case by case. -/
theorem applyHazard_spec (h : EntryHazards) (hazard : EntryHazard) :
    (hazard.HazardType = HazardStealthRock →
      (applyHazard h hazard).1 = { h with StealthRock := true }) ∧
    (hazard.HazardType = HazardStickyWeb →
      (applyHazard h hazard).1 = { h with StickyWeb := true }) ∧
    (hazard.HazardType = HazardSpikes →
      (applyHazard h hazard).1 =
        { h with Spikes := if h.Spikes < 3 then h.Spikes + 1 else h.Spikes }) ∧
    (hazard.HazardType = HazardToxicSpikes →
      (applyHazard h hazard).1 =
        { h with ToxicSpikes := if h.ToxicSpikes < 2 then h.ToxicSpikes + 1 else h.ToxicSpikes }) ∧
    (hazard.HazardType = HazardStealthRock ∧ h.StealthRock = true ∨
        hazard.HazardType = HazardStickyWeb ∧ h.StickyWeb = true ∨
        hazard.HazardType = HazardSpikes ∧ 3 ≤ h.Spikes ∨
        hazard.HazardType = HazardToxicSpikes ∧ 2 ≤ h.ToxicSpikes →
      applyHazard h hazard = (h, [])) := by
  have d1 : HazardStickyWeb ≠ HazardStealthRock := by decide
  have d2 : HazardStickyWeb ≠ HazardSpikes := by decide
  have d3 : HazardStickyWeb ≠ HazardToxicSpikes := by decide
  have d4 : HazardSpikes ≠ HazardStealthRock := by decide
  have d5 : HazardToxicSpikes ≠ HazardStealthRock := by decide
  have d6 : HazardToxicSpikes ≠ HazardSpikes := by decide
  refine ⟨?_, ?_, ?_, ?_, ?_⟩
  · intro ht
    unfold applyHazard
    rw [if_pos ht]
    cases hb : h.StealthRock
    · rfl
    · simp only [Bool.not_true, Bool.false_eq_true, if_false]
      cases h
      simp only at hb
      rw [hb]
  · intro ht
    unfold applyHazard
    rw [ht, if_neg d1, if_neg d2, if_neg d3, if_pos rfl]
    cases hb : h.StickyWeb
    · rfl
    · simp only [Bool.not_true, Bool.false_eq_true, if_false]
      cases h
      simp only at hb
      rw [hb]
  · intro ht
    unfold applyHazard
    rw [ht, if_neg d4, if_pos rfl]
    split_ifs
    · rfl
    · rfl
  · intro ht
    unfold applyHazard
    rw [ht, if_neg d5, if_neg d6, if_pos rfl]
    split_ifs
    · rfl
    · rfl
  · intro hcap
    unfold applyHazard
    rcases hcap with ⟨ht, hb⟩ | ⟨ht, hb⟩ | ⟨ht, hb⟩ | ⟨ht, hb⟩
    · rw [if_pos ht, hb]
      rfl
    · rw [ht, if_neg d1, if_neg d2, if_neg d3, if_pos rfl, hb]
      rfl
    · rw [ht, if_neg d4, if_pos rfl, if_neg (by omega)]
    · rw [ht, if_neg d5, if_neg d6, if_pos rfl, if_neg (by omega)]

/-- C35: `ApplyEntryHazard` changes only the hazards of the side opposing the
move's user, the side that `GetPlayer` resolves the attacker id to, and never
the user's own side: stealth rock and sticky web become true, spikes increase
by one up to 3 and toxic spikes by one up to 2, and a hazard already at its
cap leaves the state and the messages unchanged; so `0 ≤ Spikes ≤ 3` and
`0 ≤ ToxicSpikes ≤ 2` hold on both sides of every state reachable from
`Battle.InitializeBattleState`. -/
theorem ApplyEntryHazard_opposing_side_within_caps :
    (∀ (state : BattleState) (attackerID : UUID) (hazard : EntryHazard)
        (resolved : ResolvedAction) (user : Side),
      state.GetPlayer attackerID = some user →
      (ApplyEntryHazard state attackerID hazard resolved).1.hazards user = state.hazards user ∧
      { (ApplyEntryHazard state attackerID hazard resolved).1 with
          Player1Hazards := state.Player1Hazards,
          Player2Hazards := state.Player2Hazards } = state ∧
      (hazard.HazardType = HazardStealthRock →
        (ApplyEntryHazard state attackerID hazard resolved).1.hazards user.other =
          { state.hazards user.other with StealthRock := true }) ∧
      (hazard.HazardType = HazardStickyWeb →
        (ApplyEntryHazard state attackerID hazard resolved).1.hazards user.other =
          { state.hazards user.other with StickyWeb := true }) ∧
      (hazard.HazardType = HazardSpikes →
        (ApplyEntryHazard state attackerID hazard resolved).1.hazards user.other =
          { state.hazards user.other with
            Spikes := if (state.hazards user.other).Spikes < 3
              then (state.hazards user.other).Spikes + 1
              else (state.hazards user.other).Spikes }) ∧
      (hazard.HazardType = HazardToxicSpikes →
        (ApplyEntryHazard state attackerID hazard resolved).1.hazards user.other =
          { state.hazards user.other with
            ToxicSpikes := if (state.hazards user.other).ToxicSpikes < 2
              then (state.hazards user.other).ToxicSpikes + 1
              else (state.hazards user.other).ToxicSpikes }) ∧
      (hazard.HazardType = HazardStealthRock ∧ (state.hazards user.other).StealthRock = true ∨
          hazard.HazardType = HazardStickyWeb ∧ (state.hazards user.other).StickyWeb = true ∨
          hazard.HazardType = HazardSpikes ∧ 3 ≤ (state.hazards user.other).Spikes ∨
          hazard.HazardType = HazardToxicSpikes ∧
            2 ≤ (state.hazards user.other).ToxicSpikes →
        ApplyEntryHazard state attackerID hazard resolved = (state, resolved))) ∧
    (∀ (state : BattleState) (side : Side), Reachable state →
      0 ≤ (state.hazards side).Spikes ∧ (state.hazards side).Spikes ≤ 3 ∧
      0 ≤ (state.hazards side).ToxicSpikes ∧ (state.hazards side).ToxicSpikes ≤ 2) := by
  constructor
  · intro state attackerID hazard resolved user huser
    unfold BattleState.GetPlayer at huser
    by_cases h1 : state.Player1.UserID = attackerID
    · rw [if_pos h1] at huser
      cases huser
      have hspec := applyHazard_spec state.Player2Hazards hazard
      unfold ApplyEntryHazard
      rw [if_pos h1]
      refine ⟨rfl, rfl, hspec.1, hspec.2.1, hspec.2.2.1, hspec.2.2.2.1, ?_⟩
      intro hcap
      have h5 := hspec.2.2.2.2 hcap
      simp only [h5, List.append_nil]
    · rw [if_neg h1] at huser
      by_cases h2 : state.Player2.UserID = attackerID
      · rw [if_pos h2] at huser
        cases huser
        have hspec := applyHazard_spec state.Player1Hazards hazard
        unfold ApplyEntryHazard
        rw [if_neg h1]
        refine ⟨rfl, rfl, hspec.1, hspec.2.1, hspec.2.2.1, hspec.2.2.2.1, ?_⟩
        intro hcap
        have h5 := hspec.2.2.2.2 hcap
        simp only [h5, List.append_nil]
      · rw [if_neg h2] at huser
        cases huser
  · intro state side h
    have hcaps := Reachable_withinCaps state h
    cases side
    · exact hcaps.1
    · exact hcaps.2

/-- The claim at work: user 1 of the example state lays spikes, which land on
the side of player 2 only, and after four layers laid from the initial state
the counter stands within its cap. -/
theorem ApplyEntryHazard_opposing_side_within_caps_witness :
    exampleState.GetPlayer 1 = some Side.player1 ∧
    (ApplyEntryHazard exampleState 1 spikesHazard {}).1.hazards Side.player1 =
      exampleState.hazards Side.player1 ∧
    Reachable spikedState ∧ spikedState.Player2Hazards.Spikes = 3 ∧
    (0 ≤ (spikedState.hazards Side.player2).Spikes ∧
      (spikedState.hazards Side.player2).Spikes ≤ 3 ∧
      0 ≤ (spikedState.hazards Side.player2).ToxicSpikes ∧
      (spikedState.hazards Side.player2).ToxicSpikes ≤ 2) :=
  have hreach : Reachable spikedState :=
    Reachable.hazard _ 1 spikesHazard {} (Reachable.hazard _ 1 spikesHazard {}
      (Reachable.hazard _ 1 spikesHazard {} (Reachable.hazard _ 1 spikesHazard {}
        (Reachable.init { ID := 7, Player1ID := 1, Player2ID := 2 } exampleCombatant
          exampleCombatant _ rfl))))
  ⟨by decide,
    (ApplyEntryHazard_opposing_side_within_caps.1 exampleState 1 spikesHazard {} Side.player1
      (by decide)).1,
    hreach, by decide,
    ApplyEntryHazard_opposing_side_within_caps.2 spikedState Side.player2 hreach⟩

end TurnResolver

/-! ## A repeated selection -/

namespace BattleService

/-- C40 fails on the code.  Battle 7 between users 1 and 2, wager 100, has
started after both selected their creatures: each balance went from 1000 to
900 (with `UpdateCoins` read as an adjustment) and the envelope is in
progress.  Whatever live state the battle has reached since, a further
`SelectPokemon` by user 1 or by user 2 returns no error, deducts the wager
from both players a second time (800 each) and replaces the live state by the
state of a battle that has just started: turn 1, full HP, a log of one
entry. -/
theorem SelectPokemon_after_start_restarts_battle (state : BattleState) (adjusts : Bool) :
    ((waitingService true).db.balances 1 = 1000 ∧ (waitingService true).db.balances 2 = 1000 ∧
      (startedService true).db.balances 1 = 900 ∧ (startedService true).db.balances 2 = 900 ∧
      ((startedService adjusts).db.battles 7).map
          (fun b => (b.Status, b.Player1Pokemon, b.Player2Pokemon, b.WagerAmount)) =
        some (BattleStatusInProgress, 11, 12, 100) ∧
      (startedService adjusts).activeBattles 7 = some freshState ∧
      (playedService state adjusts).activeBattles 7 = some state) ∧
    ((SelectPokemon (playedService state adjusts) 7 1 11).1 = none ∧
      (SelectPokemon (playedService state adjusts) 7 2 12).1 = none) ∧
    ((SelectPokemon (playedService state true) 7 1 11).2.db.balances 1 = 800 ∧
      (SelectPokemon (playedService state true) 7 1 11).2.db.balances 2 = 800 ∧
      (SelectPokemon (playedService state true) 7 2 12).2.db.balances 1 = 800 ∧
      (SelectPokemon (playedService state true) 7 2 12).2.db.balances 2 = 800) ∧
    ((SelectPokemon (playedService state adjusts) 7 1 11).2.activeBattles 7 = some freshState ∧
      (SelectPokemon (playedService state adjusts) 7 2 12).2.activeBattles 7 = some freshState) ∧
    (freshState.Turn = 1 ∧ freshState.Log.length = 1 ∧
      freshState.Player1.Pokemon.CurrentHP = freshState.Player1.Pokemon.MaxHP ∧
      freshState.Player2.Pokemon.CurrentHP = freshState.Player2.Pokemon.MaxHP ∧
      freshState.Player1Action = none ∧ freshState.Player2Action = none) := by
  refine ⟨⟨by decide, by decide, by decide, by decide, ?_, ?_, ?_⟩, ⟨?_, ?_⟩,
    ⟨rfl, rfl, rfl, rfl⟩, ⟨?_, ?_⟩, ⟨rfl, rfl, rfl, rfl, rfl, rfl⟩⟩ <;>
  cases adjusts <;> rfl

end BattleService

end GoBattleServer
